import Mathlib

/-! Targeted movement generators (Chase / Follow) and the auction house bot

A shallow embedding of `src/game/MotionGenerators/TargetedMovementGenerator.cpp`,
followed by one of the configuration and refill code of
`src/game/AuctionHouseBot/AuctionHouseBot.cpp`.

* Floating point numbers are elements of a linear ordered field `F`
  (the rationals for evaluation, the reals where trigonometry is needed).
* `uint32` quantities are natural numbers.
* The generator is a record of its member variables; the owner, the unit the
  target reference points at and the observable effects of a call live in `World`.
* Collaborators whose code is not part of the translation unit (path finder, map,
  geometry helpers of `WorldObject`, random numbers) are fields of `Env`.
* `World.trace` records the calls made to the collaborators, and, as ghost entries,
  writes to `m_currentMode` and entries into some member functions.
-/

namespace Mangos

/-! ## Data model -/

/-- The `G3D::Vector3` triple of coordinates. -/
structure Vector3 (F : Type) where
  x : F
  y : F
  z : F
deriving DecidableEq

/-- The `Movement::Location`: a position with an orientation. -/
structure Location (F : Type) where
  x : F
  y : F
  z : F
  orientation : F
deriving DecidableEq

/-- The `TypeID` of an object. -/
inductive TypeId where
  | TYPEID_OBJECT
  | TYPEID_ITEM
  | TYPEID_CONTAINER
  | TYPEID_UNIT
  | TYPEID_PLAYER
  | TYPEID_GAMEOBJECT
  | TYPEID_DYNAMICOBJECT
  | TYPEID_CORPSE
deriving DecidableEq

/-- The `UnitMoveType` selecting one of the speeds of a unit. -/
inductive UnitMoveType where
  | MOVE_WALK
  | MOVE_RUN
  | MOVE_RUN_BACK
  | MOVE_SWIM
  | MOVE_SWIM_BACK
  | MOVE_TURN_RATE
  | MOVE_FLIGHT
  | MOVE_FLIGHT_BACK
  | MOVE_PITCH_RATE
deriving DecidableEq

/-- The four chase modes, in the order of the `ChaseModes` name table. -/
inductive ChaseModes where
  | CHASE_MODE_NORMAL
  | CHASE_MODE_BACKPEDAL
  | CHASE_MODE_DISTANCING
  | CHASE_MODE_FANNING
deriving DecidableEq

/-- The unit state bits the generators test or write. `NOT_MOVE` stands for
"some bit of the composite mask `UNIT_STAT_NOT_MOVE` is set". -/
structure UnitState where
  NOT_MOVE : Bool
  NO_COMBAT_MOVEMENT : Bool
  CHASE : Bool
  CHASE_MOVE : Bool
  FOLLOW : Bool
  FOLLOW_MOVE : Bool
deriving DecidableEq

/-- The part of `MovementInfo` the generators read: the movement flags they test
(`MASK_MOVING_FORWARD` stands for "some bit of that mask is set") and the speed type. -/
structure MovementInfo where
  FALLING : Bool
  FALLINGFAR : Bool
  FLYING : Bool
  BACKWARD : Bool
  MASK_MOVING_FORWARD : Bool
  PITCH_UP : Bool
  PITCH_DOWN : Bool
  GetSpeedType : UnitMoveType
deriving DecidableEq

/-- What the generators observe of a `Movement::MoveSpline`. -/
structure MoveSpline (F : Type) where
  Finalized : Bool
  FinalDestination : Vector3 F
  CurrentDestination : Vector3 F
  ComputePosition : Location F
  isFacing : Bool
deriving DecidableEq

/-- The result bits of `PathFinder::getPathType()`. -/
structure PathType where
  NORMAL : Bool
  SHORTCUT : Bool
  INCOMPLETE : Bool
  NOPATH : Bool
  NOT_USING_PATH : Bool
deriving DecidableEq

/-- The state of a `PathFinder` after `calculate`. -/
structure PathFinder (F : Type) where
  getPath : List (Vector3 F)
  getPathType : PathType
  getEndPosition : Vector3 F
deriving DecidableEq

/-- A `Unit` as seen by the movement generators: each field is the value of the
accessor of the same name. -/
structure Unit (F : Type) where
  GetObjectGuid : Nat
  GetTypeId : TypeId
  IsInWorld : Bool
  isAlive : Bool
  position : Vector3 F
  GetOrientation : F
  GetObjectBoundingRadius : F
  GetCollisionHeight : F
  GetPhaseMask : Nat
  GetMapId : Nat
  unitState : UnitState
  getVictim : Option Nat
  GetMasterGuid : Nat
  isInCombat : Bool
  IsClientControlled : Bool
  IsNonMeleeSpellCasted : Bool
  IsWorldBoss : Bool
  UNIT_FLAG_PLAYER_CONTROLLED : Bool
  UNIT_FLAG_NOT_SELECTABLE : Bool
  IsMoving : Bool
  IsWalking : Bool
  GetSpeed : UnitMoveType → F
  GetSpeedRate : UnitMoveType → F
  GetSpeedInMotion : F
  GetSpeedRateInMotion : F
  SPELL_AURA_USE_NORMAL_MOVEMENT_SPEED : Bool
  m_movementInfo : MovementInfo
  movespline : MoveSpline F

/-- Member functions whose entry is recorded in the trace. -/
inductive Callee where
  | Backpedal
  | FanOut
  | HandleFinalizedMovement
  | HandleMovementFailure
deriving DecidableEq

/-- Observable effects of a generator call, in the order they happen. -/
inductive Event (F : Type) where
  | calculate (dest : Vector3 F) (forceDest : Option Bool)
  | Launch (path : List (Vector3 F)) (walk : Bool) (facing : Bool) (velocity : Option F)
  | StopMoving (forceSendStop : Bool)
  | InterruptMoving
  | SetInFront
  | SetOrientation (o : F)
  | SetFacingTo (o : F)
  | Relocate (loc : Location F)
  | DistancingStarted
  | DistancingEnded
  | setMode (m : ChaseModes)
  | enter (f : Callee)
deriving DecidableEq

/-- The `MapEntry` of the map store, as far as it is read. -/
structure MapEntry where
  IsBattleGroundOrArena : Bool
deriving DecidableEq

/-- The collaborators of the generators that are not part of the translation
unit. Queries that involve the owner take what they read of it (its position,
orientation, phase mask) and are otherwise relative to the owner of the
generator; an argument of type `Option` is `none` where the call leaves it to
its default. -/
structure Env (F : Type) where
  M_PI_F : F
  FLT_EPSILON : F
  cos : F → F
  sin : F → F
  atan2 : F → F → F
  NormalizeOrientation : F → F
  irand : Nat → Int → Int → Int
  frand : Nat → F → F → F
  GetCombinedCombatReach : Unit F → Bool → F
  GetAngle : Vector3 F → Vector3 F → F
  GetNearPoint : Unit F → Vector3 F → F → F → F → Vector3 F
  GetNearPointAt : Unit F → Vector3 F → Vector3 F → F → F → F → Vector3 F
  HasInArc : Vector3 F → F → Vector3 F → Option F → Bool
  IsInLineOfSight : Vector3 F → Vector3 F → Nat → Bool → Bool
  IsWithinLOSInMap : Unit F → Vector3 F → Option Bool → Bool
  calculate : Vector3 F → Vector3 F → Option Bool → PathFinder F
  VisitAllObjects : Vector3 F → F → F → List (Unit F)
  IsOutdoors : Unit F → Vector3 F → Bool
  LookupEntry : Nat → Option MapEntry
  UpdateAllowedPositionZ : Unit F → F → F → F → F
  GetOrientationInMotion : MovementInfo → F → F

/-- The mutable surroundings of a generator: its owner, the unit `i_target`
refers to (`none` when `i_target.isValid()` is false), the trace of effects and
the number of random numbers drawn so far. -/
structure World (F : Type) where
  owner : Unit F
  target : Option (Unit F)
  trace : List (Event F)
  randCalls : Nat

/-! ## Helpers of the collaborating classes -/

section Helpers
variable {F : Type} [LinearOrderedField F]

/-- Modelled from the spec: `ShortTimeTracker` (Timer.h) is not in src; the
recheck timer is a countdown that is advanced by the elapsed time, has passed
when it reached zero and is reset to an interval. -/
structure ShortTimeTracker where
  i_expiryTime : Int
deriving DecidableEq

/-- Advance the countdown by `diff` milliseconds. -/
def ShortTimeTracker.Update (t : ShortTimeTracker) (diff : Nat) : ShortTimeTracker :=
  { i_expiryTime := t.i_expiryTime - diff }

/-- The countdown has elapsed. -/
def ShortTimeTracker.Passed (t : ShortTimeTracker) : Bool :=
  decide (t.i_expiryTime ≤ 0)

/-- Restart the countdown with `interval` milliseconds. -/
def ShortTimeTracker.Reset (_t : ShortTimeTracker) (interval : Nat) : ShortTimeTracker :=
  { i_expiryTime := interval }

/-- Modelled from the spec: `WorldObject::GetDistance(x, y, z, DIST_CALC_NONE)` is
not in src; all proximity decisions compare squared distances, and the call
yields the raw squared distance between the object and the coordinates. -/
def GetDistance (p : Vector3 F) (q : Vector3 F) : F :=
  (p.x - q.x) * (p.x - q.x) + (p.y - q.y) * (p.y - q.y) + (p.z - q.z) * (p.z - q.z)

/-- Append an effect to the trace. -/
def World.emit (w : World F) (e : Event F) : World F :=
  { w with trace := w.trace ++ [e] }

/-- Count `n` more random numbers as drawn. -/
def World.drawn (w : World F) (n : Nat) : World F :=
  { w with randCalls := w.randCalls + n }

/-- The effects recorded in `w2` after the state `w1` it was reached from. -/
def World.newEvents (w1 w2 : World F) : List (Event F) :=
  w2.trace.drop w1.trace.length

/-- The function `Unit::hasUnitState(UNIT_STAT_NOT_MOVE | UNIT_STAT_NO_COMBAT_MOVEMENT)`. -/
def ChaseMovementGenerator._hasUnitStateNotMove (u : Unit F) : Bool :=
  u.unitState.NOT_MOVE || u.unitState.NO_COMBAT_MOVEMENT

/-- The function `Unit::hasUnitState(UNIT_STAT_NOT_MOVE)`. -/
def FollowMovementGenerator._hasUnitStateNotMove (owner : Unit F) : Bool :=
  owner.unitState.NOT_MOVE

/-- Write the owner's movement spline. -/
def World.setSpline (w : World F) (s : MoveSpline F) : World F :=
  { w with owner := { w.owner with movespline := s } }

/-- Write the owner's unit state bits. -/
def World.setUnitState (w : World F) (s : UnitState) : World F :=
  { w with owner := { w.owner with unitState := s } }

/-- Modelled from the spec: `MoveSplineInit::Launch` is not in src; the motion
execution engine is handed the waypoints and the motion parameters and animates
the owner over subsequent ticks, so that after the launch the owner's motion is in
flight (not finalized) towards the last waypoint. -/
def MoveSplineInit.Launch (w : World F) (path : List (Vector3 F)) (walk : Bool) (facing : Bool)
    (velocity : Option F) : World F :=
  (w.setSpline { w.owner.movespline with
      Finalized := false
      FinalDestination := path.getLast?.getD w.owner.position
      isFacing := facing }).emit (Event.Launch path walk facing velocity)

/-- Modelled from the spec: `Unit::StopMoving` is not in src; it halts the
in-flight motion of the owner (hard stop). -/
def World.StopMoving (w : World F) (forceSendStop : Bool) : World F :=
  (w.setSpline { w.owner.movespline with Finalized := true }).emit (Event.StopMoving forceSendStop)

/-- Modelled from the spec: `Unit::InterruptMoving` is not in src; it halts the
in-flight motion of the owner (soft interrupt). -/
def World.InterruptMoving (w : World F) : World F :=
  (w.setSpline { w.owner.movespline with Finalized := true }).emit Event.InterruptMoving

/-- Modelled from the spec: `Unit::SetInFront` is not in src; it snaps the
owner's facing to the target. -/
def World.SetInFront (E : Env F) (w : World F) (t : Unit F) : World F :=
  { w with owner := { w.owner with GetOrientation := E.GetAngle w.owner.position t.position } }.emit
    Event.SetInFront

end Helpers

/-! ## Generator state -/

/-- Member variables of `TargetedMovementGeneratorMedium` (and its base) that the
translation unit reads or writes. The target reference `i_target` is `World.target`. -/
structure TargetedMovementGeneratorMedium (F : Type) where
  i_recheckDistance : ShortTimeTracker
  i_offset : F
  i_angle : F
  i_speedChanged : Bool
  i_targetReached : Bool
  i_faceTarget : Bool
  i_path : Option (PathFinder F)
  i_lastTargetPos : Vector3 F
deriving DecidableEq

/-- Member variables of `ChaseMovementGenerator`. `EnableWalking` is the value of
the accessor of that name, which the header defines. -/
structure ChaseMovementGenerator (F : Type) extends TargetedMovementGeneratorMedium F where
  m_closenessAndFanningTimer : Nat
  m_closenessExpired : Bool
  m_moveFurther : Bool
  m_combat : Bool
  m_reachable : Bool
  m_currentMode : ChaseModes
  m_fanningEnabled : Bool
  EnableWalking : Bool
deriving DecidableEq

/-- Member variables of `FollowMovementGenerator`. -/
structure FollowMovementGenerator (F : Type) extends TargetedMovementGeneratorMedium F where
  m_targetMoving : Bool
  m_targetFaced : Bool
deriving DecidableEq

/-! ## ChaseMovementGenerator -/

namespace ChaseMovementGenerator
variable {F : Type} [LinearOrderedField F]

/-- The constant `IGNORE_M2`. -/
def IGNORE_M2 : Bool := true

/-- The constant `CHASE_CLOSENESS_TIMER`. -/
def CHASE_CLOSENESS_TIMER : Nat := 2000

/-- The constant `CHASE_DEFAULT_RANGE_FACTOR`. -/
def CHASE_DEFAULT_RANGE_FACTOR : F := 0.5

/-- The constant `CHASE_RECHASE_RANGE_FACTOR`. -/
def CHASE_RECHASE_RANGE_FACTOR : F := 0.75

/-- The constant `CHASE_MOVE_CLOSER_FACTOR`. -/
def CHASE_MOVE_CLOSER_FACTOR : F := 0.875

/-- The constant `fanningRadius`. -/
def fanningRadius : F := 1

/-- The constant `fanAngleMin`. -/
def fanAngleMin (E : Env F) : F := E.M_PI_F / 5

/-- The constant `fanAngleMax`. -/
def fanAngleMax (E : Env F) : F := E.M_PI_F / 4

/-- The function `_clearUnitStateMove`: clears `UNIT_STAT_CHASE_MOVE`. -/
def _clearUnitStateMove (w : World F) : World F :=
  w.setUnitState { w.owner.unitState with CHASE_MOVE := false }

/-- The function `_addUnitStateMove`: sets `UNIT_STAT_CHASE_MOVE`. -/
def _addUnitStateMove (w : World F) : World F :=
  w.setUnitState { w.owner.unitState with CHASE_MOVE := true }

/-- The function `_lostTarget`: a combat chase whose owner's victim is not the target. -/
def _lostTarget (g : ChaseMovementGenerator F) (u : Unit F) (t : Unit F) : Bool :=
  g.m_combat && decide (u.getVictim ≠ some t.GetObjectGuid)

/-- The function `GetDynamicTargetDistance`. -/
def GetDynamicTargetDistance (E : Env F) (g : ChaseMovementGenerator F) (t : Unit F)
    (forRangeCheck : Bool) : F :=
  if g.m_moveFurther then
    if !forRangeCheck then
      g.i_offset + CHASE_DEFAULT_RANGE_FACTOR * E.GetCombinedCombatReach t true
    else
      g.i_offset + CHASE_RECHASE_RANGE_FACTOR * E.GetCombinedCombatReach t true
  else
    if !forRangeCheck then
      CHASE_DEFAULT_RANGE_FACTOR * E.GetCombinedCombatReach t true
    else
      g.i_offset + E.GetCombinedCombatReach t (if g.i_offset = 0 then true else false)

/-- The function `RequiresNewPosition` of the chase generator. -/
def RequiresNewPosition (E : Env F) (g : ChaseMovementGenerator F) (owner : Unit F) (t : Unit F)
    (p : Vector3 F) : Bool :=
  let dist := GetDynamicTargetDistance E g t true
  let dist := dist * dist
  let distanceToCoords := GetDistance t.position p
  if g.m_moveFurther then
    if g.i_offset ≠ 0 then
      decide (distanceToCoords > dist * 1.1) || decide (distanceToCoords < dist * 0.9)
        || !E.IsWithinLOSInMap t owner.position (some IGNORE_M2)
    else
      decide (distanceToCoords > dist * 1.1) || decide (distanceToCoords < dist * 0.9)
  else
    if g.i_offset ≠ 0 then
      decide (distanceToCoords > dist) || !E.IsWithinLOSInMap t owner.position (some IGNORE_M2)
    else
      decide (distanceToCoords > dist)

/-- The loop of `CutPath` from index `i` on, with `fuel` iterations left: the path
is resized to `i + 1` points at the first point that is in range and in line of
sight. -/
def CutPath.loop (E : Env F) (owner : Unit F) (t : Unit F) (distSquared : F)
    (path : List (Vector3 F)) : Nat → Nat → List (Vector3 F)
  | 0, _ => path
  | fuel + 1, i =>
    if h : i < path.length then
      let data := path.get ⟨i, h⟩
      if GetDistance t.position data > distSquared then
        CutPath.loop E owner t distSquared path fuel (i + 1)
      else if !E.IsInLineOfSight ⟨t.position.x, t.position.y, t.position.z + 2⟩
          ⟨data.x, data.y, data.z + 2⟩ owner.GetPhaseMask IGNORE_M2 then
        CutPath.loop E owner t distSquared path fuel (i + 1)
      else
        path.take (i + 1)
    else
      path

/-- The function `CutPath`. -/
def CutPath (E : Env F) (g : ChaseMovementGenerator F) (owner : Unit F) (t : Unit F)
    (path : List (Vector3 F)) : List (Vector3 F) :=
  if g.i_offset ≠ 0 then
    let dist := (g.i_offset * CHASE_MOVE_CLOSER_FACTOR)
      + (E.GetCombinedCombatReach t false * CHASE_DEFAULT_RANGE_FACTOR)
    let distSquared := dist * dist
    CutPath.loop E owner t distSquared path path.length 1
  else
    path

/-- The function `DispatchSplineToPosition`. The path finder is created when
`i_path` is null and in both cases holds the result of `calculate` afterwards. -/
def DispatchSplineToPosition (E : Env F) (g : ChaseMovementGenerator F) (w : World F)
    (t : Unit F) (dest : Vector3 F) (walk cutPath target : Bool) :
    Bool × ChaseMovementGenerator F × World F :=
  let pf := E.calculate w.owner.position dest (some false)
  let w := w.emit (Event.calculate dest (some false))
  if pf.getPathType.NOPATH then
    (false, { g with i_path := some pf }, w)
  else
    let path := if cutPath then CutPath E g w.owner t pf.getPath else pf.getPath
    let w := _addUnitStateMove w
    let w := MoveSplineInit.Launch w path walk target none
    (true, { g with i_path := some { pf with getPath := path }
                    i_lastTargetPos := t.position
                    m_reachable := true }, w)

/-- The function `IsReachable` of the chase generator. -/
def IsReachable (g : ChaseMovementGenerator F) : Bool :=
  !g.i_targetReached || g.m_reachable

/-- The point `_getLocation` writes to `x, y, z` for the target `t`. -/
def _getLocation.point (E : Env F) (g : ChaseMovementGenerator F) (owner : Unit F) (t : Unit F) :
    Vector3 F :=
  let currentAngle : Bool :=
    decide (g.i_angle = 0) || (t.getVictim.isSome && decide (t.getVictim = some owner.GetObjectGuid))
  let angle := if currentAngle then E.GetAngle t.position owner.position
    else t.GetOrientation + g.i_angle
  E.GetNearPoint t owner.position owner.GetObjectBoundingRadius
    (GetDynamicTargetDistance E g t false) angle

/-- The function `_getLocation`: `none` stands for the result `false`. -/
def _getLocation (E : Env F) (g : ChaseMovementGenerator F) (owner : Unit F)
    (i_target : Option (Unit F)) : Option (Vector3 F) :=
  match i_target with
  | none => none
  | some t => some (_getLocation.point E g owner t)

/-- The function `_setLocation`. -/
def _setLocation (E : Env F) (g : ChaseMovementGenerator F) (w : World F) :
    ChaseMovementGenerator F × World F :=
  match w.target with
  | none => (g, w)
  | some t =>
    if !t.IsInWorld then (g, w)
    else if _hasUnitStateNotMove w.owner then (g, w)
    else
      match _getLocation E g w.owner w.target with
      | some p =>
        let r := DispatchSplineToPosition E g w t p g.EnableWalking true true
        ({ r.2.1 with i_targetReached := false, i_speedChanged := false }, r.2.2)
      | none => (g, w)

/-- Modelled from the spec: the default value of the parameter `target` of
`DispatchSplineToPosition` is declared in the header, which is not in src;
Backpedal, Fanning and Distancing dispatch without facing. -/
def DispatchSplineToPosition.targetDefault : Bool := false

/-- The condition of the collision search of `FanOut`. -/
def FanOut.collisionCheck (owner : Unit F) (t : Unit F) (unit : Unit F) : Bool :=
  decide (owner.GetObjectGuid ≠ unit.GetObjectGuid) && unit.getVictim.isSome
    && decide (unit.getVictim = some t.GetObjectGuid) && !unit.IsMoving
    && !unit.UNIT_FLAG_NOT_SELECTABLE

/-- One of the two attempts of `FanOut` (the source repeats the block): a
walking dispatch to the near point of the target at the combined combat reach
along `ori`; on success the generator enters Fanning. The first component tells
whether `FanOut` returns after the attempt. -/
def FanOut.attempt (E : Env F) (g : ChaseMovementGenerator F) (w : World F) (t : Unit F)
    (ori : F) : Bool × ChaseMovementGenerator F × World F :=
  let targetDist := E.GetCombinedCombatReach t false
  let p := E.GetNearPoint t w.owner.position w.owner.GetObjectBoundingRadius targetDist ori
  let r := DispatchSplineToPosition E g w t p true false DispatchSplineToPosition.targetDefault
  if r.1 then
    (true,
     { r.2.1 with i_targetReached := false
                  m_currentMode := ChaseModes.CHASE_MODE_FANNING
                  i_speedChanged := false
                  m_closenessAndFanningTimer := 0 },
     r.2.2.emit (Event.setMode ChaseModes.CHASE_MODE_FANNING))
  else
    (false, r.2.1, r.2.2)

/-- The function `FanOut`. -/
def FanOut (E : Env F) (g : ChaseMovementGenerator F) (w : World F) (t : Unit F) :
    ChaseMovementGenerator F × World F :=
  let w := w.emit (Event.enter Callee.FanOut)
  if !g.m_fanningEnabled then (g, w)
  else
    let collider := (E.VisitAllObjects w.owner.position (fanningRadius * fanningRadius)
      fanningRadius).find? (FanOut.collisionCheck w.owner t)
    match collider with
    | none => (g, w)
    | some _ =>
      let direction : Int := E.irand w.randCalls 0 1
      let direction : Int := if direction = 0 then -1 else direction
      let ori := E.NormalizeOrientation (w.owner.GetOrientation + E.M_PI_F
        + E.frand (w.randCalls + 1) (fanAngleMin E) (fanAngleMax E) * (direction : F))
      let r := FanOut.attempt E g (w.drawn 2) t ori
      if r.1 then (r.2.1, r.2.2)
      else
        let g := r.2.1
        let w := r.2.2
        let ori := E.NormalizeOrientation (w.owner.GetOrientation + E.M_PI_F
          + E.frand w.randCalls (fanAngleMin E) (fanAngleMax E) * ((-direction : Int) : F))
        let r := FanOut.attempt E g (w.drawn 1) t ori
        (r.2.1, r.2.2)

/-- The capped combat reach `targetDist` of `Backpedal`. -/
def Backpedal.targetDist (E : Env F) (t : Unit F) : F :=
  min (E.GetCombinedCombatReach t false) 3.75

/-- The point `Backpedal` asks a path to when the owner is too close. -/
def Backpedal.destination (E : Env F) (owner : Unit F) (t : Unit F) : Vector3 F :=
  E.GetNearPoint t owner.position owner.GetObjectBoundingRadius (Backpedal.targetDist E t * 0.75)
    (E.NormalizeOrientation (owner.GetOrientation + E.M_PI_F))

/-- The function `Backpedal`. -/
def Backpedal (E : Env F) (g : ChaseMovementGenerator F) (w : World F) (t : Unit F) :
    ChaseMovementGenerator F × World F :=
  let w := w.emit (Event.enter Callee.Backpedal)
  let g := { g with m_closenessExpired := false, m_closenessAndFanningTimer := CHASE_CLOSENESS_TIMER }
  let targetDist := Backpedal.targetDist E t
  if GetDistance t.position w.owner.position < (targetDist * targetDist) * 0.33 then
    let p := Backpedal.destination E w.owner t
    let r := DispatchSplineToPosition E g w t p true false DispatchSplineToPosition.targetDefault
    if r.1 then
      ({ r.2.1 with i_targetReached := false
                    m_currentMode := ChaseModes.CHASE_MODE_BACKPEDAL
                    i_speedChanged := false
                    m_closenessAndFanningTimer := 0 },
       r.2.2.emit (Event.setMode ChaseModes.CHASE_MODE_BACKPEDAL))
    else
      (r.2.1, r.2.2)
  else
    FanOut E g w t

/-- The function `HandleMovementFailure` of the chase generator. -/
def HandleMovementFailure (g : ChaseMovementGenerator F) (w : World F) :
    ChaseMovementGenerator F × World F :=
  let w := w.emit (Event.enter Callee.HandleMovementFailure)
  let w := if g.m_currentMode = ChaseModes.CHASE_MODE_DISTANCING then w.emit Event.DistancingEnded else w
  let w := w.emit (Event.setMode ChaseModes.CHASE_MODE_NORMAL)
  ({ g with m_currentMode := ChaseModes.CHASE_MODE_NORMAL }, _clearUnitStateMove w)

/-- The function `HandleFinalizedMovement` of the chase generator. -/
def HandleFinalizedMovement (E : Env F) (g : ChaseMovementGenerator F) (w : World F) (t : Unit F) :
    ChaseMovementGenerator F × World F :=
  let w := w.emit (Event.enter Callee.HandleFinalizedMovement)
  let g := { g with i_targetReached := true }
  let w := if !E.HasInArc w.owner.position w.owner.GetOrientation t.position (some 0.01) then
      w.SetInFront E t else w
  let g := { g with m_closenessAndFanningTimer := CHASE_CLOSENESS_TIMER, i_lastTargetPos := t.position }
  let w := match g.m_currentMode with
    | ChaseModes.CHASE_MODE_NORMAL => w
    | ChaseModes.CHASE_MODE_BACKPEDAL => w
    | ChaseModes.CHASE_MODE_FANNING => w
    | ChaseModes.CHASE_MODE_DISTANCING => w.emit Event.DistancingEnded
  let w := _clearUnitStateMove w
  let w := w.emit (Event.setMode ChaseModes.CHASE_MODE_NORMAL)
  ({ g with m_currentMode := ChaseModes.CHASE_MODE_NORMAL, m_reachable := true }, w)

/-- The function `DistanceYourself`. The target reference is dereferenced without
a validity test: `none` stands for the dereference of an invalid reference. -/
def DistanceYourself (E : Env F) (g : ChaseMovementGenerator F) (w : World F) (distance : F) :
    Option (ChaseMovementGenerator F × World F) :=
  match w.target with
  | none => none
  | some t =>
    let p := E.GetNearPoint t w.owner.position w.owner.GetObjectBoundingRadius distance
      (E.GetAngle t.position w.owner.position)
    let r := DispatchSplineToPosition E g w t p false false DispatchSplineToPosition.targetDefault
    if r.1 then
      some ({ r.2.1 with i_targetReached := false
                         m_currentMode := ChaseModes.CHASE_MODE_DISTANCING
                         i_speedChanged := false },
            (r.2.2.emit (Event.setMode ChaseModes.CHASE_MODE_DISTANCING)).emit Event.DistancingStarted)
    else
      some (r.2.1, r.2.2)

/-- The part of `HandleTargetedMovement` after the dispatch decisions ("while spline
is engaged ..."): the forced stop of a spline that would overshoot, or `Backpedal`. -/
def HandleTargetedMovement.engaged (E : Env F) (g : ChaseMovementGenerator F) (w : World F)
    (t : Unit F) (currentTargetPos dest : Vector3 F) : ChaseMovementGenerator F × World F :=
  if !g.i_targetReached then
    if w.owner.movespline.Finalized then (g, w)
    else if g.m_currentMode = ChaseModes.CHASE_MODE_NORMAL then
      if currentTargetPos ≠ g.i_lastTargetPos then
        let ownerPos := w.owner.position
        let distFromDestination := GetDistance w.owner.position dest
        let distOwnerFromTarget := GetDistance t.position ownerPos
        let targetDist := E.GetCombinedCombatReach t (if g.i_offset = 0 then true else false)
        if distFromDestination > distOwnerFromTarget then
          if GetDistance t.position ownerPos < targetDist * targetDist then
            if w.owner.IsClientControlled then (g, w.StopMoving true)
            else (g, w.InterruptMoving)
          else (g, w)
        else (g, w)
      else (g, w)
    else (g, w)
  else
    if t.GetTypeId ≠ TypeId.TYPEID_PLAYER then (g, w)
    else if g.m_closenessExpired then Backpedal E g w t
    else (g, w)

/-- The update of the closeness and fanning timer at the head of
`HandleTargetedMovement`. -/
def HandleTargetedMovement.closeness (g : ChaseMovementGenerator F) (time_diff : Nat) :
    ChaseMovementGenerator F :=
  if g.m_closenessAndFanningTimer ≠ 0 then
    if g.m_closenessAndFanningTimer ≤ time_diff then
      { g with m_closenessAndFanningTimer := 0, m_closenessExpired := true }
    else
      { g with m_closenessAndFanningTimer := g.m_closenessAndFanningTimer - time_diff }
  else g

/-- The value of `x, y, z` when `_getLocation` returns false (they are not
written then); the callers have tested the target reference before. -/
def uninitialized : Vector3 F := ⟨0, 0, 0⟩

/-- The block of `HandleTargetedMovement` guarded by `i_speedChanged || targetMoved`:
the destination is recomputed when the target moved (or no path exists yet),
otherwise the end of the current path is reused, and the path is dispatched. -/
def HandleTargetedMovement.redispatch (E : Env F) (g : ChaseMovementGenerator F) (w : World F)
    (t : Unit F) (targetMoved : Bool) : ChaseMovementGenerator F × World F :=
  let p := if targetMoved || g.i_path.isNone then
      (_getLocation E g w.owner (some t)).getD uninitialized
    else
      match g.i_path with
      | some pf => pf.getEndPosition
      | none => uninitialized
  let r := DispatchSplineToPosition E g w t p g.EnableWalking true true
  if r.1 then
    ({ r.2.1 with i_targetReached := false
                  i_speedChanged := false
                  i_lastTargetPos := t.position
                  m_closenessAndFanningTimer := 0 }, r.2.2)
  else
    ({ r.2.1 with m_reachable := false }, r.2.2)

/-- The part of `HandleTargetedMovement` that runs when the recheck timer has
passed, after the timer was reset. -/
def HandleTargetedMovement.recheck (E : Env F) (g : ChaseMovementGenerator F) (w : World F)
    (t : Unit F) : ChaseMovementGenerator F × World F :=
  let currentTargetPos := t.position
  let dest := w.owner.movespline.FinalDestination
  if g.m_currentMode ≠ ChaseModes.CHASE_MODE_DISTANCING then
    let targetMoved := RequiresNewPosition E g w.owner t dest
    if g.i_speedChanged || targetMoved then
      HandleTargetedMovement.redispatch E g w t targetMoved
    else
      let g := if !targetMoved then { g with m_reachable := true } else g
      HandleTargetedMovement.engaged E g w t currentTargetPos dest
  else if g.i_speedChanged then
    let r := DispatchSplineToPosition E g w t dest false false true
    if r.1 then
      ({ r.2.1 with i_speedChanged := false }, r.2.2)
    else
      HandleTargetedMovement.engaged E r.2.1 r.2.2 t currentTargetPos dest
  else
    HandleTargetedMovement.engaged E g w t currentTargetPos dest

/-- The function `HandleTargetedMovement` of the chase generator. -/
def HandleTargetedMovement (E : Env F) (g : ChaseMovementGenerator F) (w : World F) (t : Unit F)
    (time_diff : Nat) : ChaseMovementGenerator F × World F :=
  let g := { g with i_recheckDistance := g.i_recheckDistance.Update time_diff }
  let g := HandleTargetedMovement.closeness g time_diff
  if !g.i_recheckDistance.Passed then (g, w)
  else
    HandleTargetedMovement.recheck E { g with i_recheckDistance := g.i_recheckDistance.Reset 250 } w t

/-- The function `Initialize` of the chase generator. -/
def Initialize (E : Env F) (g : ChaseMovementGenerator F) (w : World F) :
    ChaseMovementGenerator F × World F :=
  match w.target with
  | none => (g, w)
  | some t =>
    if !t.IsInWorld then (g, w)
    else
      let w := w.setUnitState { w.owner.unitState with CHASE := true }
      let r := _setLocation E g w
      ({ r.1 with i_lastTargetPos := t.position
                  m_fanningEnabled :=
                    !(decide (r.2.owner.GetTypeId = TypeId.TYPEID_UNIT) && r.2.owner.IsWorldBoss) },
       r.2)

/-- The function `Finalize` of the chase generator. -/
def Finalize (g : ChaseMovementGenerator F) (w : World F) : World F :=
  let w := w.setUnitState { w.owner.unitState with CHASE := false, CHASE_MOVE := false }
  if g.m_currentMode = ChaseModes.CHASE_MODE_DISTANCING then w.emit Event.DistancingEnded else w

/-- The function `Interrupt` of the chase generator. -/
def Interrupt (g : ChaseMovementGenerator F) (w : World F) : World F :=
  let w := w.InterruptMoving
  let w := w.setUnitState { w.owner.unitState with CHASE_MOVE := false }
  if g.m_currentMode = ChaseModes.CHASE_MODE_DISTANCING then w.emit Event.DistancingEnded else w

/-- The function `Reset` of the chase generator. -/
def Reset (E : Env F) (g : ChaseMovementGenerator F) (w : World F) :
    ChaseMovementGenerator F × World F :=
  Initialize E g w

/-- The function `SetOffsetAndAngle`. -/
def SetOffsetAndAngle (g : ChaseMovementGenerator F) (offset angle : F) (moveFurther : Bool) :
    ChaseMovementGenerator F :=
  { g with i_offset := offset, i_angle := angle, m_moveFurther := moveFurther }

end ChaseMovementGenerator

/-! ## The generic driver -/

/-- The member functions of the derived class `D` that the template
`TargetedMovementGeneratorMedium<T, D>` calls. -/
structure Derived (G : Type) (F : Type) where
  i_targetReached : G → Bool
  _hasUnitStateNotMove : Unit F → Bool
  _lostTarget : G → Unit F → Unit F → Bool
  HandleMovementFailure : G → World F → G × World F
  HandleTargetedMovement : Env F → G → World F → Unit F → Nat → G × World F
  HandleFinalizedMovement : Env F → G → World F → Unit F → G × World F

section Driver
variable {F : Type} [LinearOrderedField F] {G : Type}

/-- The template function `TargetedMovementGeneratorMedium<T, D>::Update`. -/
def TargetedMovementGeneratorMedium.Update (D : Derived G F) (E : Env F) (g : G) (w : World F)
    (time_diff : Nat) : Bool × G × World F :=
  match w.target with
  | none => (false, g, w)
  | some t =>
    if !t.IsInWorld then (false, g, w)
    else if !w.owner.isAlive then (true, g, w)
    else if w.owner.IsNonMeleeSpellCasted then
      if !w.owner.movespline.Finalized then
        if w.owner.IsClientControlled then (true, g, w.StopMoving true)
        else (true, g, w.InterruptMoving)
      else (true, g, w)
    else if D._hasUnitStateNotMove w.owner then
      let r := D.HandleMovementFailure g w
      (true, r.1, r.2)
    else if D._lostTarget g w.owner t then
      let r := D.HandleMovementFailure g w
      (true, r.1, r.2)
    else
      let r := D.HandleTargetedMovement E g w t time_diff
      if r.2.owner.movespline.Finalized && !D.i_targetReached r.1 then
        let r := D.HandleFinalizedMovement E r.1 r.2 t
        (true, r.1, r.2)
      else
        (true, r.1, r.2)

/-- The template function `TargetedMovementGeneratorMedium<T, D>::IsReachable`. -/
def TargetedMovementGeneratorMedium.IsReachable (g : TargetedMovementGeneratorMedium F) : Bool :=
  match g.i_path with
  | some pf => pf.getPathType.NORMAL
  | none => true

end Driver

namespace ChaseMovementGenerator
variable {F : Type} [LinearOrderedField F]

/-- The chase generator as the derived class of the driver template. -/
def derived : Derived (ChaseMovementGenerator F) F where
  i_targetReached := fun g => g.i_targetReached
  _hasUnitStateNotMove := _hasUnitStateNotMove
  _lostTarget := _lostTarget
  HandleMovementFailure := HandleMovementFailure
  HandleTargetedMovement := HandleTargetedMovement
  HandleFinalizedMovement := HandleFinalizedMovement

/-- The instantiation `TargetedMovementGeneratorMedium<Unit, ChaseMovementGenerator>::Update`. -/
def Update (E : Env F) (g : ChaseMovementGenerator F) (w : World F) (time_diff : Nat) :
    Bool × ChaseMovementGenerator F × World F :=
  TargetedMovementGeneratorMedium.Update derived E g w time_diff

end ChaseMovementGenerator

/-! ## FollowMovementGenerator -/

namespace FollowMovementGenerator
variable {F : Type} [LinearOrderedField F] [FloorRing F]

/-- The constant `FOLLOW_RECALCULATE_RANGE`. -/
def FOLLOW_RECALCULATE_RANGE : F := 2.5

/-- The constant `FOLLOW_RECALCULATE_FACTOR`. -/
def FOLLOW_RECALCULATE_FACTOR : F := 1.0

/-- The constant `FOLLOW_DIST_GAP_FOR_DIST_FACTOR`. -/
def FOLLOW_DIST_GAP_FOR_DIST_FACTOR : F := 1.0

/-- The constant `FOLLOW_DIST_RECALCULATE_FACTOR`. -/
def FOLLOW_DIST_RECALCULATE_FACTOR : F := 1.0

/-- Modelled from the spec: `_getPollRateBase()` is defined in the header, which
is not in src; the base of the recheck interval defaults to 250 ms. -/
def _getPollRateBase : Nat := 250

/-- Modelled from the spec: `_getPollRateMax()` is defined in the header, which
is not in src; the maximum of the recheck interval defaults to 1000 ms. -/
def _getPollRateMax : Nat := 1000

/-- The conversion `uint32(x)` of a floating point number. -/
def toUInt32 (x : F) : Nat := ⌊x⌋₊ % 2 ^ 32

/-- The function `_clearUnitStateMove`: clears `UNIT_STAT_FOLLOW_MOVE`. -/
def _clearUnitStateMove (w : World F) : World F :=
  w.setUnitState { w.owner.unitState with FOLLOW_MOVE := false }

/-- The function `_addUnitStateMove`: sets `UNIT_STAT_FOLLOW_MOVE`. -/
def _addUnitStateMove (w : World F) : World F :=
  w.setUnitState { w.owner.unitState with FOLLOW_MOVE := true }

/-- The function `_lostTarget` of the follow generator. -/
def _lostTarget (_g : FollowMovementGenerator F) (_owner : Unit F) (_t : Unit F) : Bool :=
  false

/-- The function `EnableWalking` of the follow generator. -/
def EnableWalking (i_target : Option (Unit F)) : Bool :=
  match i_target with
  | some t => t.IsWalking
  | none => false

/-- The function `GetDynamicTargetDistance` of the follow generator. -/
def GetDynamicTargetDistance (g : FollowMovementGenerator F) (owner : Unit F) (t : Unit F)
    (forRangeCheck : Bool) : F :=
  if !forRangeCheck then
    g.i_offset + owner.GetObjectBoundingRadius + t.GetObjectBoundingRadius
  else
    let allowed_dist := FOLLOW_RECALCULATE_RANGE - t.GetObjectBoundingRadius
    let allowed_dist := allowed_dist
      + FOLLOW_RECALCULATE_FACTOR * (owner.GetObjectBoundingRadius + t.GetObjectBoundingRadius)
    if g.i_offset > FOLLOW_DIST_GAP_FOR_DIST_FACTOR then
      allowed_dist + FOLLOW_DIST_RECALCULATE_FACTOR * g.i_offset
    else
      allowed_dist

/-- The template function `RequiresNewPosition`, instantiated for the follow
generator. -/
def RequiresNewPosition (g : FollowMovementGenerator F) (owner : Unit F) (t : Unit F)
    (p : Vector3 F) : Bool :=
  let dist := GetDynamicTargetDistance g owner t true
  decide (GetDistance t.position p > dist * dist)

/-- The function `IsBoostAllowed`. -/
def IsBoostAllowed (E : Env F) (g : FollowMovementGenerator F) (owner : Unit F)
    (i_target : Option (Unit F)) : Bool :=
  if owner.isInCombat || !i_target.isSome then false
  else
    match i_target with
    | none => false
    | some t =>
      if owner.GetMasterGuid ≠ t.GetObjectGuid then false
      else if !RequiresNewPosition g owner t owner.position then false
      else if (match E.LookupEntry owner.GetMapId with
          | some map => map.IsBattleGroundOrArena
          | none => false) then false
      else if !E.IsWithinLOSInMap t owner.position none then true
      else decide (E.HasInArc t.position t.GetOrientation owner.position none
        ≠ !t.m_movementInfo.BACKWARD)

/-- The function `IsUnstuckAllowed`. -/
def IsUnstuckAllowed (E : Env F) (g : FollowMovementGenerator F) (owner : Unit F)
    (i_target : Option (Unit F)) : Bool :=
  match i_target with
  | none => false
  | some t =>
    if owner.isInCombat || t.isInCombat then false
    else if t.m_movementInfo.FALLING || t.m_movementInfo.FALLINGFAR || t.m_movementInfo.FLYING then
      false
    else if !E.IsOutdoors t owner.position then false
    else IsBoostAllowed E g owner i_target

/-- The function `GetSpeed`. The target reference is dereferenced in the first
statement, so the function is given the unit `t` it refers to; the validity test
that follows the dereference is then true. -/
def GetSpeed (E : Env F) (g : FollowMovementGenerator F) (owner : Unit F) (t : Unit F) : F :=
  let type := t.m_movementInfo.GetSpeedType
  let speed := owner.GetSpeed type
  if owner.isInCombat || !(some t).isSome then speed
  else if owner.UNIT_FLAG_PLAYER_CONTROLLED ≠ t.UNIT_FLAG_PLAYER_CONTROLLED then speed
  else if owner.GetSpeedRate type < 1.0 || owner.SPELL_AURA_USE_NORMAL_MOVEMENT_SPEED then speed
  else
    let speed := t.GetSpeedInMotion
    if !IsBoostAllowed E g owner (some t) then speed
    else if t.IsClientControlled then
      let bonus := GetDistance t.position owner.position / speed
      max (owner.GetSpeed UnitMoveType.MOVE_WALK) (min (speed + bonus) 40.0)
    else
      max speed (owner.GetSpeed UnitMoveType.MOVE_RUN)

/-- The function `_getOrientation`: `none` stands for the result `false`. -/
def _getOrientation (E : Env F) (g : FollowMovementGenerator F) (owner : Unit F)
    (i_target : Option (Unit F)) : Option F :=
  match i_target with
  | none => none
  | some t =>
    some (if g.i_faceTarget then E.GetAngle owner.position t.position else t.GetOrientation)

/-- The function `_getLocation` of the follow generator: `none` stands for the
result `false`. -/
def _getLocation (E : Env F) (g : FollowMovementGenerator F) (owner : Unit F)
    (i_target : Option (Unit F)) (movingNow : Bool) : Option (Vector3 F) :=
  match i_target with
  | none => none
  | some t =>
    let radius := owner.GetObjectBoundingRadius
    let range := GetDynamicTargetDistance g owner t false
    let angle := t.GetOrientation + g.i_angle
    let tpos : Vector3 F :=
      if !t.movespline.Finalized && movingNow then
        t.movespline.CurrentDestination
      else if movingNow then
        let speed := t.GetSpeedInMotion
        let orientationInMotion := E.GetOrientationInMotion t.m_movementInfo t.GetOrientation
        let dx := speed * E.cos orientationInMotion
        let dy := speed * E.sin orientationInMotion
        let nx := t.position.x + dx
        let ny := t.position.y + dy
        let nz := E.UpdateAllowedPositionZ t nx ny t.position.z
        let height := owner.GetCollisionHeight
        if E.IsInLineOfSight ⟨owner.position.x, owner.position.y, owner.position.z + height⟩
            ⟨nx, ny, nz + height⟩ t.GetPhaseMask true then
          ⟨nx, ny, nz⟩
        else t.position
      else t.position
    some (E.GetNearPointAt t tpos owner.position radius range angle)

/-- The function `GetResetPosition`: position and orientation, `none` for `false`. -/
def GetResetPosition (E : Env F) (g : FollowMovementGenerator F) (owner : Unit F)
    (i_target : Option (Unit F)) : Option (Vector3 F × F) :=
  match _getLocation E g owner i_target g.m_targetMoving with
  | none => none
  | some p =>
    match _getOrientation E g owner i_target with
    | some o => some (p, o)
    | none => some (p, E.GetAngle owner.position p)

/-- The first block of `Move`: an owner whose spline is in flight is relocated to
the position the spline has reached. -/
def Move.relocate (E : Env F) (w : World F) : World F :=
  if !w.owner.movespline.Finalized then
    let loc := w.owner.movespline.ComputePosition
    let loc : Location F :=
      if w.owner.movespline.isFacing then
        let angle := E.atan2 (loc.y - w.owner.position.y) (loc.x - w.owner.position.x)
        { loc with orientation := if angle ≥ 0 then angle else (2 * E.M_PI_F) + angle }
      else loc
    { w with owner := { w.owner with position := ⟨loc.x, loc.y, loc.z⟩
                                     GetOrientation := loc.orientation } }.emit (Event.Relocate loc)
  else w

/-- The line of sight loop of `Move` from index `i` on, with `fuel` iterations
left: the first index whose point is not in line of sight of its predecessor. -/
def Move.firstBlocked (E : Env F) (owner : Unit F) (path : List (Vector3 F)) :
    Nat → Nat → Option Nat
  | 0, _ => none
  | fuel + 1, i =>
    if h : i < path.length then
      let a := path.get ⟨i - 1, by omega⟩
      let b := path.get ⟨i, h⟩
      if E.IsInLineOfSight ⟨a.x, a.y, a.z + owner.GetCollisionHeight⟩
          ⟨b.x, b.y, b.z + owner.GetCollisionHeight⟩ owner.GetPhaseMask true then
        Move.firstBlocked E owner path fuel (i + 1)
      else some i
    else none

/-- The end of `Move`, from `if (stuck)` on, for the path `path` of the path finder `pf`. -/
def Move.finish (E : Env F) (g : FollowMovementGenerator F) (w : World F) (t : Unit F)
    (dest : Vector3 F) (pf : PathFinder F) (path : List (Vector3 F)) (stuck : Bool) :
    Bool × FollowMovementGenerator F × World F :=
  let path := if stuck then
      [path.headD ⟨0, 0, 0⟩, (_getLocation E g w.owner (some t) false).getD dest]
    else path
  let speed := if stuck then E.FLT_EPSILON else GetSpeed E g w.owner t
  let w := _addUnitStateMove w
  let w := MoveSplineInit.Launch w path (EnableWalking (some t)) false (some speed)
  (!stuck, { g with i_path := some { pf with getPath := path } }, w)

/-- The function `Move`. -/
def Move (E : Env F) (g : FollowMovementGenerator F) (w : World F) (t : Unit F)
    (dest : Vector3 F) : Bool × FollowMovementGenerator F × World F :=
  let w := Move.relocate E w
  let pf := E.calculate w.owner.position dest none
  let w := w.emit (Event.calculate dest none)
  let path := pf.getPath
  if pf.getPathType.NOPATH || pf.getPathType.SHORTCUT then
    if !IsUnstuckAllowed E g w.owner (some t) then
      (false, { g with i_path := some pf }, w)
    else
      Move.finish E g w t dest pf path true
  else if w.owner.UNIT_FLAG_PLAYER_CONTROLLED || t.UNIT_FLAG_PLAYER_CONTROLLED then
    match Move.firstBlocked E w.owner path path.length 1 with
    | none => Move.finish E g w t dest pf path false
    | some i =>
      if i ≠ 1 then
        Move.finish E g w t dest pf (path.take (i + 1)) false
      else if !IsUnstuckAllowed E g w.owner (some t) then
        (false, { g with i_path := some pf }, w)
      else
        Move.finish E g w t dest pf path true
  else
    Move.finish E g w t dest pf path false

/-- The function `_setOrientation`. -/
def _setOrientation (E : Env F) (g : FollowMovementGenerator F) (w : World F) :
    FollowMovementGenerator F × World F :=
  match _getOrientation E g w.owner w.target with
  | some o =>
    ({ g with m_targetFaced := true },
     ({ w with owner := { w.owner with GetOrientation := o } }.emit (Event.SetOrientation o)).emit
       (Event.SetFacingTo o))
  | none => (g, w)

/-- The function `_setLocation` of the follow generator. -/
def _setLocation (E : Env F) (g : FollowMovementGenerator F) (w : World F) (movingNow : Bool) :
    FollowMovementGenerator F × World F :=
  match w.target with
  | none => (g, w)
  | some t =>
    if !t.IsInWorld then (g, w)
    else if FollowMovementGenerator._hasUnitStateNotMove w.owner then (g, w)
    else
      let p := (_getLocation E g w.owner w.target movingNow).getD ChaseMovementGenerator.uninitialized
      let r := Move E g w t p
      ({ r.2.1 with i_targetReached := !r.1, i_speedChanged := false, m_targetFaced := false }, r.2.2)

/-- The function `_getPollRateMultiplier`. -/
def _getPollRateMultiplier (owner : Unit F) (targetMovingNow : Bool) : Nat :=
  let multiplier := if owner.UNIT_FLAG_PLAYER_CONTROLLED then 1 else 2
  if !targetMovingNow then (multiplier * 2) % 2 ^ 32 else multiplier

/-- The function `_getPollRate`, in `uint32` arithmetic. -/
def _getPollRate (owner : Unit F) (movingNow : Bool) : Nat :=
  let multiplier := _getPollRateMultiplier owner movingNow
  let rate := (_getPollRateBase * toUInt32 owner.GetSpeedRateInMotion) % 2 ^ 32
  let max := (_getPollRateMax * toUInt32 owner.GetSpeedRateInMotion) % 2 ^ 32
  Nat.min (Nat.max rate ((rate * multiplier) % 2 ^ 32)) max

/-- The function `HandleTargetedMovement` of the follow generator. The local
`targetSpeedChanged` is computed by the source and never read. -/
def HandleTargetedMovement (E : Env F) (g : FollowMovementGenerator F) (w : World F) (t : Unit F)
    (time_diff : Nat) : FollowMovementGenerator F × World F :=
  let targetMovingLast := g.m_targetMoving
  let targetIgnore := t.m_movementInfo.FALLING || t.m_movementInfo.FALLINGFAR
  let g := { g with m_targetMoving := !targetIgnore && (t.m_movementInfo.MASK_MOVING_FORWARD
    || t.m_movementInfo.BACKWARD || t.m_movementInfo.PITCH_UP || t.m_movementInfo.PITCH_DOWN) }
  let g := { g with i_speedChanged := false }
  let r : FollowMovementGenerator F × Bool × Bool :=
    if g.m_targetMoving && !targetMovingLast then (g, true, false)
    else if !g.m_targetMoving && targetMovingLast then
      ({ g with i_recheckDistance :=
          g.i_recheckDistance.Reset (_getPollRate w.owner g.m_targetMoving) }, false, false)
    else
      let g := { g with i_recheckDistance := g.i_recheckDistance.Update time_diff }
      if g.i_recheckDistance.Passed && !targetIgnore then
        let g := { g with i_recheckDistance :=
          g.i_recheckDistance.Reset (_getPollRate w.owner g.m_targetMoving) }
        let currentTargetPos := t.position
        let targetRelocation : Bool := decide (currentTargetPos ≠ g.i_lastTargetPos)
          || RequiresNewPosition g w.owner t w.owner.position
        let targetOrientation : Bool := !targetRelocation && !g.m_targetMoving && !g.m_targetFaced
        ({ g with i_lastTargetPos := currentTargetPos }, targetRelocation, targetOrientation)
      else (g, false, false)
  let g := r.1
  let targetRelocation := r.2.1
  let targetOrientation := r.2.2
  if targetRelocation then
    let g := { g with i_recheckDistance :=
      g.i_recheckDistance.Reset (_getPollRate w.owner g.m_targetMoving) }
    _setLocation E g w g.m_targetMoving
  else if targetOrientation && !g.i_faceTarget && g.i_targetReached then
    _setOrientation E g w
  else (g, w)

/-- The function `HandleMovementFailure` of the follow generator. -/
def HandleMovementFailure (g : FollowMovementGenerator F) (w : World F) :
    FollowMovementGenerator F × World F :=
  (g, _clearUnitStateMove w)

/-- The function `HandleFinalizedMovement` of the follow generator. -/
def HandleFinalizedMovement (_E : Env F) (g : FollowMovementGenerator F) (w : World F)
    (_t : Unit F) : FollowMovementGenerator F × World F :=
  ({ g with i_targetReached := true }, w)

/-- The function `Initialize` of the follow generator. -/
def Initialize (E : Env F) (g : FollowMovementGenerator F) (w : World F) :
    FollowMovementGenerator F × World F :=
  match w.target with
  | none => (g, w)
  | some t =>
    if !t.IsInWorld then (g, w)
    else
      let w := w.setUnitState { w.owner.unitState with FOLLOW := true }
      HandleTargetedMovement E g w t 0

/-- The function `Finalize` of the follow generator. -/
def Finalize (w : World F) : World F :=
  w.setUnitState { w.owner.unitState with FOLLOW := false, FOLLOW_MOVE := false }

/-- The function `Interrupt` of the follow generator. -/
def Interrupt (w : World F) : World F :=
  (_clearUnitStateMove w).InterruptMoving

/-- The function `Reset` of the follow generator. -/
def Reset (E : Env F) (g : FollowMovementGenerator F) (w : World F) :
    FollowMovementGenerator F × World F :=
  Initialize E g w

/-- The follow generator as the derived class of the driver template. -/
def derived : Derived (FollowMovementGenerator F) F where
  i_targetReached := fun g => g.i_targetReached
  _hasUnitStateNotMove := FollowMovementGenerator._hasUnitStateNotMove
  _lostTarget := _lostTarget
  HandleMovementFailure := HandleMovementFailure
  HandleTargetedMovement := HandleTargetedMovement
  HandleFinalizedMovement := HandleFinalizedMovement

/-- The instantiation `TargetedMovementGeneratorMedium<Unit, FollowMovementGenerator>::Update`. -/
def Update (E : Env F) (g : FollowMovementGenerator F) (w : World F) (time_diff : Nat) :
    Bool × FollowMovementGenerator F × World F :=
  TargetedMovementGeneratorMedium.Update derived E g w time_diff

end FollowMovementGenerator

/-! ## Observations on traces -/

section Observations
variable {F : Type} [LinearOrderedField F]

/-- The mode an event writes to `m_currentMode`, if it is such a write. -/
def Event.modeWritten : Event F → Option ChaseModes
  | Event.setMode m => some m
  | _ => none

/-- The successive values written to `m_currentMode` in a list of events. -/
def modeWrites (es : List (Event F)) : List ChaseModes :=
  es.filterMap Event.modeWritten

/-- The number of times the value of the mode changes when, starting from `m`, the
values `ms` are written in turn. -/
def modeChanges : ChaseModes → List ChaseModes → Nat
  | _, [] => 0
  | m, m1 :: ms => (if m = m1 then 0 else 1) + modeChanges m1 ms

/-- The event is the launch of a spline. -/
def Event.isLaunch : Event F → Bool
  | Event.Launch _ _ _ _ => true
  | _ => false

/-- The event is a path computation. -/
def Event.isCalculate : Event F → Bool
  | Event.calculate _ _ => true
  | _ => false

/-- The generator `g1` has the mode and the fanning switch of `g`. -/
def Kept (g g1 : ChaseMovementGenerator F) : Prop :=
  g1.m_currentMode = g.m_currentMode ∧ g1.m_fanningEnabled = g.m_fanningEnabled

/-- A part of a chase tick, started in `(g, w)` and ended in `(g1, w1)`, that
extends the trace without handling an arrival and without writing the mode. -/
def Quiet (g : ChaseMovementGenerator F) (w : World F) (g1 : ChaseMovementGenerator F)
    (w1 : World F) : Prop :=
  ∃ es, w1.trace = w.trace ++ es
    ∧ Event.enter Callee.HandleFinalizedMovement ∉ es
    ∧ modeWrites es = [] ∧ Kept g g1

/-- A part of a chase tick, started in `(g, w)` and ended in `(g1, w1)`, that
extends the trace without handling an arrival and writes the mode once, to `m`,
after a launch that leaves the owner's spline in flight and `i_targetReached`
false; Fanning is entered only with the fanning switch on. -/
def Entered (m : ChaseModes) (g : ChaseMovementGenerator F) (w : World F)
    (g1 : ChaseMovementGenerator F) (w1 : World F) : Prop :=
  ∃ es, w1.trace = w.trace ++ es
    ∧ Event.enter Callee.HandleFinalizedMovement ∉ es
    ∧ modeWrites es = [m] ∧ g1.m_currentMode = m ∧ g1.i_targetReached = false
    ∧ w1.owner.movespline.Finalized = false
    ∧ g1.m_fanningEnabled = g.m_fanningEnabled
    ∧ (m = ChaseModes.CHASE_MODE_FANNING → g.m_fanningEnabled = true)

/-- What a part of a chase tick does to the mode: nothing, or one entry into
Backpedal or Fanning. -/
def ModeStep (g : ChaseMovementGenerator F) (w : World F)
    (r : ChaseMovementGenerator F × World F) : Prop :=
  Quiet g w r.1 r.2
    ∨ Entered ChaseModes.CHASE_MODE_BACKPEDAL g w r.1 r.2
    ∨ Entered ChaseModes.CHASE_MODE_FANNING g w r.1 r.2

/-- A part of a chase operation, started in `(g, w)` and ended in `(g1, w1)`, that
extends the trace without a launch and leaves the owner, `i_targetReached`, the
reachable flag and the mode as they were. -/
def Still (g : ChaseMovementGenerator F) (w : World F) (g1 : ChaseMovementGenerator F)
    (w1 : World F) : Prop :=
  (∃ es, w1.trace = w.trace ++ es ∧ ∀ e ∈ es, Event.isLaunch e = false)
    ∧ w1.owner = w.owner
    ∧ g1.i_targetReached = g.i_targetReached
    ∧ g1.m_reachable = g.m_reachable
    ∧ g1.m_currentMode = g.m_currentMode

end Observations

/-! ## A concrete world for evaluation

A flat world without obstacles. Sine and cosine are the rational approximation
`16 x (π - x) / (5 π² - 4 x (π - x))` of the sine on `[0, π]`, extended by symmetry;
it is exact at the multiples of `π / 2`. The path finder answers with the straight
segment from start to destination and a path type that is a parameter. -/

namespace Scenario

/-- The constant `M_PI_F` as a rational number. -/
def M_PI_F : ℚ := 3.14159265

/-- A path type with only the bit `PATHFIND_NORMAL`. -/
def NORMAL : PathType := ⟨true, false, false, false, false⟩

/-- A path type with only the bit `PATHFIND_NOPATH`. -/
def NOPATH : PathType := ⟨false, false, false, true, false⟩

/-- The reduction of an angle to `[0, 2π)`, for angles in `[-2π, 4π)`. -/
def normalize (o : ℚ) : ℚ :=
  if o < 0 then o + 2 * M_PI_F else if 2 * M_PI_F ≤ o then o - 2 * M_PI_F else o

/-- The approximate sine of an angle in `[0, π]`. -/
def sinHalf (x : ℚ) : ℚ :=
  16 * x * (M_PI_F - x) / (5 * M_PI_F * M_PI_F - 4 * x * (M_PI_F - x))

/-- The approximate sine. -/
def sin (a : ℚ) : ℚ :=
  if normalize a ≤ M_PI_F then sinHalf (normalize a) else -sinHalf (normalize a - M_PI_F)

/-- The approximate cosine. -/
def cos (a : ℚ) : ℚ := sin (normalize a + M_PI_F / 2)

/-- The direction from `a` to `b`, exact along the axes and coarse elsewhere. -/
def angle (a b : Vector3 ℚ) : ℚ :=
  if b.y = a.y then (if b.x < a.x then M_PI_F else 0)
  else if a.y < b.y then M_PI_F / 2 else 3 * M_PI_F / 2

/-- The collaborators of the flat world: `pathType` is what the path finder
classifies every path as, `nearby` are the units the grid search visits. Combat
reaches are 4 for melee range and 3 otherwise, random numbers are the lower bound
of their range. -/
def env (pathType : PathType) (nearby : List (Unit ℚ)) : Env ℚ where
  M_PI_F := M_PI_F
  FLT_EPSILON := 1 / 8388608
  cos := cos
  sin := sin
  atan2 := fun y x => angle ⟨0, 0, 0⟩ ⟨x, y, 0⟩
  NormalizeOrientation := normalize
  irand := fun _ lo _ => lo
  frand := fun _ lo _ => lo
  GetCombinedCombatReach := fun _ forMeleeRange => if forMeleeRange then 4 else 3
  GetAngle := angle
  GetNearPoint := fun t _ _ d a => ⟨t.position.x + d * cos a, t.position.y + d * sin a, t.position.z⟩
  GetNearPointAt := fun _ p _ _ d a => ⟨p.x + d * cos a, p.y + d * sin a, p.z⟩
  HasInArc := fun _ _ _ _ => true
  IsInLineOfSight := fun _ _ _ _ => true
  IsWithinLOSInMap := fun _ _ _ => true
  calculate := fun a b _ => ⟨[a, b], pathType, b⟩
  VisitAllObjects := fun _ _ _ => nearby
  IsOutdoors := fun _ _ => true
  LookupEntry := fun _ => none
  UpdateAllowedPositionZ := fun _ _ _ z => z
  GetOrientationInMotion := fun _ o => o

/-- A movement info without any flag. -/
def standing : MovementInfo := ⟨false, false, false, false, false, false, false, UnitMoveType.MOVE_RUN⟩

/-- A living unit in the world at `x` on the x axis, facing `o`, with a
finalized spline. -/
def unitAt {F : Type} [LinearOrderedField F] (guid : Nat) (typeId : TypeId) (x : F) (o : F)
    (victim : Option Nat) : Unit F where
  GetObjectGuid := guid
  GetTypeId := typeId
  IsInWorld := true
  isAlive := true
  position := ⟨x, 0, 0⟩
  GetOrientation := o
  GetObjectBoundingRadius := 0.5
  GetCollisionHeight := 2
  GetPhaseMask := 1
  GetMapId := 0
  unitState := ⟨false, false, false, false, false, false⟩
  getVictim := victim
  GetMasterGuid := 0
  isInCombat := false
  IsClientControlled := false
  IsNonMeleeSpellCasted := false
  IsWorldBoss := false
  UNIT_FLAG_PLAYER_CONTROLLED := false
  UNIT_FLAG_NOT_SELECTABLE := false
  IsMoving := false
  IsWalking := false
  GetSpeed := fun _ => 7
  GetSpeedRate := fun _ => 1
  GetSpeedInMotion := 7
  GetSpeedRateInMotion := 1
  SPELL_AURA_USE_NORMAL_MOVEMENT_SPEED := false
  m_movementInfo := standing
  movespline := ⟨true, ⟨x, 0, 0⟩, ⟨x, 0, 0⟩, ⟨x, 0, 0, o⟩, false⟩

/-- A chase generator as constructed: nothing dispatched yet, mode Normal. -/
def chase {F : Type} [LinearOrderedField F] (combat : Bool) : ChaseMovementGenerator F where
  i_recheckDistance := ⟨0⟩
  i_offset := 0
  i_angle := 0
  i_speedChanged := false
  i_targetReached := false
  i_faceTarget := true
  i_path := none
  i_lastTargetPos := ⟨0, 0, 0⟩
  m_closenessAndFanningTimer := 0
  m_closenessExpired := false
  m_moveFurther := false
  m_combat := combat
  m_reachable := true
  m_currentMode := ChaseModes.CHASE_MODE_NORMAL
  m_fanningEnabled := true
  EnableWalking := false

/-- A follow generator as constructed. -/
def follow : FollowMovementGenerator ℚ where
  i_recheckDistance := ⟨0⟩
  i_offset := 0
  i_angle := 0
  i_speedChanged := false
  i_targetReached := false
  i_faceTarget := false
  i_path := none
  i_lastTargetPos := ⟨0, 0, 0⟩
  m_targetMoving := false
  m_targetFaced := false

/-- The world of an owner and the unit its target reference points at. -/
def world {F : Type} (owner : Unit F) (target : Option (Unit F)) : World F :=
  ⟨owner, target, [], 0⟩

/-- A creature (guid 1) at the origin facing the positive x axis. -/
def creature : Unit ℚ := unitAt 1 TypeId.TYPEID_UNIT 0 0 (some 2)

/-- A player (guid 2) at `x = 10`. -/
def player : Unit ℚ := unitAt 2 TypeId.TYPEID_PLAYER 10 M_PI_F (some 1)

/-- A world-boss creature (guid 2) at `x = 10` that attacks the creature. -/
def boss : Unit ℚ := { unitAt 2 TypeId.TYPEID_UNIT 10 M_PI_F (some 1) with IsWorldBoss := true }

/-- A second creature (guid 3) that stands next to the first one and attacks
the same target (guid 2). -/
def ally : Unit ℚ := unitAt 3 TypeId.TYPEID_UNIT (1 / 2) 0 (some 2)

/-- The motion engine has carried the owner to the end of its spline. -/
def arrive (w : World ℚ) : World ℚ :=
  { w with owner := { w.owner with
      position := w.owner.movespline.FinalDestination
      movespline := { w.owner.movespline with Finalized := true } } }

/-- The target has moved to `x` on the x axis. -/
def targetAt (x : ℚ) (w : World ℚ) : World ℚ :=
  { w with target := w.target.map fun t => { t with position := ⟨x, 0, 0⟩ } }

/-- The collaborators of the chase of the player: paths exist, nobody else is near. -/
def chaseEnv : Env ℚ := env NORMAL []

/-- The creature starts to chase the player, who stands at `x = 10`: a spline to
`x = 8` is launched. -/
def chase0 : ChaseMovementGenerator ℚ × World ℚ :=
  ChaseMovementGenerator.Initialize chaseEnv (chase true) (world creature (some player))

/-- The creature has arrived at `x = 8`; the tick of 100 ms handles the arrival. -/
def chase1 : Bool × ChaseMovementGenerator ℚ × World ℚ :=
  ChaseMovementGenerator.Update chaseEnv chase0.1 (arrive chase0.2) 100

/-- After 2000 ms the player has walked to `x = 20`: the closeness timer runs out
and the tick re-dispatches, to `x = 18`. -/
def chase2 : Bool × ChaseMovementGenerator ℚ × World ℚ :=
  ChaseMovementGenerator.Update chaseEnv chase1.2.1 (targetAt 20 chase1.2.2) 2000

/-- The creature has arrived at `x = 18`; the tick of 100 ms handles the arrival. -/
def chase3 : Bool × ChaseMovementGenerator ℚ × World ℚ :=
  ChaseMovementGenerator.Update chaseEnv chase2.2.1 (arrive chase2.2.2) 100

/-- The tick 250 ms after the second arrival. -/
def chase4 : Bool × ChaseMovementGenerator ℚ × World ℚ :=
  ChaseMovementGenerator.Update chaseEnv chase3.2.1 chase3.2.2 250

/-- The collaborators over the real numbers, with the sine and cosine of
analysis: `GetNearPoint` is the point at the requested distance from the target
along the requested angle, `GetAngle` the argument of the difference vector in
`[0, 2π)`, `NormalizeOrientation` the remainder modulo `2π`; every combined combat
reach is `reach`, paths exist. -/
noncomputable def realEnv (reach : ℝ) : Env ℝ where
  M_PI_F := Real.pi
  FLT_EPSILON := 1 / 8388608
  cos := Real.cos
  sin := Real.sin
  atan2 := fun y x => Complex.arg ⟨x, y⟩
  NormalizeOrientation := fun o => o - 2 * Real.pi * ⌊o / (2 * Real.pi)⌋
  irand := fun _ lo _ => lo
  frand := fun _ lo _ => lo
  GetCombinedCombatReach := fun _ _ => reach
  GetAngle := fun a b =>
    if Complex.arg ⟨b.x - a.x, b.y - a.y⟩ < 0 then
      Complex.arg ⟨b.x - a.x, b.y - a.y⟩ + 2 * Real.pi
    else Complex.arg ⟨b.x - a.x, b.y - a.y⟩
  GetNearPoint := fun t _ _ d a =>
    ⟨t.position.x + d * Real.cos a, t.position.y + d * Real.sin a, t.position.z⟩
  GetNearPointAt := fun _ p _ _ d a => ⟨p.x + d * Real.cos a, p.y + d * Real.sin a, p.z⟩
  HasInArc := fun _ _ _ _ => true
  IsInLineOfSight := fun _ _ _ _ => true
  IsWithinLOSInMap := fun _ _ _ => true
  calculate := fun a b _ => ⟨[a, b], NORMAL, b⟩
  VisitAllObjects := fun _ _ _ => []
  IsOutdoors := fun _ _ => true
  LookupEntry := fun _ => none
  UpdateAllowedPositionZ := fun _ _ _ z => z
  GetOrientationInMotion := fun _ o => o

/-- The chasing creature (guid 1) over the reals, at `x` on the x axis, facing the
positive x axis. -/
noncomputable def realCreature (x : ℝ) : Unit ℝ := unitAt 1 TypeId.TYPEID_UNIT x 0 (some 2)

/-- The player (guid 2) over the reals, at `x = 10`. -/
noncomputable def realPlayer : Unit ℝ := unitAt 2 TypeId.TYPEID_PLAYER 10 Real.pi (some 1)

end Scenario

/-- The point `p` lies on the segment from `a` to `b`. -/
def onSegment {F : Type} [LinearOrderedField F] (a b p : Vector3 F) : Prop :=
  ∃ s : F, 0 ≤ s ∧ s ≤ 1 ∧ p.x = a.x + s * (b.x - a.x) ∧ p.y = a.y + s * (b.y - a.y)
    ∧ p.z = a.z + s * (b.z - a.z)

section Accounting
variable {F : Type} [LinearOrderedField F]

/-- The number of spline launches in a list of events. -/
def launches (es : List (Event F)) : Nat :=
  es.countP Event.isLaunch

/-- From `w` to `w1` the trace is extended, by at most `n` spline launches. -/
def Launched (n : Nat) (w w1 : World F) : Prop :=
  ∃ es, w1.trace = w.trace ++ es ∧ launches es ≤ n

end Accounting

section PathTests
variable {F : Type} [LinearOrderedField F]

/-- The two tests of `CutPath` on a waypoint `p`, in the words of the
specification: the squared distance of `p` to the target is at most
`(0.875 * offset + 0.5 * combinedReach)²` and `p` is in line of sight from the
target (both points raised by 2). -/
def ChaseMovementGenerator.CutPath.viable (E : Env F) (g : ChaseMovementGenerator F)
    (owner : Unit F) (t : Unit F) (p : Vector3 F) : Bool :=
  decide (GetDistance t.position p
      ≤ (0.875 * g.i_offset + 0.5 * E.GetCombinedCombatReach t false) ^ 2)
    && E.IsInLineOfSight ⟨t.position.x, t.position.y, t.position.z + 2⟩ ⟨p.x, p.y, p.z + 2⟩
      owner.GetPhaseMask true

end PathTests

section Sight
variable {F : Type} [LinearOrderedField F]

/-- The line of sight test of the trimming loop of `Move`, in the words of the
specification: waypoint `b` is in line of sight from waypoint `a`, both raised by
the owner's collision height, in the owner's phase. -/
def FollowMovementGenerator.Move.inSight (E : Env F) (owner : Unit F) (a b : Vector3 F) : Bool :=
  E.IsInLineOfSight ⟨a.x, a.y, a.z + owner.GetCollisionHeight⟩
    ⟨b.x, b.y, b.z + owner.GetCollisionHeight⟩ owner.GetPhaseMask true

/-- The local `path` of `Move`: the path the path finder computed to the
destination from the position of the (relocated) owner. -/
def FollowMovementGenerator.Move.path (E : Env F) (w : World F) (dest : Vector3 F) :
    List (Vector3 F) :=
  (E.calculate (FollowMovementGenerator.Move.relocate E w).owner.position dest none).getPath

end Sight

namespace Scenario

/-- The flat world with a wall at `x = 3` that blocks the line of sight between
points on its two sides; the path finder answers with waypoints at `x = 2` and
`x = 4` between start and destination. -/
def wallEnv : Env ℚ :=
  { env NORMAL [] with
    IsInLineOfSight := fun a b _ _ =>
      !((decide (a.x < 3) && decide (3 < b.x)) || (decide (b.x < 3) && decide (3 < a.x)))
    calculate := fun a b _ => ⟨[a, ⟨2, 0, 0⟩, ⟨4, 0, 0⟩, b], NORMAL, b⟩ }

/-- A player-controlled pet (guid 1) of the player, at the origin. -/
def pet : Unit ℚ :=
  { creature with UNIT_FLAG_PLAYER_CONTROLLED := true, GetMasterGuid := 2 }

end Scenario

namespace Scenario

/-- The creature on its way to `x = -5`, where it was sent to distance itself from
the player. -/
def distancing : Unit ℚ :=
  { creature with
    movespline := { creature.movespline with Finalized := false, FinalDestination := ⟨-5, 0, 0⟩ } }

end Scenario

section Reachability
variable {F : Type} [LinearOrderedField F]

/-- The event is the entry into the arrival handler. -/
def Event.isArrival : Event F → Bool
  | Event.enter Callee.HandleFinalizedMovement => true
  | _ => false

/-- The recheck of the chase tick takes the branch "no new position needed", the
one that writes `m_reachable = true`: the mode is not Distancing, the speed did not
change and the destination of the spline is still good. -/
def ChaseMovementGenerator.HandleTargetedMovement.recheck.settles (E : Env F)
    (g : ChaseMovementGenerator F) (w : World F) (t : Unit F) : Bool :=
  decide (g.m_currentMode ≠ ChaseModes.CHASE_MODE_DISTANCING)
    && !(g.i_speedChanged
      || ChaseMovementGenerator.RequiresNewPosition E g w.owner t w.owner.movespline.FinalDestination)

/-- The chase tick reaches the recheck (the timer has passed) and takes the branch
"no new position needed". -/
def ChaseMovementGenerator.HandleTargetedMovement.settles (E : Env F)
    (g : ChaseMovementGenerator F) (w : World F) (t : Unit F) (time_diff : Nat) : Bool :=
  let g := { g with i_recheckDistance := g.i_recheckDistance.Update time_diff }
  let g := ChaseMovementGenerator.HandleTargetedMovement.closeness g time_diff
  if !g.i_recheckDistance.Passed then false
  else
    ChaseMovementGenerator.HandleTargetedMovement.recheck.settles E
      { g with i_recheckDistance := g.i_recheckDistance.Reset 250 } w t

/-- The chase `Update` gets as far as the tick of the generator, and the tick takes
the branch "no new position needed" of its recheck. -/
def ChaseMovementGenerator.Update.settles (E : Env F) (g : ChaseMovementGenerator F)
    (w : World F) (time_diff : Nat) : Bool :=
  match w.target with
  | none => false
  | some t =>
    t.IsInWorld && w.owner.isAlive && !w.owner.IsNonMeleeSpellCasted
      && !ChaseMovementGenerator._hasUnitStateNotMove w.owner
      && !ChaseMovementGenerator._lostTarget g w.owner t
      && ChaseMovementGenerator.HandleTargetedMovement.settles E g w t time_diff

/-- The history flag "a dispatch attempt has failed, and no successful dispatch, no
arrival and no 'no new position needed' recheck has happened since", after an
operation that recorded the events `es` and of which `settled` tells whether it
took the 'no new position needed' branch: a launch, an arrival or that branch
clear the flag; otherwise a path computation (which, without a launch, is a failed
attempt) sets it, and without one it stays as it was. -/
def pendingAfter (pending : Bool) (es : List (Event F)) (settled : Bool) : Bool :=
  !(es.any Event.isLaunch || es.any Event.isArrival || settled)
    && (es.any Event.isCalculate || pending)

/-- The states a chase generator and its world can be in, with the history flag
of `pendingAfter`. Modelled from the spec: the constructor is in the header, which
is not in src; a generator is constructed with the reachable flag set. Between the
calls the simulation may change the world, and the fields of the generator other
than `i_targetReached` and the reachable flag (`SetOffsetAndAngle`, a speed change). -/
inductive History (E : Env F) : ChaseMovementGenerator F → World F → Bool → Prop
  | fresh (g : ChaseMovementGenerator F) (w : World F) :
      g.m_reachable = true → History E g w false
  | world (g : ChaseMovementGenerator F) (w w1 : World F) (pending : Bool) :
      History E g w pending → History E g w1 pending
  | fields (g g1 : ChaseMovementGenerator F) (w : World F) (pending : Bool) :
      History E g w pending → g1.m_reachable = g.m_reachable →
      g1.i_targetReached = g.i_targetReached → History E g1 w pending
  | Initialize (g : ChaseMovementGenerator F) (w : World F) (pending : Bool) :
      History E g w pending →
      History E (ChaseMovementGenerator.Initialize E g w).1 (ChaseMovementGenerator.Initialize E g w).2
        (pendingAfter pending (World.newEvents w (ChaseMovementGenerator.Initialize E g w).2) false)
  | Update (g : ChaseMovementGenerator F) (w : World F) (pending : Bool) (time_diff : Nat) :
      History E g w pending →
      History E (ChaseMovementGenerator.Update E g w time_diff).2.1
        (ChaseMovementGenerator.Update E g w time_diff).2.2
        (pendingAfter pending
          (World.newEvents w (ChaseMovementGenerator.Update E g w time_diff).2.2)
          (ChaseMovementGenerator.Update.settles E g w time_diff))
  | DistanceYourself (g : ChaseMovementGenerator F) (w : World F) (pending : Bool) (distance : F)
      (r : ChaseMovementGenerator F × World F) :
      History E g w pending → ChaseMovementGenerator.DistanceYourself E g w distance = some r →
      History E r.1 r.2 (pendingAfter pending (World.newEvents w r.2) false)

/-- A part of a chase operation, started in `(g, w)` and ended in `(g1, w1)`, that
handles no arrival and either ends with the reachable flag set or has launched
nothing and left `i_targetReached` and the reachable flag as they were. -/
def Reaching (g : ChaseMovementGenerator F) (w : World F) (g1 : ChaseMovementGenerator F)
    (w1 : World F) : Prop :=
  ∃ es, w1.trace = w.trace ++ es ∧ es.any Event.isArrival = false
    ∧ (g1.m_reachable = true
      ∨ (g1.i_targetReached = g.i_targetReached ∧ g1.m_reachable = g.m_reachable
        ∧ es.any Event.isLaunch = false))

end Reachability

namespace Scenario

/-- The flat world in which no unit has another one in its frontal arc, as for a
follower that trails behind its target; `pathType` is what the path finder
classifies every path as. -/
def trailingEnv (pathType : PathType) : Env ℚ :=
  { env pathType [] with HasInArc := fun _ _ _ _ => false }

/-- The master (guid 2) at `x = 10`, facing away from the origin: a player that is
client-controlled and flagged player-controlled. -/
def master : Unit ℚ :=
  { unitAt 2 TypeId.TYPEID_PLAYER 10 0 none with
    IsClientControlled := true, UNIT_FLAG_PLAYER_CONTROLLED := true }

/-- A pet of the master whose speed is 50 for every move type. -/
def racer : Unit ℚ :=
  { pet with GetSpeed := fun _ => 50 }

/-- A server-controlled leader (guid 2) at `x = 10` that moves at speed 14. -/
def leader : Unit ℚ :=
  { unitAt 2 TypeId.TYPEID_UNIT 10 0 none with GetSpeedInMotion := 14 }

/-- A creature (guid 1) at the origin whose master is the leader; its speed is 7
for every move type. -/
def escort : Unit ℚ :=
  { creature with GetMasterGuid := 2 }

end Scenario

namespace Scenario

/-- The player (guid 2) one yard from the origin. -/
def closePlayer : Unit ℚ := unitAt 2 TypeId.TYPEID_PLAYER 1 M_PI_F (some 1)

end Scenario

section Manoeuvres
variable {F : Type} [LinearOrderedField F]

/-- The event is the entry into one of the recorded callees: `Backpedal`, `FanOut`
or a handler. -/
def Event.isCall : Event F → Bool
  | Event.enter _ => true
  | _ => false

/-- The event is an entry into `Backpedal` or `FanOut`, or a write of Backpedal or
Fanning to the mode. -/
def Event.isManoeuvre : Event F → Bool
  | Event.enter Callee.Backpedal => true
  | Event.enter Callee.FanOut => true
  | Event.setMode ChaseModes.CHASE_MODE_BACKPEDAL => true
  | Event.setMode ChaseModes.CHASE_MODE_FANNING => true
  | _ => false

/-- A part of a chase tick, started in `(g, w)` and ended in `(g1, w1)`, that
extends the trace without entering `Backpedal`, `FanOut` or a handler and without
writing the mode, and leaves the mode as it was. -/
def Direct (g : ChaseMovementGenerator F) (w : World F) (g1 : ChaseMovementGenerator F)
    (w1 : World F) : Prop :=
  ∃ es, w1.trace = w.trace ++ es
    ∧ (∀ e ∈ es, Event.isCall e = false ∧ Event.modeWritten e = none)
    ∧ g1.m_currentMode = g.m_currentMode

end Manoeuvres

namespace Scenario

/-- The world-boss creature (guid 2) one yard from the origin. -/
def closeBoss : Unit ℚ :=
  { unitAt 2 TypeId.TYPEID_UNIT 1 M_PI_F (some 1) with IsWorldBoss := true }

end Scenario

section Turning
variable {F : Type} [LinearOrderedField F]

/-- The event is an orientation update of the owner: `SetOrientation` or
`SetFacingTo`. -/
def Event.isTurn : Event F → Bool
  | Event.SetOrientation _ => true
  | Event.SetFacingTo _ => true
  | _ => false

/-- The target is detected as moving (the new value of `m_targetMoving` in the tick
of the follow generator): it is neither falling nor falling far, and moves forward,
backward or pitches. -/
def FollowMovementGenerator.HandleTargetedMovement.moving (t : Unit F) : Bool :=
  !(t.m_movementInfo.FALLING || t.m_movementInfo.FALLINGFAR)
    && (t.m_movementInfo.MASK_MOVING_FORWARD || t.m_movementInfo.BACKWARD
      || t.m_movementInfo.PITCH_UP || t.m_movementInfo.PITCH_DOWN)

end Turning

namespace Scenario

/-- A follow generator whose owner has arrived next to its target, last seen at
`x = 1`. -/
def arrived : FollowMovementGenerator ℚ :=
  { follow with i_targetReached := true, i_lastTargetPos := ⟨1, 0, 0⟩ }

/-- The player (guid 2) walking forward at `x = 10`. -/
def walker : Unit ℚ :=
  { player with m_movementInfo := { standing with MASK_MOVING_FORWARD := true } }

end Scenario

section Arrival
variable {F : Type} [LinearOrderedField F]

/-- The relation between the arrival flag and the mode: a generator that has
reached its target is in mode Normal. -/
def Consistent (g : ChaseMovementGenerator F) : Prop :=
  g.i_targetReached = true → g.m_currentMode = ChaseModes.CHASE_MODE_NORMAL

/-- A step from `g` to `g1` that ends in mode Normal, or with `i_targetReached`
cleared, or leaves both the flag and the mode as they were. -/
def Preserving (g g1 : ChaseMovementGenerator F) : Prop :=
  g1.m_currentMode = ChaseModes.CHASE_MODE_NORMAL
    ∨ g1.i_targetReached = false
    ∨ (g1.i_targetReached = g.i_targetReached ∧ g1.m_currentMode = g.m_currentMode)

/-- The chase generators reachable from a fresh one through `Initialize`, `Reset`,
`Update`, `DistanceYourself`, `SetOffsetAndAngle` and the handlers, each applied in
the world (and to the target) the simulation presents at that moment. Modelled from
the spec: the constructor is in the header, which is not in src; the mode of a
fresh generator is Normal, the initial state. -/
inductive Reachable (E : Env F) : ChaseMovementGenerator F → Prop
  | fresh (g : ChaseMovementGenerator F) :
      g.m_currentMode = ChaseModes.CHASE_MODE_NORMAL → Reachable E g
  | Initialize (g : ChaseMovementGenerator F) (w : World F) :
      Reachable E g → Reachable E (ChaseMovementGenerator.Initialize E g w).1
  | Reset (g : ChaseMovementGenerator F) (w : World F) :
      Reachable E g → Reachable E (ChaseMovementGenerator.Reset E g w).1
  | Update (g : ChaseMovementGenerator F) (w : World F) (time_diff : Nat) :
      Reachable E g → Reachable E (ChaseMovementGenerator.Update E g w time_diff).2.1
  | DistanceYourself (g : ChaseMovementGenerator F) (w : World F) (distance : F)
      (r : ChaseMovementGenerator F × World F) :
      Reachable E g → ChaseMovementGenerator.DistanceYourself E g w distance = some r →
      Reachable E r.1
  | SetOffsetAndAngle (g : ChaseMovementGenerator F) (offset angle : F) (moveFurther : Bool) :
      Reachable E g → Reachable E (ChaseMovementGenerator.SetOffsetAndAngle g offset angle moveFurther)
  | HandleTargetedMovement (g : ChaseMovementGenerator F) (w : World F) (t : Unit F)
      (time_diff : Nat) :
      Reachable E g →
      Reachable E (ChaseMovementGenerator.HandleTargetedMovement E g w t time_diff).1
  | HandleFinalizedMovement (g : ChaseMovementGenerator F) (w : World F) (t : Unit F) :
      Reachable E g → Reachable E (ChaseMovementGenerator.HandleFinalizedMovement E g w t).1
  | HandleMovementFailure (g : ChaseMovementGenerator F) (w : World F) :
      Reachable E g → Reachable E (ChaseMovementGenerator.HandleMovementFailure g w).1

end Arrival

/-! ## AuctionHouseBot

A shallow embedding of `src/game/AuctionHouseBot/AuctionHouseBot.cpp`.

* `int32` quantities are integers and `uint32` quantities natural numbers; the
  conversions between them and the wrap-around of the arithmetic are written out.
* The bot is a record of its member variables. The configuration file, the world
  database, the C library and the random number generator are fields of
  `AuctionEnv`; the loot stores are passed as `LootStore`.
* A read of a vector outside its bounds is the result `Except.error`.
-/

/-- The class `Config` of the configuration file (not in src), as the bot uses it:
`SetSource` tells whether the file could be opened, `GetIntDefault` returns the
`int` of an entry. -/
structure Config where
  SetSource : String → Bool
  GetBoolDefault : String → Bool → Bool
  GetStringDefault : String → String
  GetIntDefault : String → Nat → Int

/-- A `LootItem`, as far as the bot reads it. -/
structure LootItem where
  itemId : Nat
  count : Nat
deriving DecidableEq

/-- A `LootTemplate` (not in src): `Process` rolls the loot of the template into a
`Loot`, here the list of its items; the first argument numbers the roll. -/
structure LootTemplate where
  Process : Nat → List LootItem → Bool → List LootItem

/-- A `LootStore` (not in src), as far as the bot uses it. -/
structure LootStore where
  GetLootFor : Nat → Option LootTemplate
  IsRatesAllowed : Bool

/-- The collaborators of the bot that are not part of the translation unit: the
configuration file `m_ahBotCfg`, `atoi` of the C library, the random numbers
`urand(min, max)` (the first argument numbers the draw) and the first column of the
rows a query of the world database returns (`none` for no result). -/
structure AuctionEnv where
  m_ahBotCfg : Config
  atoi : String → Int
  urand : Nat → Nat → Nat → Nat
  PQuery : String → Option (List Nat)

/-- The member `m_itemPrice`: one vector of price multipliers, indexed by item
class, for each item quality. -/
structure ItemPrices where
  ITEM_QUALITY_POOR : List Nat
  ITEM_QUALITY_NORMAL : List Nat
  ITEM_QUALITY_UNCOMMON : List Nat
  ITEM_QUALITY_RARE : List Nat
  ITEM_QUALITY_EPIC : List Nat
  ITEM_QUALITY_LEGENDARY : List Nat
  ITEM_QUALITY_ARTIFACT : List Nat
deriving DecidableEq

/-- The member variables of `AuctionHouseBot`; the set `m_vendorItems` is given by
its membership test. -/
structure AuctionHouseBot where
  m_configFileName : String
  m_houseAction : Int
  m_creatureLootNormalConfig : List Int
  m_creatureLootEliteConfig : List Int
  m_creatureLootRareEliteConfig : List Int
  m_creatureLootWorldBossConfig : List Int
  m_creatureLootRareConfig : List Int
  m_disenchantLootConfig : List Int
  m_fishingLootConfig : List Int
  m_gameobjectLootConfig : List Int
  m_skinningLootConfig : List Int
  m_creatureLootNormalTemplates : List Nat
  m_creatureLootEliteTemplates : List Nat
  m_creatureLootRareEliteTemplates : List Nat
  m_creatureLootWorldBossTemplates : List Nat
  m_creatureLootRareTemplates : List Nat
  m_disenchantLootTemplates : List Nat
  m_fishingLootTemplates : List Nat
  m_gameobjectLootTemplates : List Nat
  m_skinningLootTemplates : List Nat
  m_itemPrice : ItemPrices
  m_itemPriceVariance : Nat
  m_auctionBidMin : Nat
  m_auctionBidMax : Nat
  m_auctionTimeMin : Nat
  m_auctionTimeMax : Nat
  m_vendorMultiplier : Nat
  m_buyCheckChance : Nat
  m_vendorItems : Nat → Bool

/-- A read outside the bounds of a vector: which vector, the index and the size. -/
inductive Fault where
  | lootConfig (index size : Nat)
  | lootTemplates (index size : Nat)
deriving DecidableEq

/-- What a call of `Update` did: the value of `m_houseAction` after the increment,
the house it selected, and whether it took the selling branch (otherwise the buying
branch). -/
structure Action where
  m_houseAction : Int
  houseType : Int
  selling : Bool
deriving DecidableEq

namespace AuctionHouseBot

/-- Modelled from the spec: `MAX_AUCTION_HOUSE_TYPE` is defined in a header that is
not in src; `Update` tells three houses apart (alliance, horde and the neutral
one). -/
def MAX_AUCTION_HOUSE_TYPE : Int := 3

/-- The conversion of an integer to `uint32`. -/
def toUInt32 (x : Int) : Nat := (x % 2 ^ 32).toNat

/-- The conversion of an integer to `int32`. -/
def toInt32 (x : Int) : Int := (x + 2 ^ 31) % 2 ^ 32 - 2 ^ 31

/-- The strings the loop `while (getline(includeStream, temp, ','))` reads from the
rest `cs` of the stream, `temp` being the characters read since the last comma (in
reverse): a string ends at a comma or at the end of the stream, and `getline` fails
when it can extract no character. -/
def getlines : List Char → List Char → List String
  | [], temp => if temp.isEmpty then [] else [String.mk temp.reverse]
  | c :: cs, temp =>
    if c = ',' then String.mk temp.reverse :: getlines cs []
    else getlines cs (c :: temp)

/-- One round of the loop `for (index = 1; index < 4; ++index)` of `parseLootConfig`. -/
def parseLootConfig.nonNegative (lootConfig : List Int) (index : Nat) : List Int :=
  if lootConfig.getD index 0 < 0 then lootConfig.set index 0 else lootConfig

/-- The function `parseLootConfig` from `if (lootConfig.size() > 4)` on, for the
values read from the configuration string. When the vector is read it has at
least four entries. -/
def parseLootConfig.check (lootConfig : List Int) : List Int :=
  let lootConfig :=
    if lootConfig.length > 4 then lootConfig
    else if lootConfig.length < 4 then lootConfig ++ List.replicate (4 - lootConfig.length) 0
    else lootConfig
  let lootConfig := parseLootConfig.nonNegative lootConfig 1
  let lootConfig := parseLootConfig.nonNegative lootConfig 2
  let lootConfig := parseLootConfig.nonNegative lootConfig 3
  let lootConfig :=
    if lootConfig.getD 0 0 > lootConfig.getD 1 0 then lootConfig.set 0 (lootConfig.getD 1 0)
    else lootConfig
  let lootConfig :=
    if lootConfig.getD 2 0 > lootConfig.getD 3 0 then lootConfig.set 2 (lootConfig.getD 3 0)
    else lootConfig
  lootConfig

/-- The function `parseLootConfig`: the new value of `lootConfig`. -/
def parseLootConfig (A : AuctionEnv) (fieldname : String) : List Int :=
  parseLootConfig.check
    ((getlines (A.m_ahBotCfg.GetStringDefault fieldname).toList []).map A.atoi)

/-- The function `fillUintVectorFromQuery`: the new value of `lootTemplates`. -/
def fillUintVectorFromQuery (A : AuctionEnv) (query : String) : List Nat :=
  match A.PQuery query with
  | some rows => rows.filter fun entry => entry ≠ 0
  | none => []

/-- The function `setMinMaxConfig`: the new value of `field`. -/
def setMinMaxConfig (A : AuctionEnv) (config : String) (minValue maxValue defaultValue : Nat) :
    Nat :=
  let field := toUInt32 (A.m_ahBotCfg.GetIntDefault config defaultValue)
  if field < minValue then defaultValue
  else if field > maxValue then defaultValue
  else field

/-- The loop of `parseItemPriceConfig` from `index` on. -/
def parseItemPriceConfig.loop (A : AuctionEnv) : Nat → List String → List Nat → List Nat
  | _, [], itemPrices => itemPrices
  | index, temp :: rest, itemPrices =>
    parseItemPriceConfig.loop A (index + 1) rest
      (if index < itemPrices.length then itemPrices.set index (toUInt32 (A.atoi temp))
       else itemPrices)

/-- The function `parseItemPriceConfig`: the new value of `itemPrices`. -/
def parseItemPriceConfig (A : AuctionEnv) (fieldname : String) (itemPrices : List Nat) : List Nat :=
  parseItemPriceConfig.loop A 0 (getlines (A.m_ahBotCfg.GetStringDefault fieldname).toList [])
    itemPrices

/-- The part of `Initialize` that reads the loot configuration and the loot
templates. -/
def Initialize.loot (A : AuctionEnv) (bot : AuctionHouseBot) : AuctionHouseBot :=
  { bot with
    m_creatureLootNormalConfig := parseLootConfig A "AuctionHouseBot.Loot.Creature.Normal"
    m_creatureLootEliteConfig := parseLootConfig A "AuctionHouseBot.Loot.Creature.Elite"
    m_creatureLootRareEliteConfig := parseLootConfig A "AuctionHouseBot.Loot.Creature.RareElite"
    m_creatureLootWorldBossConfig := parseLootConfig A "AuctionHouseBot.Loot.Creature.WorldBoss"
    m_creatureLootRareConfig := parseLootConfig A "AuctionHouseBot.Loot.Creature.Rare"
    m_creatureLootNormalTemplates := fillUintVectorFromQuery A
      "SELECT entry FROM creature_template WHERE rank = 0 AND entry IN (SELECT entry FROM creature_loot_template)"
    m_creatureLootEliteTemplates := fillUintVectorFromQuery A
      "SELECT entry FROM creature_template WHERE rank = 1 AND entry IN (SELECT entry FROM creature_loot_template)"
    m_creatureLootRareEliteTemplates := fillUintVectorFromQuery A
      "SELECT entry FROM creature_template WHERE rank = 2 AND entry IN (SELECT entry FROM creature_loot_template)"
    m_creatureLootWorldBossTemplates := fillUintVectorFromQuery A
      "SELECT entry FROM creature_template WHERE rank = 3 AND entry IN (SELECT entry FROM creature_loot_template)"
    m_creatureLootRareTemplates := fillUintVectorFromQuery A
      "SELECT entry FROM creature_template WHERE rank = 4 AND entry IN (SELECT entry FROM creature_loot_template)"
    m_disenchantLootConfig := parseLootConfig A "AuctionHouseBot.Loot.Disenchant"
    m_disenchantLootTemplates := fillUintVectorFromQuery A
      "SELECT DISTINCT entry FROM disenchant_loot_template"
    m_fishingLootConfig := parseLootConfig A "AuctionHouseBot.Loot.Fishing"
    m_fishingLootTemplates := fillUintVectorFromQuery A
      "SELECT DISTINCT entry FROM fishing_loot_template"
    m_gameobjectLootConfig := parseLootConfig A "AuctionHouseBot.Loot.Gameobject"
    m_gameobjectLootTemplates := fillUintVectorFromQuery A
      "SELECT DISTINCT entry FROM gameobject_loot_template WHERE entry IN (SELECT data1 FROM gameobject_template WHERE entry IN (SELECT id FROM gameobject WHERE state = 1 AND spawntimesecsmax > 0))"
    m_skinningLootConfig := parseLootConfig A "AuctionHouseBot.Loot.Skinning"
    m_skinningLootTemplates := fillUintVectorFromQuery A
      "SELECT DISTINCT entry FROM skinning_loot_template" }

/-- The part of `Initialize` that reads the item prices. -/
def Initialize.prices (A : AuctionEnv) (m_itemPrice : ItemPrices) : ItemPrices :=
  { ITEM_QUALITY_POOR :=
      parseItemPriceConfig A "AuctionHouseBot.Price.Poor" m_itemPrice.ITEM_QUALITY_POOR
    ITEM_QUALITY_NORMAL :=
      parseItemPriceConfig A "AuctionHouseBot.Price.Normal" m_itemPrice.ITEM_QUALITY_NORMAL
    ITEM_QUALITY_UNCOMMON :=
      parseItemPriceConfig A "AuctionHouseBot.Price.Uncommon" m_itemPrice.ITEM_QUALITY_UNCOMMON
    ITEM_QUALITY_RARE :=
      parseItemPriceConfig A "AuctionHouseBot.Price.Rare" m_itemPrice.ITEM_QUALITY_RARE
    ITEM_QUALITY_EPIC :=
      parseItemPriceConfig A "AuctionHouseBot.Price.Epic" m_itemPrice.ITEM_QUALITY_EPIC
    ITEM_QUALITY_LEGENDARY :=
      parseItemPriceConfig A "AuctionHouseBot.Price.Legendary" m_itemPrice.ITEM_QUALITY_LEGENDARY
    ITEM_QUALITY_ARTIFACT :=
      parseItemPriceConfig A "AuctionHouseBot.Price.Artifact" m_itemPrice.ITEM_QUALITY_ARTIFACT }

/-- The part of `Initialize` from the price variance to the buy check chance. -/
def Initialize.limits (A : AuctionEnv) (bot : AuctionHouseBot) : AuctionHouseBot :=
  let m_itemPriceVariance := setMinMaxConfig A "AuctionHouseBot.Price.Variance" 0 100 10
  let m_auctionBidMin := setMinMaxConfig A "AuctionHouseBot.Bid.Min" 0 100 60
  let m_auctionBidMax := setMinMaxConfig A "AuctionHouseBot.Bid.Max" 0 100 90
  let m_auctionBidMin :=
    if m_auctionBidMin > m_auctionBidMax then m_auctionBidMax else m_auctionBidMin
  let m_auctionTimeMin := setMinMaxConfig A "AuctionHouseBot.Time.Min" 1 72 2
  let m_auctionTimeMax := setMinMaxConfig A "AuctionHouseBot.Time.Max" 1 72 24
  let m_auctionTimeMin :=
    if m_auctionTimeMin > m_auctionTimeMax then m_auctionTimeMax else m_auctionTimeMin
  let m_vendorMultiplier := setMinMaxConfig A "AuctionHouseBot.Vendor.Multiplier" 0 8 4
  let m_buyCheckChance := setMinMaxConfig A "AuctionHouseBot.Buy.Check" 0 100 20
  { bot with
    m_itemPriceVariance := m_itemPriceVariance
    m_auctionBidMin := m_auctionBidMin
    m_auctionBidMax := m_auctionBidMax
    m_auctionTimeMin := m_auctionTimeMin
    m_auctionTimeMax := m_auctionTimeMax
    m_vendorMultiplier := m_vendorMultiplier
    m_buyCheckChance := m_buyCheckChance }

/-- The function `Initialize`. -/
def Initialize (A : AuctionEnv) (bot : AuctionHouseBot) : AuctionHouseBot :=
  if !A.m_ahBotCfg.SetSource bot.m_configFileName then bot
  else if A.m_ahBotCfg.GetBoolDefault "AuctionHouseBot.Sell.Enabled" false then
    let bot := Initialize.loot A bot
    let bot := { bot with m_itemPrice := Initialize.prices A bot.m_itemPrice }
    let bot := Initialize.limits A bot
    let tmpVector := fillUintVectorFromQuery A "SELECT DISTINCT item FROM npc_vendor"
    { bot with m_vendorItems := fun item => bot.m_vendorItems item || decide (item ∈ tmpVector) }
  else bot

/-- The function `ReloadAllConfig`. -/
def ReloadAllConfig (A : AuctionEnv) (bot : AuctionHouseBot) : Bool × AuctionHouseBot :=
  (true, Initialize A bot)

/-- The loop `for (repeat = urand(...); repeat > 0; --repeat)` of `addLootToItemMap`
with `fuel` rounds left, the next roll being number `n`. -/
def addLootToItemMap.process (store : LootStore) (lootTable : LootTemplate) :
    Nat → Nat → List LootItem → List LootItem
  | 0, _, loot => loot
  | fuel + 1, n, loot =>
    addLootToItemMap.process store lootTable fuel (n + 1)
      (lootTable.Process n loot store.IsRatesAllowed)

/-- The statement `itemMap[lootItem->itemId] += lootItem->count`. -/
def addLootToItemMap.add (itemMap : Nat → Nat) (lootItem : LootItem) : Nat → Nat :=
  fun itemId =>
    if itemId = lootItem.itemId then (itemMap itemId + lootItem.count) % 2 ^ 32
    else itemMap itemId

/-- The loop over `templateCounter` of `addLootToItemMap` with `fuel` rounds left,
after `n` random numbers have been drawn. -/
def addLootToItemMap.templates (A : AuctionEnv) (store : LootStore) (c2 c3 : Int)
    (lootTemplates : List Nat) : Nat → Nat → (Nat → Nat) → Except Fault ((Nat → Nat) × Nat)
  | 0, n, itemMap => Except.ok (itemMap, n)
  | fuel + 1, n, itemMap =>
    let lootTemplate := A.urand n 0 (lootTemplates.length % 2 ^ 32)
    match lootTemplates[lootTemplate]? with
    | none => Except.error (Fault.lootTemplates lootTemplate lootTemplates.length)
    | some entry =>
      match store.GetLootFor entry with
      | none => addLootToItemMap.templates A store c2 c3 lootTemplates fuel (n + 1) itemMap
      | some lootTable =>
        let rounds := A.urand (n + 1) (toUInt32 c2) (toUInt32 c3)
        let loot := addLootToItemMap.process store lootTable rounds (n + 2) []
        addLootToItemMap.templates A store c2 c3 lootTemplates fuel (n + 2 + rounds)
          (loot.foldl addLootToItemMap.add itemMap)

/-- The local `maxTemplates` of `addLootToItemMap`, for the first two entries of
the loot configuration, drawn as random number `n`. -/
def addLootToItemMap.maxTemplates (A : AuctionEnv) (c0 c1 : Int) (n : Nat) : Int :=
  if c0 < 0 then
    toInt32 (((A.urand n 0 (toUInt32 (toInt32 (toInt32 (c1 + 1) - c0))) + toUInt32 c0) % 2 ^ 32 : Nat) : Int)
  else
    toInt32 (A.urand n (toUInt32 c0) (toUInt32 (toInt32 (c1 + 1))))

/-- The function `addLootToItemMap`, after `n` random numbers have been drawn: the
new item map and the number of random numbers drawn, or the first read outside the
bounds of a vector. -/
def addLootToItemMap (A : AuctionEnv) (store : LootStore) (lootConfig : List Int)
    (lootTemplates : List Nat) (itemMap : Nat → Nat) (n : Nat) :
    Except Fault ((Nat → Nat) × Nat) :=
  match lootConfig[1]? with
  | none => Except.error (Fault.lootConfig 1 lootConfig.length)
  | some c1 =>
    if c1 ≤ 0 then Except.ok (itemMap, n)
    else
      match lootConfig[3]? with
      | none => Except.error (Fault.lootConfig 3 lootConfig.length)
      | some c3 =>
        if c3 ≤ 0 then Except.ok (itemMap, n)
        else
          let c0 := lootConfig.getD 0 0
          let c2 := lootConfig.getD 2 0
          let maxTemplates := addLootToItemMap.maxTemplates A c0 c1 n
          if maxTemplates ≤ 0 then Except.ok (itemMap, n + 1)
          else
            addLootToItemMap.templates A store c2 c3 lootTemplates maxTemplates.toNat (n + 1)
              itemMap

/-- The function `Update`, as far as the members of the bot go: `m_houseAction` is
advanced and selects the house and the branch. The bodies of the two branches, which
create auctions and place bids through the auction manager and the item store (not
in src), write no member of the bot. -/
def Update (bot : AuctionHouseBot) : AuctionHouseBot × Action :=
  let m_houseAction := toInt32 (bot.m_houseAction + 1)
  let m_houseAction :=
    if m_houseAction ≥ MAX_AUCTION_HOUSE_TYPE * 2 then 0 else m_houseAction
  ({ bot with m_houseAction := m_houseAction },
   { m_houseAction := m_houseAction
     houseType := Int.tmod m_houseAction MAX_AUCTION_HOUSE_TYPE
     selling := decide (m_houseAction < MAX_AUCTION_HOUSE_TYPE) })

/-- The local `updateCounter` of `Rebuild`, in `uint32` arithmetic. -/
def Rebuild.updateCounter (bot : AuctionHouseBot) : Nat :=
  ((((bot.m_auctionTimeMax + 2 ^ 32 - bot.m_auctionTimeMin) % 2 ^ 32) / 4
    + bot.m_auctionTimeMin) % 2 ^ 32 * 90) % 2 ^ 32

/-- The refill loop of `Rebuild` with `fuel` rounds left: the bot afterwards and
what the calls of `Update` did. -/
def Rebuild.loop : Nat → AuctionHouseBot → AuctionHouseBot × List Action
  | 0, bot => (bot, [])
  | fuel + 1, bot =>
    let bot :=
      if bot.m_houseAction ≥ MAX_AUCTION_HOUSE_TYPE - 1 then { bot with m_houseAction := -1 }
      else bot
    let r := Update bot
    let rest := Rebuild.loop fuel r.1
    (rest.1, r.2 :: rest.2)

/-- The function `Rebuild`, as far as the members of the bot go (the first loop
expires auctions in the auction manager, which is not in src): the bot afterwards
and what the calls of `Update` did. -/
def Rebuild (bot : AuctionHouseBot) (_all : Bool) : AuctionHouseBot × List Action :=
  Rebuild.loop (Rebuild.updateCounter bot) bot

end AuctionHouseBot

namespace Scenario

/-- A decimal digit. -/
def digit (c : Char) : Option Nat :=
  if c.isDigit then some (c.toNat - 48) else none

/-- The number a string of decimal digits stands for, read up to the first
character that is no digit. -/
def digits : List Char → Nat → Nat
  | [], acc => acc
  | c :: cs, acc =>
    match digit c with
    | some d => digits cs (10 * acc + d)
    | none => acc

/-- A plain `atoi`: an optional minus sign and decimal digits. -/
def atoi (s : String) : Int :=
  match s.toList with
  | '-' :: cs => -(digits cs 0 : Nat)
  | cs => (digits cs 0 : Nat)

/-- A configuration file that can be opened, enables selling and buying, has the
loot configuration `loot` for every loot field and leaves the numbers at their
defaults; random numbers are the lower bound of their range, and the database has
no loot templates. -/
def auctionEnv (loot : String) : AuctionEnv where
  m_ahBotCfg :=
    { SetSource := fun _ => true
      GetBoolDefault := fun _ _ => true
      GetStringDefault := fun _ => loot
      GetIntDefault := fun _ d => d }
  atoi := atoi
  urand := fun _ lo _ => lo
  PQuery := fun _ => none

/-- A bot as constructed: the house action is -1, nothing read yet. -/
def ahbot : AuctionHouseBot where
  m_configFileName := "ahbot.conf"
  m_houseAction := -1
  m_creatureLootNormalConfig := []
  m_creatureLootEliteConfig := []
  m_creatureLootRareEliteConfig := []
  m_creatureLootWorldBossConfig := []
  m_creatureLootRareConfig := []
  m_disenchantLootConfig := []
  m_fishingLootConfig := []
  m_gameobjectLootConfig := []
  m_skinningLootConfig := []
  m_creatureLootNormalTemplates := []
  m_creatureLootEliteTemplates := []
  m_creatureLootRareEliteTemplates := []
  m_creatureLootWorldBossTemplates := []
  m_creatureLootRareTemplates := []
  m_disenchantLootTemplates := []
  m_fishingLootTemplates := []
  m_gameobjectLootTemplates := []
  m_skinningLootTemplates := []
  m_itemPrice := ⟨[], [], [], [], [], [], []⟩
  m_itemPriceVariance := 0
  m_auctionBidMin := 0
  m_auctionBidMax := 0
  m_auctionTimeMin := 0
  m_auctionTimeMax := 0
  m_vendorMultiplier := 0
  m_buyCheckChance := 0
  m_vendorItems := fun _ => false

/-- A loot store without loot tables. -/
def emptyStore : LootStore := ⟨fun _ => none, true⟩

end Scenario

/-! ## Theorems -/

section Theorems
set_option linter.unusedSectionVars false
variable {F : Type} [LinearOrderedField F]

/-- C1: for every Chase or Follow generator state and every elapsed time, if the
target reference is invalid or the target is not in the world, `Update` returns
false and leaves the generator and the world (owner, trace of path computations and
launches) as they were. -/
theorem Update_ends_without_target [FloorRing F] (E : Env F) (gc : ChaseMovementGenerator F)
    (gf : FollowMovementGenerator F) (w : World F) (time_diff : Nat)
    (h : w.target = none ∨ ∃ t, w.target = some t ∧ t.IsInWorld = false) :
    ChaseMovementGenerator.Update E gc w time_diff = (false, gc, w)
    ∧ FollowMovementGenerator.Update E gf w time_diff = (false, gf, w)
    ∧ World.newEvents w (ChaseMovementGenerator.Update E gc w time_diff).2.2 = []
    ∧ World.newEvents w (FollowMovementGenerator.Update E gf w time_diff).2.2 = [] := by
  have hc : ChaseMovementGenerator.Update E gc w time_diff = (false, gc, w) := by
    unfold ChaseMovementGenerator.Update TargetedMovementGeneratorMedium.Update
    rcases h with h | ⟨t, h, ht⟩
    · simp [h]
    · simp [h, ht]
  have hf : FollowMovementGenerator.Update E gf w time_diff = (false, gf, w) := by
    unfold FollowMovementGenerator.Update TargetedMovementGeneratorMedium.Update
    rcases h with h | ⟨t, h, ht⟩
    · simp [h]
    · simp [h, ht]
  refine ⟨hc, hf, ?_, ?_⟩
  · rw [hc]; simp [World.newEvents]
  · rw [hf]; simp [World.newEvents]

/-- Witness of C1: the player has logged out and the reference is invalid. -/
theorem Update_ends_without_target_witness :
    ChaseMovementGenerator.Update (Scenario.env Scenario.NORMAL []) (Scenario.chase true)
        (Scenario.world Scenario.creature none) 100
      = (false, Scenario.chase true, Scenario.world Scenario.creature none)
    ∧ FollowMovementGenerator.Update (Scenario.env Scenario.NORMAL []) Scenario.follow
        (Scenario.world Scenario.creature none) 100
      = (false, Scenario.follow, Scenario.world Scenario.creature none) :=
  ⟨(Update_ends_without_target (Scenario.env Scenario.NORMAL []) (Scenario.chase true)
      Scenario.follow (Scenario.world Scenario.creature none) 100 (Or.inl rfl)).1,
   (Update_ends_without_target (Scenario.env Scenario.NORMAL []) (Scenario.chase true)
      Scenario.follow (Scenario.world Scenario.creature none) 100 (Or.inl rfl)).2.1⟩

/-- C6: for every owner that is in combat, `IsBoostAllowed` returns false and
`GetSpeed` returns the owner's own speed for the target's current speed type,
whatever the generator, the collaborators and the target are. -/
theorem Follow_no_boost_in_combat [FloorRing F] (E : Env F) (g : FollowMovementGenerator F)
    (owner : Unit F) (i_target : Option (Unit F)) (t : Unit F) (h : owner.isInCombat = true) :
    FollowMovementGenerator.IsBoostAllowed E g owner i_target = false
    ∧ FollowMovementGenerator.GetSpeed E g owner t
      = owner.GetSpeed t.m_movementInfo.GetSpeedType := by
  simp [FollowMovementGenerator.IsBoostAllowed, FollowMovementGenerator.GetSpeed, h]

/-- Witness of C6: a pet in combat that follows its master, a player. -/
theorem Follow_no_boost_in_combat_witness :
    ({ Scenario.creature with isInCombat := true, GetMasterGuid := 2 } : Unit ℚ).isInCombat = true
    ∧ FollowMovementGenerator.IsBoostAllowed (Scenario.env Scenario.NORMAL []) Scenario.follow
        { Scenario.creature with isInCombat := true, GetMasterGuid := 2 } (some Scenario.player)
      = false
    ∧ FollowMovementGenerator.GetSpeed (Scenario.env Scenario.NORMAL []) Scenario.follow
        { Scenario.creature with isInCombat := true, GetMasterGuid := 2 } Scenario.player
      = 7 :=
  ⟨rfl, Follow_no_boost_in_combat (Scenario.env Scenario.NORMAL []) Scenario.follow
    { Scenario.creature with isInCombat := true, GetMasterGuid := 2 } (some Scenario.player)
    Scenario.player rfl⟩

/-- C7: for every call of `Move` in which the path finder reports NOPATH and
`IsUnstuckAllowed(owner)` is false (both at the point where `Move` asks, after the
relocation of an owner in flight), `Move` returns false, launches no spline and
leaves the unit state of the owner, `UNIT_STAT_FOLLOW_MOVE` included, as it was. -/
theorem Move_fails_without_path [FloorRing F] (E : Env F) (g : FollowMovementGenerator F)
    (w : World F) (t : Unit F) (dest : Vector3 F)
    (hno : (E.calculate (FollowMovementGenerator.Move.relocate E w).owner.position dest
      none).getPathType.NOPATH = true)
    (hun : FollowMovementGenerator.IsUnstuckAllowed E g
      (FollowMovementGenerator.Move.relocate E w).owner (some t) = false) :
    (FollowMovementGenerator.Move E g w t dest).1 = false
    ∧ (∀ path walk facing velocity, Event.Launch path walk facing velocity
        ∉ World.newEvents w (FollowMovementGenerator.Move E g w t dest).2.2)
    ∧ (FollowMovementGenerator.Move E g w t dest).2.2.owner.unitState = w.owner.unitState := by
  have hm : FollowMovementGenerator.Move E g w t dest
      = (false, { g with i_path := some (E.calculate
          (FollowMovementGenerator.Move.relocate E w).owner.position dest none) },
        (FollowMovementGenerator.Move.relocate E w).emit (Event.calculate dest none)) := by
    unfold FollowMovementGenerator.Move
    simp [hno, hun, World.emit]
  rw [hm]
  refine ⟨rfl, ?_, ?_⟩
  · intro path walk facing velocity
    unfold FollowMovementGenerator.Move.relocate World.newEvents World.emit
    by_cases hf : w.owner.movespline.Finalized = true <;> simp [hf]
  · unfold FollowMovementGenerator.Move.relocate World.emit
    by_cases hf : w.owner.movespline.Finalized = true <;> simp [hf]

/-- Witness of C7: a follower in combat whose path finder finds no path. -/
theorem Move_fails_without_path_witness :
    (FollowMovementGenerator.Move (Scenario.env Scenario.NOPATH []) Scenario.follow
      (Scenario.world { Scenario.creature with isInCombat := true } (some Scenario.player))
      Scenario.player ⟨9, 0, 0⟩).1 = false
    ∧ (∀ path walk facing velocity, Event.Launch path walk facing velocity
        ∉ World.newEvents
          (Scenario.world { Scenario.creature with isInCombat := true } (some Scenario.player))
          (FollowMovementGenerator.Move (Scenario.env Scenario.NOPATH []) Scenario.follow
            (Scenario.world { Scenario.creature with isInCombat := true } (some Scenario.player))
            Scenario.player ⟨9, 0, 0⟩).2.2)
    ∧ (FollowMovementGenerator.Move (Scenario.env Scenario.NOPATH []) Scenario.follow
        (Scenario.world { Scenario.creature with isInCombat := true } (some Scenario.player))
        Scenario.player ⟨9, 0, 0⟩).2.2.owner.unitState
      = (Scenario.world { Scenario.creature with isInCombat := true }
          (some Scenario.player)).owner.unitState :=
  Move_fails_without_path (Scenario.env Scenario.NOPATH []) Scenario.follow
    (Scenario.world { Scenario.creature with isInCombat := true } (some Scenario.player))
    Scenario.player ⟨9, 0, 0⟩ rfl rfl

/-! ### Dispatch -/

/-- A dispatch whose path is classified NOPATH returns false; it records the path
computation and nothing else. -/
theorem DispatchSplineToPosition_nopath (E : Env F) (g : ChaseMovementGenerator F) (w : World F)
    (t : Unit F) (dest : Vector3 F) (walk cutPath target : Bool)
    (hno : (E.calculate w.owner.position dest (some false)).getPathType.NOPATH = true) :
    ChaseMovementGenerator.DispatchSplineToPosition E g w t dest walk cutPath target
      = (false, { g with i_path := some (E.calculate w.owner.position dest (some false)) },
         w.emit (Event.calculate dest (some false))) := by
  unfold ChaseMovementGenerator.DispatchSplineToPosition
  simp [hno, World.emit]

/-- The path a dispatch hands to the spline: the path of the path finder, cut
when asked for. -/
theorem DispatchSplineToPosition_path (E : Env F) (g : ChaseMovementGenerator F) (w : World F)
    (t : Unit F) (dest : Vector3 F) (walk cutPath target : Bool)
    (hno : (E.calculate w.owner.position dest (some false)).getPathType.NOPATH = false) :
    ChaseMovementGenerator.DispatchSplineToPosition E g w t dest walk cutPath target
      = (true,
          { g with
            i_path := some { E.calculate w.owner.position dest (some false) with
              getPath := if cutPath then ChaseMovementGenerator.CutPath E g w.owner t
                  (E.calculate w.owner.position dest (some false)).getPath
                else (E.calculate w.owner.position dest (some false)).getPath }
            i_lastTargetPos := t.position
            m_reachable := true },
          MoveSplineInit.Launch (ChaseMovementGenerator._addUnitStateMove
            (w.emit (Event.calculate dest (some false))))
            (if cutPath then ChaseMovementGenerator.CutPath E g w.owner t
                (E.calculate w.owner.position dest (some false)).getPath
              else (E.calculate w.owner.position dest (some false)).getPath) walk target none) := by
  unfold ChaseMovementGenerator.DispatchSplineToPosition
  simp [hno, World.emit]

/-! ### Mode writes within a tick -/

/-- The new events of a state whose trace extends the old one. -/
theorem newEvents_of_append (w1 w2 : World F) (es : List (Event F))
    (h : w2.trace = w1.trace ++ es) : World.newEvents w1 w2 = es := by
  simp [World.newEvents, h]

/-- Nothing done is quiet. -/
theorem Quiet.refl (g : ChaseMovementGenerator F) (w : World F) : Quiet g w g w :=
  ⟨[], by simp, by simp, rfl, rfl, rfl⟩

/-- Quiet parts compose. -/
theorem Quiet.trans {g g1 g2 : ChaseMovementGenerator F} {w w1 w2 : World F}
    (h1 : Quiet g w g1 w1) (h2 : Quiet g1 w1 g2 w2) : Quiet g w g2 w2 := by
  obtain ⟨es1, ht1, hf1, hm1, hg1, hk1⟩ := h1
  obtain ⟨es2, ht2, hf2, hm2, hg2, hk2⟩ := h2
  refine ⟨es1 ++ es2, by simp [ht2, ht1], by simp [hf1, hf2], ?_, by rw [hg2, hg1],
    by rw [hk2, hk1]⟩
  simp only [modeWrites, List.filterMap_append] at *
  simp [hm1, hm2]

/-- A quiet part followed by an entry into a mode is an entry into that mode. -/
theorem Quiet.entered {m : ChaseModes} {g g1 g2 : ChaseMovementGenerator F} {w w1 w2 : World F}
    (h1 : Quiet g w g1 w1) (h2 : Entered m g1 w1 g2 w2) : Entered m g w g2 w2 := by
  obtain ⟨es1, ht1, hf1, hm1, _, hk1⟩ := h1
  obtain ⟨es2, ht2, hf2, hm2, hg2, hr2, hs2, hk2, hfan⟩ := h2
  refine ⟨es1 ++ es2, by simp [ht2, ht1], by simp [hf1, hf2], ?_, hg2, hr2, hs2,
    by rw [hk2, hk1], fun h => by rw [← hk1]; exact hfan h⟩
  simp only [modeWrites, List.filterMap_append] at *
  simp [hm1, hm2]

/-- A quiet part followed by a mode step is a mode step. -/
theorem Quiet.modeStep {g g1 : ChaseMovementGenerator F} {w w1 : World F}
    {r : ChaseMovementGenerator F × World F}
    (h1 : Quiet g w g1 w1) (h2 : ModeStep g1 w1 r) : ModeStep g w r := by
  rcases h2 with h2 | h2 | h2
  · exact Or.inl (h1.trans h2)
  · exact Or.inr (Or.inl (h1.entered h2))
  · exact Or.inr (Or.inr (h1.entered h2))

/-- An event that is neither a mode write nor the entry into the arrival handler
is quiet. -/
theorem Quiet.emit (g : ChaseMovementGenerator F) (w : World F) (e : Event F)
    (h1 : e ≠ Event.enter Callee.HandleFinalizedMovement) (h2 : Event.modeWritten e = none) :
    Quiet g w g (w.emit e) := by
  refine ⟨[e], by simp [World.emit], ?_, by simp [modeWrites, h2], rfl, rfl⟩
  simp only [List.mem_singleton]
  exact fun h => h1 h.symm

/-- A quiet part stays quiet when the generator is changed in fields other than
the mode and the fanning switch. -/
theorem Quiet.gen {g g1 g2 : ChaseMovementGenerator F} {w w1 : World F}
    (h : Quiet g w g1 w1) (hm : Kept g1 g2) : Quiet g w g2 w1 := by
  obtain ⟨es, ht, hf, hw, hg, hk⟩ := h
  exact ⟨es, ht, hf, hw, by rw [hm.1, hg], by rw [hm.2, hk]⟩

/-- A change of the generator that keeps the mode and the fanning switch is quiet. -/
theorem Quiet.of_kept (g g1 : ChaseMovementGenerator F) (w : World F)
    (h : Kept g g1) : Quiet g w g1 w :=
  ⟨[], by simp, by simp, rfl, h⟩

/-- Drawing random numbers is quiet. -/
theorem Quiet.drawn (g : ChaseMovementGenerator F) (w : World F) (n : Nat) :
    Quiet g w g (w.drawn n) :=
  ⟨[], by simp [World.drawn], by simp, rfl, rfl, rfl⟩

/-- A hard stop is quiet. -/
theorem Quiet.StopMoving (g : ChaseMovementGenerator F) (w : World F) (forceSendStop : Bool) :
    Quiet g w g (w.StopMoving forceSendStop) :=
  ⟨[Event.StopMoving forceSendStop], rfl, by simp, by simp [modeWrites, Event.modeWritten],
    rfl, rfl⟩

/-- A soft interrupt is quiet. -/
theorem Quiet.InterruptMoving (g : ChaseMovementGenerator F) (w : World F) :
    Quiet g w g w.InterruptMoving :=
  ⟨[Event.InterruptMoving], rfl, by simp, by simp [modeWrites, Event.modeWritten], rfl, rfl⟩

/-- A dispatch is quiet; when it succeeds the spline is in flight. -/
theorem DispatchSplineToPosition_quiet (E : Env F) (g : ChaseMovementGenerator F) (w : World F)
    (t : Unit F) (dest : Vector3 F) (walk cutPath target : Bool) :
    Quiet g w (ChaseMovementGenerator.DispatchSplineToPosition E g w t dest walk cutPath target).2.1
      (ChaseMovementGenerator.DispatchSplineToPosition E g w t dest walk cutPath target).2.2
    ∧ ((ChaseMovementGenerator.DispatchSplineToPosition E g w t dest walk cutPath target).1 = true →
      (ChaseMovementGenerator.DispatchSplineToPosition E g w t dest walk cutPath
        target).2.2.owner.movespline.Finalized = false) := by
  rcases Bool.eq_false_or_eq_true (E.calculate w.owner.position dest (some false)).getPathType.NOPATH
    with hno | hno
  · rw [DispatchSplineToPosition_nopath E g w t dest walk cutPath target hno]
    exact ⟨⟨[Event.calculate dest (some false)], by simp [World.emit], by simp,
      by simp [modeWrites, Event.modeWritten], rfl, rfl⟩, by simp⟩
  · rw [DispatchSplineToPosition_path E g w t dest walk cutPath target hno]
    refine ⟨?_, ?_⟩
    · simp only [MoveSplineInit.Launch, World.emit, World.setSpline,
        ChaseMovementGenerator._addUnitStateMove, World.setUnitState]
      exact ⟨_, List.append_assoc _ _ _, by simp, by simp [modeWrites, Event.modeWritten],
        rfl, rfl⟩
    · simp [MoveSplineInit.Launch, World.emit, World.setSpline]

/-- A dispatch after a quiet part is a quiet part. -/
theorem Quiet.dispatch {g0 g : ChaseMovementGenerator F} {w0 w : World F} (h : Quiet g0 w0 g w)
    (E : Env F) (t : Unit F) (dest : Vector3 F) (walk cutPath target : Bool) :
    Quiet g0 w0
      (ChaseMovementGenerator.DispatchSplineToPosition E g w t dest walk cutPath target).2.1
      (ChaseMovementGenerator.DispatchSplineToPosition E g w t dest walk cutPath target).2.2 :=
  h.trans (DispatchSplineToPosition_quiet E g w t dest walk cutPath target).1

/-- A successful dispatch followed by the write of the mode `m`, with
`i_targetReached` cleared, is an entry into `m`. -/
theorem Entered.of_dispatch (E : Env F) (g : ChaseMovementGenerator F) (w : World F) (t : Unit F)
    (dest : Vector3 F) (walk cutPath target : Bool) (m : ChaseModes)
    (g1 : ChaseMovementGenerator F)
    (hr : (ChaseMovementGenerator.DispatchSplineToPosition E g w t dest walk cutPath target).1 = true)
    (hm : g1.m_currentMode = m) (hreach : g1.i_targetReached = false)
    (hk : g1.m_fanningEnabled = (ChaseMovementGenerator.DispatchSplineToPosition E g w t dest walk
      cutPath target).2.1.m_fanningEnabled)
    (hfan : m = ChaseModes.CHASE_MODE_FANNING → g.m_fanningEnabled = true) :
    Entered m g w g1
      ((ChaseMovementGenerator.DispatchSplineToPosition E g w t dest walk cutPath target).2.2.emit
        (Event.setMode m)) := by
  obtain ⟨⟨es, ht, hf, hw, _, hk1⟩, hfin⟩ :=
    DispatchSplineToPosition_quiet E g w t dest walk cutPath target
  refine ⟨es ++ [Event.setMode m], by simp [World.emit, ht], by simp [hf], ?_, hm, hreach,
    by simpa [World.emit] using hfin hr, by rw [hk, hk1], hfan⟩
  simp only [modeWrites, List.filterMap_append] at *
  simp [hw, Event.modeWritten]

/-- An attempt of `FanOut` enters Fanning when it returns true and is quiet otherwise. -/
theorem FanOut_attempt_modeStep (E : Env F) (g : ChaseMovementGenerator F) (w : World F)
    (t : Unit F) (ori : F) (hen : g.m_fanningEnabled = true) :
    ((ChaseMovementGenerator.FanOut.attempt E g w t ori).1 = true →
      Entered ChaseModes.CHASE_MODE_FANNING g w
        (ChaseMovementGenerator.FanOut.attempt E g w t ori).2.1
        (ChaseMovementGenerator.FanOut.attempt E g w t ori).2.2)
    ∧ ((ChaseMovementGenerator.FanOut.attempt E g w t ori).1 = false →
      Quiet g w (ChaseMovementGenerator.FanOut.attempt E g w t ori).2.1
        (ChaseMovementGenerator.FanOut.attempt E g w t ori).2.2) := by
  unfold ChaseMovementGenerator.FanOut.attempt
  simp only []
  split_ifs with h
  · exact ⟨fun _ => Entered.of_dispatch E g w t _ true false _ _ _ h rfl rfl rfl (fun _ => hen),
      fun hc => by simp at hc⟩
  · exact ⟨fun hc => by simp at hc, fun _ => (DispatchSplineToPosition_quiet E g w t _ _ _ _).1⟩

/-- `FanOut` writes no mode, or Fanning once after a launch. -/
theorem FanOut_quiet_or_fanning (E : Env F) (g : ChaseMovementGenerator F) (w : World F)
    (t : Unit F) :
    Quiet g w (ChaseMovementGenerator.FanOut E g w t).1 (ChaseMovementGenerator.FanOut E g w t).2
    ∨ Entered ChaseModes.CHASE_MODE_FANNING g w (ChaseMovementGenerator.FanOut E g w t).1
      (ChaseMovementGenerator.FanOut E g w t).2 := by
  have he : Quiet g w g (w.emit (Event.enter Callee.FanOut)) :=
    Quiet.emit g w (Event.enter Callee.FanOut) (by simp) rfl
  unfold ChaseMovementGenerator.FanOut
  simp only []
  by_cases hen : g.m_fanningEnabled = true
  · simp only [hen, Bool.not_true, Bool.false_eq_true, if_false]
    split
    · exact Or.inl he
    · generalize E.NormalizeOrientation _ = ori1
      have hd := he.trans (Quiet.drawn g (w.emit (Event.enter Callee.FanOut)) 2)
      have h1 := FanOut_attempt_modeStep E g ((w.emit (Event.enter Callee.FanOut)).drawn 2) t ori1
        hen
      generalize ChaseMovementGenerator.FanOut.attempt E g
        ((w.emit (Event.enter Callee.FanOut)).drawn 2) t ori1 = r1 at h1 ⊢
      by_cases hr : r1.1 = true
      · simp only [hr, if_true]
        exact Or.inr (hd.entered (h1.1 hr))
      · have hr1 : r1.1 = false := by simpa using hr
        simp only [hr1, Bool.false_eq_true, if_false]
        generalize E.NormalizeOrientation _ = ori2
        have hq1 := h1.2 hr1
        have hen1 : r1.2.1.m_fanningEnabled = true := by
          obtain ⟨_, _, _, _, _, hk⟩ := hq1
          rw [hk, hen]
        have hq := (hd.trans hq1).trans (Quiet.drawn r1.2.1 r1.2.2 1)
        have h2 := FanOut_attempt_modeStep E r1.2.1 (r1.2.2.drawn 1) t ori2 hen1
        rcases Bool.eq_false_or_eq_true
          (ChaseMovementGenerator.FanOut.attempt E r1.2.1 (r1.2.2.drawn 1) t ori2).1 with hr2 | hr2
        · exact Or.inr (hq.entered (h2.1 hr2))
        · exact Or.inl (hq.trans (h2.2 hr2))
  · simp only [hen, Bool.not_false, if_true]
    exact Or.inl he

/-- `FanOut` is a mode step. -/
theorem FanOut_modeStep (E : Env F) (g : ChaseMovementGenerator F) (w : World F) (t : Unit F) :
    ModeStep g w (ChaseMovementGenerator.FanOut E g w t) := by
  rcases FanOut_quiet_or_fanning E g w t with h | h
  · exact Or.inl h
  · exact Or.inr (Or.inr h)

/-- `Backpedal` writes no mode, or Backpedal or Fanning once after a launch. -/
theorem Backpedal_modeStep (E : Env F) (g : ChaseMovementGenerator F) (w : World F) (t : Unit F) :
    ModeStep g w (ChaseMovementGenerator.Backpedal E g w t) := by
  have he : Quiet g w
      { g with m_closenessExpired := false
               m_closenessAndFanningTimer := ChaseMovementGenerator.CHASE_CLOSENESS_TIMER }
      (w.emit (Event.enter Callee.Backpedal)) :=
    (Quiet.emit g w (Event.enter Callee.Backpedal) (by simp) rfl).trans
      (Quiet.of_kept _ _ _ ⟨rfl, rfl⟩)
  unfold ChaseMovementGenerator.Backpedal
  simp only []
  generalize w.emit (Event.enter Callee.Backpedal) = w1 at he ⊢
  generalize ({ g with m_closenessExpired := false
                       m_closenessAndFanningTimer := ChaseMovementGenerator.CHASE_CLOSENESS_TIMER } :
    ChaseMovementGenerator F) = g1 at he ⊢
  split_ifs with hclose hr
  · exact Or.inr (Or.inl (he.entered
      (Entered.of_dispatch E g1 w1 t _ true false _ _ _ hr rfl rfl rfl (fun h => by simp at h))))
  · exact Or.inl (he.trans (DispatchSplineToPosition_quiet E _ _ t _ true false _).1)
  · exact he.modeStep (FanOut_modeStep E _ _ t)

/-- The last part of the chase tick writes no mode, or Backpedal or Fanning once
after a launch. -/
theorem HandleTargetedMovement_engaged_modeStep (E : Env F) (g : ChaseMovementGenerator F)
    (w : World F) (t : Unit F) (currentTargetPos dest : Vector3 F) :
    ModeStep g w (ChaseMovementGenerator.HandleTargetedMovement.engaged E g w t currentTargetPos
      dest) := by
  unfold ChaseMovementGenerator.HandleTargetedMovement.engaged
  simp only []
  split_ifs
  all_goals first
    | exact Or.inl (Quiet.refl g w)
    | exact Backpedal_modeStep E g w t
    | exact Or.inl (Quiet.StopMoving g w true)
    | exact Or.inl (Quiet.InterruptMoving g w)

/-- The update of the closeness timer keeps the mode and the fanning switch. -/
theorem HandleTargetedMovement_closeness_kept (g : ChaseMovementGenerator F) (time_diff : Nat) :
    Kept g (ChaseMovementGenerator.HandleTargetedMovement.closeness g time_diff) := by
  unfold ChaseMovementGenerator.HandleTargetedMovement.closeness
  split_ifs <;> exact ⟨rfl, rfl⟩

/-- The re-dispatch of the chase tick is quiet. -/
theorem HandleTargetedMovement_redispatch_quiet (E : Env F) (g : ChaseMovementGenerator F)
    (w : World F) (t : Unit F) (targetMoved : Bool) :
    Quiet g w (ChaseMovementGenerator.HandleTargetedMovement.redispatch E g w t targetMoved).1
      (ChaseMovementGenerator.HandleTargetedMovement.redispatch E g w t targetMoved).2 := by
  unfold ChaseMovementGenerator.HandleTargetedMovement.redispatch
  simp only []
  split_ifs
  · exact Quiet.gen (Quiet.dispatch (Quiet.refl g w) E t _ _ true true) ⟨rfl, rfl⟩
  · exact Quiet.gen (Quiet.dispatch (Quiet.refl g w) E t _ _ true true) ⟨rfl, rfl⟩
  · exact Quiet.gen (Quiet.dispatch (Quiet.refl g w) E t _ _ true true) ⟨rfl, rfl⟩
  · exact Quiet.gen (Quiet.dispatch (Quiet.refl g w) E t _ _ true true) ⟨rfl, rfl⟩

/-- The recheck of the chase tick writes no mode, or Backpedal or Fanning once
after a launch that leaves the spline in flight. -/
theorem HandleTargetedMovement_recheck_modeStep (E : Env F) (g : ChaseMovementGenerator F)
    (w : World F) (t : Unit F) :
    ModeStep g w (ChaseMovementGenerator.HandleTargetedMovement.recheck E g w t) := by
  unfold ChaseMovementGenerator.HandleTargetedMovement.recheck
  simp only []
  split_ifs with hd hs hm hs2 hr
  · exact Or.inl (HandleTargetedMovement_redispatch_quiet E g w t _)
  · exact Quiet.modeStep (Quiet.of_kept g _ w ⟨rfl, rfl⟩)
      (HandleTargetedMovement_engaged_modeStep E _ w t _ _)
  · exact HandleTargetedMovement_engaged_modeStep E g w t _ _
  · exact Or.inl (Quiet.gen (Quiet.dispatch (Quiet.refl g w) E t _ false false true) ⟨rfl, rfl⟩)
  · exact Quiet.modeStep (Quiet.dispatch (Quiet.refl g w) E t _ false false true)
      (HandleTargetedMovement_engaged_modeStep E _ _ t _ _)
  · exact HandleTargetedMovement_engaged_modeStep E g w t _ _

/-- The chase tick writes no mode, or Backpedal or Fanning once after a launch
that leaves the spline in flight. -/
theorem HandleTargetedMovement_modeStep (E : Env F) (g : ChaseMovementGenerator F) (w : World F)
    (t : Unit F) (time_diff : Nat) :
    ModeStep g w (ChaseMovementGenerator.HandleTargetedMovement E g w t time_diff) := by
  unfold ChaseMovementGenerator.HandleTargetedMovement
  simp only []
  have hk := HandleTargetedMovement_closeness_kept
    { g with i_recheckDistance := g.i_recheckDistance.Update time_diff } time_diff
  generalize ChaseMovementGenerator.HandleTargetedMovement.closeness
    { g with i_recheckDistance := g.i_recheckDistance.Update time_diff } time_diff = g1 at hk ⊢
  have hq1 : Quiet g w g1 w := Quiet.of_kept _ _ _ hk
  split_ifs with hp
  · exact Or.inl hq1
  · refine Quiet.modeStep ?_ (HandleTargetedMovement_recheck_modeStep E _ w t)
    exact Quiet.gen hq1 ⟨rfl, rfl⟩

/-- A mode is among the mode writes of a trace exactly when the trace holds the
write. -/
theorem mem_modeWrites (es : List (Event F)) (m : ChaseModes) :
    m ∈ modeWrites es ↔ Event.setMode m ∈ es := by
  unfold modeWrites
  rw [List.mem_filterMap]
  constructor
  · rintro ⟨e, he, hm⟩
    cases e <;> simp [Event.modeWritten] at hm
    subst hm
    exact he
  · intro h
    exact ⟨_, h, rfl⟩

/-- The arrival handler of the chase generator writes the mode once, to Normal. -/
theorem HandleFinalizedMovement_writes (E : Env F) (g : ChaseMovementGenerator F) (w : World F)
    (t : Unit F) :
    ∃ es, (ChaseMovementGenerator.HandleFinalizedMovement E g w t).2.trace = w.trace ++ es
      ∧ modeWrites es = [ChaseModes.CHASE_MODE_NORMAL]
      ∧ (ChaseMovementGenerator.HandleFinalizedMovement E g w t).1.m_currentMode
        = ChaseModes.CHASE_MODE_NORMAL
      ∧ (ChaseMovementGenerator.HandleFinalizedMovement E g w t).1.m_fanningEnabled
        = g.m_fanningEnabled := by
  unfold ChaseMovementGenerator.HandleFinalizedMovement
  simp only []
  split_ifs <;> cases g.m_currentMode <;>
    simp only [World.emit, World.SetInFront, ChaseMovementGenerator._clearUnitStateMove,
      World.setUnitState, List.append_assoc] <;>
    exact ⟨_, rfl, by simp [modeWrites, Event.modeWritten], by trivial⟩

/-- The failure handler of the chase generator writes the mode once, to Normal,
and no arrival is handled. -/
theorem HandleMovementFailure_writes (g : ChaseMovementGenerator F) (w : World F) :
    ∃ es, (ChaseMovementGenerator.HandleMovementFailure g w).2.trace = w.trace ++ es
      ∧ modeWrites es = [ChaseModes.CHASE_MODE_NORMAL]
      ∧ Event.enter Callee.HandleFinalizedMovement ∉ es
      ∧ (ChaseMovementGenerator.HandleMovementFailure g w).1.m_currentMode
        = ChaseModes.CHASE_MODE_NORMAL
      ∧ (ChaseMovementGenerator.HandleMovementFailure g w).1.m_fanningEnabled
        = g.m_fanningEnabled := by
  unfold ChaseMovementGenerator.HandleMovementFailure
  simp only []
  split_ifs <;>
    simp only [World.emit, ChaseMovementGenerator._clearUnitStateMove,
      World.setUnitState, List.append_assoc] <;>
    exact ⟨_, rfl, by simp [modeWrites, Event.modeWritten], by simp, by trivial⟩

/-- The value of the mode changes at most once when one value is written. -/
theorem modeChanges_singleton (m m1 : ChaseModes) : modeChanges m [m1] ≤ 1 := by
  unfold modeChanges
  split_ifs <;> simp [modeChanges]

/-- The mode writes of a chase `Update`: none, or one; the one write is to Normal
when an arrival is handled in the tick, and is to Fanning only with the fanning
switch on; the switch itself is not written. -/
theorem Update_modeWrites (E : Env F) (g : ChaseMovementGenerator F) (w : World F)
    (time_diff : Nat) :
    ∃ es, (ChaseMovementGenerator.Update E g w time_diff).2.2.trace = w.trace ++ es
      ∧ (ChaseMovementGenerator.Update E g w time_diff).2.1.m_fanningEnabled = g.m_fanningEnabled
      ∧ (modeWrites es = []
          ∧ (ChaseMovementGenerator.Update E g w time_diff).2.1.m_currentMode = g.m_currentMode
        ∨ ∃ m, modeWrites es = [m]
          ∧ (ChaseMovementGenerator.Update E g w time_diff).2.1.m_currentMode = m
          ∧ (Event.enter Callee.HandleFinalizedMovement ∈ es → m = ChaseModes.CHASE_MODE_NORMAL)
          ∧ (m = ChaseModes.CHASE_MODE_FANNING → g.m_fanningEnabled = true)) := by
  unfold ChaseMovementGenerator.Update TargetedMovementGeneratorMedium.Update
  split
  · exact ⟨[], by simp, rfl, Or.inl ⟨rfl, rfl⟩⟩
  · rename_i t _
    simp only [ChaseMovementGenerator.derived]
    split_ifs with h1 h2 h3 h4 h5 h6 h7 h8
    · exact ⟨[], by simp, rfl, Or.inl ⟨rfl, rfl⟩⟩
    · exact ⟨[], by simp, rfl, Or.inl ⟨rfl, rfl⟩⟩
    · exact ⟨[Event.StopMoving true], rfl, rfl,
        Or.inl ⟨by simp [modeWrites, Event.modeWritten], rfl⟩⟩
    · exact ⟨[Event.InterruptMoving], rfl, rfl,
        Or.inl ⟨by simp [modeWrites, Event.modeWritten], rfl⟩⟩
    · exact ⟨[], by simp, rfl, Or.inl ⟨rfl, rfl⟩⟩
    · obtain ⟨es, ht, hw, hf, hg, hk⟩ := HandleMovementFailure_writes g w
      exact ⟨es, ht, hk, Or.inr ⟨_, hw, hg, fun h => absurd h hf, fun h => by simp at h⟩⟩
    · obtain ⟨es, ht, hw, hf, hg, hk⟩ := HandleMovementFailure_writes g w
      exact ⟨es, ht, hk, Or.inr ⟨_, hw, hg, fun h => absurd h hf, fun h => by simp at h⟩⟩
    · rcases HandleTargetedMovement_modeStep E g w t time_diff with hq | he | he
      · obtain ⟨es, ht, hf, hw, hg, hk⟩ := hq
        obtain ⟨es2, ht2, hw2, hg2, hk2⟩ := HandleFinalizedMovement_writes E
          (ChaseMovementGenerator.HandleTargetedMovement E g w t time_diff).1
          (ChaseMovementGenerator.HandleTargetedMovement E g w t time_diff).2 t
        refine ⟨es ++ es2, by simp [ht2, ht], by rw [hk2, hk],
          Or.inr ⟨_, ?_, hg2, fun _ => rfl, fun h => by simp at h⟩⟩
        simp only [modeWrites, List.filterMap_append] at *
        simp [hw, hw2]
      · obtain ⟨es, ht, hf, hw, hg, hr, hs, hk, hfan⟩ := he
        simp [hs] at h8
      · obtain ⟨es, ht, hf, hw, hg, hr, hs, hk, hfan⟩ := he
        simp [hs] at h8
    · rcases HandleTargetedMovement_modeStep E g w t time_diff with hq | he | he
      · obtain ⟨es, ht, hf, hw, hg, hk⟩ := hq
        exact ⟨es, ht, hk, Or.inl ⟨hw, hg⟩⟩
      · obtain ⟨es, ht, hf, hw, hg, hr, hs, hk, hfan⟩ := he
        exact ⟨es, ht, hk, Or.inr ⟨_, hw, hg, fun h => absurd h hf, hfan⟩⟩
      · obtain ⟨es, ht, hf, hw, hg, hr, hs, hk, hfan⟩ := he
        exact ⟨es, ht, hk, Or.inr ⟨_, hw, hg, fun h => absurd h hf, hfan⟩⟩

/-- C10: for every Chase state and every outcome of the external queries, a
single `Update` call changes the value of `m_currentMode` at most once; when it
enters Backpedal or Fanning it does not handle an arrival (which would reset the
mode to Normal) in the same tick; the mode at the end of the call is the last
value written, or the initial one when nothing was written. -/
theorem Update_changes_mode_at_most_once (E : Env F) (g : ChaseMovementGenerator F) (w : World F)
    (time_diff : Nat) :
    modeChanges g.m_currentMode
        (modeWrites (World.newEvents w (ChaseMovementGenerator.Update E g w time_diff).2.2)) ≤ 1
    ∧ ((Event.setMode ChaseModes.CHASE_MODE_BACKPEDAL
          ∈ World.newEvents w (ChaseMovementGenerator.Update E g w time_diff).2.2
        ∨ Event.setMode ChaseModes.CHASE_MODE_FANNING
          ∈ World.newEvents w (ChaseMovementGenerator.Update E g w time_diff).2.2) →
      Event.enter Callee.HandleFinalizedMovement
        ∉ World.newEvents w (ChaseMovementGenerator.Update E g w time_diff).2.2)
    ∧ (g.m_currentMode ::
        modeWrites (World.newEvents w (ChaseMovementGenerator.Update E g w time_diff).2.2)).getLast?
      = some (ChaseMovementGenerator.Update E g w time_diff).2.1.m_currentMode := by
  obtain ⟨es, ht, _, hcase⟩ := Update_modeWrites E g w time_diff
  rw [newEvents_of_append w _ es ht]
  rcases hcase with ⟨hw, hg⟩ | ⟨m, hw, hg, hn, _⟩
  · refine ⟨by simp [hw, modeChanges], ?_, by simp [hw, hg]⟩
    intro h
    rw [← mem_modeWrites, ← mem_modeWrites, hw] at h
    simp at h
  · refine ⟨by rw [hw]; exact modeChanges_singleton _ _, ?_, by simp [hw, hg]⟩
    intro h hfin
    have hm := hn hfin
    rw [← mem_modeWrites, ← mem_modeWrites, hw, hm] at h
    simp at h


/-! ### Fanning and world bosses -/

/-- The function `FanOut` itself does not look at the kind of the target: with
fanning enabled (the owner is an ordinary creature), a call of it for a world-boss
creature as target, with another attacker of the target at the owner's spot,
launches a spline and sets the mode to Fanning. No tick makes this call: `FanOut`
is called from `Backpedal` alone, and `Backpedal` only for a target that is a
player. -/
theorem FanOut_fans_around_world_boss_target :
    Scenario.boss.IsWorldBoss = true ∧ Scenario.boss.GetTypeId = TypeId.TYPEID_UNIT
    ∧ (ChaseMovementGenerator.Initialize (Scenario.env Scenario.NORMAL [Scenario.ally])
        (Scenario.chase true) (Scenario.world Scenario.creature (some Scenario.boss))).1.m_fanningEnabled
      = true
    ∧ (ChaseMovementGenerator.FanOut (Scenario.env Scenario.NORMAL [Scenario.ally])
        (ChaseMovementGenerator.Initialize (Scenario.env Scenario.NORMAL [Scenario.ally])
          (Scenario.chase true) (Scenario.world Scenario.creature (some Scenario.boss))).1
        (ChaseMovementGenerator.Initialize (Scenario.env Scenario.NORMAL [Scenario.ally])
          (Scenario.chase true) (Scenario.world Scenario.creature (some Scenario.boss))).2
        Scenario.boss).1.m_currentMode = ChaseModes.CHASE_MODE_FANNING
    ∧ ((World.newEvents
        (ChaseMovementGenerator.Initialize (Scenario.env Scenario.NORMAL [Scenario.ally])
          (Scenario.chase true) (Scenario.world Scenario.creature (some Scenario.boss))).2
        (ChaseMovementGenerator.FanOut (Scenario.env Scenario.NORMAL [Scenario.ally])
          (ChaseMovementGenerator.Initialize (Scenario.env Scenario.NORMAL [Scenario.ally])
            (Scenario.chase true) (Scenario.world Scenario.creature (some Scenario.boss))).1
          (ChaseMovementGenerator.Initialize (Scenario.env Scenario.NORMAL [Scenario.ally])
            (Scenario.chase true) (Scenario.world Scenario.creature (some Scenario.boss))).2
          Scenario.boss).2).filter Event.isLaunch).length = 1 := by
  refine ⟨rfl, rfl, ?_, ?_, ?_⟩
  · decide
  · decide
  · decide

/-- `_setLocation` does not change what kind of unit the owner is. -/
theorem _setLocation_owner_kind (E : Env F) (g : ChaseMovementGenerator F) (w : World F) :
    (ChaseMovementGenerator._setLocation E g w).2.owner.GetTypeId = w.owner.GetTypeId
    ∧ (ChaseMovementGenerator._setLocation E g w).2.owner.IsWorldBoss = w.owner.IsWorldBoss := by
  unfold ChaseMovementGenerator._setLocation
  split
  · exact ⟨rfl, rfl⟩
  · split_ifs
    · exact ⟨rfl, rfl⟩
    · exact ⟨rfl, rfl⟩
    · split
      · rename_i t _ _ _ _ p _
        simp only []
        rcases Bool.eq_false_or_eq_true
          (E.calculate w.owner.position p (some false)).getPathType.NOPATH with hno | hno
        · rw [DispatchSplineToPosition_nopath E g w t p _ _ _ hno]
          exact ⟨rfl, rfl⟩
        · rw [DispatchSplineToPosition_path E g w t p _ _ _ hno]
          exact ⟨rfl, rfl⟩
      · exact ⟨rfl, rfl⟩

/-- The fanning switch: for every target and every owner that is a world-boss
creature when the generator is initialised, `Initialize` switches fanning off; with
fanning off, and for every result of the collision search, `FanOut` dispatches
nothing and changes nothing, and an `Update` keeps fanning off, does not write the
mode Fanning and does not end in Fanning unless it started there. -/
theorem FanOut_disabled_for_world_boss_owner (E : Env F) (g : ChaseMovementGenerator F)
    (w : World F) (t : Unit F) (ht : w.target = some t) (hw : t.IsInWorld = true)
    (hu : w.owner.GetTypeId = TypeId.TYPEID_UNIT) (hb : w.owner.IsWorldBoss = true) :
    (ChaseMovementGenerator.Initialize E g w).1.m_fanningEnabled = false
    ∧ (∀ (g1 : ChaseMovementGenerator F) (w1 : World F) (t1 : Unit F),
        g1.m_fanningEnabled = false →
        ChaseMovementGenerator.FanOut E g1 w1 t1 = (g1, w1.emit (Event.enter Callee.FanOut)))
    ∧ (∀ (g1 : ChaseMovementGenerator F) (w1 : World F) (time_diff : Nat),
        g1.m_fanningEnabled = false →
        (ChaseMovementGenerator.Update E g1 w1 time_diff).2.1.m_fanningEnabled = false
        ∧ Event.setMode ChaseModes.CHASE_MODE_FANNING
          ∉ World.newEvents w1 (ChaseMovementGenerator.Update E g1 w1 time_diff).2.2
        ∧ (g1.m_currentMode ≠ ChaseModes.CHASE_MODE_FANNING →
          (ChaseMovementGenerator.Update E g1 w1 time_diff).2.1.m_currentMode
            ≠ ChaseModes.CHASE_MODE_FANNING)) := by
  refine ⟨?_, ?_, ?_⟩
  · unfold ChaseMovementGenerator.Initialize
    have hk := _setLocation_owner_kind E g
      (w.setUnitState { w.owner.unitState with CHASE := true })
    simp only [ht, hw, Bool.not_true, Bool.false_eq_true, if_false, hk.1, hk.2]
    simp [World.setUnitState, hu, hb]
  · intro g1 w1 t1 h
    unfold ChaseMovementGenerator.FanOut
    simp [h]
  · intro g1 w1 time_diff h
    obtain ⟨es, htr, hk, hcase⟩ := Update_modeWrites E g1 w1 time_diff
    rw [newEvents_of_append w1 _ es htr]
    refine ⟨by rw [hk, h], ?_, ?_⟩
    · rw [← mem_modeWrites]
      rcases hcase with ⟨hws, _⟩ | ⟨m, hws, _, _, hfan⟩
      · simp [hws]
      · rw [hws]
        simp only [List.mem_singleton]
        intro hm
        have := hfan hm.symm
        rw [h] at this
        exact absurd this (by simp)
    · intro hne
      rcases hcase with ⟨_, hg⟩ | ⟨m, _, hg, _, hfan⟩
      · rw [hg]; exact hne
      · rw [hg]
        intro hm
        have := hfan hm
        rw [h] at this
        exact absurd this (by simp)

/-- An instance of the fanning switch: a world-boss creature chases a player. -/
theorem FanOut_disabled_for_world_boss_owner_witness :
    (Scenario.world Scenario.boss (some Scenario.player)).target = some Scenario.player
    ∧ Scenario.player.IsInWorld = true
    ∧ (Scenario.world Scenario.boss (some Scenario.player)).owner.GetTypeId = TypeId.TYPEID_UNIT
    ∧ (Scenario.world Scenario.boss (some Scenario.player)).owner.IsWorldBoss = true
    ∧ (ChaseMovementGenerator.Initialize (Scenario.env Scenario.NORMAL [Scenario.ally])
        (Scenario.chase true) (Scenario.world Scenario.boss (some Scenario.player))).1.m_fanningEnabled
      = false :=
  ⟨rfl, rfl, rfl, rfl,
    (FanOut_disabled_for_world_boss_owner (Scenario.env Scenario.NORMAL [Scenario.ally])
      (Scenario.chase true) (Scenario.world Scenario.boss (some Scenario.player)) Scenario.player
      rfl rfl rfl rfl).1⟩


/-! ### Dispatch attempts without a path -/

/-- Counterexample to C2 as stated: the path finder finds no path for the initial
`_setLocation` of a fresh generator; a dispatch was attempted (the path
computation, to the point two units in front of the player, is the one event of the
trace), nothing was launched, and `IsReachable()` is true. -/
theorem initial_dispatch_nopath_reports_reachable :
    ((Scenario.env Scenario.NOPATH []).calculate Scenario.creature.position ⟨8, 0, 0⟩
      (some false)).getPathType.NOPATH = true
    ∧ (ChaseMovementGenerator._setLocation (Scenario.env Scenario.NOPATH []) (Scenario.chase true)
        (Scenario.world Scenario.creature (some Scenario.player))).2.trace
      = [Event.calculate ⟨8, 0, 0⟩ (some false)]
    ∧ ChaseMovementGenerator.IsReachable
        (ChaseMovementGenerator._setLocation (Scenario.env Scenario.NOPATH []) (Scenario.chase true)
          (Scenario.world Scenario.creature (some Scenario.player))).1 = true := by
  refine ⟨rfl, ?_, ?_⟩
  · decide!
  · decide

/-- Nothing done is still. -/
theorem Still.unmoved (g : ChaseMovementGenerator F) (w : World F) : Still g w g w :=
  ⟨⟨[], by simp, by simp⟩, rfl, rfl, rfl, rfl⟩

/-- Still parts compose. -/
theorem Still.andThen {g g1 g2 : ChaseMovementGenerator F} {w w1 w2 : World F}
    (h1 : Still g w g1 w1) (h2 : Still g1 w1 g2 w2) : Still g w g2 w2 := by
  obtain ⟨⟨es1, ht1, hl1⟩, ho1, ha1, hb1, hc1⟩ := h1
  obtain ⟨⟨es2, ht2, hl2⟩, ho2, ha2, hb2, hc2⟩ := h2
  refine ⟨⟨es1 ++ es2, by simp [ht2, ht1], ?_⟩, by rw [ho2, ho1], by rw [ha2, ha1],
    by rw [hb2, hb1], by rw [hc2, hc1]⟩
  intro e he
  rcases List.mem_append.mp he with h | h
  · exact hl1 e h
  · exact hl2 e h

/-- An event that is not a launch is still. -/
theorem Still.recorded (g : ChaseMovementGenerator F) (w : World F) (e : Event F)
    (h : Event.isLaunch e = false) : Still g w g (w.emit e) :=
  ⟨⟨[e], rfl, by simpa using h⟩, rfl, rfl, rfl, rfl⟩

/-- Drawing random numbers is still. -/
theorem Still.afterDraw (g : ChaseMovementGenerator F) (w : World F) (n : Nat) :
    Still g w g (w.drawn n) :=
  ⟨⟨[], by simp [World.drawn], by simp⟩, rfl, rfl, rfl, rfl⟩

/-- A still part stays still when the generator is changed in other fields. -/
theorem Still.withFields {g g1 g2 : ChaseMovementGenerator F} {w w1 : World F} (h : Still g w g1 w1)
    (ha : g2.i_targetReached = g1.i_targetReached) (hb : g2.m_reachable = g1.m_reachable)
    (hc : g2.m_currentMode = g1.m_currentMode) : Still g w g2 w1 := by
  obtain ⟨ht, ho, ha1, hb1, hc1⟩ := h
  exact ⟨ht, ho, by rw [ha, ha1], by rw [hb, hb1], by rw [hc, hc1]⟩

/-- Without a path a dispatch fails and is still. -/
theorem DispatchSplineToPosition_still (E : Env F) (g : ChaseMovementGenerator F) (w : World F)
    (t : Unit F) (dest : Vector3 F) (walk cutPath target : Bool)
    (hno : (E.calculate w.owner.position dest (some false)).getPathType.NOPATH = true) :
    (ChaseMovementGenerator.DispatchSplineToPosition E g w t dest walk cutPath target).1 = false
    ∧ Still g w (ChaseMovementGenerator.DispatchSplineToPosition E g w t dest walk cutPath target).2.1
      (ChaseMovementGenerator.DispatchSplineToPosition E g w t dest walk cutPath target).2.2 := by
  rw [DispatchSplineToPosition_nopath E g w t dest walk cutPath target hno]
  exact ⟨rfl, Still.withFields (Still.recorded g w _ rfl) rfl rfl rfl⟩

/-- Without a path an attempt of `FanOut` fails and is still. -/
theorem FanOut_attempt_still (E : Env F) (g : ChaseMovementGenerator F) (w : World F) (t : Unit F)
    (ori : F)
    (hno : ∀ p, (E.calculate w.owner.position p (some false)).getPathType.NOPATH = true) :
    (ChaseMovementGenerator.FanOut.attempt E g w t ori).1 = false
    ∧ Still g w (ChaseMovementGenerator.FanOut.attempt E g w t ori).2.1
      (ChaseMovementGenerator.FanOut.attempt E g w t ori).2.2 := by
  unfold ChaseMovementGenerator.FanOut.attempt
  simp only []
  obtain ⟨hr, hs⟩ := DispatchSplineToPosition_still E g w t
    (E.GetNearPoint t w.owner.position w.owner.GetObjectBoundingRadius
      (E.GetCombinedCombatReach t false) ori) true false
    ChaseMovementGenerator.DispatchSplineToPosition.targetDefault (hno _)
  simp only [hr, Bool.false_eq_true, if_false]
  exact ⟨by trivial, hs⟩

/-- Without a path `FanOut` launches nothing and leaves the reachability and the
mode as they were. -/
theorem FanOut_still (E : Env F) (g : ChaseMovementGenerator F) (w : World F) (t : Unit F)
    (hno : ∀ p, (E.calculate w.owner.position p (some false)).getPathType.NOPATH = true) :
    Still g w (ChaseMovementGenerator.FanOut E g w t).1 (ChaseMovementGenerator.FanOut E g w t).2 := by
  have he : Still g w g (w.emit (Event.enter Callee.FanOut)) := Still.recorded g w _ rfl
  unfold ChaseMovementGenerator.FanOut
  simp only []
  by_cases hen : g.m_fanningEnabled = true
  · simp only [hen, Bool.not_true, Bool.false_eq_true, if_false]
    split
    · exact he
    · generalize E.NormalizeOrientation _ = ori1
      have hd := he.andThen (Still.afterDraw g (w.emit (Event.enter Callee.FanOut)) 2)
      obtain ⟨hr1, hs1⟩ := FanOut_attempt_still E g
        ((w.emit (Event.enter Callee.FanOut)).drawn 2) t ori1 hno
      generalize ChaseMovementGenerator.FanOut.attempt E g
        ((w.emit (Event.enter Callee.FanOut)).drawn 2) t ori1 = r1 at hr1 hs1 ⊢
      simp only [hr1, Bool.false_eq_true, if_false]
      generalize E.NormalizeOrientation _ = ori2
      have ho : (r1.2.2.drawn 1).owner = w.owner := hs1.2.1
      exact ((hd.andThen hs1).andThen (Still.afterDraw r1.2.1 r1.2.2 1)).andThen
        (FanOut_attempt_still E r1.2.1 (r1.2.2.drawn 1) t ori2 (by rw [ho]; exact hno)).2
  · simp only [hen, Bool.not_false, if_true]
    exact he

/-- Without a path `Backpedal` launches nothing and leaves the reachability and
the mode as they were. -/
theorem Backpedal_still (E : Env F) (g : ChaseMovementGenerator F) (w : World F) (t : Unit F)
    (hno : ∀ p, (E.calculate w.owner.position p (some false)).getPathType.NOPATH = true) :
    Still g w (ChaseMovementGenerator.Backpedal E g w t).1
      (ChaseMovementGenerator.Backpedal E g w t).2 := by
  have he : Still g w
      { g with m_closenessExpired := false
               m_closenessAndFanningTimer := ChaseMovementGenerator.CHASE_CLOSENESS_TIMER }
      (w.emit (Event.enter Callee.Backpedal)) :=
    Still.withFields (Still.recorded g w (Event.enter Callee.Backpedal) rfl) rfl rfl rfl
  have hno1 : ∀ p, (E.calculate (w.emit (Event.enter Callee.Backpedal)).owner.position p
      (some false)).getPathType.NOPATH = true := hno
  unfold ChaseMovementGenerator.Backpedal
  simp only []
  generalize w.emit (Event.enter Callee.Backpedal) = w1 at he hno1 ⊢
  generalize ({ g with m_closenessExpired := false
                       m_closenessAndFanningTimer := ChaseMovementGenerator.CHASE_CLOSENESS_TIMER } :
    ChaseMovementGenerator F) = g1 at he ⊢
  by_cases hclose : GetDistance t.position w1.owner.position
      < (ChaseMovementGenerator.Backpedal.targetDist E t
        * ChaseMovementGenerator.Backpedal.targetDist E t) * 0.33
  · obtain ⟨hr, hs⟩ := DispatchSplineToPosition_still E g1 w1 t
      (ChaseMovementGenerator.Backpedal.destination E w1.owner t) true false
      ChaseMovementGenerator.DispatchSplineToPosition.targetDefault (hno1 _)
    simp only [hclose, if_true, hr, Bool.false_eq_true, if_false]
    exact he.andThen hs
  · simp only [hclose, if_false]
    exact he.andThen (FanOut_still E g1 w1 t hno1)

/-- C2, amended: when the path finder classifies the path of a Chase dispatch
attempt as NOPATH, no spline is launched, and `DispatchSplineToPosition` returns
false without writing the owner's state, `i_targetReached`, the reachable flag or
the mode. Only the per-tick re-dispatch of `HandleTargetedMovement` then clears the
reachable flag, so that `IsReachable()` is false after it exactly when
`i_targetReached` was true. The initial `_setLocation` clears `i_targetReached`, so
`IsReachable()` is true after it; `Backpedal`, `FanOut` and `DistanceYourself` leave
`IsReachable()` as it was. -/
theorem dispatch_attempts_without_path (E : Env F) (g : ChaseMovementGenerator F) (w : World F)
    (t : Unit F)
    (hno : ∀ p, (E.calculate w.owner.position p (some false)).getPathType.NOPATH = true) :
    (∀ dest walk cutPath target,
      (ChaseMovementGenerator.DispatchSplineToPosition E g w t dest walk cutPath target).1 = false
      ∧ Still g w
        (ChaseMovementGenerator.DispatchSplineToPosition E g w t dest walk cutPath target).2.1
        (ChaseMovementGenerator.DispatchSplineToPosition E g w t dest walk cutPath target).2.2)
    ∧ (∀ targetMoved,
      (ChaseMovementGenerator.HandleTargetedMovement.redispatch E g w t targetMoved).1.m_reachable
        = false
      ∧ ChaseMovementGenerator.IsReachable
          (ChaseMovementGenerator.HandleTargetedMovement.redispatch E g w t targetMoved).1
        = !g.i_targetReached
      ∧ ∀ e ∈ World.newEvents w
          (ChaseMovementGenerator.HandleTargetedMovement.redispatch E g w t targetMoved).2,
        Event.isLaunch e = false)
    ∧ ((∀ e ∈ World.newEvents w (ChaseMovementGenerator._setLocation E g w).2,
        Event.isLaunch e = false)
      ∧ (w.target = some t → t.IsInWorld = true →
        ChaseMovementGenerator._hasUnitStateNotMove w.owner = false →
        ChaseMovementGenerator.IsReachable (ChaseMovementGenerator._setLocation E g w).1 = true))
    ∧ Still g w (ChaseMovementGenerator.Backpedal E g w t).1
        (ChaseMovementGenerator.Backpedal E g w t).2
    ∧ Still g w (ChaseMovementGenerator.FanOut E g w t).1 (ChaseMovementGenerator.FanOut E g w t).2
    ∧ (∀ distance, w.target = some t →
      ∃ r, ChaseMovementGenerator.DistanceYourself E g w distance = some r ∧ Still g w r.1 r.2) := by
  refine ⟨fun dest walk cutPath target => DispatchSplineToPosition_still E g w t dest walk cutPath
    target (hno _), ?_, ⟨?_, ?_⟩, Backpedal_still E g w t hno, FanOut_still E g w t hno, ?_⟩
  · intro targetMoved
    unfold ChaseMovementGenerator.HandleTargetedMovement.redispatch
    simp only [DispatchSplineToPosition_nopath, hno, Bool.false_eq_true, if_false,
      ChaseMovementGenerator.IsReachable, Bool.or_false]
    refine ⟨trivial, trivial, ?_⟩
    simp [World.newEvents, World.emit, Event.isLaunch]
  · unfold ChaseMovementGenerator._setLocation
    split
    · simp [World.newEvents]
    · split_ifs
      · simp [World.newEvents]
      · simp [World.newEvents]
      · split
        · simp only [DispatchSplineToPosition_nopath, hno]
          simp [World.newEvents, World.emit, Event.isLaunch]
        · simp [World.newEvents]
  · intro ht hw hm
    unfold ChaseMovementGenerator._setLocation
    simp only [ht, hw, hm, ChaseMovementGenerator._getLocation, Bool.not_true, Bool.false_eq_true,
      if_false]
    simp [ChaseMovementGenerator.IsReachable]
  · intro distance ht
    unfold ChaseMovementGenerator.DistanceYourself
    simp only [ht]
    obtain ⟨hr, hs⟩ := DispatchSplineToPosition_still E g w t
      (E.GetNearPoint t w.owner.position w.owner.GetObjectBoundingRadius distance
        (E.GetAngle t.position w.owner.position)) false false
      ChaseMovementGenerator.DispatchSplineToPosition.targetDefault (hno _)
    simp only [hr, Bool.false_eq_true, if_false]
    exact ⟨_, rfl, hs⟩

/-- Witness of C2, amended: the creature had reached the player, who then moved on
to where no path leads; the re-dispatch fails and `IsReachable()` is false. -/
theorem dispatch_attempts_without_path_witness :
    (∀ p, ((Scenario.env Scenario.NOPATH []).calculate
      (Scenario.world Scenario.creature (some Scenario.player)).owner.position p
      (some false)).getPathType.NOPATH = true)
    ∧ ChaseMovementGenerator.IsReachable
        (ChaseMovementGenerator.HandleTargetedMovement.redispatch (Scenario.env Scenario.NOPATH [])
          { Scenario.chase true with i_targetReached := true }
          (Scenario.world Scenario.creature (some Scenario.player)) Scenario.player true).1
      = false :=
  ⟨fun _ => rfl,
    ((dispatch_attempts_without_path (Scenario.env Scenario.NOPATH [])
      { Scenario.chase true with i_targetReached := true }
      (Scenario.world Scenario.creature (some Scenario.player)) Scenario.player
      (fun _ => rfl)).2.1 true).2.1⟩

/-! ### The closeness timer -/

/-- C3 fails on the code: the tick `chase3` handles an arrival and restarts the
closeness timer at 2000 ms; the next tick, 250 ms later, leaves 1750 ms on the
timer and yet invokes `Backpedal`, because `m_closenessExpired` is still set from
the timer that ran out in `chase2`, before the arrival, in a tick that
re-dispatched instead of backpedalling. -/
theorem closeness_flag_outlives_arrival :
    Event.enter Callee.HandleFinalizedMovement
        ∈ World.newEvents (Scenario.arrive Scenario.chase2.2.2) Scenario.chase3.2.2
    ∧ Scenario.chase3.2.1.m_closenessAndFanningTimer = 2000
    ∧ Scenario.chase3.2.1.m_closenessExpired = true
    ∧ (ChaseMovementGenerator.HandleTargetedMovement.closeness Scenario.chase3.2.1
        250).m_closenessAndFanningTimer = 1750
    ∧ World.newEvents Scenario.chase3.2.2 Scenario.chase4.2.2
      = [Event.enter Callee.Backpedal, Event.enter Callee.FanOut] := by
  refine ⟨?_, ?_, ?_, ?_, ?_⟩
  · decide!
  · decide!
  · decide!
  · decide!
  · decide!

/-! ### The destination of Backpedal -/

/-- Recording an effect leaves the owner as it is. -/
theorem World.emit_owner (w : World F) (e : Event F) : (w.emit e).owner = w.owner := rfl

/-- The projection of a vector on a unit direction is at most its length: in
squares, `(c dx + s dy)² ≤ dx² + dy²` when `c² + s² = 1`. -/
theorem sq_proj_le (c s dx dy : ℝ) (h : c ^ 2 + s ^ 2 = 1) :
    (c * dx + s * dy) ^ 2 ≤ dx ^ 2 + dy ^ 2 := by
  nlinarith [sq_nonneg (c * dy - s * dx)]

/-- C5: with `GetNearPoint` the point at the requested distance from the target
along the requested angle, `M_PI_F` the number π, `NormalizeOrientation` adding whole
turns and a combined combat reach that is not negative: `Backpedal` writes the mode
Backpedal only when the owner passes the "is too close" test, and whenever the
test is passed the destination `(x, y)` it asks a path to lies strictly behind the
owner's facing `o`: `cos(o) * (x - ownerX) + sin(o) * (y - ownerY) < 0`. -/
theorem Backpedal_destination_behind (E : Env ℝ) (g : ChaseMovementGenerator ℝ) (w : World ℝ)
    (t : Unit ℝ) (hpi : E.M_PI_F = Real.pi)
    (hnorm : ∀ a, ∃ k : ℤ, E.NormalizeOrientation a = a + k * (2 * Real.pi))
    (hnear : ∀ d a,
      (E.GetNearPoint t w.owner.position w.owner.GetObjectBoundingRadius d a).x
        = t.position.x + d * Real.cos a
      ∧ (E.GetNearPoint t w.owner.position w.owner.GetObjectBoundingRadius d a).y
        = t.position.y + d * Real.sin a)
    (hreach : 0 ≤ E.GetCombinedCombatReach t false) :
    (Event.setMode ChaseModes.CHASE_MODE_BACKPEDAL
        ∈ World.newEvents w (ChaseMovementGenerator.Backpedal E g w t).2 →
      GetDistance t.position w.owner.position
        < (ChaseMovementGenerator.Backpedal.targetDist E t
          * ChaseMovementGenerator.Backpedal.targetDist E t) * 0.33)
    ∧ (GetDistance t.position w.owner.position
        < (ChaseMovementGenerator.Backpedal.targetDist E t
          * ChaseMovementGenerator.Backpedal.targetDist E t) * 0.33 →
      Event.calculate (ChaseMovementGenerator.Backpedal.destination E w.owner t) (some false)
        ∈ World.newEvents w (ChaseMovementGenerator.Backpedal E g w t).2
      ∧ Real.cos w.owner.GetOrientation
          * ((ChaseMovementGenerator.Backpedal.destination E w.owner t).x - w.owner.position.x)
        + Real.sin w.owner.GetOrientation
          * ((ChaseMovementGenerator.Backpedal.destination E w.owner t).y - w.owner.position.y)
        < 0) := by
  refine ⟨?_, ?_⟩
  · intro hset
    by_contra hclose
    have hB : ChaseMovementGenerator.Backpedal E g w t
        = ChaseMovementGenerator.FanOut E
          { g with m_closenessExpired := false
                   m_closenessAndFanningTimer := ChaseMovementGenerator.CHASE_CLOSENESS_TIMER }
          (w.emit (Event.enter Callee.Backpedal)) t := by
      unfold ChaseMovementGenerator.Backpedal
      simp only [World.emit_owner]
      rw [if_neg hclose]
    rw [hB] at hset
    have hfan : ∀ es : List (Event ℝ),
        (ChaseMovementGenerator.FanOut E
          { g with m_closenessExpired := false
                   m_closenessAndFanningTimer := ChaseMovementGenerator.CHASE_CLOSENESS_TIMER }
          (w.emit (Event.enter Callee.Backpedal)) t).2.trace
          = (w.emit (Event.enter Callee.Backpedal)).trace ++ es →
        ChaseModes.CHASE_MODE_BACKPEDAL ∉ modeWrites es → False := by
      intro es ht hw
      rw [newEvents_of_append w _ (Event.enter Callee.Backpedal :: es)
        (by rw [ht]; simp [World.emit])] at hset
      have h2 : Event.setMode ChaseModes.CHASE_MODE_BACKPEDAL ∈ es := by simpa using hset
      exact hw ((mem_modeWrites _ _).mpr h2)
    rcases FanOut_quiet_or_fanning E
        { g with m_closenessExpired := false
                 m_closenessAndFanningTimer := ChaseMovementGenerator.CHASE_CLOSENESS_TIMER }
        (w.emit (Event.enter Callee.Backpedal)) t with h | h
    · obtain ⟨es, ht, _, hw, _⟩ := h
      exact hfan es ht (by rw [hw]; simp)
    · obtain ⟨es, ht, _, hw, _⟩ := h
      exact hfan es ht (by rw [hw]; simp)
  · intro hclose
    refine ⟨?_, ?_⟩
    · unfold ChaseMovementGenerator.Backpedal
      simp only [World.emit_owner]
      rw [if_pos hclose]
      rcases Bool.eq_false_or_eq_true (E.calculate w.owner.position
          (ChaseMovementGenerator.Backpedal.destination E w.owner t) (some false)).getPathType.NOPATH
        with hno | hno
      · rw [DispatchSplineToPosition_nopath E _ (w.emit (Event.enter Callee.Backpedal)) t _ _ _ _
          hno]
        simp [World.newEvents, World.emit]
      · rw [DispatchSplineToPosition_path E _ (w.emit (Event.enter Callee.Backpedal)) t _ _ _ _
          hno]
        simp [World.newEvents, World.emit, MoveSplineInit.Launch, World.setSpline,
          ChaseMovementGenerator._addUnitStateMove, World.setUnitState]
    · obtain ⟨k, hk⟩ := hnorm (w.owner.GetOrientation + E.M_PI_F)
      have hx := (hnear (ChaseMovementGenerator.Backpedal.targetDist E t * 0.75)
        (E.NormalizeOrientation (w.owner.GetOrientation + E.M_PI_F))).1
      have hy := (hnear (ChaseMovementGenerator.Backpedal.targetDist E t * 0.75)
        (E.NormalizeOrientation (w.owner.GetOrientation + E.M_PI_F))).2
      have hc : Real.cos (E.NormalizeOrientation (w.owner.GetOrientation + E.M_PI_F))
          = -Real.cos w.owner.GetOrientation := by
        rw [hk, Real.cos_add_int_mul_two_pi, hpi, Real.cos_add_pi]
      have hs : Real.sin (E.NormalizeOrientation (w.owner.GetOrientation + E.M_PI_F))
          = -Real.sin w.owner.GetOrientation := by
        rw [hk, Real.sin_add_int_mul_two_pi, hpi, Real.sin_add_pi]
      unfold ChaseMovementGenerator.Backpedal.destination
      rw [hx, hy, hc, hs]
      have hT : 0 ≤ ChaseMovementGenerator.Backpedal.targetDist E t := by
        unfold ChaseMovementGenerator.Backpedal.targetDist
        exact le_min hreach (by norm_num)
      generalize ChaseMovementGenerator.Backpedal.targetDist E t = T at hclose hT ⊢
      generalize w.owner.GetOrientation = o
      unfold GetDistance at hclose
      have hunit : Real.cos o ^ 2 + Real.sin o ^ 2 = 1 := Real.cos_sq_add_sin_sq o
      have hproj := sq_proj_le (Real.cos o) (Real.sin o) (t.position.x - w.owner.position.x)
        (t.position.y - w.owner.position.y) hunit
      by_contra hge
      push_neg at hge
      have hp : T * 0.75 ≤ Real.cos o * (t.position.x - w.owner.position.x)
          + Real.sin o * (t.position.y - w.owner.position.y) := by
        nlinarith [hunit]
      have hsq : (T * 0.75) * (T * 0.75) ≤ (Real.cos o * (t.position.x - w.owner.position.x)
          + Real.sin o * (t.position.y - w.owner.position.y))
          * (Real.cos o * (t.position.x - w.owner.position.x)
          + Real.sin o * (t.position.y - w.owner.position.y)) :=
        mul_self_le_mul_self (by positivity) hp
      nlinarith [sq_nonneg (t.position.z - w.owner.position.z), sq_nonneg T]

/-- Witness of C5: the owner stands at `x = 9` and faces the target at `x = 10`, one
unit away with a combined reach of 3; it is too close, and the destination is
behind it. -/
theorem Backpedal_destination_behind_witness :
    GetDistance Scenario.realPlayer.position
        (Scenario.world (Scenario.realCreature 9) (some Scenario.realPlayer)).owner.position
      < (ChaseMovementGenerator.Backpedal.targetDist (Scenario.realEnv 3) Scenario.realPlayer
          * ChaseMovementGenerator.Backpedal.targetDist (Scenario.realEnv 3) Scenario.realPlayer)
        * 0.33
    ∧ Real.cos
          (Scenario.world (Scenario.realCreature 9) (some Scenario.realPlayer)).owner.GetOrientation
        * ((ChaseMovementGenerator.Backpedal.destination (Scenario.realEnv 3)
            (Scenario.world (Scenario.realCreature 9) (some Scenario.realPlayer)).owner
            Scenario.realPlayer).x
          - (Scenario.world (Scenario.realCreature 9) (some Scenario.realPlayer)).owner.position.x)
      + Real.sin
          (Scenario.world (Scenario.realCreature 9) (some Scenario.realPlayer)).owner.GetOrientation
        * ((ChaseMovementGenerator.Backpedal.destination (Scenario.realEnv 3)
            (Scenario.world (Scenario.realCreature 9) (some Scenario.realPlayer)).owner
            Scenario.realPlayer).y
          - (Scenario.world (Scenario.realCreature 9) (some Scenario.realPlayer)).owner.position.y)
      < 0 := by
  have hclose : GetDistance Scenario.realPlayer.position
        (Scenario.world (Scenario.realCreature 9) (some Scenario.realPlayer)).owner.position
      < (ChaseMovementGenerator.Backpedal.targetDist (Scenario.realEnv 3) Scenario.realPlayer
          * ChaseMovementGenerator.Backpedal.targetDist (Scenario.realEnv 3) Scenario.realPlayer)
        * 0.33 := by
    have hmin : min (3 : ℝ) 3.75 = 3 := min_eq_left (by norm_num)
    simp only [GetDistance, ChaseMovementGenerator.Backpedal.targetDist, Scenario.realEnv,
      Scenario.world, Scenario.unitAt, Scenario.realCreature, Scenario.realPlayer, hmin]
    norm_num
  exact ⟨hclose,
    ((Backpedal_destination_behind (Scenario.realEnv 3) (Scenario.chase true)
      (Scenario.world (Scenario.realCreature 9) (some Scenario.realPlayer))
      Scenario.realPlayer rfl
      (fun a => ⟨-⌊a / (2 * Real.pi)⌋, by
        simp only [Scenario.realEnv]
        push_cast
        ring⟩)
      (fun _ _ => ⟨rfl, rfl⟩)
      (by simp [Scenario.realEnv])).2 hclose).2⟩

/-! ### The standoff distance and the destination of the chase -/

/-- With `moveFurther` off, angle 0 and `GetNearPoint` the point at the requested
distance along the requested angle, a target due east of the owner (the angle
from it to the owner is π) is approached to the point half the combined reach
west of it. -/
theorem _getLocation_due_west (E : Env ℝ) (g : ChaseMovementGenerator ℝ) (owner t : Unit ℝ)
    (hmf : g.m_moveFurther = false) (hang : g.i_angle = 0)
    (hnear : ∀ d a, E.GetNearPoint t owner.position owner.GetObjectBoundingRadius d a
      = ⟨t.position.x + d * Real.cos a, t.position.y + d * Real.sin a, t.position.z⟩)
    (hangle : E.GetAngle t.position owner.position = Real.pi) :
    ChaseMovementGenerator._getLocation E g owner (some t)
      = some ⟨t.position.x - 0.5 * E.GetCombinedCombatReach t true, t.position.y,
          t.position.z⟩ := by
  unfold ChaseMovementGenerator._getLocation ChaseMovementGenerator._getLocation.point
  simp only [hang, decide_True, Bool.true_or, if_true, hnear, hangle,
    ChaseMovementGenerator.GetDynamicTargetDistance, hmf, Bool.false_eq_true, if_false,
    Bool.not_false, ChaseMovementGenerator.CHASE_DEFAULT_RANGE_FACTOR, Real.cos_pi, Real.sin_pi]
  congr 2
  · ring
  · ring

/-- On the x axis, the point `(10 - d, 0, 0)` is on the segment from the origin to
`(10, 0, 0)` exactly when `0 ≤ d ≤ 10`. -/
theorem onSegment_axis (d : ℝ) :
    onSegment (⟨0, 0, 0⟩ : Vector3 ℝ) ⟨10, 0, 0⟩ ⟨10 - d, 0, 0⟩ ↔ 0 ≤ d ∧ d ≤ 10 := by
  constructor
  · rintro ⟨s, h0, h1, hx, _, _⟩
    simp only [zero_add, sub_zero] at hx
    constructor <;> nlinarith
  · rintro ⟨h0, h1⟩
    refine ⟨(10 - d) / 10, div_nonneg (by linarith) (by norm_num), ?_, ?_, by simp, by simp⟩
    · rw [div_le_one (by norm_num)]
      linarith
    · simp only [zero_add, sub_zero]
      field_simp

/-- In the world over the reals the angle from `(10, 0, 0)` to the origin is π. -/
theorem realEnv_GetAngle_west (reach : ℝ) :
    (Scenario.realEnv reach).GetAngle ⟨10, 0, 0⟩ ⟨0, 0, 0⟩ = Real.pi := by
  have h : (⟨0 - 10, 0 - 0⟩ : ℂ) = ((-10 : ℝ) : ℂ) := by
    apply Complex.ext <;> simp
  simp only [Scenario.realEnv, h, Complex.arg_ofReal_of_neg (by norm_num : (-10 : ℝ) < 0)]
  rw [if_neg (not_lt.mpr Real.pi_pos.le)]

/-- Counterexample to C8 as stated: owner at `(0, 0, 0)`, target at `(10, 0, 0)`,
offset 0, angle 0, `moveFurther` off, and a combined combat reach of 30 (two large
creatures): the destination is `(-5, 0, 0)`, on the line through owner and target
but beyond the owner, not on the segment between them. -/
theorem chase_destination_beyond_owner :
    (Scenario.realCreature 0).position = ⟨0, 0, 0⟩
    ∧ Scenario.realPlayer.position = ⟨10, 0, 0⟩
    ∧ ChaseMovementGenerator._getLocation (Scenario.realEnv 30) (Scenario.chase true)
        (Scenario.realCreature 0) (some Scenario.realPlayer) = some ⟨-5, 0, 0⟩
    ∧ ¬ onSegment (Scenario.realCreature 0).position Scenario.realPlayer.position
        (⟨-5, 0, 0⟩ : Vector3 ℝ) := by
  refine ⟨rfl, rfl, ?_, ?_⟩
  · rw [_getLocation_due_west (Scenario.realEnv 30) (Scenario.chase true)
      (Scenario.realCreature 0) Scenario.realPlayer rfl rfl (fun _ _ => rfl)
      (realEnv_GetAngle_west 30)]
    simp only [Scenario.realEnv, Scenario.realPlayer, Scenario.unitAt]
    norm_num
  · have h := onSegment_axis 15
    norm_num at h
    exact h


/-- C8, amended: for Chase with `moveFurther = false`,
`GetDynamicTargetDistance(owner, false)` equals `0.5 * combinedCombatReach` for every
offset, and with angle 0 `_getLocation` requests the near point of the target at
exactly that distance along the angle from the target towards the owner. With the
owner at `(0, 0, 0)`, the target at `(10, 0, 0)` and `GetNearPoint` the point at that
distance along that angle, the destination is `(10 - 0.5 * reach, 0, 0)`: on the
line through them, and on the segment between them exactly when
`0 ≤ 0.5 * reach ≤ 10`. -/
theorem chase_standoff_and_destination (E : Env ℝ) (g : ChaseMovementGenerator ℝ)
    (owner t : Unit ℝ) (hmf : g.m_moveFurther = false) :
    ChaseMovementGenerator.GetDynamicTargetDistance E g t false
      = 0.5 * E.GetCombinedCombatReach t true
    ∧ (g.i_angle = 0 →
      ChaseMovementGenerator._getLocation E g owner (some t)
        = some (E.GetNearPoint t owner.position owner.GetObjectBoundingRadius
            (0.5 * E.GetCombinedCombatReach t true) (E.GetAngle t.position owner.position)))
    ∧ (g.i_angle = 0 → owner.position = ⟨0, 0, 0⟩ → t.position = ⟨10, 0, 0⟩ →
      (∀ d a, E.GetNearPoint t owner.position owner.GetObjectBoundingRadius d a
        = ⟨t.position.x + d * Real.cos a, t.position.y + d * Real.sin a, t.position.z⟩) →
      E.GetAngle t.position owner.position = Real.pi →
      ChaseMovementGenerator._getLocation E g owner (some t)
          = some ⟨10 - 0.5 * E.GetCombinedCombatReach t true, 0, 0⟩
        ∧ (onSegment owner.position t.position
            (⟨10 - 0.5 * E.GetCombinedCombatReach t true, 0, 0⟩ : Vector3 ℝ)
          ↔ 0 ≤ 0.5 * E.GetCombinedCombatReach t true
            ∧ 0.5 * E.GetCombinedCombatReach t true ≤ 10)) := by
  have hd : ChaseMovementGenerator.GetDynamicTargetDistance E g t false
      = 0.5 * E.GetCombinedCombatReach t true := by
    simp [ChaseMovementGenerator.GetDynamicTargetDistance, hmf,
      ChaseMovementGenerator.CHASE_DEFAULT_RANGE_FACTOR]
  refine ⟨hd, ?_, ?_⟩
  · intro hang
    unfold ChaseMovementGenerator._getLocation ChaseMovementGenerator._getLocation.point
    simp only [hang, decide_True, Bool.true_or, if_true, hd]
  · intro hang ho ht hnear hangle
    rw [_getLocation_due_west E g owner t hmf hang hnear hangle, ho, ht]
    exact ⟨rfl, onSegment_axis _⟩

/-- Witness of C8, amended: owner at the origin, target at `(10, 0, 0)`, combined
reach 4: the standoff is 2 and the destination `(8, 0, 0)` is on the segment. -/
theorem chase_standoff_and_destination_witness :
    (Scenario.chase true : ChaseMovementGenerator ℝ).m_moveFurther = false
    ∧ ChaseMovementGenerator.GetDynamicTargetDistance (Scenario.realEnv 4) (Scenario.chase true)
        Scenario.realPlayer false
      = 0.5 * (Scenario.realEnv 4).GetCombinedCombatReach Scenario.realPlayer true
    ∧ onSegment (Scenario.realCreature 0).position Scenario.realPlayer.position
        (⟨10 - 0.5 * (Scenario.realEnv 4).GetCombinedCombatReach Scenario.realPlayer true, 0, 0⟩ :
          Vector3 ℝ) :=
  ⟨rfl,
    (chase_standoff_and_destination (Scenario.realEnv 4) (Scenario.chase true)
      (Scenario.realCreature 0) Scenario.realPlayer rfl).1,
    ((chase_standoff_and_destination (Scenario.realEnv 4) (Scenario.chase true)
      (Scenario.realCreature 0) Scenario.realPlayer rfl).2.2 rfl rfl rfl (fun _ _ => rfl)
      (realEnv_GetAngle_west 4)).2.mpr (by
        simp only [Scenario.realEnv]
        norm_num)⟩

/-! ### Reset -/

/-- The point `_getLocation` computes depends on the generator through offset,
angle and `moveFurther`, and on the owner through position, guid and bounding
radius. -/
theorem _getLocation_point_congr (E : Env F) (g g1 : ChaseMovementGenerator F)
    (owner owner1 : Unit F) (t : Unit F) (h1 : g1.i_offset = g.i_offset)
    (h2 : g1.i_angle = g.i_angle) (h3 : g1.m_moveFurther = g.m_moveFurther)
    (h4 : owner1.position = owner.position) (h5 : owner1.GetObjectGuid = owner.GetObjectGuid)
    (h6 : owner1.GetObjectBoundingRadius = owner.GetObjectBoundingRadius) :
    ChaseMovementGenerator._getLocation.point E g1 owner1 t
      = ChaseMovementGenerator._getLocation.point E g owner t := by
  unfold ChaseMovementGenerator._getLocation.point ChaseMovementGenerator.GetDynamicTargetDistance
  simp only [h1, h2, h3, h4, h5, h6]

/-- The cut of a path depends on the generator through the offset and on the
owner through the phase mask. -/
theorem CutPath_congr (E : Env F) (g g1 : ChaseMovementGenerator F) (owner owner1 : Unit F)
    (t : Unit F) (path : List (Vector3 F)) (h1 : g1.i_offset = g.i_offset)
    (h2 : owner1.GetPhaseMask = owner.GetPhaseMask) :
    ChaseMovementGenerator.CutPath E g1 owner1 t path
      = ChaseMovementGenerator.CutPath E g owner t path := by
  have hloop : ∀ (d : F) (fuel i : Nat),
      ChaseMovementGenerator.CutPath.loop E owner1 t d path fuel i
        = ChaseMovementGenerator.CutPath.loop E owner t d path fuel i := by
    intro d fuel
    induction fuel with
    | zero => intro i; rfl
    | succ n ih =>
      intro i
      unfold ChaseMovementGenerator.CutPath.loop
      simp only [h2, ih]
  unfold ChaseMovementGenerator.CutPath
  simp only [h1, hloop]

/-- The outcome of `Initialize` when the target is valid and in the world and the
owner may not move: nothing is dispatched. -/
theorem Initialize_not_move (E : Env F) (g : ChaseMovementGenerator F) (w : World F) (t : Unit F)
    (ht : w.target = some t) (hw : t.IsInWorld = true)
    (hm : ChaseMovementGenerator._hasUnitStateNotMove w.owner = true) :
    ChaseMovementGenerator.Initialize E g w
      = ({ g with i_lastTargetPos := t.position
                  m_fanningEnabled :=
                    !(decide (w.owner.GetTypeId = TypeId.TYPEID_UNIT) && w.owner.IsWorldBoss) },
         w.setUnitState { w.owner.unitState with CHASE := true }) := by
  have hm1 : ChaseMovementGenerator._hasUnitStateNotMove
      (w.setUnitState { w.owner.unitState with CHASE := true }).owner = true := hm
  unfold ChaseMovementGenerator.Initialize ChaseMovementGenerator._setLocation
  simp only [ht, hw, Bool.not_true, Bool.false_eq_true, if_false]
  have ht1 : (w.setUnitState { w.owner.unitState with CHASE := true }).target = some t := ht
  simp only [ht1, hw, hm1, Bool.not_true, Bool.false_eq_true, if_false, if_true]
  rfl

/-- The outcome of `Initialize` when the target is valid and in the world, the
owner may move and the path is classified NOPATH. -/
theorem Initialize_nopath (E : Env F) (g : ChaseMovementGenerator F) (w : World F) (t : Unit F)
    (ht : w.target = some t) (hw : t.IsInWorld = true)
    (hm : ChaseMovementGenerator._hasUnitStateNotMove w.owner = false)
    (hno : (E.calculate w.owner.position (ChaseMovementGenerator._getLocation.point E g w.owner t)
      (some false)).getPathType.NOPATH = true) :
    ChaseMovementGenerator.Initialize E g w
      = ({ g with i_path := some (E.calculate w.owner.position
                    (ChaseMovementGenerator._getLocation.point E g w.owner t) (some false))
                  i_targetReached := false
                  i_speedChanged := false
                  i_lastTargetPos := t.position
                  m_fanningEnabled :=
                    !(decide (w.owner.GetTypeId = TypeId.TYPEID_UNIT) && w.owner.IsWorldBoss) },
         (w.setUnitState { w.owner.unitState with CHASE := true }).emit
           (Event.calculate (ChaseMovementGenerator._getLocation.point E g w.owner t)
             (some false))) := by
  have hm1 : ChaseMovementGenerator._hasUnitStateNotMove
      (w.setUnitState { w.owner.unitState with CHASE := true }).owner = false := hm
  have ht1 : (w.setUnitState { w.owner.unitState with CHASE := true }).target = some t := ht
  have hp : ChaseMovementGenerator._getLocation.point E g
      (w.setUnitState { w.owner.unitState with CHASE := true }).owner t
      = ChaseMovementGenerator._getLocation.point E g w.owner t := rfl
  have hno1 : (E.calculate (w.setUnitState { w.owner.unitState with CHASE := true }).owner.position
      (ChaseMovementGenerator._getLocation.point E g w.owner t)
      (some false)).getPathType.NOPATH = true := hno
  unfold ChaseMovementGenerator.Initialize ChaseMovementGenerator._setLocation
  simp only [ht, hw, Bool.not_true, Bool.false_eq_true, if_false]
  simp only [ht1, hw, hm1, Bool.not_true, Bool.false_eq_true, if_false,
    ChaseMovementGenerator._getLocation, hp,
    DispatchSplineToPosition_nopath E g _ t _ _ _ _ hno1]
  rfl

/-- The outcome of `Initialize` when the target is valid and in the world, the
owner may move and a path exists. -/
theorem Initialize_path (E : Env F) (g : ChaseMovementGenerator F) (w : World F) (t : Unit F)
    (ht : w.target = some t) (hw : t.IsInWorld = true)
    (hm : ChaseMovementGenerator._hasUnitStateNotMove w.owner = false)
    (hno : (E.calculate w.owner.position (ChaseMovementGenerator._getLocation.point E g w.owner t)
      (some false)).getPathType.NOPATH = false) :
    ChaseMovementGenerator.Initialize E g w
      = ({ g with i_path := some { E.calculate w.owner.position
                      (ChaseMovementGenerator._getLocation.point E g w.owner t) (some false) with
                    getPath := ChaseMovementGenerator.CutPath E g w.owner t
                      (E.calculate w.owner.position
                        (ChaseMovementGenerator._getLocation.point E g w.owner t)
                        (some false)).getPath }
                  m_reachable := true
                  i_targetReached := false
                  i_speedChanged := false
                  i_lastTargetPos := t.position
                  m_fanningEnabled :=
                    !(decide (w.owner.GetTypeId = TypeId.TYPEID_UNIT) && w.owner.IsWorldBoss) },
         MoveSplineInit.Launch (ChaseMovementGenerator._addUnitStateMove
           ((w.setUnitState { w.owner.unitState with CHASE := true }).emit
             (Event.calculate (ChaseMovementGenerator._getLocation.point E g w.owner t)
               (some false))))
           (ChaseMovementGenerator.CutPath E g w.owner t
             (E.calculate w.owner.position
               (ChaseMovementGenerator._getLocation.point E g w.owner t) (some false)).getPath)
           g.EnableWalking true none) := by
  have hm1 : ChaseMovementGenerator._hasUnitStateNotMove
      (w.setUnitState { w.owner.unitState with CHASE := true }).owner = false := hm
  have ht1 : (w.setUnitState { w.owner.unitState with CHASE := true }).target = some t := ht
  have hp : ChaseMovementGenerator._getLocation.point E g
      (w.setUnitState { w.owner.unitState with CHASE := true }).owner t
      = ChaseMovementGenerator._getLocation.point E g w.owner t := rfl
  have hno1 : (E.calculate (w.setUnitState { w.owner.unitState with CHASE := true }).owner.position
      (ChaseMovementGenerator._getLocation.point E g w.owner t)
      (some false)).getPathType.NOPATH = false := hno
  have hc : ∀ path, ChaseMovementGenerator.CutPath E g
      (w.setUnitState { w.owner.unitState with CHASE := true }).owner t path
      = ChaseMovementGenerator.CutPath E g w.owner t path :=
    fun path => CutPath_congr E g g w.owner _ t path rfl rfl
  unfold ChaseMovementGenerator.Initialize ChaseMovementGenerator._setLocation
  simp only [ht, hw, Bool.not_true, Bool.false_eq_true, if_false]
  simp only [ht1, hw, hm1, Bool.not_true, Bool.false_eq_true, if_false,
    ChaseMovementGenerator._getLocation, hp,
    DispatchSplineToPosition_path E g _ t _ _ _ _ hno1, if_true, hc]
  rfl

/-- C9: for every Chase generator state and every world state, calling `Reset`
twice in succession leaves the same generator fields (the mode among them, which
`Reset` does not write), the same owner and target, and the second call records
the same events, with the same dispatched destination and the same launched
path, as the first. -/
theorem Reset_idempotent (E : Env F) (g : ChaseMovementGenerator F) (w : World F) :
    (ChaseMovementGenerator.Reset E (ChaseMovementGenerator.Reset E g w).1
        (ChaseMovementGenerator.Reset E g w).2).1 = (ChaseMovementGenerator.Reset E g w).1
    ∧ (ChaseMovementGenerator.Reset E (ChaseMovementGenerator.Reset E g w).1
        (ChaseMovementGenerator.Reset E g w).2).2.owner
      = (ChaseMovementGenerator.Reset E g w).2.owner
    ∧ (ChaseMovementGenerator.Reset E (ChaseMovementGenerator.Reset E g w).1
        (ChaseMovementGenerator.Reset E g w).2).2.target
      = (ChaseMovementGenerator.Reset E g w).2.target
    ∧ (ChaseMovementGenerator.Reset E g w).1.m_currentMode = g.m_currentMode
    ∧ World.newEvents (ChaseMovementGenerator.Reset E g w).2
        (ChaseMovementGenerator.Reset E (ChaseMovementGenerator.Reset E g w).1
          (ChaseMovementGenerator.Reset E g w).2).2
      = World.newEvents w (ChaseMovementGenerator.Reset E g w).2 := by
  unfold ChaseMovementGenerator.Reset
  cases ht : w.target with
  | none =>
    have h1 : ChaseMovementGenerator.Initialize E g w = (g, w) := by
      unfold ChaseMovementGenerator.Initialize
      simp only [ht]
    simp only [h1]
    simp [World.newEvents]
  | some t =>
    by_cases hw : t.IsInWorld = true
    · rcases Bool.eq_false_or_eq_true (ChaseMovementGenerator._hasUnitStateNotMove w.owner)
        with hm | hm
      · have h1 := Initialize_not_move E g w t ht hw hm
        have h2 := Initialize_not_move E (ChaseMovementGenerator.Initialize E g w).1
          (ChaseMovementGenerator.Initialize E g w).2 t (by rw [h1]; exact ht) hw
          (by rw [h1]; exact hm)
        rw [h2, h1]
        refine ⟨rfl, rfl, rfl, rfl, ?_⟩
        simp [World.newEvents, World.setUnitState]
      · rcases Bool.eq_false_or_eq_true (E.calculate w.owner.position
            (ChaseMovementGenerator._getLocation.point E g w.owner t)
            (some false)).getPathType.NOPATH with hno | hno
        · have h1 := Initialize_nopath E g w t ht hw hm hno
          have h2 := Initialize_nopath E (ChaseMovementGenerator.Initialize E g w).1
            (ChaseMovementGenerator.Initialize E g w).2 t (by rw [h1]; exact ht) hw
            (by rw [h1]; exact hm) (by rw [h1]; exact hno)
          rw [h2, h1]
          refine ⟨rfl, rfl, rfl, rfl, ?_⟩
          exact (newEvents_of_append _ _ _ rfl).trans (newEvents_of_append _ _ _ rfl).symm
        · have h1 := Initialize_path E g w t ht hw hm hno
          have hc : ∀ path, ChaseMovementGenerator.CutPath E
              (ChaseMovementGenerator.Initialize E g w).1
              (ChaseMovementGenerator.Initialize E g w).2.owner t path
              = ChaseMovementGenerator.CutPath E g w.owner t path := by
            intro path
            rw [h1]
            exact CutPath_congr E g _ w.owner _ t path rfl rfl
          have h2 := Initialize_path E (ChaseMovementGenerator.Initialize E g w).1
            (ChaseMovementGenerator.Initialize E g w).2 t (by rw [h1]; exact ht) hw
            (by rw [h1]; exact hm) (by rw [h1]; exact hno)
          have hp : ChaseMovementGenerator._getLocation.point E
              (ChaseMovementGenerator.Initialize E g w).1
              (ChaseMovementGenerator.Initialize E g w).2.owner t
              = ChaseMovementGenerator._getLocation.point E g w.owner t := by
            rw [h1]
            exact _getLocation_point_congr E g _ w.owner _ t rfl rfl rfl rfl rfl rfl
          have hpos : (ChaseMovementGenerator.Initialize E g w).2.owner.position
              = w.owner.position := by
            rw [h1]; rfl
          simp only [hc, hp, hpos] at h2
          clear hc hp hpos hno
          generalize ChaseMovementGenerator._getLocation.point E g w.owner t = P at h1 h2
          generalize E.calculate w.owner.position P (some false) = pf at h1 h2
          generalize ChaseMovementGenerator.CutPath E g w.owner t pf.getPath = path at h1 h2
          rw [h2, h1]
          simp only [World.setUnitState, World.emit, MoveSplineInit.Launch, World.setSpline,
            ChaseMovementGenerator._addUnitStateMove, World.newEvents, List.append_assoc,
            List.drop_left, List.length_append, List.length_singleton, List.length_cons,
            List.length_nil, List.singleton_append, List.cons_append, List.nil_append,
            and_self]
          refine ⟨trivial, trivial, trivial, trivial, ?_⟩
          have hsplit : ∀ (l : List (Event F)) (a b c d : Event F),
              List.drop (l.length + (0 + 1 + 1)) (l ++ [a, b, c, d]) = [c, d] := by
            intro l a b c d
            have hl : l ++ [a, b, c, d] = (l ++ [a, b]) ++ [c, d] := by simp
            rw [hl]
            exact List.drop_left' (by simp)
          exact hsplit _ _ _ _ _
    · have h1 : ChaseMovementGenerator.Initialize E g w = (g, w) := by
        unfold ChaseMovementGenerator.Initialize
        simp only [ht, hw, Bool.not_false, if_true]
      simp only [h1]
      simp [World.newEvents]

/-! ### Launches within a tick -/

/-- A state with the same trace has launched nothing. -/
theorem Launched.of_trace {w w1 : World F} (h : w1.trace = w.trace) : Launched 0 w w1 :=
  ⟨[], by simp [h], by simp [launches]⟩

/-- Launch counts add up. -/
theorem Launched.append {n m : Nat} {w w1 w2 : World F} (h1 : Launched n w w1)
    (h2 : Launched m w1 w2) : Launched (n + m) w w2 := by
  obtain ⟨es1, ht1, hl1⟩ := h1
  obtain ⟨es2, ht2, hl2⟩ := h2
  refine ⟨es1 ++ es2, by simp [ht2, ht1], ?_⟩
  simp only [launches, List.countP_append] at *
  omega

/-- A part without launches before a part with at most `n`. -/
theorem Launched.after {n : Nat} {w w1 w2 : World F} (h1 : Launched 0 w w1)
    (h2 : Launched n w1 w2) : Launched n w w2 := by
  have h := h1.append h2
  rwa [Nat.zero_add] at h

/-- A part with at most `n` launches before a part without. -/
theorem Launched.before {n : Nat} {w w1 w2 : World F} (h1 : Launched n w w1)
    (h2 : Launched 0 w1 w2) : Launched n w w2 :=
  h1.append h2

/-- A bound on the launches can be raised. -/
theorem Launched.mono {n m : Nat} {w w1 : World F} (h : Launched n w w1) (hnm : n ≤ m) :
    Launched m w w1 := by
  obtain ⟨es, ht, hl⟩ := h
  exact ⟨es, ht, le_trans hl hnm⟩

/-- An event that is not a launch. -/
theorem Launched.record (w : World F) (e : Event F) (h : Event.isLaunch e = false) :
    Launched 0 w (w.emit e) :=
  ⟨[e], rfl, by simp [launches, h]⟩

/-- The launch of a spline is one launch. -/
theorem Launched.Launch (w : World F) (path : List (Vector3 F)) (walk facing : Bool)
    (velocity : Option F) : Launched 1 w (MoveSplineInit.Launch w path walk facing velocity) :=
  ⟨[Event.Launch path walk facing velocity], rfl, by simp [launches, Event.isLaunch]⟩

/-- A chase dispatch launches at most one spline, and none when it returns false. -/
theorem DispatchSplineToPosition_launched (E : Env F) (g : ChaseMovementGenerator F) (w : World F)
    (t : Unit F) (dest : Vector3 F) (walk cutPath target : Bool) :
    Launched 1 w
      (ChaseMovementGenerator.DispatchSplineToPosition E g w t dest walk cutPath target).2.2
    ∧ ((ChaseMovementGenerator.DispatchSplineToPosition E g w t dest walk cutPath target).1 = false →
      Launched 0 w
        (ChaseMovementGenerator.DispatchSplineToPosition E g w t dest walk cutPath target).2.2) := by
  have he : Launched 0 w (w.emit (Event.calculate dest (some false))) :=
    Launched.record w _ rfl
  rcases Bool.eq_false_or_eq_true (E.calculate w.owner.position dest (some false)).getPathType.NOPATH
    with hno | hno
  · rw [DispatchSplineToPosition_nopath E g w t dest walk cutPath target hno]
    exact ⟨he.mono (Nat.zero_le 1), fun _ => he⟩
  · rw [DispatchSplineToPosition_path E g w t dest walk cutPath target hno]
    refine ⟨?_, fun h => by simp at h⟩
    exact (he.before (Launched.of_trace rfl)).after (Launched.Launch _ _ _ _ _)

/-- An attempt of `FanOut` launches at most one spline, and none when it fails. -/
theorem FanOut_attempt_launched (E : Env F) (g : ChaseMovementGenerator F) (w : World F)
    (t : Unit F) (ori : F) :
    Launched 1 w (ChaseMovementGenerator.FanOut.attempt E g w t ori).2.2
    ∧ ((ChaseMovementGenerator.FanOut.attempt E g w t ori).1 = false →
      Launched 0 w (ChaseMovementGenerator.FanOut.attempt E g w t ori).2.2) := by
  unfold ChaseMovementGenerator.FanOut.attempt
  simp only []
  obtain ⟨h1, h0⟩ := DispatchSplineToPosition_launched E g w t
    (E.GetNearPoint t w.owner.position w.owner.GetObjectBoundingRadius
      (E.GetCombinedCombatReach t false) ori) true false
    ChaseMovementGenerator.DispatchSplineToPosition.targetDefault
  split_ifs with h
  · exact ⟨h1.before (Launched.record _ (Event.setMode ChaseModes.CHASE_MODE_FANNING) rfl),
      fun hc => by simp at hc⟩
  · exact ⟨h1, fun _ => h0 (by simpa using h)⟩

/-- The function `FanOut` launches at most one spline. -/
theorem FanOut_launched (E : Env F) (g : ChaseMovementGenerator F) (w : World F) (t : Unit F) :
    Launched 1 w (ChaseMovementGenerator.FanOut E g w t).2 := by
  have he : Launched 0 w (w.emit (Event.enter Callee.FanOut)) := Launched.record w _ rfl
  unfold ChaseMovementGenerator.FanOut
  simp only []
  by_cases hen : g.m_fanningEnabled = true
  · simp only [hen, Bool.not_true, Bool.false_eq_true, if_false]
    split
    · exact he.mono (Nat.zero_le 1)
    · generalize E.NormalizeOrientation _ = ori1
      have hd : Launched 0 w ((w.emit (Event.enter Callee.FanOut)).drawn 2) :=
        he.before (Launched.of_trace rfl)
      obtain ⟨h1, h0⟩ := FanOut_attempt_launched E g ((w.emit (Event.enter Callee.FanOut)).drawn 2)
        t ori1
      generalize ChaseMovementGenerator.FanOut.attempt E g
        ((w.emit (Event.enter Callee.FanOut)).drawn 2) t ori1 = r1 at h1 h0 ⊢
      by_cases hr : r1.1 = true
      · simp only [hr, if_true]
        exact hd.after h1
      · have hr1 : r1.1 = false := by simpa using hr
        simp only [hr1, Bool.false_eq_true, if_false]
        generalize E.NormalizeOrientation _ = ori2
        have hq : Launched 0 w (r1.2.2.drawn 1) :=
          (hd.before (h0 hr1)).before (Launched.of_trace rfl)
        exact hq.after (FanOut_attempt_launched E r1.2.1 (r1.2.2.drawn 1) t ori2).1
  · simp only [hen, Bool.not_false, if_true]
    exact he.mono (Nat.zero_le 1)

/-- The function `Backpedal` launches at most one spline. -/
theorem Backpedal_launched (E : Env F) (g : ChaseMovementGenerator F) (w : World F) (t : Unit F) :
    Launched 1 w (ChaseMovementGenerator.Backpedal E g w t).2 := by
  have he : Launched 0 w (w.emit (Event.enter Callee.Backpedal)) := Launched.record w _ rfl
  unfold ChaseMovementGenerator.Backpedal
  simp only []
  generalize w.emit (Event.enter Callee.Backpedal) = w1 at he ⊢
  generalize ({ g with m_closenessExpired := false
                       m_closenessAndFanningTimer := ChaseMovementGenerator.CHASE_CLOSENESS_TIMER } :
    ChaseMovementGenerator F) = g1
  split_ifs with hclose hr
  · exact (he.after (DispatchSplineToPosition_launched E g1 w1 t _ true false _).1).before
      (Launched.record _ (Event.setMode ChaseModes.CHASE_MODE_BACKPEDAL) rfl)
  · exact he.after (DispatchSplineToPosition_launched E g1 w1 t _ true false _).1
  · exact he.after (FanOut_launched E g1 w1 t)

/-- The last part of the chase tick launches at most one spline. -/
theorem HandleTargetedMovement_engaged_launched (E : Env F) (g : ChaseMovementGenerator F)
    (w : World F) (t : Unit F) (currentTargetPos dest : Vector3 F) :
    Launched 1 w
      (ChaseMovementGenerator.HandleTargetedMovement.engaged E g w t currentTargetPos dest).2 := by
  unfold ChaseMovementGenerator.HandleTargetedMovement.engaged
  simp only []
  split_ifs
  all_goals first
    | exact (Launched.of_trace rfl).mono (Nat.zero_le 1)
    | exact Backpedal_launched E g w t
    | exact (show Launched 0 w (w.StopMoving true) from
        ⟨[Event.StopMoving true], rfl, by simp [launches, Event.isLaunch]⟩).mono (Nat.zero_le 1)
    | exact (show Launched 0 w w.InterruptMoving from
        ⟨[Event.InterruptMoving], rfl, by simp [launches, Event.isLaunch]⟩).mono (Nat.zero_le 1)

/-- The re-dispatch of the chase tick launches at most one spline. -/
theorem HandleTargetedMovement_redispatch_launched (E : Env F) (g : ChaseMovementGenerator F)
    (w : World F) (t : Unit F) (targetMoved : Bool) :
    Launched 1 w
      (ChaseMovementGenerator.HandleTargetedMovement.redispatch E g w t targetMoved).2 := by
  unfold ChaseMovementGenerator.HandleTargetedMovement.redispatch
  simp only []
  split_ifs
  all_goals exact (DispatchSplineToPosition_launched E g w t _ _ true true).1

/-- The recheck of the chase tick launches at most one spline. -/
theorem HandleTargetedMovement_recheck_launched (E : Env F) (g : ChaseMovementGenerator F)
    (w : World F) (t : Unit F) :
    Launched 1 w (ChaseMovementGenerator.HandleTargetedMovement.recheck E g w t).2 := by
  unfold ChaseMovementGenerator.HandleTargetedMovement.recheck
  simp only []
  split_ifs with hd hs hm hs2 hr
  · exact HandleTargetedMovement_redispatch_launched E g w t _
  · exact HandleTargetedMovement_engaged_launched E _ w t _ _
  · exact HandleTargetedMovement_engaged_launched E g w t _ _
  · exact (DispatchSplineToPosition_launched E g w t _ false false true).1
  · exact ((DispatchSplineToPosition_launched E g w t _ false false true).2
      (by simpa using hr)).after (HandleTargetedMovement_engaged_launched E _ _ t _ _)
  · exact HandleTargetedMovement_engaged_launched E g w t _ _

/-- The chase tick launches at most one spline. -/
theorem HandleTargetedMovement_launched (E : Env F) (g : ChaseMovementGenerator F) (w : World F)
    (t : Unit F) (time_diff : Nat) :
    Launched 1 w (ChaseMovementGenerator.HandleTargetedMovement E g w t time_diff).2 := by
  unfold ChaseMovementGenerator.HandleTargetedMovement
  simp only []
  split_ifs with hp
  · exact (Launched.of_trace rfl).mono (Nat.zero_le 1)
  · exact HandleTargetedMovement_recheck_launched E _ w t

/-- The handlers of the chase generator for a failure and for an arrival launch
nothing. -/
theorem Chase_handlers_launched (E : Env F) (g : ChaseMovementGenerator F) (w : World F)
    (t : Unit F) :
    Launched 0 w (ChaseMovementGenerator.HandleMovementFailure g w).2
    ∧ Launched 0 w (ChaseMovementGenerator.HandleFinalizedMovement E g w t).2 := by
  constructor
  · unfold ChaseMovementGenerator.HandleMovementFailure
    simp only []
    split_ifs <;>
      simp only [World.emit, ChaseMovementGenerator._clearUnitStateMove,
        World.setUnitState, List.append_assoc] <;>
      exact ⟨_, rfl, by simp [launches, Event.isLaunch]⟩
  · unfold ChaseMovementGenerator.HandleFinalizedMovement
    simp only []
    split_ifs <;> cases g.m_currentMode <;>
      simp only [World.emit, World.SetInFront, ChaseMovementGenerator._clearUnitStateMove,
        World.setUnitState, List.append_assoc] <;>
      exact ⟨_, rfl, by simp [launches, Event.isLaunch]⟩

/-- The driver launches at most one spline in an `Update` when the tick of the
derived class launches at most one and its handlers none. -/
theorem Update_launched {G : Type} (D : Derived G F) (E : Env F) (g : G) (w : World F)
    (time_diff : Nat)
    (hT : ∀ g w t, Launched 1 w (D.HandleTargetedMovement E g w t time_diff).2)
    (hF : ∀ g w, Launched 0 w (D.HandleMovementFailure g w).2)
    (hA : ∀ g w t, Launched 0 w (D.HandleFinalizedMovement E g w t).2) :
    Launched 1 w (TargetedMovementGeneratorMedium.Update D E g w time_diff).2.2 := by
  have h0 : ∀ w1 : World F, Launched 0 w1 w1 → Launched 1 w1 w1 := fun _ h => h.mono (Nat.zero_le 1)
  unfold TargetedMovementGeneratorMedium.Update
  split
  · exact (Launched.of_trace rfl).mono (Nat.zero_le 1)
  · rename_i t _
    simp only []
    split_ifs
    · exact (Launched.of_trace rfl).mono (Nat.zero_le 1)
    · exact (Launched.of_trace rfl).mono (Nat.zero_le 1)
    · exact (show Launched 0 w (w.StopMoving true) from
        ⟨[Event.StopMoving true], rfl, by simp [launches, Event.isLaunch]⟩).mono (Nat.zero_le 1)
    · exact (show Launched 0 w w.InterruptMoving from
        ⟨[Event.InterruptMoving], rfl, by simp [launches, Event.isLaunch]⟩).mono (Nat.zero_le 1)
    · exact (Launched.of_trace rfl).mono (Nat.zero_le 1)
    · exact (hF g w).mono (Nat.zero_le 1)
    · exact (hF g w).mono (Nat.zero_le 1)
    · exact (hT g w t).before (hA _ _ t)
    · exact hT g w t

/-- The function `Move` launches at most one spline. -/
theorem Move_launched [FloorRing F] (E : Env F) (g : FollowMovementGenerator F) (w : World F)
    (t : Unit F) (dest : Vector3 F) :
    Launched 1 w (FollowMovementGenerator.Move E g w t dest).2.2 := by
  have hr : Launched 0 w (FollowMovementGenerator.Move.relocate E w) := by
    unfold FollowMovementGenerator.Move.relocate
    rcases Bool.eq_false_or_eq_true w.owner.movespline.Finalized with hf | hf
    · simp only [hf, Bool.not_true, Bool.false_eq_true, if_false]
      exact Launched.of_trace rfl
    · simp only [hf, Bool.not_false, if_true]
      exact ⟨[Event.Relocate _], rfl, by simp [launches, Event.isLaunch]⟩
  have hc : Launched 0 w ((FollowMovementGenerator.Move.relocate E w).emit
      (Event.calculate dest none)) := hr.before (Launched.record _ _ rfl)
  have hf : ∀ pf path stuck, Launched 1 w (FollowMovementGenerator.Move.finish E g
      ((FollowMovementGenerator.Move.relocate E w).emit (Event.calculate dest none)) t dest pf path
      stuck).2.2 := by
    intro pf path stuck
    unfold FollowMovementGenerator.Move.finish
    exact (hc.before (Launched.of_trace rfl)).after (Launched.Launch _ _ _ _ _)
  unfold FollowMovementGenerator.Move
  simp only []
  split_ifs
  all_goals first
    | exact hc.mono (Nat.zero_le 1)
    | exact hf _ _ _
    | (split
       · exact hf _ _ _
       · split_ifs
         all_goals first
           | exact hc.mono (Nat.zero_le 1)
           | exact hf _ _ _)

/-- The tick of the follow generator launches at most one spline. -/
theorem Follow_HandleTargetedMovement_launched [FloorRing F] (E : Env F)
    (g : FollowMovementGenerator F) (w : World F) (t : Unit F) (time_diff : Nat) :
    Launched 1 w (FollowMovementGenerator.HandleTargetedMovement E g w t time_diff).2 := by
  have hs : ∀ g1 movingNow, Launched 1 w (FollowMovementGenerator._setLocation E g1 w movingNow).2 := by
    intro g1 movingNow
    unfold FollowMovementGenerator._setLocation
    split
    · exact (Launched.of_trace rfl).mono (Nat.zero_le 1)
    · split_ifs
      · exact (Launched.of_trace rfl).mono (Nat.zero_le 1)
      · exact (Launched.of_trace rfl).mono (Nat.zero_le 1)
      · exact Move_launched E g1 w _ _
  have ho : ∀ g1, Launched 1 w (FollowMovementGenerator._setOrientation E g1 w).2 := by
    intro g1
    unfold FollowMovementGenerator._setOrientation
    split
    · exact ⟨_, List.append_assoc _ _ _, by simp [launches, Event.isLaunch]⟩
    · exact (Launched.of_trace rfl).mono (Nat.zero_le 1)
  unfold FollowMovementGenerator.HandleTargetedMovement
  simp only []
  split_ifs
  all_goals first
    | exact hs _ _
    | exact ho _
    | exact (Launched.of_trace rfl).mono (Nat.zero_le 1)

/-- C11: for every Chase or Follow state, every elapsed time and every outcome of
the external queries, a single `Update` call launches at most one spline: among the
events the call records there is at most one `Launch`. -/
theorem Update_launches_at_most_one_spline [FloorRing F] (E : Env F)
    (gc : ChaseMovementGenerator F) (gf : FollowMovementGenerator F) (w : World F)
    (time_diff : Nat) :
    launches (World.newEvents w (ChaseMovementGenerator.Update E gc w time_diff).2.2) ≤ 1
    ∧ launches (World.newEvents w (FollowMovementGenerator.Update E gf w time_diff).2.2) ≤ 1 := by
  constructor
  · obtain ⟨es, ht, hl⟩ := Update_launched ChaseMovementGenerator.derived E gc w time_diff
      (fun g w t => HandleTargetedMovement_launched E g w t time_diff)
      (fun g w => (Chase_handlers_launched E g w w.owner).1)
      (fun g w t => (Chase_handlers_launched E g w t).2)
    unfold ChaseMovementGenerator.Update
    rw [newEvents_of_append w _ es ht]
    exact hl
  · obtain ⟨es, ht, hl⟩ := Update_launched FollowMovementGenerator.derived E gf w time_diff
      (fun g w t => Follow_HandleTargetedMovement_launched E g w t time_diff)
      (fun g w => Launched.of_trace rfl)
      (fun g w t => Launched.of_trace rfl)
    unfold FollowMovementGenerator.Update
    rw [newEvents_of_append w _ es ht]
    exact hl

/-! ### The poll rate of the follow generator -/

/-- Counterexample to C12 as stated: two owners that differ only in their speed
rate, 1 and 2, and a moving target: the recheck interval of the faster owner is
1000 ms, that of the slower one 500 ms. -/
theorem poll_rate_longer_for_faster_owner :
    Scenario.creature.GetSpeedRateInMotion = 1
    ∧ ({ Scenario.creature with GetSpeedRateInMotion := 2 } : Unit ℚ).GetSpeedRateInMotion = 2
    ∧ FollowMovementGenerator._getPollRate Scenario.creature true = 500
    ∧ FollowMovementGenerator._getPollRate
        ({ Scenario.creature with GetSpeedRateInMotion := 2 } : Unit ℚ) true = 1000 := by
  refine ⟨rfl, rfl, ?_, ?_⟩
  · simp [FollowMovementGenerator._getPollRate, FollowMovementGenerator._getPollRateMultiplier,
      FollowMovementGenerator.toUInt32, FollowMovementGenerator._getPollRateBase,
      FollowMovementGenerator._getPollRateMax, Scenario.creature, Scenario.unitAt]
  · simp [FollowMovementGenerator._getPollRate, FollowMovementGenerator._getPollRateMultiplier,
      FollowMovementGenerator.toUInt32, FollowMovementGenerator._getPollRateBase,
      FollowMovementGenerator._getPollRateMax, Scenario.creature, Scenario.unitAt]

/-- The multiplier of the poll rate is 1, 2 or 4. -/
theorem _getPollRateMultiplier_range [FloorRing F] (owner : Unit F) (movingNow : Bool) :
    1 ≤ FollowMovementGenerator._getPollRateMultiplier owner movingNow
    ∧ FollowMovementGenerator._getPollRateMultiplier owner movingNow ≤ 4 := by
  unfold FollowMovementGenerator._getPollRateMultiplier
  cases movingNow <;> cases owner.UNIT_FLAG_PLAYER_CONTROLLED <;> simp

/-- Without wrap-around of the `uint32` products the poll rate is the base interval
times the multiplier times the whole part of the speed rate. -/
theorem _getPollRate_eq [FloorRing F] (owner : Unit F) (movingNow : Bool)
    (hmax : owner.GetSpeedRateInMotion < 4294968) :
    FollowMovementGenerator._getPollRate owner movingNow
      = 250 * FollowMovementGenerator._getPollRateMultiplier owner movingNow
        * ⌊owner.GetSpeedRateInMotion⌋₊ := by
  have hn : ⌊owner.GetSpeedRateInMotion⌋₊ < 4294968 := by
    rw [Nat.floor_lt' (by norm_num)]
    exact_mod_cast hmax
  obtain ⟨hm1, hm4⟩ := _getPollRateMultiplier_range owner movingNow
  unfold FollowMovementGenerator._getPollRate FollowMovementGenerator.toUInt32
    FollowMovementGenerator._getPollRateBase FollowMovementGenerator._getPollRateMax
  simp only []
  generalize FollowMovementGenerator._getPollRateMultiplier owner movingNow = m at hm1 hm4 ⊢
  generalize ⌊owner.GetSpeedRateInMotion⌋₊ = n at hn ⊢
  have h1 : n % 2 ^ 32 = n := Nat.mod_eq_of_lt (by omega)
  rw [h1]
  have h2 : 250 * n % 2 ^ 32 = 250 * n := Nat.mod_eq_of_lt (by omega)
  have h3 : 1000 * n % 2 ^ 32 = 1000 * n := Nat.mod_eq_of_lt (by omega)
  rw [h2, h3]
  have h4 : 250 * n * m ≤ 1000 * n := by nlinarith
  have h5 : 250 * n * m % 2 ^ 32 = 250 * n * m := Nat.mod_eq_of_lt (by omega)
  rw [h5]
  have h6 : 250 * n ≤ 250 * n * m := by nlinarith
  rw [show (250 * n).max (250 * n * m) = 250 * n * m from Nat.max_eq_right h6,
    show (250 * n * m).min (1000 * n) = 250 * n * m from Nat.min_eq_left h4]
  ring

/-- C12, amended: for the same owner control flag and the same target-moving
state, and speed rates below 4294968 (no wrap-around of the `uint32` products), the
recheck interval is `250 * multiplier * floor(speed rate)` milliseconds, so a larger
`GetSpeedRateInMotion()` never yields a shorter recheck interval. -/
theorem _getPollRate_grows_with_speed_rate [FloorRing F] (o1 o2 : Unit F) (movingNow : Bool)
    (hflag : o1.UNIT_FLAG_PLAYER_CONTROLLED = o2.UNIT_FLAG_PLAYER_CONTROLLED)
    (hle : o1.GetSpeedRateInMotion ≤ o2.GetSpeedRateInMotion)
    (hmax : o2.GetSpeedRateInMotion < 4294968) :
    FollowMovementGenerator._getPollRate o2 movingNow
      = 250 * FollowMovementGenerator._getPollRateMultiplier o2 movingNow
        * ⌊o2.GetSpeedRateInMotion⌋₊
    ∧ FollowMovementGenerator._getPollRate o1 movingNow
      ≤ FollowMovementGenerator._getPollRate o2 movingNow := by
  have hm : FollowMovementGenerator._getPollRateMultiplier o1 movingNow
      = FollowMovementGenerator._getPollRateMultiplier o2 movingNow := by
    unfold FollowMovementGenerator._getPollRateMultiplier
    rw [hflag]
  refine ⟨_getPollRate_eq o2 movingNow hmax, ?_⟩
  rw [_getPollRate_eq o2 movingNow hmax, _getPollRate_eq o1 movingNow (lt_of_le_of_lt hle hmax), hm]
  exact Nat.mul_le_mul_left _ (Nat.floor_mono hle)

/-- Witness of C12, amended: speed rates 1 and 2, target moving. -/
theorem _getPollRate_grows_with_speed_rate_witness :
    Scenario.creature.GetSpeedRateInMotion
      ≤ ({ Scenario.creature with GetSpeedRateInMotion := 2 } : Unit ℚ).GetSpeedRateInMotion
    ∧ FollowMovementGenerator._getPollRate Scenario.creature true
      ≤ FollowMovementGenerator._getPollRate
        ({ Scenario.creature with GetSpeedRateInMotion := 2 } : Unit ℚ) true :=
  ⟨by simp [Scenario.creature, Scenario.unitAt],
    (_getPollRate_grows_with_speed_rate Scenario.creature
      ({ Scenario.creature with GetSpeedRateInMotion := 2 } : Unit ℚ) true rfl
      (by simp [Scenario.creature, Scenario.unitAt])
      (by simp [Scenario.creature, Scenario.unitAt]; norm_num)).2⟩

/-! ### The driver: casting and failure -/

/-- The driver while the owner casts a spell that blocks movement: the generator
is not touched, whatever the derived class is. -/
theorem Update_casting {G : Type} (D : Derived G F) (E : Env F) (g : G) (w : World F) (t : Unit F)
    (time_diff : Nat) (ht : w.target = some t) (hw : t.IsInWorld = true)
    (ha : w.owner.isAlive = true) (hc : w.owner.IsNonMeleeSpellCasted = true) :
    TargetedMovementGeneratorMedium.Update D E g w time_diff
      = (true, g, if w.owner.movespline.Finalized then w
          else if w.owner.IsClientControlled then w.StopMoving true else w.InterruptMoving) := by
  unfold TargetedMovementGeneratorMedium.Update
  simp only [ht, hw, ha, hc, Bool.not_true, Bool.false_eq_true, if_false, if_true]
  cases w.owner.movespline.Finalized <;> cases w.owner.IsClientControlled <;> simp

/-- C14: for a valid in-world target and a living owner that is casting a
movement-blocking spell, `Update` (Chase and Follow) returns true and leaves the
generator as it was; the only effect is on the owner's spline: when it is not
finalized it is stopped with `StopMoving(true)` if the owner is client-controlled
and with `InterruptMoving` otherwise, and when it is finalized the world is
unchanged. No path is computed or launched. -/
theorem Update_while_casting [FloorRing F] (E : Env F) (gc : ChaseMovementGenerator F)
    (gf : FollowMovementGenerator F) (w : World F) (t : Unit F) (time_diff : Nat)
    (ht : w.target = some t) (hw : t.IsInWorld = true) (ha : w.owner.isAlive = true)
    (hc : w.owner.IsNonMeleeSpellCasted = true) :
    ChaseMovementGenerator.Update E gc w time_diff
      = (true, gc, if w.owner.movespline.Finalized then w
          else if w.owner.IsClientControlled then w.StopMoving true else w.InterruptMoving)
    ∧ FollowMovementGenerator.Update E gf w time_diff
      = (true, gf, if w.owner.movespline.Finalized then w
          else if w.owner.IsClientControlled then w.StopMoving true else w.InterruptMoving)
    ∧ World.newEvents w (ChaseMovementGenerator.Update E gc w time_diff).2.2
      = (if w.owner.movespline.Finalized then []
          else if w.owner.IsClientControlled then [Event.StopMoving true]
          else [Event.InterruptMoving])
    ∧ World.newEvents w (FollowMovementGenerator.Update E gf w time_diff).2.2
      = (if w.owner.movespline.Finalized then []
          else if w.owner.IsClientControlled then [Event.StopMoving true]
          else [Event.InterruptMoving]) := by
  have h1 := Update_casting ChaseMovementGenerator.derived E gc w t time_diff ht hw ha hc
  have h2 := Update_casting FollowMovementGenerator.derived E gf w t time_diff ht hw ha hc
  have hev : World.newEvents w (if w.owner.movespline.Finalized then w
      else if w.owner.IsClientControlled then w.StopMoving true else w.InterruptMoving)
      = (if w.owner.movespline.Finalized then []
          else if w.owner.IsClientControlled then [Event.StopMoving true]
          else [Event.InterruptMoving]) := by
    cases w.owner.movespline.Finalized <;> cases w.owner.IsClientControlled <;>
      simp [World.newEvents, World.StopMoving, World.InterruptMoving, World.emit, World.setSpline]
  unfold ChaseMovementGenerator.Update FollowMovementGenerator.Update
  rw [h1, h2]
  exact ⟨rfl, rfl, hev, hev⟩

/-- Witness of C14: a creature that casts while its spline is in flight is
interrupted. -/
theorem Update_while_casting_witness :
    (ChaseMovementGenerator.Update (Scenario.env Scenario.NORMAL []) (Scenario.chase true)
      (Scenario.world { Scenario.creature with
          IsNonMeleeSpellCasted := true
          movespline := { Scenario.creature.movespline with Finalized := false } }
        (some Scenario.player)) 100).2.1 = Scenario.chase true
    ∧ World.newEvents
        (Scenario.world { Scenario.creature with
            IsNonMeleeSpellCasted := true
            movespline := { Scenario.creature.movespline with Finalized := false } }
          (some Scenario.player))
        (ChaseMovementGenerator.Update (Scenario.env Scenario.NORMAL []) (Scenario.chase true)
          (Scenario.world { Scenario.creature with
              IsNonMeleeSpellCasted := true
              movespline := { Scenario.creature.movespline with Finalized := false } }
            (some Scenario.player)) 100).2.2
      = [Event.InterruptMoving] :=
  ⟨congrArg (fun r => r.2.1)
      (Update_while_casting (Scenario.env Scenario.NORMAL []) (Scenario.chase true) Scenario.follow
        (Scenario.world { Scenario.creature with
            IsNonMeleeSpellCasted := true
            movespline := { Scenario.creature.movespline with Finalized := false } }
          (some Scenario.player)) Scenario.player 100 rfl rfl rfl rfl).1,
    (Update_while_casting (Scenario.env Scenario.NORMAL []) (Scenario.chase true) Scenario.follow
      (Scenario.world { Scenario.creature with
          IsNonMeleeSpellCasted := true
          movespline := { Scenario.creature.movespline with Finalized := false } }
        (some Scenario.player)) Scenario.player 100 rfl rfl rfl rfl).2.2.1⟩

/-- C15: when a Chase `Update` reaches the failure handler (valid in-world target,
living owner that is not casting, and the owner has `UNIT_STAT_NOT_MOVE` or
`UNIT_STAT_NO_COMBAT_MOVEMENT`, or the generator is a combat chase and the owner's
victim is not the tracked target), `Update` returns true, the generator differs
from the one before only in the mode, which is Normal, the owner differs only in
`UNIT_STAT_CHASE_MOVE`, which is cleared, and the events of the call are the entry
into the handler, `DistancingEnded` exactly when the mode was Distancing, and the
write of the mode: no path is computed or launched. -/
theorem Update_failure_handler (E : Env F) (g : ChaseMovementGenerator F) (w : World F)
    (t : Unit F) (time_diff : Nat) (ht : w.target = some t) (hw : t.IsInWorld = true)
    (ha : w.owner.isAlive = true) (hc : w.owner.IsNonMeleeSpellCasted = false)
    (hfail : (w.owner.unitState.NOT_MOVE = true ∨ w.owner.unitState.NO_COMBAT_MOVEMENT = true)
      ∨ (g.m_combat = true ∧ w.owner.getVictim ≠ some t.GetObjectGuid)) :
    (ChaseMovementGenerator.Update E g w time_diff).1 = true
    ∧ (ChaseMovementGenerator.Update E g w time_diff).2.1
      = { g with m_currentMode := ChaseModes.CHASE_MODE_NORMAL }
    ∧ (ChaseMovementGenerator.Update E g w time_diff).2.2.owner
      = { w.owner with unitState := { w.owner.unitState with CHASE_MOVE := false } }
    ∧ World.newEvents w (ChaseMovementGenerator.Update E g w time_diff).2.2
      = Event.enter Callee.HandleMovementFailure
        :: ((if g.m_currentMode = ChaseModes.CHASE_MODE_DISTANCING then [Event.DistancingEnded]
            else []) ++ [Event.setMode ChaseModes.CHASE_MODE_NORMAL]) := by
  have hu : ChaseMovementGenerator.Update E g w time_diff
      = (true, (ChaseMovementGenerator.HandleMovementFailure g w).1,
          (ChaseMovementGenerator.HandleMovementFailure g w).2) := by
    unfold ChaseMovementGenerator.Update TargetedMovementGeneratorMedium.Update
    simp only [ht, hw, ha, hc, Bool.not_true, Bool.false_eq_true, if_false,
      ChaseMovementGenerator.derived]
    rcases Bool.eq_false_or_eq_true (ChaseMovementGenerator._hasUnitStateNotMove w.owner)
      with hm | hm
    · simp only [hm, if_true]
    · simp only [hm, Bool.false_eq_true, if_false]
      have hl : ChaseMovementGenerator._lostTarget g w.owner t = true := by
        rcases hfail with hnm | ⟨hcombat, hv⟩
        · simp [ChaseMovementGenerator._hasUnitStateNotMove] at hm
          rcases hnm with h | h
          · rw [hm.1] at h; simp at h
          · rw [hm.2] at h; simp at h
        · simp [ChaseMovementGenerator._lostTarget, hcombat, hv]
      simp only [hl, if_true]
  rw [hu]
  unfold ChaseMovementGenerator.HandleMovementFailure
  by_cases hd : g.m_currentMode = ChaseModes.CHASE_MODE_DISTANCING
  · simp [hd, World.newEvents, World.emit, ChaseMovementGenerator._clearUnitStateMove,
      World.setUnitState]
  · simp [hd, World.newEvents, World.emit, ChaseMovementGenerator._clearUnitStateMove,
      World.setUnitState]

/-- Witness of C15: a rooted creature in Distancing mode. -/
theorem Update_failure_handler_witness :
    (ChaseMovementGenerator.Update (Scenario.env Scenario.NORMAL [])
      { Scenario.chase true with m_currentMode := ChaseModes.CHASE_MODE_DISTANCING }
      (Scenario.world { Scenario.creature with
          unitState := { Scenario.creature.unitState with NOT_MOVE := true, CHASE_MOVE := true } }
        (some Scenario.player)) 100).2.1.m_currentMode = ChaseModes.CHASE_MODE_NORMAL
    ∧ World.newEvents
        (Scenario.world { Scenario.creature with
            unitState := { Scenario.creature.unitState with NOT_MOVE := true, CHASE_MOVE := true } }
          (some Scenario.player))
        (ChaseMovementGenerator.Update (Scenario.env Scenario.NORMAL [])
          { Scenario.chase true with m_currentMode := ChaseModes.CHASE_MODE_DISTANCING }
          (Scenario.world { Scenario.creature with
              unitState := { Scenario.creature.unitState with NOT_MOVE := true, CHASE_MOVE := true } }
            (some Scenario.player)) 100).2.2
      = [Event.enter Callee.HandleMovementFailure, Event.DistancingEnded,
          Event.setMode ChaseModes.CHASE_MODE_NORMAL] :=
  ⟨congrArg (fun r => r.m_currentMode)
      (Update_failure_handler (Scenario.env Scenario.NORMAL [])
        { Scenario.chase true with m_currentMode := ChaseModes.CHASE_MODE_DISTANCING }
        (Scenario.world { Scenario.creature with
            unitState := { Scenario.creature.unitState with NOT_MOVE := true, CHASE_MOVE := true } }
          (some Scenario.player)) Scenario.player 100 rfl rfl rfl rfl (Or.inl (Or.inl rfl))).2.1,
    (Update_failure_handler (Scenario.env Scenario.NORMAL [])
      { Scenario.chase true with m_currentMode := ChaseModes.CHASE_MODE_DISTANCING }
      (Scenario.world { Scenario.creature with
          unitState := { Scenario.creature.unitState with NOT_MOVE := true, CHASE_MOVE := true } }
        (some Scenario.player)) Scenario.player 100 rfl rfl rfl rfl (Or.inl (Or.inl rfl))).2.2.2⟩

/-! ### The arrival handler -/

/-- C16: for every Chase state, after `HandleFinalizedMovement` the generator
differs from the one before in: `i_targetReached` is true, the closeness and fanning
timer is 2000, `i_lastTargetPos` is the target's position, the mode is Normal and
the reachable flag is true; `UNIT_STAT_CHASE_MOVE` is cleared and the other state
bits of the owner are kept; the owner is set in front of the target exactly when
the target was not within the 0.01 rad arc; `DistancingEnded` is emitted exactly
when the mode before the call was Distancing; no path is computed or launched. -/
theorem HandleFinalizedMovement_postcondition (E : Env F) (g : ChaseMovementGenerator F)
    (w : World F) (t : Unit F) :
    (ChaseMovementGenerator.HandleFinalizedMovement E g w t).1
      = { g with i_targetReached := true
                 i_lastTargetPos := t.position
                 m_closenessAndFanningTimer := 2000
                 m_currentMode := ChaseModes.CHASE_MODE_NORMAL
                 m_reachable := true }
    ∧ (ChaseMovementGenerator.HandleFinalizedMovement E g w t).2.owner.unitState
      = { w.owner.unitState with CHASE_MOVE := false }
    ∧ (Event.SetInFront ∈ World.newEvents w (ChaseMovementGenerator.HandleFinalizedMovement E g w t).2
      ↔ E.HasInArc w.owner.position w.owner.GetOrientation t.position (some 0.01) = false)
    ∧ (ChaseMovementGenerator.HandleFinalizedMovement E g w t).2.owner.GetOrientation
      = (if E.HasInArc w.owner.position w.owner.GetOrientation t.position (some 0.01)
          then w.owner.GetOrientation else E.GetAngle w.owner.position t.position)
    ∧ (Event.DistancingEnded
        ∈ World.newEvents w (ChaseMovementGenerator.HandleFinalizedMovement E g w t).2
      ↔ g.m_currentMode = ChaseModes.CHASE_MODE_DISTANCING)
    ∧ (∀ e ∈ World.newEvents w (ChaseMovementGenerator.HandleFinalizedMovement E g w t).2,
        Event.isLaunch e = false ∧ Event.isCalculate e = false) := by
  unfold ChaseMovementGenerator.HandleFinalizedMovement
  rcases Bool.eq_false_or_eq_true
    (E.HasInArc w.owner.position w.owner.GetOrientation t.position (some 0.01)) with harc | harc
  all_goals
    cases hm : g.m_currentMode <;>
    simp [World.emit, harc, hm, World.newEvents, World.SetInFront,
      ChaseMovementGenerator._clearUnitStateMove, World.setUnitState,
      ChaseMovementGenerator.CHASE_CLOSENESS_TIMER, Event.isLaunch, Event.isCalculate]

/-! ### Cutting the path -/

/-- The loop of `CutPath`, started at index `i` with fuel for the rest of the path:
it stops at the first waypoint from `i` on that passes both tests and keeps the
path up to it, or finds none and keeps the path. -/
theorem CutPath_loop_spec (E : Env F) (g : ChaseMovementGenerator F) (owner t : Unit F)
    (path : List (Vector3 F)) (fuel : Nat) :
    ∀ i, path.length ≤ fuel + i →
      ((∀ j p, i ≤ j → path[j]? = some p →
          ChaseMovementGenerator.CutPath.viable E g owner t p = false)
        ∧ ChaseMovementGenerator.CutPath.loop E owner t
            ((g.i_offset * ChaseMovementGenerator.CHASE_MOVE_CLOSER_FACTOR
              + E.GetCombinedCombatReach t false
                * ChaseMovementGenerator.CHASE_DEFAULT_RANGE_FACTOR)
            * (g.i_offset * ChaseMovementGenerator.CHASE_MOVE_CLOSER_FACTOR
              + E.GetCombinedCombatReach t false
                * ChaseMovementGenerator.CHASE_DEFAULT_RANGE_FACTOR)) path fuel i = path)
      ∨ ∃ k p, i ≤ k ∧ path[k]? = some p
        ∧ ChaseMovementGenerator.CutPath.viable E g owner t p = true
        ∧ (∀ j q, i ≤ j → j < k → path[j]? = some q →
            ChaseMovementGenerator.CutPath.viable E g owner t q = false)
        ∧ ChaseMovementGenerator.CutPath.loop E owner t
            ((g.i_offset * ChaseMovementGenerator.CHASE_MOVE_CLOSER_FACTOR
              + E.GetCombinedCombatReach t false
                * ChaseMovementGenerator.CHASE_DEFAULT_RANGE_FACTOR)
            * (g.i_offset * ChaseMovementGenerator.CHASE_MOVE_CLOSER_FACTOR
              + E.GetCombinedCombatReach t false
                * ChaseMovementGenerator.CHASE_DEFAULT_RANGE_FACTOR)) path fuel i
          = path.take (k + 1) := by
  have hsq : (g.i_offset * ChaseMovementGenerator.CHASE_MOVE_CLOSER_FACTOR
        + E.GetCombinedCombatReach t false * ChaseMovementGenerator.CHASE_DEFAULT_RANGE_FACTOR)
      * (g.i_offset * ChaseMovementGenerator.CHASE_MOVE_CLOSER_FACTOR
        + E.GetCombinedCombatReach t false * ChaseMovementGenerator.CHASE_DEFAULT_RANGE_FACTOR)
      = (0.875 * g.i_offset + 0.5 * E.GetCombinedCombatReach t false) ^ 2 := by
    simp only [ChaseMovementGenerator.CHASE_MOVE_CLOSER_FACTOR,
      ChaseMovementGenerator.CHASE_DEFAULT_RANGE_FACTOR]
    ring
  rw [hsq]
  generalize hd : (0.875 * g.i_offset + 0.5 * E.GetCombinedCombatReach t false) ^ 2 = d2
  induction fuel with
  | zero =>
    intro i hi
    left
    refine ⟨?_, rfl⟩
    intro j p hj hp
    have hlt : j < path.length := (List.getElem?_eq_some_iff.mp hp).1
    omega
  | succ n ih =>
    intro i hi
    unfold ChaseMovementGenerator.CutPath.loop
    by_cases h : i < path.length
    · simp only [h, dite_true]
      have hget : path[i]? = some (path.get ⟨i, h⟩) := by
        simp [List.getElem?_eq_getElem h]
      have hv : ChaseMovementGenerator.CutPath.viable E g owner t (path.get ⟨i, h⟩)
          = (decide (GetDistance t.position (path.get ⟨i, h⟩) ≤ d2)
            && E.IsInLineOfSight ⟨t.position.x, t.position.y, t.position.z + 2⟩
              ⟨(path.get ⟨i, h⟩).x, (path.get ⟨i, h⟩).y, (path.get ⟨i, h⟩).z + 2⟩
              owner.GetPhaseMask true) := by
        unfold ChaseMovementGenerator.CutPath.viable
        rw [hd]
      have hstep : ChaseMovementGenerator.CutPath.viable E g owner t (path.get ⟨i, h⟩) = false →
          ((∀ j p, i ≤ j → path[j]? = some p →
              ChaseMovementGenerator.CutPath.viable E g owner t p = false)
            ∧ ChaseMovementGenerator.CutPath.loop E owner t d2 path n (i + 1) = path)
          ∨ ∃ k p, i ≤ k ∧ path[k]? = some p
            ∧ ChaseMovementGenerator.CutPath.viable E g owner t p = true
            ∧ (∀ j q, i ≤ j → j < k → path[j]? = some q →
                ChaseMovementGenerator.CutPath.viable E g owner t q = false)
            ∧ ChaseMovementGenerator.CutPath.loop E owner t d2 path n (i + 1)
              = path.take (k + 1) := by
        intro hfalse
        rcases ih (i + 1) (by omega) with ⟨hall, hl⟩ | ⟨k, p, hk, hp, hvp, hbefore, hl⟩
        · left
          refine ⟨?_, hl⟩
          intro j p hj hp
          rcases Nat.eq_or_lt_of_le hj with heq | hlt
          · subst heq
            rw [hget] at hp
            cases hp
            exact hfalse
          · exact hall j p hlt hp
        · right
          refine ⟨k, p, by omega, hp, hvp, ?_, hl⟩
          intro j q hj hjk hq
          rcases Nat.eq_or_lt_of_le hj with heq | hlt
          · subst heq
            rw [hget] at hq
            cases hq
            exact hfalse
          · exact hbefore j q hlt hjk hq
      by_cases hdist : GetDistance t.position (path.get ⟨i, h⟩) > d2
      · simp only [hdist, if_true]
        exact hstep (by rw [hv, decide_eq_false (not_le.mpr hdist), Bool.false_and])
      · simp only [hdist, if_false]
        rcases Bool.eq_false_or_eq_true (E.IsInLineOfSight
          ⟨t.position.x, t.position.y, t.position.z + 2⟩
          ⟨(path.get ⟨i, h⟩).x, (path.get ⟨i, h⟩).y, (path.get ⟨i, h⟩).z + 2⟩
          owner.GetPhaseMask ChaseMovementGenerator.IGNORE_M2) with hlos | hlos
        · simp only [hlos, Bool.not_true, Bool.false_eq_true, if_false]
          right
          refine ⟨i, _, le_refl i, hget, ?_, ?_, rfl⟩
          · rw [hv, decide_eq_true (not_lt.mp hdist), Bool.true_and]
            exact hlos
          · intro j q hj hji
            omega
        · simp only [hlos, Bool.not_false, if_true]
          refine hstep ?_
          rw [hv]
          have hlos1 : E.IsInLineOfSight ⟨t.position.x, t.position.y, t.position.z + 2⟩
              ⟨(path.get ⟨i, h⟩).x, (path.get ⟨i, h⟩).y, (path.get ⟨i, h⟩).z + 2⟩
              owner.GetPhaseMask true = false := hlos
          rw [hlos1, Bool.and_false]
    · simp only [h, dite_false]
      left
      refine ⟨?_, trivial⟩
      intro j p hj hp
      have hlt : j < path.length := (List.getElem?_eq_some_iff.mp hp).1
      omega

/-- C19: for every path, `CutPath` returns the path unchanged when the offset is 0,
and for a nonzero offset it either finds an index `i ≥ 1` whose waypoint passes both
tests (squared distance to the target at most `(0.875 * offset + 0.5 * reach)²`, line
of sight from the target) while every waypoint of index `1 .. i - 1` fails one of
them, and returns the first `i + 1` waypoints (a prefix that keeps index 0 and ends
at waypoint `i`), or no waypoint of index `≥ 1` passes both tests and the path is
returned unchanged. -/
theorem CutPath_first_viable_waypoint (E : Env F) (g : ChaseMovementGenerator F)
    (owner t : Unit F) (path : List (Vector3 F)) :
    (g.i_offset = 0 → ChaseMovementGenerator.CutPath E g owner t path = path)
    ∧ (g.i_offset ≠ 0 →
      ((∀ j p, 1 ≤ j → path[j]? = some p →
          ChaseMovementGenerator.CutPath.viable E g owner t p = false)
        ∧ ChaseMovementGenerator.CutPath E g owner t path = path)
      ∨ ∃ i p, 1 ≤ i ∧ path[i]? = some p
        ∧ ChaseMovementGenerator.CutPath.viable E g owner t p = true
        ∧ (∀ j q, 1 ≤ j → j < i → path[j]? = some q →
            ChaseMovementGenerator.CutPath.viable E g owner t q = false)
        ∧ ChaseMovementGenerator.CutPath E g owner t path = path.take (i + 1)
        ∧ (ChaseMovementGenerator.CutPath E g owner t path).head? = path.head?
        ∧ (ChaseMovementGenerator.CutPath E g owner t path).getLast? = some p)
    ∧ ChaseMovementGenerator.CutPath E g owner t path <+: path := by
  have hmain : g.i_offset ≠ 0 →
      ((∀ j p, 1 ≤ j → path[j]? = some p →
          ChaseMovementGenerator.CutPath.viable E g owner t p = false)
        ∧ ChaseMovementGenerator.CutPath E g owner t path = path)
      ∨ ∃ i p, 1 ≤ i ∧ path[i]? = some p
        ∧ ChaseMovementGenerator.CutPath.viable E g owner t p = true
        ∧ (∀ j q, 1 ≤ j → j < i → path[j]? = some q →
            ChaseMovementGenerator.CutPath.viable E g owner t q = false)
        ∧ ChaseMovementGenerator.CutPath E g owner t path = path.take (i + 1)
        ∧ (ChaseMovementGenerator.CutPath E g owner t path).head? = path.head?
        ∧ (ChaseMovementGenerator.CutPath E g owner t path).getLast? = some p := by
    intro hoff
    have hcut : ChaseMovementGenerator.CutPath E g owner t path
        = ChaseMovementGenerator.CutPath.loop E owner t
            ((g.i_offset * ChaseMovementGenerator.CHASE_MOVE_CLOSER_FACTOR
              + E.GetCombinedCombatReach t false
                * ChaseMovementGenerator.CHASE_DEFAULT_RANGE_FACTOR)
            * (g.i_offset * ChaseMovementGenerator.CHASE_MOVE_CLOSER_FACTOR
              + E.GetCombinedCombatReach t false
                * ChaseMovementGenerator.CHASE_DEFAULT_RANGE_FACTOR)) path path.length 1 := by
      unfold ChaseMovementGenerator.CutPath
      simp only [hoff, ne_eq, not_false_eq_true, if_true]
    rw [hcut]
    rcases CutPath_loop_spec E g owner t path path.length 1 (by omega)
      with ⟨hall, hl⟩ | ⟨k, p, hk, hp, hvp, hbefore, hl⟩
    · exact Or.inl ⟨hall, hl⟩
    · right
      have hlt : k < path.length := (List.getElem?_eq_some_iff.mp hp).1
      refine ⟨k, p, hk, hp, hvp, hbefore, hl, ?_, ?_⟩
      · rw [hl]
        cases path with
        | nil => rfl
        | cons a as => rfl
      · rw [hl, List.getLast?_take]
        simp [hp]
  refine ⟨?_, hmain, ?_⟩
  · intro h0
    unfold ChaseMovementGenerator.CutPath
    simp [h0]
  · by_cases h0 : g.i_offset = 0
    · unfold ChaseMovementGenerator.CutPath
      simp [h0]
    · rcases hmain h0 with ⟨_, hl⟩ | ⟨i, p, _, _, _, _, hl, _⟩
      · rw [hl]
      · rw [hl]
        exact List.take_prefix _ _

/-! ### Trimming the path of the follower -/

/-- C20 fails: a player-controlled pet follows through a doorway; the path is
NORMAL and its third waypoint is not in line of sight from the second. `Move`
returns true and launches the path up to and including the third waypoint
(`path.resize(i + 1)` keeps the waypoint the owner cannot see), so the last pair of
consecutive waypoints of the launched path is not in line of sight. -/
theorem Move_launches_path_with_blocked_last_segment :
    Scenario.pet.UNIT_FLAG_PLAYER_CONTROLLED = true
    ∧ (Scenario.wallEnv.calculate Scenario.pet.position ⟨9, 0, 0⟩ none).getPathType = Scenario.NORMAL
    ∧ (FollowMovementGenerator.Move Scenario.wallEnv Scenario.follow
        (Scenario.world Scenario.pet (some Scenario.player)) Scenario.player ⟨9, 0, 0⟩).1 = true
    ∧ World.newEvents (Scenario.world Scenario.pet (some Scenario.player))
        (FollowMovementGenerator.Move Scenario.wallEnv Scenario.follow
          (Scenario.world Scenario.pet (some Scenario.player)) Scenario.player ⟨9, 0, 0⟩).2.2
      = [Event.calculate ⟨9, 0, 0⟩ none,
          Event.Launch [⟨0, 0, 0⟩, ⟨2, 0, 0⟩, ⟨4, 0, 0⟩] false false (some 7)]
    ∧ FollowMovementGenerator.Move.inSight Scenario.wallEnv Scenario.pet ⟨2, 0, 0⟩ ⟨4, 0, 0⟩
      = false := by
  refine ⟨rfl, rfl, ?_, ?_, ?_⟩
  · decide!
  · decide!
  · decide!

/-- The trimming loop of `Move`, started at index `i ≥ 1` with fuel for the rest
of the path: it finds no blocked pair of consecutive waypoints from `i` on, or
returns the index of the second waypoint of the first blocked pair. -/
theorem Move_firstBlocked_spec (E : Env F) (owner : Unit F) (path : List (Vector3 F))
    (fuel : Nat) :
    ∀ i, path.length ≤ fuel + (i + 1) →
      (FollowMovementGenerator.Move.firstBlocked E owner path fuel (i + 1) = none
        ∧ ∀ j a b, i ≤ j → path[j]? = some a → path[j + 1]? = some b →
          FollowMovementGenerator.Move.inSight E owner a b = true)
      ∨ ∃ m a b, FollowMovementGenerator.Move.firstBlocked E owner path fuel (i + 1) = some (m + 1)
        ∧ i ≤ m ∧ path[m]? = some a ∧ path[m + 1]? = some b
        ∧ FollowMovementGenerator.Move.inSight E owner a b = false
        ∧ ∀ j a b, i ≤ j → j < m → path[j]? = some a → path[j + 1]? = some b →
          FollowMovementGenerator.Move.inSight E owner a b = true := by
  induction fuel with
  | zero =>
    intro i hi
    left
    refine ⟨rfl, ?_⟩
    intro j a b hj ha hb
    have hlt : j + 1 < path.length := (List.getElem?_eq_some_iff.mp hb).1
    omega
  | succ n ih =>
    intro i hi
    unfold FollowMovementGenerator.Move.firstBlocked
    by_cases h : i + 1 < path.length
    · simp only [h, dite_true]
      have hi0 : i < path.length := by omega
      have hga : path[i]? = some (path.get ⟨i, hi0⟩) := by
        simp [List.getElem?_eq_getElem hi0]
      have hgb : path[i + 1]? = some (path.get ⟨i + 1, h⟩) := by
        simp [List.getElem?_eq_getElem h]
      rcases Bool.eq_false_or_eq_true (FollowMovementGenerator.Move.inSight E owner
        (path.get ⟨i, hi0⟩) (path.get ⟨i + 1, h⟩)) with hs | hs
      · have hs1 : E.IsInLineOfSight
            ⟨(path.get ⟨i + 1 - 1, by omega⟩).x, (path.get ⟨i + 1 - 1, by omega⟩).y,
              (path.get ⟨i + 1 - 1, by omega⟩).z + owner.GetCollisionHeight⟩
            ⟨(path.get ⟨i + 1, h⟩).x, (path.get ⟨i + 1, h⟩).y,
              (path.get ⟨i + 1, h⟩).z + owner.GetCollisionHeight⟩ owner.GetPhaseMask true
            = true := hs
        rw [if_pos hs1]
        rcases ih (i + 1) (by omega) with ⟨hnone, hall⟩ | ⟨m, a, b, hsome, hm, ha, hb, hblocked, hall⟩
        · left
          refine ⟨hnone, ?_⟩
          intro j a b hj ha hb
          rcases Nat.eq_or_lt_of_le hj with heq | hlt
          · subst heq
            rw [hga] at ha
            rw [hgb] at hb
            cases ha
            cases hb
            exact hs
          · exact hall j a b hlt ha hb
        · right
          refine ⟨m, a, b, hsome, by omega, ha, hb, hblocked, ?_⟩
          intro j a1 b1 hj hjm ha1 hb1
          rcases Nat.eq_or_lt_of_le hj with heq | hlt
          · subst heq
            rw [hga] at ha1
            rw [hgb] at hb1
            cases ha1
            cases hb1
            exact hs
          · exact hall j a1 b1 hlt hjm ha1 hb1
      · have hs1 : E.IsInLineOfSight
            ⟨(path.get ⟨i + 1 - 1, by omega⟩).x, (path.get ⟨i + 1 - 1, by omega⟩).y,
              (path.get ⟨i + 1 - 1, by omega⟩).z + owner.GetCollisionHeight⟩
            ⟨(path.get ⟨i + 1, h⟩).x, (path.get ⟨i + 1, h⟩).y,
              (path.get ⟨i + 1, h⟩).z + owner.GetCollisionHeight⟩ owner.GetPhaseMask true
            = false := hs
        rw [if_neg (by rw [hs1]; simp)]
        right
        refine ⟨i, _, _, rfl, le_refl i, hga, hgb, hs, ?_⟩
        intro j a b hj hji
        omega
    · simp only [h, dite_false]
      left
      refine ⟨trivial, ?_⟩
      intro j a b hj ha hb
      have hlt : j + 1 < path.length := (List.getElem?_eq_some_iff.mp hb).1
      omega

/-- The relocation at the head of `Move` keeps what the trimming loop reads of the
owner, and records no launch. -/
theorem Move_relocate_keeps (E : Env F) (w : World F) :
    (FollowMovementGenerator.Move.relocate E w).owner.GetCollisionHeight
      = w.owner.GetCollisionHeight
    ∧ (FollowMovementGenerator.Move.relocate E w).owner.GetPhaseMask = w.owner.GetPhaseMask
    ∧ (FollowMovementGenerator.Move.relocate E w).owner.UNIT_FLAG_PLAYER_CONTROLLED
      = w.owner.UNIT_FLAG_PLAYER_CONTROLLED
    ∧ ∃ es, (FollowMovementGenerator.Move.relocate E w).trace = w.trace ++ es
      ∧ ∀ e ∈ es, Event.isLaunch e = false := by
  unfold FollowMovementGenerator.Move.relocate
  rcases Bool.eq_false_or_eq_true w.owner.movespline.Finalized with hf | hf
  · simp only [hf, Bool.not_true, Bool.false_eq_true, if_false]
    exact ⟨trivial, trivial, trivial, [], by simp, by simp⟩
  · simp only [hf, Bool.not_false, if_true]
    exact ⟨rfl, rfl, rfl, [Event.Relocate _], rfl, by simp [Event.isLaunch]⟩

/-- What the trimming loop of `Move` returns on the whole path: nothing when every
pair of consecutive waypoints is in sight, and the index of the second waypoint of
the first blocked pair otherwise. -/
theorem Move_firstBlocked_eq (E : Env F) (owner : Unit F) (path : List (Vector3 F)) :
    ((∀ j a b, path[j]? = some a → path[j + 1]? = some b →
        FollowMovementGenerator.Move.inSight E owner a b = true) →
      FollowMovementGenerator.Move.firstBlocked E owner path path.length 1 = none)
    ∧ (∀ m a b, path[m]? = some a → path[m + 1]? = some b →
        FollowMovementGenerator.Move.inSight E owner a b = false →
        (∀ j a1 b1, j < m → path[j]? = some a1 → path[j + 1]? = some b1 →
          FollowMovementGenerator.Move.inSight E owner a1 b1 = true) →
        FollowMovementGenerator.Move.firstBlocked E owner path path.length 1 = some (m + 1)) := by
  have hspec := Move_firstBlocked_spec E owner path path.length 0 (by omega)
  constructor
  · intro hall
    rcases hspec with ⟨hnone, _⟩ | ⟨m, a, b, _, _, ha, hb, hblocked, _⟩
    · exact hnone
    · rw [hall m a b ha hb] at hblocked
      simp at hblocked
  · intro m a b ha hb hblocked hbefore
    rcases hspec with ⟨_, hall⟩ | ⟨k, a1, b1, hsome, _, ha1, hb1, hblocked1, hbefore1⟩
    · rw [hall m a b (Nat.zero_le m) ha hb] at hblocked
      simp at hblocked
    · rcases Nat.lt_trichotomy k m with hlt | heq | hgt
      · rw [hbefore k a1 b1 hlt ha1 hb1] at hblocked1
        simp at hblocked1
      · rw [hsome, heq]
      · rw [hbefore1 m a b (Nat.zero_le m) hgt ha hb] at hblocked
        simp at hblocked

/-- What `Move` launches when the path is neither NOPATH nor SHORTCUT and the
owner or the target is player-controlled: if every pair of consecutive waypoints
is in line of sight the whole path is launched; if the first pair that is not in
line of sight consists of the waypoints of index `m` and `m + 1` with `m ≥ 1`, `Move`
returns true and launches the first `m + 2` waypoints, a path that ends with that
blocked pair (all pairs before the last are in line of sight, the last is not); and
if the very first pair (index 0 and 1) is not in line of sight and unstick is not
allowed, `Move` returns false and launches nothing. -/
theorem Move_trims_at_first_blocked_waypoint [FloorRing F] (E : Env F)
    (g : FollowMovementGenerator F) (w : World F) (t : Unit F) (dest : Vector3 F)
    (hno : (E.calculate (FollowMovementGenerator.Move.relocate E w).owner.position dest
      none).getPathType.NOPATH = false)
    (hsc : (E.calculate (FollowMovementGenerator.Move.relocate E w).owner.position dest
      none).getPathType.SHORTCUT = false)
    (hpc : w.owner.UNIT_FLAG_PLAYER_CONTROLLED = true ∨ t.UNIT_FLAG_PLAYER_CONTROLLED = true) :
    ((∀ j a b, (FollowMovementGenerator.Move.path E w dest)[j]? = some a →
        (FollowMovementGenerator.Move.path E w dest)[j + 1]? = some b →
        FollowMovementGenerator.Move.inSight E w.owner a b = true) →
      (FollowMovementGenerator.Move E g w t dest).1 = true
      ∧ ∃ es v, World.newEvents w (FollowMovementGenerator.Move E g w t dest).2.2
          = es ++ [Event.Launch (FollowMovementGenerator.Move.path E w dest)
              (FollowMovementGenerator.EnableWalking (some t)) false (some v)]
        ∧ ∀ e ∈ es, Event.isLaunch e = false)
    ∧ (∀ m a b, 1 ≤ m → (FollowMovementGenerator.Move.path E w dest)[m]? = some a →
        (FollowMovementGenerator.Move.path E w dest)[m + 1]? = some b →
        FollowMovementGenerator.Move.inSight E w.owner a b = false →
        (∀ j a1 b1, j < m → (FollowMovementGenerator.Move.path E w dest)[j]? = some a1 →
          (FollowMovementGenerator.Move.path E w dest)[j + 1]? = some b1 →
          FollowMovementGenerator.Move.inSight E w.owner a1 b1 = true) →
        (FollowMovementGenerator.Move E g w t dest).1 = true
        ∧ (∃ es v, World.newEvents w (FollowMovementGenerator.Move E g w t dest).2.2
            = es ++ [Event.Launch ((FollowMovementGenerator.Move.path E w dest).take (m + 2))
                (FollowMovementGenerator.EnableWalking (some t)) false (some v)]
          ∧ ∀ e ∈ es, Event.isLaunch e = false)
        ∧ ((FollowMovementGenerator.Move.path E w dest).take (m + 2)).length = m + 2
        ∧ ((FollowMovementGenerator.Move.path E w dest).take (m + 2))[m]? = some a
        ∧ ((FollowMovementGenerator.Move.path E w dest).take (m + 2))[m + 1]? = some b)
    ∧ (∀ a b, (FollowMovementGenerator.Move.path E w dest)[0]? = some a →
        (FollowMovementGenerator.Move.path E w dest)[1]? = some b →
        FollowMovementGenerator.Move.inSight E w.owner a b = false →
        FollowMovementGenerator.IsUnstuckAllowed E g
          (FollowMovementGenerator.Move.relocate E w).owner (some t) = false →
        (FollowMovementGenerator.Move E g w t dest).1 = false
        ∧ ∀ e ∈ World.newEvents w (FollowMovementGenerator.Move E g w t dest).2.2,
          Event.isLaunch e = false) := by
  obtain ⟨hh, hp, hflag, es0, htr0, hes0⟩ := Move_relocate_keeps E w
  have hin : ∀ a b, FollowMovementGenerator.Move.inSight E
      ((FollowMovementGenerator.Move.relocate E w).emit (Event.calculate dest none)).owner a b
      = FollowMovementGenerator.Move.inSight E w.owner a b := by
    intro a b
    unfold FollowMovementGenerator.Move.inSight
    rw [World.emit_owner, hh, hp]
  have hpc1 : (((FollowMovementGenerator.Move.relocate E w).emit
      (Event.calculate dest none)).owner.UNIT_FLAG_PLAYER_CONTROLLED
      || t.UNIT_FLAG_PLAYER_CONTROLLED) = true := by
    rw [World.emit_owner, hflag]
    rcases hpc with h | h <;> simp [h]
  have hfb := Move_firstBlocked_eq E
    ((FollowMovementGenerator.Move.relocate E w).emit (Event.calculate dest none)).owner
    (FollowMovementGenerator.Move.path E w dest)
  simp only [hin] at hfb
  have hmove : FollowMovementGenerator.Move E g w t dest
      = match FollowMovementGenerator.Move.firstBlocked E
          ((FollowMovementGenerator.Move.relocate E w).emit (Event.calculate dest none)).owner
          (FollowMovementGenerator.Move.path E w dest)
          (FollowMovementGenerator.Move.path E w dest).length 1 with
        | none => FollowMovementGenerator.Move.finish E g
            ((FollowMovementGenerator.Move.relocate E w).emit (Event.calculate dest none)) t dest
            (E.calculate (FollowMovementGenerator.Move.relocate E w).owner.position dest none)
            (FollowMovementGenerator.Move.path E w dest) false
        | some i =>
          if i ≠ 1 then
            FollowMovementGenerator.Move.finish E g
              ((FollowMovementGenerator.Move.relocate E w).emit (Event.calculate dest none)) t dest
              (E.calculate (FollowMovementGenerator.Move.relocate E w).owner.position dest none)
              ((FollowMovementGenerator.Move.path E w dest).take (i + 1)) false
          else if !FollowMovementGenerator.IsUnstuckAllowed E g
              ((FollowMovementGenerator.Move.relocate E w).emit (Event.calculate dest none)).owner
              (some t) then
            (false, { g with i_path := some (E.calculate
              (FollowMovementGenerator.Move.relocate E w).owner.position dest none) },
              (FollowMovementGenerator.Move.relocate E w).emit (Event.calculate dest none))
          else
            FollowMovementGenerator.Move.finish E g
              ((FollowMovementGenerator.Move.relocate E w).emit (Event.calculate dest none)) t dest
              (E.calculate (FollowMovementGenerator.Move.relocate E w).owner.position dest none)
              (FollowMovementGenerator.Move.path E w dest) true := by
    unfold FollowMovementGenerator.Move FollowMovementGenerator.Move.path
    simp only [hno, hsc, hpc1, Bool.or_self, Bool.false_eq_true, if_false, if_true]
  have hfinish : ∀ path : List (Vector3 F),
      (FollowMovementGenerator.Move.finish E g
        ((FollowMovementGenerator.Move.relocate E w).emit (Event.calculate dest none)) t dest
        (E.calculate (FollowMovementGenerator.Move.relocate E w).owner.position dest none)
        path false).1 = true
      ∧ ∃ es v, World.newEvents w (FollowMovementGenerator.Move.finish E g
          ((FollowMovementGenerator.Move.relocate E w).emit (Event.calculate dest none)) t dest
          (E.calculate (FollowMovementGenerator.Move.relocate E w).owner.position dest none)
          path false).2.2
          = es ++ [Event.Launch path (FollowMovementGenerator.EnableWalking (some t)) false (some v)]
        ∧ ∀ e ∈ es, Event.isLaunch e = false := by
    intro path
    unfold FollowMovementGenerator.Move.finish
    simp only [Bool.false_eq_true, if_false, Bool.not_false, true_and]
    refine ⟨es0 ++ [Event.calculate dest none],
      FollowMovementGenerator.GetSpeed E g
        ((FollowMovementGenerator.Move.relocate E w).emit (Event.calculate dest none)).owner t,
      ?_, ?_⟩
    · refine newEvents_of_append w _ _ ?_
      simp only [MoveSplineInit.Launch, World.emit, World.setSpline,
        FollowMovementGenerator._addUnitStateMove, World.setUnitState, htr0, List.append_assoc]
    · intro e he
      rcases List.mem_append.mp he with h | h
      · exact hes0 e h
      · rw [List.mem_singleton.mp h]
        rfl
  refine ⟨?_, ?_, ?_⟩
  · intro hall
    rw [hmove, hfb.1 hall]
    exact hfinish _
  · intro m a b hm ha hb hblocked hbefore
    rw [hmove, hfb.2 m a b ha hb hblocked hbefore]
    have hne : m + 1 ≠ 1 := by omega
    simp only [hne, ne_eq, not_false_eq_true, if_true]
    have hlen : m + 1 < (FollowMovementGenerator.Move.path E w dest).length :=
      (List.getElem?_eq_some_iff.mp hb).1
    refine ⟨(hfinish _).1, (hfinish _).2, ?_, ?_, ?_⟩
    · rw [List.length_take]
      omega
    · rw [List.getElem?_take_of_lt (by omega)]
      exact ha
    · rw [List.getElem?_take_of_lt (by omega)]
      exact hb
  · intro a b ha hb hblocked hun
    have hun1 : FollowMovementGenerator.IsUnstuckAllowed E g
        ((FollowMovementGenerator.Move.relocate E w).emit (Event.calculate dest none)).owner
        (some t) = false := hun
    rw [hmove, hfb.2 0 a b ha hb hblocked (fun j _ _ hj => absurd hj (Nat.not_lt_zero j))]
    simp only [hun1, Bool.not_false, if_true, ne_eq, not_true_eq_false, if_false, zero_add]
    refine ⟨trivial, ?_⟩
    rw [newEvents_of_append w _ (es0 ++ [Event.calculate dest none])
      (by simp only [World.emit, htr0, List.append_assoc])]
    intro e he
    rcases List.mem_append.mp he with h | h
    · exact hes0 e h
    · rw [List.mem_singleton.mp h]
      rfl

/-- An instance of the trimming: the pet in the doorway; the launched path has
three waypoints and ends with the blocked pair. -/
theorem Move_trims_at_first_blocked_waypoint_witness :
    (FollowMovementGenerator.Move Scenario.wallEnv Scenario.follow
        (Scenario.world Scenario.pet (some Scenario.player)) Scenario.player ⟨9, 0, 0⟩).1 = true
    ∧ ((FollowMovementGenerator.Move.path Scenario.wallEnv
        (Scenario.world Scenario.pet (some Scenario.player)) ⟨9, 0, 0⟩).take (1 + 2))[1 + 1]?
      = some ⟨4, 0, 0⟩ :=
  ⟨((Move_trims_at_first_blocked_waypoint Scenario.wallEnv Scenario.follow
      (Scenario.world Scenario.pet (some Scenario.player)) Scenario.player ⟨9, 0, 0⟩ rfl rfl
      (Or.inl rfl)).2.1 1 ⟨2, 0, 0⟩ ⟨4, 0, 0⟩ (le_refl 1) rfl rfl (by decide!)
      (fun j a1 b1 hj ha hb => by
        have hj0 : j = 0 := by omega
        subst hj0
        cases ha
        cases hb
        decide!)).1,
   ((Move_trims_at_first_blocked_waypoint Scenario.wallEnv Scenario.follow
      (Scenario.world Scenario.pet (some Scenario.player)) Scenario.player ⟨9, 0, 0⟩ rfl rfl
      (Or.inl rfl)).2.1 1 ⟨2, 0, 0⟩ ⟨4, 0, 0⟩ (le_refl 1) rfl rfl (by decide!)
      (fun j a1 b1 hj ha hb => by
        have hj0 : j = 0 := by omega
        subst hj0
        cases ha
        cases hb
        decide!)).2.2.2.2⟩

/-! ### The re-dispatch in Distancing mode -/

/-- Counterexample to C18 as stated: a creature in Distancing mode whose speed
changed while it runs to `x = -5`. The tick computes a path to that destination and
launches it without walking and uncut, and with the facing target set on the
spline (the third argument of the launch). -/
theorem Distancing_redispatch_faces_target :
    World.newEvents (Scenario.world Scenario.distancing (some Scenario.player))
      (ChaseMovementGenerator.HandleTargetedMovement Scenario.chaseEnv
        { Scenario.chase true with
          m_currentMode := ChaseModes.CHASE_MODE_DISTANCING, i_speedChanged := true }
        (Scenario.world Scenario.distancing (some Scenario.player)) Scenario.player 250).2
    = [Event.calculate ⟨-5, 0, 0⟩ (some false),
        Event.Launch [⟨0, 0, 0⟩, ⟨-5, 0, 0⟩] false true none] := by
  decide!

/-- The update of the closeness timer keeps the fields the recheck decides on. -/
theorem HandleTargetedMovement_closeness_fields (g : ChaseMovementGenerator F) (time_diff : Nat) :
    (ChaseMovementGenerator.HandleTargetedMovement.closeness g time_diff).i_recheckDistance
      = g.i_recheckDistance
    ∧ (ChaseMovementGenerator.HandleTargetedMovement.closeness g time_diff).i_speedChanged
      = g.i_speedChanged
    ∧ (ChaseMovementGenerator.HandleTargetedMovement.closeness g time_diff).i_targetReached
      = g.i_targetReached
    ∧ (ChaseMovementGenerator.HandleTargetedMovement.closeness g time_diff).m_reachable
      = g.m_reachable
    ∧ (ChaseMovementGenerator.HandleTargetedMovement.closeness g time_diff).m_currentMode
      = g.m_currentMode := by
  unfold ChaseMovementGenerator.HandleTargetedMovement.closeness
  split_ifs <;> exact ⟨rfl, rfl, rfl, rfl, rfl⟩

/-- In Distancing mode with the target not reached nothing happens after the
dispatch decisions of the tick. -/
theorem HandleTargetedMovement_engaged_distancing (E : Env F) (g : ChaseMovementGenerator F)
    (w : World F) (t : Unit F) (currentTargetPos dest : Vector3 F)
    (hmode : g.m_currentMode = ChaseModes.CHASE_MODE_DISTANCING)
    (hreach : g.i_targetReached = false) :
    ChaseMovementGenerator.HandleTargetedMovement.engaged E g w t currentTargetPos dest = (g, w) := by
  unfold ChaseMovementGenerator.HandleTargetedMovement.engaged
  simp [hmode, hreach]

/-- C18, amended: in Distancing mode (with the target not reached, as it is while
the owner distances itself), `HandleTargetedMovement` re-dispatches exactly when the
recheck timer has passed and the speed-changed flag is set: it computes a path to
the spline's current final destination and, when one exists, launches it without
walking, uncut, and with the facing target set on the spline; otherwise the tick
computes and launches nothing. -/
theorem Distancing_redispatch_only_on_speed_change (E : Env F) (g : ChaseMovementGenerator F)
    (w : World F) (t : Unit F) (time_diff : Nat)
    (hmode : g.m_currentMode = ChaseModes.CHASE_MODE_DISTANCING)
    (hreach : g.i_targetReached = false) :
    (((g.i_recheckDistance.Update time_diff).Passed = true ∧ g.i_speedChanged = true) →
      World.newEvents w (ChaseMovementGenerator.HandleTargetedMovement E g w t time_diff).2
        = Event.calculate w.owner.movespline.FinalDestination (some false)
          :: (if (E.calculate w.owner.position w.owner.movespline.FinalDestination
                (some false)).getPathType.NOPATH then []
              else [Event.Launch (E.calculate w.owner.position w.owner.movespline.FinalDestination
                (some false)).getPath false true none]))
    ∧ (¬ ((g.i_recheckDistance.Update time_diff).Passed = true ∧ g.i_speedChanged = true) →
      World.newEvents w (ChaseMovementGenerator.HandleTargetedMovement E g w t time_diff).2 = []) := by
  obtain ⟨hc1, hc2, hc3, _, hc5⟩ := HandleTargetedMovement_closeness_fields
    { g with i_recheckDistance := g.i_recheckDistance.Update time_diff } time_diff
  unfold ChaseMovementGenerator.HandleTargetedMovement
  simp only []
  generalize ChaseMovementGenerator.HandleTargetedMovement.closeness
    { g with i_recheckDistance := g.i_recheckDistance.Update time_diff } time_diff = g1
    at hc1 hc2 hc3 hc5 ⊢
  have hp1 : g1.i_recheckDistance = g.i_recheckDistance.Update time_diff := hc1
  have hs1 : g1.i_speedChanged = g.i_speedChanged := hc2
  have hr1 : g1.i_targetReached = false := hc3.trans hreach
  have hm1 : g1.m_currentMode = ChaseModes.CHASE_MODE_DISTANCING := hc5.trans hmode
  rw [hp1]
  rcases Bool.eq_false_or_eq_true (g.i_recheckDistance.Update time_diff).Passed with hp | hp
  · simp only [hp, Bool.not_true, Bool.false_eq_true, if_false, true_and]
    unfold ChaseMovementGenerator.HandleTargetedMovement.recheck
    simp only [hm1, ne_eq, not_true_eq_false, if_false, hs1]
    rcases Bool.eq_false_or_eq_true g.i_speedChanged with hs | hs
    · simp only [hs, if_true, forall_true_left, not_true_eq_false, false_implies, and_true]
      rcases Bool.eq_false_or_eq_true (E.calculate w.owner.position
        w.owner.movespline.FinalDestination (some false)).getPathType.NOPATH with hno | hno
      · rw [DispatchSplineToPosition_nopath E _ w t _ false false true hno]
        simp only [Bool.false_eq_true, if_false, hno, if_true]
        simp only [HandleTargetedMovement_engaged_distancing, hm1, hr1]
        exact newEvents_of_append w _ _ rfl
      · rw [DispatchSplineToPosition_path E _ w t _ false false true hno]
        simp only [if_true, hno, Bool.false_eq_true, if_false]
        refine newEvents_of_append w _ _ ?_
        simp only [MoveSplineInit.Launch, World.emit, World.setSpline,
          ChaseMovementGenerator._addUnitStateMove, World.setUnitState, List.append_assoc,
          List.singleton_append]
    · simp only [hs, Bool.false_eq_true, if_false, false_implies, not_false_eq_true,
        forall_true_left, true_and]
      simp only [HandleTargetedMovement_engaged_distancing, hm1, hr1]
      simp [World.newEvents]
  · simp only [hp, Bool.not_false, if_true, Bool.false_eq_true, false_and, false_implies,
      not_false_eq_true, forall_true_left, true_and]
    simp [World.newEvents]

/-- Witness of C18, amended: the creature on its way to `x = -5` whose speed
changed. -/
theorem Distancing_redispatch_only_on_speed_change_witness :
    World.newEvents (Scenario.world Scenario.distancing (some Scenario.player))
      (ChaseMovementGenerator.HandleTargetedMovement Scenario.chaseEnv
        { Scenario.chase true with
          m_currentMode := ChaseModes.CHASE_MODE_DISTANCING, i_speedChanged := true }
        (Scenario.world Scenario.distancing (some Scenario.player)) Scenario.player 250).2
    = Event.calculate
        (Scenario.world Scenario.distancing (some Scenario.player)).owner.movespline.FinalDestination
        (some false)
      :: (if (Scenario.chaseEnv.calculate
              (Scenario.world Scenario.distancing (some Scenario.player)).owner.position
              (Scenario.world Scenario.distancing
                (some Scenario.player)).owner.movespline.FinalDestination
              (some false)).getPathType.NOPATH then []
          else [Event.Launch (Scenario.chaseEnv.calculate
              (Scenario.world Scenario.distancing (some Scenario.player)).owner.position
              (Scenario.world Scenario.distancing
                (some Scenario.player)).owner.movespline.FinalDestination
              (some false)).getPath false true none]) :=
  (Distancing_redispatch_only_on_speed_change Scenario.chaseEnv
    { Scenario.chase true with
      m_currentMode := ChaseModes.CHASE_MODE_DISTANCING, i_speedChanged := true }
    (Scenario.world Scenario.distancing (some Scenario.player)) Scenario.player 250 rfl rfl).1
    ⟨by decide, rfl⟩

/-! ### Dereferences of the target reference -/

/-- C17 fails on the code: with an invalid target reference `DistanceYourself`
dereferences `i_target` in its first statement (the function has no validity test;
`none` is the dereference of the invalid reference), whereas `Initialize`, `Reset`
and `Update` of both generators and `GetResetPosition` test the reference first and
return without reading the target. -/
theorem DistanceYourself_dereferences_invalid_target [FloorRing F] (E : Env F)
    (gc : ChaseMovementGenerator F) (gf : FollowMovementGenerator F) (w : World F) (distance : F)
    (time_diff : Nat) :
    ChaseMovementGenerator.DistanceYourself E gc { w with target := none } distance = none
    ∧ ChaseMovementGenerator.Initialize E gc { w with target := none }
      = (gc, { w with target := none })
    ∧ ChaseMovementGenerator.Reset E gc { w with target := none }
      = (gc, { w with target := none })
    ∧ ChaseMovementGenerator.Update E gc { w with target := none } time_diff
      = (false, gc, { w with target := none })
    ∧ FollowMovementGenerator.Initialize E gf { w with target := none }
      = (gf, { w with target := none })
    ∧ FollowMovementGenerator.Reset E gf { w with target := none }
      = (gf, { w with target := none })
    ∧ FollowMovementGenerator.Update E gf { w with target := none } time_diff
      = (false, gf, { w with target := none })
    ∧ FollowMovementGenerator.GetResetPosition E gf w.owner none = none :=
  ⟨rfl, rfl, rfl, rfl, rfl, rfl, rfl, rfl⟩

/-! ### Reachability -/

/-- Nothing done. -/
theorem Reaching.idle (g : ChaseMovementGenerator F) (w : World F) : Reaching g w g w :=
  ⟨[], by simp, rfl, Or.inr ⟨rfl, rfl, rfl⟩⟩

/-- Parts compose. -/
theorem Reaching.next {g g1 g2 : ChaseMovementGenerator F} {w w1 w2 : World F}
    (h1 : Reaching g w g1 w1) (h2 : Reaching g1 w1 g2 w2) : Reaching g w g2 w2 := by
  obtain ⟨es1, ht1, ha1, hc1⟩ := h1
  obtain ⟨es2, ht2, ha2, hc2⟩ := h2
  refine ⟨es1 ++ es2, by simp [ht2, ht1], by simp [List.any_append, ha1, ha2], ?_⟩
  rcases hc2 with h | ⟨hr2, hm2, hl2⟩
  · exact Or.inl h
  · rcases hc1 with h | ⟨hr1, hm1, hl1⟩
    · exact Or.inl (hm2.trans h)
    · exact Or.inr ⟨hr2.trans hr1, hm2.trans hm1, by simp [List.any_append, hl1, hl2]⟩

/-- An event that is neither an arrival nor a launch. -/
theorem Reaching.note (g : ChaseMovementGenerator F) (w : World F) (e : Event F)
    (h1 : Event.isArrival e = false) (h2 : Event.isLaunch e = false) :
    Reaching g w g (w.emit e) :=
  ⟨[e], rfl, by simp [h1], Or.inr ⟨rfl, rfl, by simp [h2]⟩⟩

/-- A change of the generator that keeps `i_targetReached` and the reachable flag. -/
theorem Reaching.kept {g g1 g2 : ChaseMovementGenerator F} {w w1 : World F}
    (h : Reaching g w g1 w1) (hm : g2.m_reachable = g1.m_reachable)
    (hr : g2.i_targetReached = g1.i_targetReached) : Reaching g w g2 w1 := by
  obtain ⟨es, ht, ha, hc⟩ := h
  refine ⟨es, ht, ha, ?_⟩
  rcases hc with h | ⟨hr1, hm1, hl1⟩
  · exact Or.inl (hm.trans h)
  · exact Or.inr ⟨hr.trans hr1, hm.trans hm1, hl1⟩

/-- A change of the world that keeps the trace. -/
theorem Reaching.quiet {g g1 : ChaseMovementGenerator F} {w w1 w2 : World F}
    (h : Reaching g w g1 w1) (ht2 : w2.trace = w1.trace) : Reaching g w g1 w2 := by
  obtain ⟨es, ht, ha, hc⟩ := h
  exact ⟨es, ht2.trans ht, ha, hc⟩

/-- A part that ends with the reachable flag set. -/
theorem Reaching.reached {g g1 g2 : ChaseMovementGenerator F} {w w1 : World F}
    (h : Reaching g w g1 w1) (hm : g2.m_reachable = true) : Reaching g w g2 w1 := by
  obtain ⟨es, ht, ha, _⟩ := h
  exact ⟨es, ht, ha, Or.inl hm⟩

/-- A dispatch handles no arrival; it sets the reachable flag when it succeeds and
launches nothing otherwise. -/
theorem DispatchSplineToPosition_reaching (E : Env F) (g : ChaseMovementGenerator F) (w : World F)
    (t : Unit F) (dest : Vector3 F) (walk cutPath target : Bool) :
    Reaching g w
      (ChaseMovementGenerator.DispatchSplineToPosition E g w t dest walk cutPath target).2.1
      (ChaseMovementGenerator.DispatchSplineToPosition E g w t dest walk cutPath target).2.2
    ∧ ((ChaseMovementGenerator.DispatchSplineToPosition E g w t dest walk cutPath target).1 = true →
      (ChaseMovementGenerator.DispatchSplineToPosition E g w t dest walk cutPath
        target).2.1.m_reachable = true) := by
  rcases Bool.eq_false_or_eq_true (E.calculate w.owner.position dest (some false)).getPathType.NOPATH
    with hno | hno
  · rw [DispatchSplineToPosition_nopath E g w t dest walk cutPath target hno]
    exact ⟨(Reaching.note g w (Event.calculate dest (some false)) rfl rfl).kept rfl rfl,
      fun h => by simp at h⟩
  · rw [DispatchSplineToPosition_path E g w t dest walk cutPath target hno]
    refine ⟨?_, fun _ => rfl⟩
    simp only [MoveSplineInit.Launch, World.emit, World.setSpline,
      ChaseMovementGenerator._addUnitStateMove, World.setUnitState]
    exact ⟨_, List.append_assoc _ _ _, by simp [Event.isArrival], Or.inl rfl⟩

/-- An attempt of `FanOut`. -/
theorem FanOut_attempt_reaching (E : Env F) (g : ChaseMovementGenerator F) (w : World F)
    (t : Unit F) (ori : F) :
    Reaching g w (ChaseMovementGenerator.FanOut.attempt E g w t ori).2.1
      (ChaseMovementGenerator.FanOut.attempt E g w t ori).2.2 := by
  unfold ChaseMovementGenerator.FanOut.attempt
  simp only []
  obtain ⟨h1, h2⟩ := DispatchSplineToPosition_reaching E g w t
    (E.GetNearPoint t w.owner.position w.owner.GetObjectBoundingRadius
      (E.GetCombinedCombatReach t false) ori) true false
    ChaseMovementGenerator.DispatchSplineToPosition.targetDefault
  split_ifs with h
  · exact (h1.next (Reaching.note _ _ (Event.setMode ChaseModes.CHASE_MODE_FANNING) rfl rfl)).reached
      (h2 h)
  · exact h1

/-- The function `FanOut`. -/
theorem FanOut_reaching (E : Env F) (g : ChaseMovementGenerator F) (w : World F) (t : Unit F) :
    Reaching g w (ChaseMovementGenerator.FanOut E g w t).1
      (ChaseMovementGenerator.FanOut E g w t).2 := by
  have he : Reaching g w g (w.emit (Event.enter Callee.FanOut)) :=
    Reaching.note g w (Event.enter Callee.FanOut) rfl rfl
  unfold ChaseMovementGenerator.FanOut
  simp only []
  by_cases hen : g.m_fanningEnabled = true
  · simp only [hen, Bool.not_true, Bool.false_eq_true, if_false]
    split
    · exact he
    · generalize E.NormalizeOrientation _ = ori1
      have hd : Reaching g w g ((w.emit (Event.enter Callee.FanOut)).drawn 2) := he.quiet rfl
      have h1 := FanOut_attempt_reaching E g ((w.emit (Event.enter Callee.FanOut)).drawn 2) t ori1
      generalize ChaseMovementGenerator.FanOut.attempt E g
        ((w.emit (Event.enter Callee.FanOut)).drawn 2) t ori1 = r1 at h1 ⊢
      by_cases hr : r1.1 = true
      · simp only [hr, if_true]
        exact hd.next h1
      · have hr1 : r1.1 = false := by simpa using hr
        simp only [hr1, Bool.false_eq_true, if_false]
        generalize E.NormalizeOrientation _ = ori2
        have hq : Reaching g w r1.2.1 (r1.2.2.drawn 1) := (hd.next h1).quiet rfl
        exact hq.next (FanOut_attempt_reaching E r1.2.1 (r1.2.2.drawn 1) t ori2)
  · simp only [hen, Bool.not_false, if_true]
    exact he

/-- The function `Backpedal`. -/
theorem Backpedal_reaching (E : Env F) (g : ChaseMovementGenerator F) (w : World F) (t : Unit F) :
    Reaching g w (ChaseMovementGenerator.Backpedal E g w t).1
      (ChaseMovementGenerator.Backpedal E g w t).2 := by
  have he : Reaching g w
      { g with m_closenessExpired := false
               m_closenessAndFanningTimer := ChaseMovementGenerator.CHASE_CLOSENESS_TIMER }
      (w.emit (Event.enter Callee.Backpedal)) :=
    (Reaching.note g w (Event.enter Callee.Backpedal) rfl rfl).kept rfl rfl
  unfold ChaseMovementGenerator.Backpedal
  simp only []
  generalize w.emit (Event.enter Callee.Backpedal) = w1 at he ⊢
  generalize ({ g with m_closenessExpired := false
                       m_closenessAndFanningTimer := ChaseMovementGenerator.CHASE_CLOSENESS_TIMER } :
    ChaseMovementGenerator F) = g1 at he ⊢
  split_ifs with hclose hr
  · exact ((he.next (DispatchSplineToPosition_reaching E g1 w1 t _ true false _).1).next
      (Reaching.note _ _ (Event.setMode ChaseModes.CHASE_MODE_BACKPEDAL) rfl rfl)).reached
      ((DispatchSplineToPosition_reaching E g1 w1 t _ true false _).2 hr)
  · exact he.next (DispatchSplineToPosition_reaching E g1 w1 t _ true false _).1
  · exact he.next (FanOut_reaching E g1 w1 t)

/-- The last part of the chase tick. -/
theorem HandleTargetedMovement_engaged_reaching (E : Env F) (g : ChaseMovementGenerator F)
    (w : World F) (t : Unit F) (currentTargetPos dest : Vector3 F) :
    Reaching g w
      (ChaseMovementGenerator.HandleTargetedMovement.engaged E g w t currentTargetPos dest).1
      (ChaseMovementGenerator.HandleTargetedMovement.engaged E g w t currentTargetPos dest).2 := by
  unfold ChaseMovementGenerator.HandleTargetedMovement.engaged
  simp only []
  split_ifs
  all_goals first
    | exact Reaching.idle g w
    | exact Backpedal_reaching E g w t
    | exact ⟨[Event.StopMoving true], rfl, rfl, Or.inr ⟨rfl, rfl, rfl⟩⟩
    | exact ⟨[Event.InterruptMoving], rfl, rfl, Or.inr ⟨rfl, rfl, rfl⟩⟩

/-- What a part of a chase operation tells about an unreachable end: nothing was
launched and the start was unreachable too. -/
theorem Reaching.unreachable {g g1 : ChaseMovementGenerator F} {w w1 : World F}
    (h : Reaching g w g1 w1) :
    ∃ es, w1.trace = w.trace ++ es ∧ es.any Event.isArrival = false
      ∧ (ChaseMovementGenerator.IsReachable g1 = false →
        es.any Event.isLaunch = false ∧ ChaseMovementGenerator.IsReachable g = false) := by
  obtain ⟨es, ht, ha, hc⟩ := h
  refine ⟨es, ht, ha, ?_⟩
  intro hunreach
  unfold ChaseMovementGenerator.IsReachable at hunreach ⊢
  rcases hc with h | ⟨hr, hm, hl⟩
  · rw [h] at hunreach
    simp at hunreach
  · rw [hr, hm] at hunreach
    exact ⟨hl, hunreach⟩

/-- The re-dispatch of the chase tick: it ends unreachable only after a path
computation without a launch. -/
theorem HandleTargetedMovement_redispatch_reachable (E : Env F) (g : ChaseMovementGenerator F)
    (w : World F) (t : Unit F) (targetMoved : Bool) :
    ∃ es, (ChaseMovementGenerator.HandleTargetedMovement.redispatch E g w t targetMoved).2.trace
        = w.trace ++ es
      ∧ es.any Event.isArrival = false
      ∧ (ChaseMovementGenerator.IsReachable
          (ChaseMovementGenerator.HandleTargetedMovement.redispatch E g w t targetMoved).1 = false →
        es.any Event.isLaunch = false ∧ es.any Event.isCalculate = true) := by
  have key : ∀ p : Vector3 F, ∃ es,
      (if (ChaseMovementGenerator.DispatchSplineToPosition E g w t p g.EnableWalking true true).1
        then
          ({ (ChaseMovementGenerator.DispatchSplineToPosition E g w t p g.EnableWalking true
                true).2.1 with
              i_targetReached := false
              i_speedChanged := false
              i_lastTargetPos := t.position
              m_closenessAndFanningTimer := 0 },
            (ChaseMovementGenerator.DispatchSplineToPosition E g w t p g.EnableWalking true
              true).2.2)
        else
          ({ (ChaseMovementGenerator.DispatchSplineToPosition E g w t p g.EnableWalking true
                true).2.1 with m_reachable := false },
            (ChaseMovementGenerator.DispatchSplineToPosition E g w t p g.EnableWalking true
              true).2.2)).2.trace = w.trace ++ es
      ∧ es.any Event.isArrival = false
      ∧ (ChaseMovementGenerator.IsReachable
          (if (ChaseMovementGenerator.DispatchSplineToPosition E g w t p g.EnableWalking true
              true).1
            then
              ({ (ChaseMovementGenerator.DispatchSplineToPosition E g w t p g.EnableWalking true
                    true).2.1 with
                  i_targetReached := false
                  i_speedChanged := false
                  i_lastTargetPos := t.position
                  m_closenessAndFanningTimer := 0 },
                (ChaseMovementGenerator.DispatchSplineToPosition E g w t p g.EnableWalking true
                  true).2.2)
            else
              ({ (ChaseMovementGenerator.DispatchSplineToPosition E g w t p g.EnableWalking true
                    true).2.1 with m_reachable := false },
                (ChaseMovementGenerator.DispatchSplineToPosition E g w t p g.EnableWalking true
                  true).2.2)).1 = false →
        es.any Event.isLaunch = false ∧ es.any Event.isCalculate = true) := by
    intro p
    rcases Bool.eq_false_or_eq_true (E.calculate w.owner.position p (some false)).getPathType.NOPATH
      with hno | hno
    · rw [DispatchSplineToPosition_nopath E g w t p _ true true hno]
      simp only [Bool.false_eq_true, if_false]
      exact ⟨[Event.calculate p (some false)], rfl, rfl, fun _ => ⟨rfl, rfl⟩⟩
    · rw [DispatchSplineToPosition_path E g w t p _ true true hno]
      simp only [if_true]
      simp only [MoveSplineInit.Launch, World.emit, World.setSpline,
        ChaseMovementGenerator._addUnitStateMove, World.setUnitState]
      exact ⟨_, List.append_assoc _ _ _, by simp [Event.isArrival],
        fun h => by simp [ChaseMovementGenerator.IsReachable] at h⟩
  unfold ChaseMovementGenerator.HandleTargetedMovement.redispatch
  exact key _

/-- The recheck of the chase tick: it handles no arrival, and when it ends
unreachable it has launched nothing, has not taken the branch "no new position
needed", and has computed a path or was unreachable before. -/
theorem HandleTargetedMovement_recheck_reachable (E : Env F) (g : ChaseMovementGenerator F)
    (w : World F) (t : Unit F) :
    ∃ es, (ChaseMovementGenerator.HandleTargetedMovement.recheck E g w t).2.trace = w.trace ++ es
      ∧ es.any Event.isArrival = false
      ∧ (ChaseMovementGenerator.IsReachable
          (ChaseMovementGenerator.HandleTargetedMovement.recheck E g w t).1 = false →
        es.any Event.isLaunch = false
        ∧ ChaseMovementGenerator.HandleTargetedMovement.recheck.settles E g w t = false
        ∧ (es.any Event.isCalculate = true ∨ ChaseMovementGenerator.IsReachable g = false)) := by
  unfold ChaseMovementGenerator.HandleTargetedMovement.recheck
    ChaseMovementGenerator.HandleTargetedMovement.recheck.settles
  simp only []
  split_ifs with hd hs hm hs2 hr
  · obtain ⟨es, ht, ha, hc⟩ := HandleTargetedMovement_redispatch_reachable E g w t
      (ChaseMovementGenerator.RequiresNewPosition E g w.owner t w.owner.movespline.FinalDestination)
    refine ⟨es, ht, ha, fun h => ⟨(hc h).1, ?_, Or.inl (hc h).2⟩⟩
    rw [hs]
    simp
  · obtain ⟨es, ht, ha, hc⟩ := (HandleTargetedMovement_engaged_reaching E
      { g with m_reachable := true } w t t.position w.owner.movespline.FinalDestination).unreachable
    refine ⟨es, ht, ha, fun h => ?_⟩
    have := (hc h).2
    simp [ChaseMovementGenerator.IsReachable] at this
  · exfalso
    simp at hs hm
    rw [hm] at hs
    simp at hs
  · have hdm : g.m_currentMode = ChaseModes.CHASE_MODE_DISTANCING := not_not.mp hd
    obtain ⟨h1, h2⟩ := DispatchSplineToPosition_reaching E g w t
      w.owner.movespline.FinalDestination false false true
    have h3 : Reaching g w
        { (ChaseMovementGenerator.DispatchSplineToPosition E g w t
            w.owner.movespline.FinalDestination false false true).2.1 with
          i_speedChanged := false }
        (ChaseMovementGenerator.DispatchSplineToPosition E g w t
          w.owner.movespline.FinalDestination false false true).2.2 := h1.reached (h2 hr)
    obtain ⟨es, ht, ha, hc⟩ := h3.unreachable
    exact ⟨es, ht, ha, fun h => ⟨(hc h).1, by simp [hdm], Or.inr (hc h).2⟩⟩
  · have hdm : g.m_currentMode = ChaseModes.CHASE_MODE_DISTANCING := not_not.mp hd
    obtain ⟨h1, _⟩ := DispatchSplineToPosition_reaching E g w t
      w.owner.movespline.FinalDestination false false true
    obtain ⟨es, ht, ha, hc⟩ := (h1.next (HandleTargetedMovement_engaged_reaching E _ _ t t.position
      w.owner.movespline.FinalDestination)).unreachable
    exact ⟨es, ht, ha, fun h => ⟨(hc h).1, by simp [hdm], Or.inr (hc h).2⟩⟩
  · have hdm : g.m_currentMode = ChaseModes.CHASE_MODE_DISTANCING := not_not.mp hd
    obtain ⟨es, ht, ha, hc⟩ := (HandleTargetedMovement_engaged_reaching E g w t t.position
      w.owner.movespline.FinalDestination).unreachable
    exact ⟨es, ht, ha, fun h => ⟨(hc h).1, by simp [hdm], Or.inr (hc h).2⟩⟩

/-- The chase tick: it handles no arrival, and when it ends unreachable it has
launched nothing, has not taken the branch "no new position needed", and has
computed a path or was unreachable before. -/
theorem HandleTargetedMovement_reachable (E : Env F) (g : ChaseMovementGenerator F)
    (w : World F) (t : Unit F) (time_diff : Nat) :
    ∃ es, (ChaseMovementGenerator.HandleTargetedMovement E g w t time_diff).2.trace = w.trace ++ es
      ∧ es.any Event.isArrival = false
      ∧ (ChaseMovementGenerator.IsReachable
          (ChaseMovementGenerator.HandleTargetedMovement E g w t time_diff).1 = false →
        es.any Event.isLaunch = false
        ∧ ChaseMovementGenerator.HandleTargetedMovement.settles E g w t time_diff = false
        ∧ (es.any Event.isCalculate = true ∨ ChaseMovementGenerator.IsReachable g = false)) := by
  obtain ⟨_, _, hc3, hc4, _⟩ := HandleTargetedMovement_closeness_fields
    { g with i_recheckDistance := g.i_recheckDistance.Update time_diff } time_diff
  unfold ChaseMovementGenerator.HandleTargetedMovement
    ChaseMovementGenerator.HandleTargetedMovement.settles
  simp only []
  generalize ChaseMovementGenerator.HandleTargetedMovement.closeness
    { g with i_recheckDistance := g.i_recheckDistance.Update time_diff } time_diff = g1
    at hc3 hc4 ⊢
  have hreach : ∀ g2 : ChaseMovementGenerator F, g2.i_targetReached = g1.i_targetReached →
      g2.m_reachable = g1.m_reachable →
      ChaseMovementGenerator.IsReachable g2 = ChaseMovementGenerator.IsReachable g := by
    intro g2 h1 h2
    unfold ChaseMovementGenerator.IsReachable
    rw [h1, h2, hc3, hc4]
  split_ifs with hp
  · exact ⟨[], by simp, rfl, fun h => ⟨rfl, rfl, Or.inr ((hreach g1 rfl rfl).symm.trans h)⟩⟩
  · obtain ⟨es, ht, ha, hc⟩ := HandleTargetedMovement_recheck_reachable E
      { g1 with i_recheckDistance := g1.i_recheckDistance.Reset 250 } w t
    refine ⟨es, ht, ha, fun h => ⟨(hc h).1, (hc h).2.1, ?_⟩⟩
    rcases (hc h).2.2 with hcalc | hun
    · exact Or.inl hcalc
    · exact Or.inr ((hreach _ rfl rfl).symm.trans hun)


/-- The arrival handler leaves the generator reachable. -/
theorem HandleFinalizedMovement_reachable (E : Env F) (g : ChaseMovementGenerator F) (w : World F)
    (t : Unit F) :
    ChaseMovementGenerator.IsReachable (ChaseMovementGenerator.HandleFinalizedMovement E g w t).1
      = true := by
  unfold ChaseMovementGenerator.HandleFinalizedMovement ChaseMovementGenerator.IsReachable
  simp

/-- The failure handler of the chase generator launches nothing, handles no
arrival and leaves the reachability as it was. -/
theorem HandleMovementFailure_reachable (g : ChaseMovementGenerator F) (w : World F) :
    ChaseMovementGenerator.IsReachable (ChaseMovementGenerator.HandleMovementFailure g w).1
      = ChaseMovementGenerator.IsReachable g
    ∧ (World.newEvents w (ChaseMovementGenerator.HandleMovementFailure g w).2).any Event.isLaunch
      = false
    ∧ (World.newEvents w (ChaseMovementGenerator.HandleMovementFailure g w).2).any Event.isArrival
      = false := by
  unfold ChaseMovementGenerator.HandleMovementFailure
  simp only []
  split_ifs <;>
    simp [World.newEvents, World.emit, ChaseMovementGenerator._clearUnitStateMove,
      World.setUnitState, ChaseMovementGenerator.IsReachable, Event.isLaunch, Event.isArrival]

/-- A chase `Update` that ends unreachable has launched nothing, handled no
arrival, not taken the branch "no new position needed", and has computed a path or
was unreachable before. -/
theorem Update_reachable (E : Env F) (g : ChaseMovementGenerator F) (w : World F)
    (time_diff : Nat)
    (h : ChaseMovementGenerator.IsReachable (ChaseMovementGenerator.Update E g w time_diff).2.1
      = false) :
    (World.newEvents w (ChaseMovementGenerator.Update E g w time_diff).2.2).any Event.isLaunch
      = false
    ∧ (World.newEvents w (ChaseMovementGenerator.Update E g w time_diff).2.2).any Event.isArrival
      = false
    ∧ ChaseMovementGenerator.Update.settles E g w time_diff = false
    ∧ ((World.newEvents w (ChaseMovementGenerator.Update E g w time_diff).2.2).any
        Event.isCalculate = true
      ∨ ChaseMovementGenerator.IsReachable g = false) := by
  revert h
  unfold ChaseMovementGenerator.Update TargetedMovementGeneratorMedium.Update
    ChaseMovementGenerator.Update.settles
  cases ht : w.target with
  | none =>
    intro h
    exact ⟨by simp [World.newEvents], by simp [World.newEvents], rfl, Or.inr h⟩
  | some t =>
    simp only [ChaseMovementGenerator.derived]
    split_ifs with h1 h2 h3 h4 h5 h6 h7 h8
    · intro h
      simp at h1
      exact ⟨by simp [World.newEvents], by simp [World.newEvents], by simp [h1], Or.inr h⟩
    · intro h
      simp at h2
      exact ⟨by simp [World.newEvents], by simp [World.newEvents], by simp [h2], Or.inr h⟩
    · intro h
      exact ⟨by simp [World.newEvents, World.StopMoving, World.emit, World.setSpline, Event.isLaunch],
        by simp [World.newEvents, World.StopMoving, World.emit, World.setSpline, Event.isArrival],
        by simp [h3], Or.inr h⟩
    · intro h
      exact ⟨by simp [World.newEvents, World.InterruptMoving, World.emit, World.setSpline,
          Event.isLaunch],
        by simp [World.newEvents, World.InterruptMoving, World.emit, World.setSpline,
          Event.isArrival],
        by simp [h3], Or.inr h⟩
    · intro h
      exact ⟨by simp [World.newEvents], by simp [World.newEvents], by simp [h3], Or.inr h⟩
    · intro h
      obtain ⟨hr, hl, ha⟩ := HandleMovementFailure_reachable g w
      exact ⟨hl, ha, by simp [h6], Or.inr (hr.symm.trans h)⟩
    · intro h
      obtain ⟨hr, hl, ha⟩ := HandleMovementFailure_reachable g w
      exact ⟨hl, ha, by simp [h7], Or.inr (hr.symm.trans h)⟩
    · intro h
      rw [HandleFinalizedMovement_reachable] at h
      simp at h
    · intro h
      obtain ⟨es, htr, ha, hc⟩ := HandleTargetedMovement_reachable E g w t time_diff
      have hev : World.newEvents w
          (ChaseMovementGenerator.HandleTargetedMovement E g w t time_diff).2 = es :=
        newEvents_of_append w _ es htr
      simp only [hev]
      exact ⟨(hc h).1, ha, by rw [(hc h).2.1]; simp, (hc h).2.2⟩

/-- An `Initialize` that ends unreachable has dispatched nothing and was
unreachable before. -/
theorem Initialize_reachable (E : Env F) (g : ChaseMovementGenerator F) (w : World F)
    (h : ChaseMovementGenerator.IsReachable (ChaseMovementGenerator.Initialize E g w).1 = false) :
    (World.newEvents w (ChaseMovementGenerator.Initialize E g w).2).any Event.isLaunch = false
    ∧ (World.newEvents w (ChaseMovementGenerator.Initialize E g w).2).any Event.isArrival = false
    ∧ ChaseMovementGenerator.IsReachable g = false := by
  revert h
  cases ht : w.target with
  | none =>
    have h1 : ChaseMovementGenerator.Initialize E g w = (g, w) := by
      unfold ChaseMovementGenerator.Initialize
      simp only [ht]
    rw [h1]
    intro h
    exact ⟨by simp [World.newEvents], by simp [World.newEvents], h⟩
  | some t =>
    by_cases hw : t.IsInWorld = true
    · rcases Bool.eq_false_or_eq_true (ChaseMovementGenerator._hasUnitStateNotMove w.owner)
        with hm | hm
      · rw [Initialize_not_move E g w t ht hw hm]
        intro h
        exact ⟨by simp [World.newEvents, World.setUnitState],
          by simp [World.newEvents, World.setUnitState], h⟩
      · rcases Bool.eq_false_or_eq_true (E.calculate w.owner.position
            (ChaseMovementGenerator._getLocation.point E g w.owner t)
            (some false)).getPathType.NOPATH with hno | hno
        · rw [Initialize_nopath E g w t ht hw hm hno]
          intro h
          simp [ChaseMovementGenerator.IsReachable] at h
        · rw [Initialize_path E g w t ht hw hm hno]
          intro h
          simp [ChaseMovementGenerator.IsReachable] at h
    · have h1 : ChaseMovementGenerator.Initialize E g w = (g, w) := by
        unfold ChaseMovementGenerator.Initialize
        simp only [ht, hw, Bool.not_false, if_true]
      rw [h1]
      intro h
      exact ⟨by simp [World.newEvents], by simp [World.newEvents], h⟩

/-- A `DistanceYourself` that ends unreachable has computed a path and launched
nothing. -/
theorem DistanceYourself_reachable (E : Env F) (g : ChaseMovementGenerator F) (w : World F)
    (distance : F) (r : ChaseMovementGenerator F × World F)
    (hr : ChaseMovementGenerator.DistanceYourself E g w distance = some r)
    (h : ChaseMovementGenerator.IsReachable r.1 = false) :
    (World.newEvents w r.2).any Event.isLaunch = false
    ∧ (World.newEvents w r.2).any Event.isArrival = false
    ∧ (World.newEvents w r.2).any Event.isCalculate = true := by
  revert hr
  unfold ChaseMovementGenerator.DistanceYourself
  cases ht : w.target with
  | none =>
    intro hr
    cases hr
  | some t =>
    simp only []
    rcases Bool.eq_false_or_eq_true (E.calculate w.owner.position
      (E.GetNearPoint t w.owner.position w.owner.GetObjectBoundingRadius distance
        (E.GetAngle t.position w.owner.position)) (some false)).getPathType.NOPATH with hno | hno
    · rw [DispatchSplineToPosition_nopath E g w t _ false false _ hno]
      simp only [Bool.false_eq_true, if_false, Option.some.injEq]
      intro hr
      subst hr
      simp [World.newEvents, World.emit, Event.isLaunch, Event.isArrival, Event.isCalculate]
    · rw [DispatchSplineToPosition_path E g w t _ false false _ hno]
      simp only [if_true, Option.some.injEq]
      intro hr
      subst hr
      simp [ChaseMovementGenerator.IsReachable] at h

/-- The history flag is set after an operation that launched nothing, handled no
arrival and did not settle, when a path was computed or the flag was set before. -/
theorem pendingAfter_of (pending : Bool) (es : List (Event F)) (settled : Bool)
    (hl : es.any Event.isLaunch = false) (ha : es.any Event.isArrival = false)
    (hs : settled = false) (hc : es.any Event.isCalculate = true ∨ pending = true) :
    pendingAfter pending es settled = true := by
  unfold pendingAfter
  rcases hc with h | h <;> simp [hl, ha, hs, h]

/-- C13: in every Chase state reachable from a freshly constructed generator
through `Initialize`, `Reset`, `Update`, `DistanceYourself`, changes of the world and
changes of other fields, `IsReachable()` returns false only if the history flag is
set: a dispatch attempt has failed, and no successful dispatch, no arrival and no
"no new position needed" recheck has happened since. Immediately after
`HandleFinalizedMovement` (arrival) `IsReachable()` returns true, and so it does
after an `Update` whose recheck found that no new position is needed. -/
theorem IsReachable_false_only_after_failed_dispatch (E : Env F) (g : ChaseMovementGenerator F)
    (w : World F) (pending : Bool) (h : History E g w pending) :
    (ChaseMovementGenerator.IsReachable g = false → pending = true)
    ∧ (∀ t, ChaseMovementGenerator.IsReachable
        (ChaseMovementGenerator.HandleFinalizedMovement E g w t).1 = true)
    ∧ (∀ time_diff, ChaseMovementGenerator.Update.settles E g w time_diff = true →
        ChaseMovementGenerator.IsReachable (ChaseMovementGenerator.Update E g w time_diff).2.1
          = true) := by
  refine ⟨?_, fun t => HandleFinalizedMovement_reachable E g w t, ?_⟩
  swap
  · intro time_diff hs
    rcases Bool.eq_false_or_eq_true (ChaseMovementGenerator.IsReachable
      (ChaseMovementGenerator.Update E g w time_diff).2.1) with hr | hr
    · exact hr
    · rw [(Update_reachable E g w time_diff hr).2.2.1] at hs
      cases hs
  induction h with
  | fresh g w hm =>
    intro h
    simp [ChaseMovementGenerator.IsReachable, hm] at h
  | world g w w1 pending _ ih => exact ih
  | fields g g1 w pending _ hm hr ih =>
    intro h
    apply ih
    unfold ChaseMovementGenerator.IsReachable at h ⊢
    rw [← hm, ← hr]
    exact h
  | Initialize g w pending _ ih =>
    intro h
    obtain ⟨hl, ha, hun⟩ := Initialize_reachable E g w h
    exact pendingAfter_of _ _ _ hl ha rfl (Or.inr (ih hun))
  | Update g w pending time_diff _ ih =>
    intro h
    obtain ⟨hl, ha, hs, hc⟩ := Update_reachable E g w time_diff h
    refine pendingAfter_of _ _ _ hl ha hs ?_
    rcases hc with hc | hun
    · exact Or.inl hc
    · exact Or.inr (ih hun)
  | DistanceYourself g w pending distance r _ hr ih =>
    intro h
    obtain ⟨hl, ha, hc⟩ := DistanceYourself_reachable E g w distance r hr h
    exact pendingAfter_of _ _ _ hl ha rfl (Or.inl hc)

/-- Witness of C13: the creature had reached the player, who then moved on to
where no path leads: the tick's re-dispatch fails, `IsReachable()` is false and the
history flag is set. -/
theorem IsReachable_false_only_after_failed_dispatch_witness :
    ChaseMovementGenerator.IsReachable
        (ChaseMovementGenerator.Update (Scenario.env Scenario.NOPATH [])
          { Scenario.chase true with i_targetReached := true }
          (Scenario.world Scenario.creature (some Scenario.player)) 250).2.1 = false
    ∧ pendingAfter false
        (World.newEvents (Scenario.world Scenario.creature (some Scenario.player))
          (ChaseMovementGenerator.Update (Scenario.env Scenario.NOPATH [])
            { Scenario.chase true with i_targetReached := true }
            (Scenario.world Scenario.creature (some Scenario.player)) 250).2.2)
        (ChaseMovementGenerator.Update.settles (Scenario.env Scenario.NOPATH [])
          { Scenario.chase true with i_targetReached := true }
          (Scenario.world Scenario.creature (some Scenario.player)) 250) = true :=
  ⟨by decide!,
    (IsReachable_false_only_after_failed_dispatch (Scenario.env Scenario.NOPATH []) _ _ _
      (History.Update { Scenario.chase true with i_targetReached := true }
        (Scenario.world Scenario.creature (some Scenario.player)) false 250
        (History.fresh _ _ rfl))).1 (by decide!)⟩

/-! ### Unstick permission and the speed of the follower -/

/-- C22: `IsUnstuckAllowed` is true if and only if the owner is out of combat, the
target is valid and out of combat, the target has none of the movement flags
FALLING, FALLINGFAR and FLYING, the owner's position is outdoors (in the terrain of
the target) and `IsBoostAllowed` is true; in particular `IsUnstuckAllowed` implies
`IsBoostAllowed`. -/
theorem IsUnstuckAllowed_iff [FloorRing F] (E : Env F) (g : FollowMovementGenerator F)
    (owner : Unit F) (i_target : Option (Unit F)) :
    (FollowMovementGenerator.IsUnstuckAllowed E g owner i_target = true
      ↔ owner.isInCombat = false
        ∧ (∃ t, i_target = some t ∧ t.isInCombat = false
            ∧ t.m_movementInfo.FALLING = false ∧ t.m_movementInfo.FALLINGFAR = false
            ∧ t.m_movementInfo.FLYING = false ∧ E.IsOutdoors t owner.position = true)
        ∧ FollowMovementGenerator.IsBoostAllowed E g owner i_target = true)
    ∧ (FollowMovementGenerator.IsUnstuckAllowed E g owner i_target = true
        → FollowMovementGenerator.IsBoostAllowed E g owner i_target = true) := by
  cases i_target with
  | none => simp [FollowMovementGenerator.IsUnstuckAllowed]
  | some t =>
    unfold FollowMovementGenerator.IsUnstuckAllowed
    rcases Bool.eq_false_or_eq_true owner.isInCombat with h1 | h1 <;>
    rcases Bool.eq_false_or_eq_true t.isInCombat with h2 | h2 <;>
    rcases Bool.eq_false_or_eq_true t.m_movementInfo.FALLING with h3 | h3 <;>
    rcases Bool.eq_false_or_eq_true t.m_movementInfo.FALLINGFAR with h4 | h4 <;>
    rcases Bool.eq_false_or_eq_true t.m_movementInfo.FLYING with h5 | h5 <;>
    rcases Bool.eq_false_or_eq_true (E.IsOutdoors t owner.position) with h6 | h6 <;>
    simp [h1, h2, h3, h4, h5, h6]

/-- The boost branch of `GetSpeed` is reached: the owner is out of combat, owner
and target agree in the PLAYER_CONTROLLED flag, the owner's speed rate for the
target's speed type is not below 1 and the owner has no use-normal-movement-speed
aura. Then the speed is the target's speed in motion without boost, and with boost
the capped catch-up speed for a client-controlled target and the larger of the
target's speed and the owner's run speed otherwise. -/
theorem GetSpeed_synchronised [FloorRing F] (E : Env F) (g : FollowMovementGenerator F)
    (owner t : Unit F) (hc : owner.isInCombat = false)
    (hpc : owner.UNIT_FLAG_PLAYER_CONTROLLED = t.UNIT_FLAG_PLAYER_CONTROLLED)
    (hrate : ¬ owner.GetSpeedRate t.m_movementInfo.GetSpeedType < 1)
    (haura : owner.SPELL_AURA_USE_NORMAL_MOVEMENT_SPEED = false) :
    FollowMovementGenerator.GetSpeed E g owner t
      = if !FollowMovementGenerator.IsBoostAllowed E g owner (some t) then t.GetSpeedInMotion
        else if t.IsClientControlled then
          max (owner.GetSpeed UnitMoveType.MOVE_WALK)
            (min (t.GetSpeedInMotion + GetDistance t.position owner.position / t.GetSpeedInMotion) 40)
        else max t.GetSpeedInMotion (owner.GetSpeed UnitMoveType.MOVE_RUN) := by
  have h1 : (1.0 : F) = 1 := by norm_num
  have h40 : (40.0 : F) = 40 := by norm_num
  unfold FollowMovementGenerator.GetSpeed
  simp only [hc, hpc, h1, h40, hrate, haura, Option.isSome_some, Bool.not_true, Bool.or_self,
    Bool.false_eq_true, if_false, ne_eq, not_true_eq_false, decide_False, Bool.or_false]

/-- The early returns of `GetSpeed`: when owner and target differ in the
PLAYER_CONTROLLED flag, or the owner's speed rate for the target's speed type is
below 1, or the owner has the use-normal-movement-speed aura, or the owner is in
combat, the speed is the owner's own speed for the target's speed type. -/
theorem GetSpeed_default [FloorRing F] (E : Env F) (g : FollowMovementGenerator F)
    (owner t : Unit F)
    (h : owner.isInCombat = true
      ∨ owner.UNIT_FLAG_PLAYER_CONTROLLED ≠ t.UNIT_FLAG_PLAYER_CONTROLLED
      ∨ owner.GetSpeedRate t.m_movementInfo.GetSpeedType < 1
      ∨ owner.SPELL_AURA_USE_NORMAL_MOVEMENT_SPEED = true) :
    FollowMovementGenerator.GetSpeed E g owner t
      = owner.GetSpeed t.m_movementInfo.GetSpeedType := by
  have h1 : (1.0 : F) = 1 := by norm_num
  unfold FollowMovementGenerator.GetSpeed
  simp only [h1]
  rcases h with h | h | h | h <;> simp [h]

/-- C25: for an owner out of combat with a valid target, `GetSpeed` returns the
owner's own speed for the target's speed type when owner and target differ in the
PLAYER_CONTROLLED flag, or when the owner's speed rate for that type is below 1 or
the owner has the use-normal-movement-speed aura; otherwise, when boosting is not
allowed, it returns exactly the target's `GetSpeedInMotion()`. -/
theorem GetSpeed_default_or_target_speed [FloorRing F] (E : Env F)
    (g : FollowMovementGenerator F) (owner t : Unit F) (hc : owner.isInCombat = false) :
    ((owner.UNIT_FLAG_PLAYER_CONTROLLED ≠ t.UNIT_FLAG_PLAYER_CONTROLLED
        ∨ owner.GetSpeedRate t.m_movementInfo.GetSpeedType < 1
        ∨ owner.SPELL_AURA_USE_NORMAL_MOVEMENT_SPEED = true)
      → FollowMovementGenerator.GetSpeed E g owner t
          = owner.GetSpeed t.m_movementInfo.GetSpeedType)
    ∧ (owner.UNIT_FLAG_PLAYER_CONTROLLED = t.UNIT_FLAG_PLAYER_CONTROLLED
      → ¬ owner.GetSpeedRate t.m_movementInfo.GetSpeedType < 1
      → owner.SPELL_AURA_USE_NORMAL_MOVEMENT_SPEED = false
      → FollowMovementGenerator.IsBoostAllowed E g owner (some t) = false
      → FollowMovementGenerator.GetSpeed E g owner t = t.GetSpeedInMotion) := by
  constructor
  · intro h
    exact GetSpeed_default E g owner t (Or.inr h)
  · intro hpc hrate haura hb
    rw [GetSpeed_synchronised E g owner t hc hpc hrate haura, hb]
    rfl

/-- Witness of C25: a creature without master follows a leader that moves at speed
14: no boost, the speed is that of the leader. -/
theorem GetSpeed_default_or_target_speed_witness :
    Scenario.creature.isInCombat = false
    ∧ FollowMovementGenerator.GetSpeed (Scenario.trailingEnv Scenario.NORMAL) Scenario.follow
        Scenario.creature Scenario.leader = 14 :=
  ⟨rfl, (GetSpeed_default_or_target_speed (Scenario.trailingEnv Scenario.NORMAL) Scenario.follow
    Scenario.creature Scenario.leader rfl).2 rfl (by decide!) rfl (by decide!)⟩

/-- Counterexample to C23 as stated: a pet whose walk speed is 50 trails 10 yards
behind its client-controlled master; boosting is allowed and `GetSpeed` returns 50,
above the cap of 40. -/
theorem GetSpeed_above_cap_for_fast_walker :
    FollowMovementGenerator.IsBoostAllowed (Scenario.trailingEnv Scenario.NORMAL) Scenario.follow
      Scenario.racer (some Scenario.master) = true
    ∧ Scenario.master.IsClientControlled = true
    ∧ Scenario.racer.GetSpeed UnitMoveType.MOVE_WALK = 50
    ∧ FollowMovementGenerator.GetSpeed (Scenario.trailingEnv Scenario.NORMAL) Scenario.follow
        Scenario.racer Scenario.master = 50
    ∧ ¬ FollowMovementGenerator.GetSpeed (Scenario.trailingEnv Scenario.NORMAL) Scenario.follow
        Scenario.racer Scenario.master ≤ 40 := by
  refine ⟨?_, rfl, rfl, ?_, ?_⟩
  · decide!
  · decide!
  · decide!

/-- The boost is allowed only for an owner out of combat. -/
theorem IsBoostAllowed_out_of_combat [FloorRing F] (E : Env F) (g : FollowMovementGenerator F)
    (owner : Unit F) (i_target : Option (Unit F))
    (h : FollowMovementGenerator.IsBoostAllowed E g owner i_target = true) :
    owner.isInCombat = false := by
  rcases Bool.eq_false_or_eq_true owner.isInCombat with hc | hc
  · unfold FollowMovementGenerator.IsBoostAllowed at h
    simp [hc] at h
  · exact hc

/-- C23, amended: when boosting is allowed and the target is client-controlled,
`GetSpeed` returns either the owner's own speed for the target's speed type (the
early returns) or `max(owner walk speed, min(target speed + distance / target
speed, 40))`; when the boost branch is reached the result is at most 40 exactly
when the owner's walk speed is at most 40; and the result is at most 40 whenever
the owner's walk speed and its speed for the target's speed type are. -/
theorem GetSpeed_client_controlled_cap [FloorRing F] (E : Env F) (g : FollowMovementGenerator F)
    (owner t : Unit F)
    (hb : FollowMovementGenerator.IsBoostAllowed E g owner (some t) = true)
    (hcc : t.IsClientControlled = true) :
    (FollowMovementGenerator.GetSpeed E g owner t = owner.GetSpeed t.m_movementInfo.GetSpeedType
      ∨ FollowMovementGenerator.GetSpeed E g owner t
        = max (owner.GetSpeed UnitMoveType.MOVE_WALK)
            (min (t.GetSpeedInMotion + GetDistance t.position owner.position / t.GetSpeedInMotion)
              40))
    ∧ (owner.UNIT_FLAG_PLAYER_CONTROLLED = t.UNIT_FLAG_PLAYER_CONTROLLED
      → ¬ owner.GetSpeedRate t.m_movementInfo.GetSpeedType < 1
      → owner.SPELL_AURA_USE_NORMAL_MOVEMENT_SPEED = false
      → FollowMovementGenerator.GetSpeed E g owner t
          = max (owner.GetSpeed UnitMoveType.MOVE_WALK)
              (min (t.GetSpeedInMotion + GetDistance t.position owner.position / t.GetSpeedInMotion)
                40)
        ∧ (FollowMovementGenerator.GetSpeed E g owner t ≤ 40
            ↔ owner.GetSpeed UnitMoveType.MOVE_WALK ≤ 40))
    ∧ (owner.GetSpeed UnitMoveType.MOVE_WALK ≤ 40
      → owner.GetSpeed t.m_movementInfo.GetSpeedType ≤ 40
      → FollowMovementGenerator.GetSpeed E g owner t ≤ 40) := by
  have hc := IsBoostAllowed_out_of_combat E g owner (some t) hb
  have hboost : ∀ (hpc : owner.UNIT_FLAG_PLAYER_CONTROLLED = t.UNIT_FLAG_PLAYER_CONTROLLED)
      (hrate : ¬ owner.GetSpeedRate t.m_movementInfo.GetSpeedType < 1)
      (haura : owner.SPELL_AURA_USE_NORMAL_MOVEMENT_SPEED = false),
      FollowMovementGenerator.GetSpeed E g owner t
        = max (owner.GetSpeed UnitMoveType.MOVE_WALK)
            (min (t.GetSpeedInMotion + GetDistance t.position owner.position / t.GetSpeedInMotion)
              40) := by
    intro hpc hrate haura
    rw [GetSpeed_synchronised E g owner t hc hpc hrate haura, hb, hcc]
    rfl
  have hcases : (owner.UNIT_FLAG_PLAYER_CONTROLLED ≠ t.UNIT_FLAG_PLAYER_CONTROLLED
        ∨ owner.GetSpeedRate t.m_movementInfo.GetSpeedType < 1
        ∨ owner.SPELL_AURA_USE_NORMAL_MOVEMENT_SPEED = true)
      ∨ (owner.UNIT_FLAG_PLAYER_CONTROLLED = t.UNIT_FLAG_PLAYER_CONTROLLED
        ∧ ¬ owner.GetSpeedRate t.m_movementInfo.GetSpeedType < 1
        ∧ owner.SPELL_AURA_USE_NORMAL_MOVEMENT_SPEED = false) := by
    by_cases hpc : owner.UNIT_FLAG_PLAYER_CONTROLLED = t.UNIT_FLAG_PLAYER_CONTROLLED
    · by_cases hrate : owner.GetSpeedRate t.m_movementInfo.GetSpeedType < 1
      · exact Or.inl (Or.inr (Or.inl hrate))
      · rcases Bool.eq_false_or_eq_true owner.SPELL_AURA_USE_NORMAL_MOVEMENT_SPEED with ha | ha
        · exact Or.inl (Or.inr (Or.inr ha))
        · exact Or.inr ⟨hpc, hrate, ha⟩
    · exact Or.inl (Or.inl hpc)
  refine ⟨?_, ?_, ?_⟩
  · rcases hcases with h | ⟨hpc, hrate, haura⟩
    · exact Or.inl (GetSpeed_default E g owner t (Or.inr h))
    · exact Or.inr (hboost hpc hrate haura)
  · intro hpc hrate haura
    refine ⟨hboost hpc hrate haura, ?_⟩
    rw [hboost hpc hrate haura]
    constructor
    · intro h
      exact le_trans (le_max_left _ _) h
    · intro h
      exact max_le h (min_le_right _ _)
  · intro hwalk htype
    rcases hcases with h | ⟨hpc, hrate, haura⟩
    · rw [GetSpeed_default E g owner t (Or.inr h)]
      exact htype
    · rw [hboost hpc hrate haura]
      exact max_le hwalk (min_le_right _ _)

/-- Witness of C23, amended: a pet with the usual speed 7 trails 10 yards behind
its client-controlled master; the speed is `7 + 100 / 7`, below the cap. -/
theorem GetSpeed_client_controlled_cap_witness :
    FollowMovementGenerator.IsBoostAllowed (Scenario.trailingEnv Scenario.NORMAL) Scenario.follow
      Scenario.pet (some Scenario.master) = true
    ∧ FollowMovementGenerator.GetSpeed (Scenario.trailingEnv Scenario.NORMAL) Scenario.follow
        Scenario.pet Scenario.master ≤ 40 :=
  ⟨by decide!,
    (GetSpeed_client_controlled_cap (Scenario.trailingEnv Scenario.NORMAL) Scenario.follow
      Scenario.pet Scenario.master (by decide!) rfl).2.2 (by decide!) (by decide!)⟩

/-- Counterexample to C24 as stated: a creature whose run speed is 7 trails 10
yards behind its server-controlled leader, which moves at speed 14; boosting is
allowed and `GetSpeed` returns 14, above the owner's run speed. -/
theorem GetSpeed_above_run_speed_behind_fast_leader :
    FollowMovementGenerator.IsBoostAllowed (Scenario.trailingEnv Scenario.NORMAL) Scenario.follow
      Scenario.escort (some Scenario.leader) = true
    ∧ Scenario.leader.IsClientControlled = false
    ∧ Scenario.escort.GetSpeed UnitMoveType.MOVE_RUN = 7
    ∧ FollowMovementGenerator.GetSpeed (Scenario.trailingEnv Scenario.NORMAL) Scenario.follow
        Scenario.escort Scenario.leader = 14
    ∧ ¬ FollowMovementGenerator.GetSpeed (Scenario.trailingEnv Scenario.NORMAL) Scenario.follow
        Scenario.escort Scenario.leader ≤ Scenario.escort.GetSpeed UnitMoveType.MOVE_RUN := by
  refine ⟨?_, rfl, rfl, ?_, ?_⟩
  · decide!
  · decide!
  · decide!

/-- C24, amended: when boosting is allowed, the target is server-controlled and
the boost branch is reached (owner and target agree in the PLAYER_CONTROLLED flag,
the owner's speed rate is not below 1, no use-normal-movement-speed aura),
`GetSpeed` returns the larger of the target's speed in motion and the owner's run
speed: it is at least the owner's run speed, and it is at most (then equal to) the
owner's run speed exactly when the target is not faster than that. -/
theorem GetSpeed_server_controlled_boost [FloorRing F] (E : Env F)
    (g : FollowMovementGenerator F) (owner t : Unit F)
    (hb : FollowMovementGenerator.IsBoostAllowed E g owner (some t) = true)
    (hcc : t.IsClientControlled = false)
    (hpc : owner.UNIT_FLAG_PLAYER_CONTROLLED = t.UNIT_FLAG_PLAYER_CONTROLLED)
    (hrate : ¬ owner.GetSpeedRate t.m_movementInfo.GetSpeedType < 1)
    (haura : owner.SPELL_AURA_USE_NORMAL_MOVEMENT_SPEED = false) :
    FollowMovementGenerator.GetSpeed E g owner t
      = max t.GetSpeedInMotion (owner.GetSpeed UnitMoveType.MOVE_RUN)
    ∧ owner.GetSpeed UnitMoveType.MOVE_RUN ≤ FollowMovementGenerator.GetSpeed E g owner t
    ∧ (FollowMovementGenerator.GetSpeed E g owner t ≤ owner.GetSpeed UnitMoveType.MOVE_RUN
        ↔ t.GetSpeedInMotion ≤ owner.GetSpeed UnitMoveType.MOVE_RUN)
    ∧ (t.GetSpeedInMotion ≤ owner.GetSpeed UnitMoveType.MOVE_RUN
        → FollowMovementGenerator.GetSpeed E g owner t = owner.GetSpeed UnitMoveType.MOVE_RUN) := by
  have hc := IsBoostAllowed_out_of_combat E g owner (some t) hb
  have h : FollowMovementGenerator.GetSpeed E g owner t
      = max t.GetSpeedInMotion (owner.GetSpeed UnitMoveType.MOVE_RUN) := by
    rw [GetSpeed_synchronised E g owner t hc hpc hrate haura, hb, hcc]
    rfl
  rw [h]
  refine ⟨rfl, le_max_right _ _, ?_, ?_⟩
  · constructor
    · intro hle
      exact le_trans (le_max_left _ _) hle
    · intro hle
      exact max_le hle (le_refl _)
  · intro hle
    exact max_eq_right hle

/-- Witness of C24, amended: a creature with run speed 7 trails behind a
server-controlled leader that moves at speed 5; the boosted speed is the run speed
of the creature. -/
theorem GetSpeed_server_controlled_boost_witness :
    FollowMovementGenerator.IsBoostAllowed (Scenario.trailingEnv Scenario.NORMAL) Scenario.follow
      Scenario.escort (some { Scenario.leader with GetSpeedInMotion := 5 }) = true
    ∧ FollowMovementGenerator.GetSpeed (Scenario.trailingEnv Scenario.NORMAL) Scenario.follow
        Scenario.escort { Scenario.leader with GetSpeedInMotion := 5 }
      = Scenario.escort.GetSpeed UnitMoveType.MOVE_RUN :=
  ⟨by decide!,
    (GetSpeed_server_controlled_boost (Scenario.trailingEnv Scenario.NORMAL) Scenario.follow
      Scenario.escort { Scenario.leader with GetSpeedInMotion := 5 } (by decide!) rfl rfl
      (by decide!) rfl).2.2.2 (by decide!)⟩

/-! ### The range test of the chase -/

/-- C26: `RequiresNewPosition` of the chase generator, with `D` the square of
`GetDynamicTargetDistance(owner, true)` and `d` the squared distance from the target
to the point: in move-further mode it holds exactly when `d > 1.1 * D` or
`d < 0.9 * D`, or the offset is nonzero and the target has no line of sight to the
owner; otherwise exactly when `d > D`, or the offset is nonzero and there is no
line of sight. With offset 0 the result is the same for every line of sight
test. -/
theorem Chase_RequiresNewPosition_spec (E : Env F) (g : ChaseMovementGenerator F)
    (owner t : Unit F) (p : Vector3 F) :
    (ChaseMovementGenerator.RequiresNewPosition E g owner t p = true
      ↔ (if g.m_moveFurther = true then
          GetDistance t.position p
              > 1.1 * (ChaseMovementGenerator.GetDynamicTargetDistance E g t true
                * ChaseMovementGenerator.GetDynamicTargetDistance E g t true)
            ∨ GetDistance t.position p
              < 0.9 * (ChaseMovementGenerator.GetDynamicTargetDistance E g t true
                * ChaseMovementGenerator.GetDynamicTargetDistance E g t true)
        else
          GetDistance t.position p
            > ChaseMovementGenerator.GetDynamicTargetDistance E g t true
              * ChaseMovementGenerator.GetDynamicTargetDistance E g t true)
        ∨ (g.i_offset ≠ 0
          ∧ E.IsWithinLOSInMap t owner.position (some ChaseMovementGenerator.IGNORE_M2) = false))
    ∧ (g.i_offset = 0 → ∀ los : Unit F → Vector3 F → Option Bool → Bool,
        ChaseMovementGenerator.RequiresNewPosition { E with IsWithinLOSInMap := los } g owner t p
          = ChaseMovementGenerator.RequiresNewPosition E g owner t p) := by
  constructor
  · unfold ChaseMovementGenerator.RequiresNewPosition
    simp only [mul_comm (ChaseMovementGenerator.GetDynamicTargetDistance E g t true
      * ChaseMovementGenerator.GetDynamicTargetDistance E g t true)]
    by_cases ho : g.i_offset = 0 <;>
    rcases Bool.eq_false_or_eq_true g.m_moveFurther with hm | hm <;>
    simp [ho, hm]
  · intro ho los
    unfold ChaseMovementGenerator.RequiresNewPosition ChaseMovementGenerator.GetDynamicTargetDistance
    simp only [ho, ne_eq, not_true_eq_false, if_false]

/-- Witness of C26: the generator as constructed has offset 0; the range test in
the flat world is the same when nothing is in line of sight. -/
theorem Chase_RequiresNewPosition_spec_witness :
    (Scenario.chase true : ChaseMovementGenerator ℚ).i_offset = 0
    ∧ ChaseMovementGenerator.RequiresNewPosition
        { Scenario.chaseEnv with IsWithinLOSInMap := fun _ _ _ => false } (Scenario.chase true)
        Scenario.creature Scenario.player ⟨0, 0, 0⟩
      = ChaseMovementGenerator.RequiresNewPosition Scenario.chaseEnv (Scenario.chase true)
        Scenario.creature Scenario.player ⟨0, 0, 0⟩ :=
  ⟨rfl, (Chase_RequiresNewPosition_spec Scenario.chaseEnv (Scenario.chase true)
    Scenario.creature Scenario.player ⟨0, 0, 0⟩).2 rfl (fun _ _ _ => false)⟩

/-! ### The formula of the poll rate -/

/-- Counterexample to C30 as stated: a server-driven owner with speed rate 4294968
and a moving target. The truncated speed rate is `k = 4294968` and the multiplier
is 2, so `min(250 * k * 2, 1000 * k) = 2147484000`; the product `1000 * k` wraps
around in `uint32` to 704, and the poll rate is 704, below `250 * k`. -/
theorem poll_rate_wraps_around_at_extreme_speed_rate :
    FollowMovementGenerator.toUInt32
        ({ Scenario.creature with GetSpeedRateInMotion := 4294968 } : Unit ℚ).GetSpeedRateInMotion
      = 4294968
    ∧ FollowMovementGenerator._getPollRate
        ({ Scenario.creature with GetSpeedRateInMotion := 4294968 } : Unit ℚ) true = 704
    ∧ min (250 * 4294968 * 2) (1000 * 4294968) = 2147484000 := by
  refine ⟨?_, ?_, by norm_num⟩
  · simp [FollowMovementGenerator.toUInt32, Scenario.creature, Scenario.unitAt]
  · simp [FollowMovementGenerator._getPollRate, FollowMovementGenerator._getPollRateMultiplier,
      FollowMovementGenerator.toUInt32, FollowMovementGenerator._getPollRateBase,
      FollowMovementGenerator._getPollRateMax, Scenario.creature, Scenario.unitAt]

/-- The multiplier of the poll rate is the product of the factor of the owner (1
when player-controlled, 2 otherwise) and the factor of the target (1 when moving, 2
otherwise). -/
theorem _getPollRateMultiplier_eq [FloorRing F] (owner : Unit F) (movingNow : Bool) :
    FollowMovementGenerator._getPollRateMultiplier owner movingNow
      = (if owner.UNIT_FLAG_PLAYER_CONTROLLED then 1 else 2) * (if movingNow then 1 else 2) := by
  unfold FollowMovementGenerator._getPollRateMultiplier
  cases movingNow <;> cases owner.UNIT_FLAG_PLAYER_CONTROLLED <;> simp

/-- C30, amended: for a speed rate below 4294968 (no wrap-around of the `uint32`
products), with `k` the whole part of the speed rate and
`m = (owner player-controlled ? 1 : 2) * (target moving ? 1 : 2)`, the poll rate is
`min(250 * k * m, 1000 * k)`; it lies between `250 * k` and `1000 * k`; a stationary
target never gives a shorter interval than a moving one; a player-controlled owner
never gives a longer interval than another owner of the same speed rate; and for a
speed rate below 1 the interval is 0. -/
theorem _getPollRate_formula [FloorRing F] (owner : Unit F) (movingNow : Bool)
    (hmax : owner.GetSpeedRateInMotion < 4294968) :
    FollowMovementGenerator._getPollRate owner movingNow
      = min (250 * ⌊owner.GetSpeedRateInMotion⌋₊
          * ((if owner.UNIT_FLAG_PLAYER_CONTROLLED then 1 else 2) * (if movingNow then 1 else 2)))
        (1000 * ⌊owner.GetSpeedRateInMotion⌋₊)
    ∧ 250 * ⌊owner.GetSpeedRateInMotion⌋₊ ≤ FollowMovementGenerator._getPollRate owner movingNow
    ∧ FollowMovementGenerator._getPollRate owner movingNow
      ≤ 1000 * ⌊owner.GetSpeedRateInMotion⌋₊
    ∧ FollowMovementGenerator._getPollRate owner true
      ≤ FollowMovementGenerator._getPollRate owner false
    ∧ (∀ other : Unit F, other.GetSpeedRateInMotion = owner.GetSpeedRateInMotion →
        owner.UNIT_FLAG_PLAYER_CONTROLLED = true →
        FollowMovementGenerator._getPollRate owner movingNow
          ≤ FollowMovementGenerator._getPollRate other movingNow)
    ∧ (owner.GetSpeedRateInMotion < 1 →
        FollowMovementGenerator._getPollRate owner movingNow = 0) := by
  have hk : ∀ (o : Unit F) (b : Bool), o.GetSpeedRateInMotion = owner.GetSpeedRateInMotion →
      FollowMovementGenerator._getPollRate o b
        = 250 * ((if o.UNIT_FLAG_PLAYER_CONTROLLED then 1 else 2) * (if b then 1 else 2))
          * ⌊owner.GetSpeedRateInMotion⌋₊ := by
    intro o b ho
    rw [_getPollRate_eq o b (by rw [ho]; exact hmax), _getPollRateMultiplier_eq, ho]
  rw [hk owner movingNow rfl, hk owner true rfl, hk owner false rfl]
  have hzero : owner.GetSpeedRateInMotion < 1 → ⌊owner.GetSpeedRateInMotion⌋₊ = 0 :=
    fun h => Nat.floor_eq_zero.mpr h
  generalize ⌊owner.GetSpeedRateInMotion⌋₊ = k at hk hzero ⊢
  refine ⟨?_, ?_, ?_, ?_, ?_, ?_⟩
  · cases movingNow <;> cases owner.UNIT_FLAG_PLAYER_CONTROLLED <;> simp <;> omega
  · cases movingNow <;> cases owner.UNIT_FLAG_PLAYER_CONTROLLED <;> simp <;> omega
  · cases movingNow <;> cases owner.UNIT_FLAG_PLAYER_CONTROLLED <;> simp <;> omega
  · cases owner.UNIT_FLAG_PLAYER_CONTROLLED <;> simp <;> omega
  · intro other ho hpc
    rw [hk other movingNow ho, hpc]
    cases movingNow <;> cases other.UNIT_FLAG_PLAYER_CONTROLLED <;> simp <;> omega
  · intro hlt
    rw [hzero hlt, Nat.mul_zero]

/-- Witness of C30, amended: the player-controlled pet with speed rate 1 and a
stationary target polls every 500 ms. -/
theorem _getPollRate_formula_witness :
    Scenario.pet.GetSpeedRateInMotion < 4294968
    ∧ FollowMovementGenerator._getPollRate Scenario.pet false
      = min (250 * ⌊Scenario.pet.GetSpeedRateInMotion⌋₊
          * ((if Scenario.pet.UNIT_FLAG_PLAYER_CONTROLLED then 1 else 2)
            * (if false then 1 else 2)))
        (1000 * ⌊Scenario.pet.GetSpeedRateInMotion⌋₊) :=
  ⟨by decide!, (_getPollRate_formula Scenario.pet false (by decide!)).1⟩

/-! ### The stuck fallback of `Move` -/

/-- The end of `Move` when stuck: the result is false, and one spline is launched,
with two points, the first point of the computed path and the follow location for
a target taken as not moving, at velocity `FLT_EPSILON`. -/
theorem Move_finish_stuck [FloorRing F] (E : Env F) (g : FollowMovementGenerator F) (w : World F)
    (t : Unit F) (dest : Vector3 F) (pf : PathFinder F) (path : List (Vector3 F)) :
    (FollowMovementGenerator.Move.finish E g w t dest pf path true).1 = false
    ∧ ∃ loc, FollowMovementGenerator._getLocation E g w.owner (some t) false = some loc
      ∧ (FollowMovementGenerator.Move.finish E g w t dest pf path true).2.2.trace
        = w.trace ++ [Event.Launch [path.headD ⟨0, 0, 0⟩, loc]
            (FollowMovementGenerator.EnableWalking (some t)) false (some E.FLT_EPSILON)] := by
  refine ⟨rfl, _, rfl, ?_⟩
  simp only [FollowMovementGenerator.Move.finish, MoveSplineInit.Launch, World.emit,
    World.setSpline, FollowMovementGenerator._addUnitStateMove, World.setUnitState, if_true,
    FollowMovementGenerator._getLocation, Option.getD_some]

/-- C21: in `Move`, whenever the stuck fallback is taken (the path is NOPATH or
SHORTCUT, or owner or target is player-controlled and the first segment of the path
lacks line of sight; and `IsUnstuckAllowed` holds), `Move` returns false although
it launches a spline: the launched path has exactly two points, the owner's
position (the first point of the path the path finder computed from there)
followed by the follow location computed with `movingNow = false`, and the velocity
is `FLT_EPSILON`. -/
theorem Move_stuck_fallback [FloorRing F] (E : Env F) (g : FollowMovementGenerator F)
    (w : World F) (t : Unit F) (dest : Vector3 F)
    (hstuck :
      ((E.calculate (FollowMovementGenerator.Move.relocate E w).owner.position dest
          none).getPathType.NOPATH = true
        ∨ (E.calculate (FollowMovementGenerator.Move.relocate E w).owner.position dest
          none).getPathType.SHORTCUT = true)
      ∨ ((E.calculate (FollowMovementGenerator.Move.relocate E w).owner.position dest
          none).getPathType.NOPATH = false
        ∧ (E.calculate (FollowMovementGenerator.Move.relocate E w).owner.position dest
          none).getPathType.SHORTCUT = false
        ∧ (w.owner.UNIT_FLAG_PLAYER_CONTROLLED = true ∨ t.UNIT_FLAG_PLAYER_CONTROLLED = true)
        ∧ ∃ a b, (FollowMovementGenerator.Move.path E w dest)[0]? = some a
          ∧ (FollowMovementGenerator.Move.path E w dest)[1]? = some b
          ∧ FollowMovementGenerator.Move.inSight E w.owner a b = false))
    (hun : FollowMovementGenerator.IsUnstuckAllowed E g
      (FollowMovementGenerator.Move.relocate E w).owner (some t) = true)
    (hhead : (FollowMovementGenerator.Move.path E w dest).head?
      = some (FollowMovementGenerator.Move.relocate E w).owner.position) :
    (FollowMovementGenerator.Move E g w t dest).1 = false
    ∧ ∃ es loc,
      FollowMovementGenerator._getLocation E g (FollowMovementGenerator.Move.relocate E w).owner
        (some t) false = some loc
      ∧ World.newEvents w (FollowMovementGenerator.Move E g w t dest).2.2
        = es ++ [Event.Launch [(FollowMovementGenerator.Move.relocate E w).owner.position, loc]
            (FollowMovementGenerator.EnableWalking (some t)) false (some E.FLT_EPSILON)]
      ∧ ∀ e ∈ es, Event.isLaunch e = false := by
  obtain ⟨hh, hp, hflag, es0, htr0, hes0⟩ := Move_relocate_keeps E w
  have hun1 : FollowMovementGenerator.IsUnstuckAllowed E g
      ((FollowMovementGenerator.Move.relocate E w).emit (Event.calculate dest none)).owner
      (some t) = true := hun
  have hheadD : (FollowMovementGenerator.Move.path E w dest).headD ⟨0, 0, 0⟩
      = (FollowMovementGenerator.Move.relocate E w).owner.position := by
    cases hpath : FollowMovementGenerator.Move.path E w dest with
    | nil => rw [hpath] at hhead; cases hhead
    | cons a rest =>
      rw [hpath] at hhead
      simp only [List.head?_cons, Option.some.injEq] at hhead
      simp only [List.headD_cons, hhead]
  have hmove : FollowMovementGenerator.Move E g w t dest
      = FollowMovementGenerator.Move.finish E g
          ((FollowMovementGenerator.Move.relocate E w).emit (Event.calculate dest none)) t dest
          (E.calculate (FollowMovementGenerator.Move.relocate E w).owner.position dest none)
          (FollowMovementGenerator.Move.path E w dest) true := by
    rcases hstuck with hno | ⟨hno, hsc, hpc, a, b, ha, hb, hblocked⟩
    · have hno1 : ((E.calculate (FollowMovementGenerator.Move.relocate E w).owner.position dest
          none).getPathType.NOPATH
          || (E.calculate (FollowMovementGenerator.Move.relocate E w).owner.position dest
          none).getPathType.SHORTCUT) = true := by
        rcases hno with h | h <;> simp [h]
      unfold FollowMovementGenerator.Move FollowMovementGenerator.Move.path
      simp only [World.emit_owner, hno1, hun, if_true, Bool.not_true, Bool.false_eq_true, if_false]
    · have hin : FollowMovementGenerator.Move.inSight E
          ((FollowMovementGenerator.Move.relocate E w).emit (Event.calculate dest none)).owner a b
          = FollowMovementGenerator.Move.inSight E w.owner a b := by
        unfold FollowMovementGenerator.Move.inSight
        rw [World.emit_owner, hh, hp]
      have hpc1 : (((FollowMovementGenerator.Move.relocate E w).emit
          (Event.calculate dest none)).owner.UNIT_FLAG_PLAYER_CONTROLLED
          || t.UNIT_FLAG_PLAYER_CONTROLLED) = true := by
        rw [World.emit_owner, hflag]
        rcases hpc with h | h <;> simp [h]
      have hfb := (Move_firstBlocked_eq E
        ((FollowMovementGenerator.Move.relocate E w).emit (Event.calculate dest none)).owner
        (FollowMovementGenerator.Move.path E w dest)).2 0 a b ha hb (hin.trans hblocked)
        (fun j _ _ hj => absurd hj (Nat.not_lt_zero j))
      unfold FollowMovementGenerator.Move.path at hfb
      unfold FollowMovementGenerator.Move FollowMovementGenerator.Move.path
      simp only [hno, hsc, hpc1, hun1, hfb, Bool.or_self, Bool.false_eq_true, if_false, if_true,
        zero_add, ne_eq, not_true_eq_false, Bool.not_true]
  obtain ⟨hret, loc, hloc, htrace⟩ := Move_finish_stuck E g
    ((FollowMovementGenerator.Move.relocate E w).emit (Event.calculate dest none)) t dest
    (E.calculate (FollowMovementGenerator.Move.relocate E w).owner.position dest none)
    (FollowMovementGenerator.Move.path E w dest)
  rw [hmove]
  refine ⟨hret, es0 ++ [Event.calculate dest none], loc, hloc, ?_, ?_⟩
  · refine newEvents_of_append w _ _ ?_
    rw [htrace, hheadD]
    simp only [World.emit, htr0, List.append_assoc]
  · intro e he
    rcases List.mem_append.mp he with h | h
    · exact hes0 e h
    · rw [List.mem_singleton.mp h]
      rfl

/-- Witness of C21: the pet trails behind its master and the path finder finds no
path; unstick is allowed, `Move` returns false and launches the two-point path from
the pet to the follow location next to the master. -/
theorem Move_stuck_fallback_witness :
    FollowMovementGenerator.IsUnstuckAllowed (Scenario.trailingEnv Scenario.NOPATH) Scenario.follow
      (FollowMovementGenerator.Move.relocate (Scenario.trailingEnv Scenario.NOPATH)
        (Scenario.world Scenario.pet (some Scenario.master))).owner (some Scenario.master) = true
    ∧ (FollowMovementGenerator.Move (Scenario.trailingEnv Scenario.NOPATH) Scenario.follow
        (Scenario.world Scenario.pet (some Scenario.master)) Scenario.master ⟨9, 0, 0⟩).1 = false :=
  ⟨by decide!,
    (Move_stuck_fallback (Scenario.trailingEnv Scenario.NOPATH) Scenario.follow
      (Scenario.world Scenario.pet (some Scenario.master)) Scenario.master ⟨9, 0, 0⟩
      (Or.inl (Or.inl rfl)) (by decide!) rfl).1⟩

/-! ### Backpedal -/

/-- `Backpedal` when the owner is too close: the closeness state is reset and one
walking dispatch to the point behind the owner is made, which enters Backpedal mode
when it succeeds. -/
theorem Backpedal_too_close (E : Env F) (g : ChaseMovementGenerator F) (w : World F) (t : Unit F)
    (h : GetDistance t.position w.owner.position
      < (min (E.GetCombinedCombatReach t false) 3.75 * min (E.GetCombinedCombatReach t false) 3.75)
        * 0.33) :
    ChaseMovementGenerator.Backpedal E g w t
      = if (ChaseMovementGenerator.DispatchSplineToPosition E
            { g with m_closenessExpired := false
                     m_closenessAndFanningTimer := ChaseMovementGenerator.CHASE_CLOSENESS_TIMER }
            (w.emit (Event.enter Callee.Backpedal)) t
            (E.GetNearPoint t w.owner.position w.owner.GetObjectBoundingRadius
              (min (E.GetCombinedCombatReach t false) 3.75 * 0.75)
              (E.NormalizeOrientation (w.owner.GetOrientation + E.M_PI_F)))
            true false ChaseMovementGenerator.DispatchSplineToPosition.targetDefault).1 then
          ({ (ChaseMovementGenerator.DispatchSplineToPosition E
              { g with m_closenessExpired := false
                       m_closenessAndFanningTimer := ChaseMovementGenerator.CHASE_CLOSENESS_TIMER }
              (w.emit (Event.enter Callee.Backpedal)) t
              (E.GetNearPoint t w.owner.position w.owner.GetObjectBoundingRadius
                (min (E.GetCombinedCombatReach t false) 3.75 * 0.75)
                (E.NormalizeOrientation (w.owner.GetOrientation + E.M_PI_F)))
              true false ChaseMovementGenerator.DispatchSplineToPosition.targetDefault).2.1 with
            i_targetReached := false, m_currentMode := ChaseModes.CHASE_MODE_BACKPEDAL,
            i_speedChanged := false, m_closenessAndFanningTimer := 0 },
           (ChaseMovementGenerator.DispatchSplineToPosition E
              { g with m_closenessExpired := false
                       m_closenessAndFanningTimer := ChaseMovementGenerator.CHASE_CLOSENESS_TIMER }
              (w.emit (Event.enter Callee.Backpedal)) t
              (E.GetNearPoint t w.owner.position w.owner.GetObjectBoundingRadius
                (min (E.GetCombinedCombatReach t false) 3.75 * 0.75)
                (E.NormalizeOrientation (w.owner.GetOrientation + E.M_PI_F)))
              true false ChaseMovementGenerator.DispatchSplineToPosition.targetDefault).2.2.emit
             (Event.setMode ChaseModes.CHASE_MODE_BACKPEDAL))
        else
          ((ChaseMovementGenerator.DispatchSplineToPosition E
              { g with m_closenessExpired := false
                       m_closenessAndFanningTimer := ChaseMovementGenerator.CHASE_CLOSENESS_TIMER }
              (w.emit (Event.enter Callee.Backpedal)) t
              (E.GetNearPoint t w.owner.position w.owner.GetObjectBoundingRadius
                (min (E.GetCombinedCombatReach t false) 3.75 * 0.75)
                (E.NormalizeOrientation (w.owner.GetOrientation + E.M_PI_F)))
              true false ChaseMovementGenerator.DispatchSplineToPosition.targetDefault).2.1,
           (ChaseMovementGenerator.DispatchSplineToPosition E
              { g with m_closenessExpired := false
                       m_closenessAndFanningTimer := ChaseMovementGenerator.CHASE_CLOSENESS_TIMER }
              (w.emit (Event.enter Callee.Backpedal)) t
              (E.GetNearPoint t w.owner.position w.owner.GetObjectBoundingRadius
                (min (E.GetCombinedCombatReach t false) 3.75 * 0.75)
                (E.NormalizeOrientation (w.owner.GetOrientation + E.M_PI_F)))
              true false ChaseMovementGenerator.DispatchSplineToPosition.targetDefault).2.2) := by
  have h1 : GetDistance t.position (w.emit (Event.enter Callee.Backpedal)).owner.position
      < (ChaseMovementGenerator.Backpedal.targetDist E t
        * ChaseMovementGenerator.Backpedal.targetDist E t) * 0.33 := h
  unfold ChaseMovementGenerator.Backpedal
  simp only [h1, if_true]
  rfl

/-- `Backpedal` when the owner is not too close: the closeness state is reset and
the rest is `FanOut`. -/
theorem Backpedal_not_too_close (E : Env F) (g : ChaseMovementGenerator F) (w : World F)
    (t : Unit F)
    (h : ¬ GetDistance t.position w.owner.position
      < (min (E.GetCombinedCombatReach t false) 3.75 * min (E.GetCombinedCombatReach t false) 3.75)
        * 0.33) :
    ChaseMovementGenerator.Backpedal E g w t
      = ChaseMovementGenerator.FanOut E
          { g with m_closenessExpired := false
                   m_closenessAndFanningTimer := ChaseMovementGenerator.CHASE_CLOSENESS_TIMER }
          (w.emit (Event.enter Callee.Backpedal)) t := by
  have h1 : ¬ GetDistance t.position (w.emit (Event.enter Callee.Backpedal)).owner.position
      < (ChaseMovementGenerator.Backpedal.targetDist E t
        * ChaseMovementGenerator.Backpedal.targetDist E t) * 0.33 := h
  unfold ChaseMovementGenerator.Backpedal
  simp only [h1, if_false]

/-- C28: with `T = min(combined combat reach, 3.75)`, when the squared distance
between target and owner is below `0.33 * T²`, `Backpedal` requests a walking
dispatch to the target's near point at distance `0.75 * T` along the normalised
angle (owner orientation + pi): if a path exists the spline is launched, the mode
becomes Backpedal and the closeness timer 0; if the dispatch fails the mode is
unchanged and the closeness timer stays at 2000. Otherwise `Backpedal` makes no
dispatch of its own: it is `FanOut` on the generator with the closeness state
reset, and the mode Backpedal is not written. -/
theorem Backpedal_dispatches_exactly_when_too_close (E : Env F) (g : ChaseMovementGenerator F)
    (w : World F) (t : Unit F) :
    (GetDistance t.position w.owner.position
        < (min (E.GetCombinedCombatReach t false) 3.75 * min (E.GetCombinedCombatReach t false) 3.75)
          * 0.33 →
      ((E.calculate w.owner.position
          (E.GetNearPoint t w.owner.position w.owner.GetObjectBoundingRadius
            (min (E.GetCombinedCombatReach t false) 3.75 * 0.75)
            (E.NormalizeOrientation (w.owner.GetOrientation + E.M_PI_F)))
          (some false)).getPathType.NOPATH = false →
        World.newEvents w (ChaseMovementGenerator.Backpedal E g w t).2
          = [Event.enter Callee.Backpedal,
              Event.calculate
                (E.GetNearPoint t w.owner.position w.owner.GetObjectBoundingRadius
                  (min (E.GetCombinedCombatReach t false) 3.75 * 0.75)
                  (E.NormalizeOrientation (w.owner.GetOrientation + E.M_PI_F)))
                (some false),
              Event.Launch
                (E.calculate w.owner.position
                  (E.GetNearPoint t w.owner.position w.owner.GetObjectBoundingRadius
                    (min (E.GetCombinedCombatReach t false) 3.75 * 0.75)
                    (E.NormalizeOrientation (w.owner.GetOrientation + E.M_PI_F)))
                  (some false)).getPath true false none,
              Event.setMode ChaseModes.CHASE_MODE_BACKPEDAL]
        ∧ (ChaseMovementGenerator.Backpedal E g w t).1.m_currentMode
          = ChaseModes.CHASE_MODE_BACKPEDAL
        ∧ (ChaseMovementGenerator.Backpedal E g w t).1.m_closenessAndFanningTimer = 0)
      ∧ ((E.calculate w.owner.position
          (E.GetNearPoint t w.owner.position w.owner.GetObjectBoundingRadius
            (min (E.GetCombinedCombatReach t false) 3.75 * 0.75)
            (E.NormalizeOrientation (w.owner.GetOrientation + E.M_PI_F)))
          (some false)).getPathType.NOPATH = true →
        World.newEvents w (ChaseMovementGenerator.Backpedal E g w t).2
          = [Event.enter Callee.Backpedal,
              Event.calculate
                (E.GetNearPoint t w.owner.position w.owner.GetObjectBoundingRadius
                  (min (E.GetCombinedCombatReach t false) 3.75 * 0.75)
                  (E.NormalizeOrientation (w.owner.GetOrientation + E.M_PI_F)))
                (some false)]
        ∧ (ChaseMovementGenerator.Backpedal E g w t).1.m_currentMode = g.m_currentMode
        ∧ (ChaseMovementGenerator.Backpedal E g w t).1.m_closenessAndFanningTimer = 2000))
    ∧ (¬ GetDistance t.position w.owner.position
        < (min (E.GetCombinedCombatReach t false) 3.75 * min (E.GetCombinedCombatReach t false) 3.75)
          * 0.33 →
      ChaseMovementGenerator.Backpedal E g w t
        = ChaseMovementGenerator.FanOut E
            { g with m_closenessExpired := false, m_closenessAndFanningTimer := 2000 }
            (w.emit (Event.enter Callee.Backpedal)) t
      ∧ Event.setMode ChaseModes.CHASE_MODE_BACKPEDAL
        ∉ World.newEvents w (ChaseMovementGenerator.Backpedal E g w t).2) := by
  constructor
  · intro h
    constructor
    · intro hno
      have hno1 : (E.calculate (w.emit (Event.enter Callee.Backpedal)).owner.position
          (E.GetNearPoint t w.owner.position w.owner.GetObjectBoundingRadius
            (min (E.GetCombinedCombatReach t false) 3.75 * 0.75)
            (E.NormalizeOrientation (w.owner.GetOrientation + E.M_PI_F)))
          (some false)).getPathType.NOPATH = false := hno
      rw [Backpedal_too_close E g w t h, DispatchSplineToPosition_path E _ _ t _ _ _ _ hno1]
      simp only [if_true, Bool.false_eq_true, if_false]
      refine ⟨?_, trivial, trivial⟩
      refine newEvents_of_append w _ _ ?_
      simp only [World.emit, MoveSplineInit.Launch, World.setSpline,
        ChaseMovementGenerator._addUnitStateMove, World.setUnitState, List.append_assoc,
        List.singleton_append, List.cons_append, List.nil_append,
        ChaseMovementGenerator.DispatchSplineToPosition.targetDefault]
    · intro hno
      have hno1 : (E.calculate (w.emit (Event.enter Callee.Backpedal)).owner.position
          (E.GetNearPoint t w.owner.position w.owner.GetObjectBoundingRadius
            (min (E.GetCombinedCombatReach t false) 3.75 * 0.75)
            (E.NormalizeOrientation (w.owner.GetOrientation + E.M_PI_F)))
          (some false)).getPathType.NOPATH = true := hno
      rw [Backpedal_too_close E g w t h, DispatchSplineToPosition_nopath E _ _ t _ _ _ _ hno1]
      simp only [Bool.false_eq_true, if_false]
      refine ⟨?_, trivial, rfl⟩
      refine newEvents_of_append w _ _ ?_
      simp only [World.emit, List.append_assoc, List.singleton_append]
  · intro h
    refine ⟨Backpedal_not_too_close E g w t h, ?_⟩
    rw [Backpedal_not_too_close E g w t h]
    have hq := FanOut_quiet_or_fanning E
      { g with m_closenessExpired := false
               m_closenessAndFanningTimer := ChaseMovementGenerator.CHASE_CLOSENESS_TIMER }
      (w.emit (Event.enter Callee.Backpedal)) t
    have key : ∀ es, (ChaseMovementGenerator.FanOut E
          { g with m_closenessExpired := false
                   m_closenessAndFanningTimer := ChaseMovementGenerator.CHASE_CLOSENESS_TIMER }
          (w.emit (Event.enter Callee.Backpedal)) t).2.trace
          = (w.emit (Event.enter Callee.Backpedal)).trace ++ es →
        ChaseModes.CHASE_MODE_BACKPEDAL ∉ modeWrites es →
        Event.setMode ChaseModes.CHASE_MODE_BACKPEDAL
          ∉ World.newEvents w (ChaseMovementGenerator.FanOut E
            { g with m_closenessExpired := false
                     m_closenessAndFanningTimer := ChaseMovementGenerator.CHASE_CLOSENESS_TIMER }
            (w.emit (Event.enter Callee.Backpedal)) t).2 := by
      intro es ht hm
      rw [newEvents_of_append w _ ([Event.enter Callee.Backpedal] ++ es)
        (by rw [ht]; simp only [World.emit, List.append_assoc])]
      intro hmem
      rcases List.mem_append.mp hmem with h1 | h1
      · simp at h1
      · exact hm ((mem_modeWrites es _).mpr h1)
    rcases hq with ⟨es, ht, _, hm, _⟩ | ⟨es, ht, _, hm, _⟩
    · exact key es ht (by rw [hm]; simp)
    · exact key es ht (by rw [hm]; simp)

/-- Witness of C28: the creature stands one yard from the player, closer than
`0.33 * 3²` in the square; a path exists, and the mode becomes Backpedal. -/
theorem Backpedal_dispatches_exactly_when_too_close_witness :
    GetDistance Scenario.closePlayer.position
        (Scenario.world Scenario.creature (some Scenario.closePlayer)).owner.position
      < (min (Scenario.chaseEnv.GetCombinedCombatReach Scenario.closePlayer false) 3.75
          * min (Scenario.chaseEnv.GetCombinedCombatReach Scenario.closePlayer false) 3.75) * 0.33
    ∧ (ChaseMovementGenerator.Backpedal Scenario.chaseEnv (Scenario.chase true)
        (Scenario.world Scenario.creature (some Scenario.closePlayer))
        Scenario.closePlayer).1.m_currentMode = ChaseModes.CHASE_MODE_BACKPEDAL :=
  ⟨by decide!,
    (((Backpedal_dispatches_exactly_when_too_close Scenario.chaseEnv (Scenario.chase true)
      (Scenario.world Scenario.creature (some Scenario.closePlayer)) Scenario.closePlayer).1
      (by decide!)).1 rfl).2.1⟩

/-! ### The two attempts of `FanOut` -/

/-- An attempt of `FanOut` for which no path exists: it fails, and only the path
finder of the generator is changed. -/
theorem FanOut_attempt_nopath (E : Env F) (g : ChaseMovementGenerator F) (w : World F)
    (t : Unit F) (ori : F)
    (hno : (E.calculate w.owner.position
      (E.GetNearPoint t w.owner.position w.owner.GetObjectBoundingRadius
        (E.GetCombinedCombatReach t false) ori) (some false)).getPathType.NOPATH = true) :
    ChaseMovementGenerator.FanOut.attempt E g w t ori
      = (false,
          { g with i_path := some (E.calculate w.owner.position
              (E.GetNearPoint t w.owner.position w.owner.GetObjectBoundingRadius
                (E.GetCombinedCombatReach t false) ori) (some false)) },
          w.emit (Event.calculate
            (E.GetNearPoint t w.owner.position w.owner.GetObjectBoundingRadius
              (E.GetCombinedCombatReach t false) ori) (some false))) := by
  unfold ChaseMovementGenerator.FanOut.attempt
  simp only [DispatchSplineToPosition_nopath E g w t _ _ _ _ hno, Bool.false_eq_true, if_false]

/-- An attempt of `FanOut` for which a path exists: the path is launched, walking
and without facing, and the generator enters Fanning with `i_targetReached` false
and the closeness timer 0. -/
theorem FanOut_attempt_path (E : Env F) (g : ChaseMovementGenerator F) (w : World F)
    (t : Unit F) (ori : F)
    (hno : (E.calculate w.owner.position
      (E.GetNearPoint t w.owner.position w.owner.GetObjectBoundingRadius
        (E.GetCombinedCombatReach t false) ori) (some false)).getPathType.NOPATH = false) :
    (ChaseMovementGenerator.FanOut.attempt E g w t ori).1 = true
    ∧ (ChaseMovementGenerator.FanOut.attempt E g w t ori).2.1.m_currentMode
      = ChaseModes.CHASE_MODE_FANNING
    ∧ (ChaseMovementGenerator.FanOut.attempt E g w t ori).2.1.i_targetReached = false
    ∧ (ChaseMovementGenerator.FanOut.attempt E g w t ori).2.1.m_closenessAndFanningTimer = 0
    ∧ (ChaseMovementGenerator.FanOut.attempt E g w t ori).2.2.trace
      = w.trace ++ [Event.calculate
          (E.GetNearPoint t w.owner.position w.owner.GetObjectBoundingRadius
            (E.GetCombinedCombatReach t false) ori) (some false),
        Event.Launch (E.calculate w.owner.position
          (E.GetNearPoint t w.owner.position w.owner.GetObjectBoundingRadius
            (E.GetCombinedCombatReach t false) ori) (some false)).getPath true false none,
        Event.setMode ChaseModes.CHASE_MODE_FANNING] := by
  unfold ChaseMovementGenerator.FanOut.attempt
  simp only [DispatchSplineToPosition_path E g w t _ _ _ _ hno, if_true, Bool.false_eq_true,
    if_false]
  refine ⟨trivial, trivial, trivial, trivial, ?_⟩
  simp only [World.emit, MoveSplineInit.Launch, World.setSpline,
    ChaseMovementGenerator._addUnitStateMove, World.setUnitState, List.append_assoc,
    List.singleton_append, List.cons_append, List.nil_append,
    ChaseMovementGenerator.DispatchSplineToPosition.targetDefault]

/-- C29: `FanOut` with fanning enabled, for random helpers that keep to their
ranges (`irand(0, 1)` is 0 or 1, `frand(min, max)` lies in `[min, max)`). If the
collision search finds no unit, nothing is dispatched and the generator is
unchanged. If it finds one, with `dir` the direction drawn (-1 or +1) and `a1`, `a2`
the two angles drawn (both in `[pi/5, pi/4)`), a first dispatch is attempted to the
near point `p1` along (owner orientation + pi + a1 * dir), and only if no path
exists for it a second one to the near point `p2` along (owner orientation + pi +
a2 * -dir). When one of the attempts finds a path, the path is launched and the
mode becomes Fanning, with `i_targetReached` false and the closeness timer 0; when
both fail, the mode, `i_targetReached` and the timers are unchanged and nothing is
launched. -/
theorem FanOut_tries_both_directions (E : Env F) (g : ChaseMovementGenerator F) (w : World F)
    (t : Unit F) (hen : g.m_fanningEnabled = true)
    (hirand : ∀ n, E.irand n 0 1 = 0 ∨ E.irand n 0 1 = 1)
    (hfrand : ∀ n, E.M_PI_F / 5 ≤ E.frand n (E.M_PI_F / 5) (E.M_PI_F / 4)
      ∧ E.frand n (E.M_PI_F / 5) (E.M_PI_F / 4) < E.M_PI_F / 4) :
    ((E.VisitAllObjects w.owner.position (1 * 1) 1).find?
        (ChaseMovementGenerator.FanOut.collisionCheck w.owner t) = none →
      ChaseMovementGenerator.FanOut E g w t = (g, w.emit (Event.enter Callee.FanOut)))
    ∧ ∀ (c : Unit F) (dir : Int) (a1 a2 : F) (p1 p2 : Vector3 F),
      (E.VisitAllObjects w.owner.position (1 * 1) 1).find?
        (ChaseMovementGenerator.FanOut.collisionCheck w.owner t) = some c →
      dir = (if E.irand w.randCalls 0 1 = 0 then -1 else E.irand w.randCalls 0 1) →
      a1 = E.frand (w.randCalls + 1) (E.M_PI_F / 5) (E.M_PI_F / 4) →
      a2 = E.frand (w.randCalls + 2) (E.M_PI_F / 5) (E.M_PI_F / 4) →
      p1 = E.GetNearPoint t w.owner.position w.owner.GetObjectBoundingRadius
        (E.GetCombinedCombatReach t false)
        (E.NormalizeOrientation (w.owner.GetOrientation + E.M_PI_F + a1 * (dir : F))) →
      p2 = E.GetNearPoint t w.owner.position w.owner.GetObjectBoundingRadius
        (E.GetCombinedCombatReach t false)
        (E.NormalizeOrientation (w.owner.GetOrientation + E.M_PI_F + a2 * ((-dir : Int) : F))) →
      (dir = -1 ∨ dir = 1)
      ∧ (E.M_PI_F / 5 ≤ a1 ∧ a1 < E.M_PI_F / 4) ∧ (E.M_PI_F / 5 ≤ a2 ∧ a2 < E.M_PI_F / 4)
      ∧ ((E.calculate w.owner.position p1 (some false)).getPathType.NOPATH = false →
        World.newEvents w (ChaseMovementGenerator.FanOut E g w t).2
          = [Event.enter Callee.FanOut, Event.calculate p1 (some false),
              Event.Launch (E.calculate w.owner.position p1 (some false)).getPath true false none,
              Event.setMode ChaseModes.CHASE_MODE_FANNING]
        ∧ (ChaseMovementGenerator.FanOut E g w t).1.m_currentMode = ChaseModes.CHASE_MODE_FANNING
        ∧ (ChaseMovementGenerator.FanOut E g w t).1.i_targetReached = false
        ∧ (ChaseMovementGenerator.FanOut E g w t).1.m_closenessAndFanningTimer = 0)
      ∧ ((E.calculate w.owner.position p1 (some false)).getPathType.NOPATH = true →
        (E.calculate w.owner.position p2 (some false)).getPathType.NOPATH = false →
        World.newEvents w (ChaseMovementGenerator.FanOut E g w t).2
          = [Event.enter Callee.FanOut, Event.calculate p1 (some false),
              Event.calculate p2 (some false),
              Event.Launch (E.calculate w.owner.position p2 (some false)).getPath true false none,
              Event.setMode ChaseModes.CHASE_MODE_FANNING]
        ∧ (ChaseMovementGenerator.FanOut E g w t).1.m_currentMode = ChaseModes.CHASE_MODE_FANNING
        ∧ (ChaseMovementGenerator.FanOut E g w t).1.i_targetReached = false
        ∧ (ChaseMovementGenerator.FanOut E g w t).1.m_closenessAndFanningTimer = 0)
      ∧ ((E.calculate w.owner.position p1 (some false)).getPathType.NOPATH = true →
        (E.calculate w.owner.position p2 (some false)).getPathType.NOPATH = true →
        World.newEvents w (ChaseMovementGenerator.FanOut E g w t).2
          = [Event.enter Callee.FanOut, Event.calculate p1 (some false),
              Event.calculate p2 (some false)]
        ∧ (ChaseMovementGenerator.FanOut E g w t).1.m_currentMode = g.m_currentMode
        ∧ (ChaseMovementGenerator.FanOut E g w t).1.i_targetReached = g.i_targetReached
        ∧ (ChaseMovementGenerator.FanOut E g w t).1.m_closenessAndFanningTimer
          = g.m_closenessAndFanningTimer
        ∧ (ChaseMovementGenerator.FanOut E g w t).1.i_recheckDistance = g.i_recheckDistance) := by
  have hfind : (E.VisitAllObjects (w.emit (Event.enter Callee.FanOut)).owner.position
      (ChaseMovementGenerator.fanningRadius * ChaseMovementGenerator.fanningRadius)
      ChaseMovementGenerator.fanningRadius).find?
        (ChaseMovementGenerator.FanOut.collisionCheck (w.emit (Event.enter Callee.FanOut)).owner t)
      = (E.VisitAllObjects w.owner.position (1 * 1) 1).find?
        (ChaseMovementGenerator.FanOut.collisionCheck w.owner t) := rfl
  constructor
  · intro hnone
    unfold ChaseMovementGenerator.FanOut
    simp only [hen, Bool.not_true, Bool.false_eq_true, if_false, hfind, hnone]
  · intro c dir a1 a2 p1 p2 hsome hdir ha1 ha2 hp1 hp2
    have hd : dir = -1 ∨ dir = 1 := by
      rcases hirand w.randCalls with h | h
      · left
        rw [hdir, h]
        simp
      · right
        rw [hdir, h]
        simp
    refine ⟨hd, by rw [ha1]; exact hfrand _, by rw [ha2]; exact hfrand _, ?_⟩
    have hunfold : ChaseMovementGenerator.FanOut E g w t
        = if (ChaseMovementGenerator.FanOut.attempt E g
              ((w.emit (Event.enter Callee.FanOut)).drawn 2) t
              (E.NormalizeOrientation (w.owner.GetOrientation + E.M_PI_F + a1 * (dir : F)))).1 then
            ((ChaseMovementGenerator.FanOut.attempt E g
              ((w.emit (Event.enter Callee.FanOut)).drawn 2) t
              (E.NormalizeOrientation (w.owner.GetOrientation + E.M_PI_F + a1 * (dir : F)))).2.1,
             (ChaseMovementGenerator.FanOut.attempt E g
              ((w.emit (Event.enter Callee.FanOut)).drawn 2) t
              (E.NormalizeOrientation (w.owner.GetOrientation + E.M_PI_F + a1 * (dir : F)))).2.2)
          else
            ((ChaseMovementGenerator.FanOut.attempt E
              (ChaseMovementGenerator.FanOut.attempt E g
                ((w.emit (Event.enter Callee.FanOut)).drawn 2) t
                (E.NormalizeOrientation (w.owner.GetOrientation + E.M_PI_F + a1 * (dir : F)))).2.1
              ((ChaseMovementGenerator.FanOut.attempt E g
                ((w.emit (Event.enter Callee.FanOut)).drawn 2) t
                (E.NormalizeOrientation (w.owner.GetOrientation + E.M_PI_F
                  + a1 * (dir : F)))).2.2.drawn 1) t
              (E.NormalizeOrientation
                ((ChaseMovementGenerator.FanOut.attempt E g
                  ((w.emit (Event.enter Callee.FanOut)).drawn 2) t
                  (E.NormalizeOrientation (w.owner.GetOrientation + E.M_PI_F
                    + a1 * (dir : F)))).2.2.owner.GetOrientation + E.M_PI_F
                  + E.frand (ChaseMovementGenerator.FanOut.attempt E g
                      ((w.emit (Event.enter Callee.FanOut)).drawn 2) t
                      (E.NormalizeOrientation (w.owner.GetOrientation + E.M_PI_F
                        + a1 * (dir : F)))).2.2.randCalls (E.M_PI_F / 5) (E.M_PI_F / 4)
                    * ((-dir : Int) : F)))).2.1,
             (ChaseMovementGenerator.FanOut.attempt E
              (ChaseMovementGenerator.FanOut.attempt E g
                ((w.emit (Event.enter Callee.FanOut)).drawn 2) t
                (E.NormalizeOrientation (w.owner.GetOrientation + E.M_PI_F + a1 * (dir : F)))).2.1
              ((ChaseMovementGenerator.FanOut.attempt E g
                ((w.emit (Event.enter Callee.FanOut)).drawn 2) t
                (E.NormalizeOrientation (w.owner.GetOrientation + E.M_PI_F
                  + a1 * (dir : F)))).2.2.drawn 1) t
              (E.NormalizeOrientation
                ((ChaseMovementGenerator.FanOut.attempt E g
                  ((w.emit (Event.enter Callee.FanOut)).drawn 2) t
                  (E.NormalizeOrientation (w.owner.GetOrientation + E.M_PI_F
                    + a1 * (dir : F)))).2.2.owner.GetOrientation + E.M_PI_F
                  + E.frand (ChaseMovementGenerator.FanOut.attempt E g
                      ((w.emit (Event.enter Callee.FanOut)).drawn 2) t
                      (E.NormalizeOrientation (w.owner.GetOrientation + E.M_PI_F
                        + a1 * (dir : F)))).2.2.randCalls (E.M_PI_F / 5) (E.M_PI_F / 4)
                    * ((-dir : Int) : F)))).2.2) := by
      unfold ChaseMovementGenerator.FanOut
      simp only [hen, Bool.not_true, Bool.false_eq_true, if_false, hfind, hsome]
      rw [ha1, hdir]
      rfl
    have hp1w : E.GetNearPoint t ((w.emit (Event.enter Callee.FanOut)).drawn 2).owner.position
        ((w.emit (Event.enter Callee.FanOut)).drawn 2).owner.GetObjectBoundingRadius
        (E.GetCombinedCombatReach t false)
        (E.NormalizeOrientation (w.owner.GetOrientation + E.M_PI_F + a1 * (dir : F))) = p1 :=
      hp1.symm
    refine ⟨?_, ?_, ?_⟩
    · intro hno
      have hno1 : (E.calculate ((w.emit (Event.enter Callee.FanOut)).drawn 2).owner.position
          (E.GetNearPoint t ((w.emit (Event.enter Callee.FanOut)).drawn 2).owner.position
            ((w.emit (Event.enter Callee.FanOut)).drawn 2).owner.GetObjectBoundingRadius
            (E.GetCombinedCombatReach t false)
            (E.NormalizeOrientation (w.owner.GetOrientation + E.M_PI_F + a1 * (dir : F))))
          (some false)).getPathType.NOPATH = false := by
        rw [hp1w]
        exact hno
      obtain ⟨hr, hm, htr, htimer, htrace⟩ := FanOut_attempt_path E g
        ((w.emit (Event.enter Callee.FanOut)).drawn 2) t _ hno1
      rw [hunfold, hr]
      simp only [if_true]
      refine ⟨?_, hm, htr, htimer⟩
      refine newEvents_of_append w _ _ ?_
      rw [htrace, hp1w]
      simp only [World.emit, World.drawn, List.append_assoc, List.singleton_append]
    · intro hno hno2
      have hno1 : (E.calculate ((w.emit (Event.enter Callee.FanOut)).drawn 2).owner.position
          (E.GetNearPoint t ((w.emit (Event.enter Callee.FanOut)).drawn 2).owner.position
            ((w.emit (Event.enter Callee.FanOut)).drawn 2).owner.GetObjectBoundingRadius
            (E.GetCombinedCombatReach t false)
            (E.NormalizeOrientation (w.owner.GetOrientation + E.M_PI_F + a1 * (dir : F))))
          (some false)).getPathType.NOPATH = true := by
        rw [hp1w]
        exact hno
      have hfirst := FanOut_attempt_nopath E g ((w.emit (Event.enter Callee.FanOut)).drawn 2) t _
        hno1
      rw [hp1w] at hfirst
      have hp2w : E.GetNearPoint t
          ((((w.emit (Event.enter Callee.FanOut)).drawn 2).emit
            (Event.calculate p1 (some false))).drawn 1).owner.position
          ((((w.emit (Event.enter Callee.FanOut)).drawn 2).emit
            (Event.calculate p1 (some false))).drawn 1).owner.GetObjectBoundingRadius
          (E.GetCombinedCombatReach t false)
          (E.NormalizeOrientation (w.owner.GetOrientation + E.M_PI_F + a2 * ((-dir : Int) : F)))
          = p2 := hp2.symm
      have hori : E.NormalizeOrientation
          ((((w.emit (Event.enter Callee.FanOut)).drawn 2).emit
              (Event.calculate p1 (some false))).owner.GetOrientation + E.M_PI_F
            + E.frand (((w.emit (Event.enter Callee.FanOut)).drawn 2).emit
                (Event.calculate p1 (some false))).randCalls (E.M_PI_F / 5) (E.M_PI_F / 4)
              * ((-dir : Int) : F))
          = E.NormalizeOrientation (w.owner.GetOrientation + E.M_PI_F + a2 * ((-dir : Int) : F)) := by
        rw [ha2]
        rfl
      rw [hunfold, hfirst]
      simp only [Bool.false_eq_true, if_false, hori]
      have hno3 : (E.calculate
          ((((w.emit (Event.enter Callee.FanOut)).drawn 2).emit
            (Event.calculate p1 (some false))).drawn 1).owner.position
          (E.GetNearPoint t
            ((((w.emit (Event.enter Callee.FanOut)).drawn 2).emit
              (Event.calculate p1 (some false))).drawn 1).owner.position
            ((((w.emit (Event.enter Callee.FanOut)).drawn 2).emit
              (Event.calculate p1 (some false))).drawn 1).owner.GetObjectBoundingRadius
            (E.GetCombinedCombatReach t false)
            (E.NormalizeOrientation (w.owner.GetOrientation + E.M_PI_F
              + a2 * ((-dir : Int) : F))))
          (some false)).getPathType.NOPATH = false := by
        rw [hp2w]
        exact hno2
      obtain ⟨_, hm, htr, htimer, htrace⟩ := FanOut_attempt_path E
        { g with i_path := some (E.calculate
            ((w.emit (Event.enter Callee.FanOut)).drawn 2).owner.position p1 (some false)) }
        ((((w.emit (Event.enter Callee.FanOut)).drawn 2).emit
          (Event.calculate p1 (some false))).drawn 1) t _ hno3
      refine ⟨?_, hm, htr, htimer⟩
      refine newEvents_of_append w _ _ ?_
      rw [htrace, hp2w]
      simp only [World.emit, World.drawn, List.append_assoc, List.singleton_append,
        List.cons_append, List.nil_append]
    · intro hno hno2
      have hno1 : (E.calculate ((w.emit (Event.enter Callee.FanOut)).drawn 2).owner.position
          (E.GetNearPoint t ((w.emit (Event.enter Callee.FanOut)).drawn 2).owner.position
            ((w.emit (Event.enter Callee.FanOut)).drawn 2).owner.GetObjectBoundingRadius
            (E.GetCombinedCombatReach t false)
            (E.NormalizeOrientation (w.owner.GetOrientation + E.M_PI_F + a1 * (dir : F))))
          (some false)).getPathType.NOPATH = true := by
        rw [hp1w]
        exact hno
      have hfirst := FanOut_attempt_nopath E g ((w.emit (Event.enter Callee.FanOut)).drawn 2) t _
        hno1
      rw [hp1w] at hfirst
      have hp2w : E.GetNearPoint t
          ((((w.emit (Event.enter Callee.FanOut)).drawn 2).emit
            (Event.calculate p1 (some false))).drawn 1).owner.position
          ((((w.emit (Event.enter Callee.FanOut)).drawn 2).emit
            (Event.calculate p1 (some false))).drawn 1).owner.GetObjectBoundingRadius
          (E.GetCombinedCombatReach t false)
          (E.NormalizeOrientation (w.owner.GetOrientation + E.M_PI_F + a2 * ((-dir : Int) : F)))
          = p2 := hp2.symm
      have hori : E.NormalizeOrientation
          ((((w.emit (Event.enter Callee.FanOut)).drawn 2).emit
              (Event.calculate p1 (some false))).owner.GetOrientation + E.M_PI_F
            + E.frand (((w.emit (Event.enter Callee.FanOut)).drawn 2).emit
                (Event.calculate p1 (some false))).randCalls (E.M_PI_F / 5) (E.M_PI_F / 4)
              * ((-dir : Int) : F))
          = E.NormalizeOrientation (w.owner.GetOrientation + E.M_PI_F + a2 * ((-dir : Int) : F)) := by
        rw [ha2]
        rfl
      rw [hunfold, hfirst]
      simp only [Bool.false_eq_true, if_false, hori]
      have hno3 : (E.calculate
          ((((w.emit (Event.enter Callee.FanOut)).drawn 2).emit
            (Event.calculate p1 (some false))).drawn 1).owner.position
          (E.GetNearPoint t
            ((((w.emit (Event.enter Callee.FanOut)).drawn 2).emit
              (Event.calculate p1 (some false))).drawn 1).owner.position
            ((((w.emit (Event.enter Callee.FanOut)).drawn 2).emit
              (Event.calculate p1 (some false))).drawn 1).owner.GetObjectBoundingRadius
            (E.GetCombinedCombatReach t false)
            (E.NormalizeOrientation (w.owner.GetOrientation + E.M_PI_F
              + a2 * ((-dir : Int) : F))))
          (some false)).getPathType.NOPATH = true := by
        rw [hp2w]
        exact hno2
      rw [FanOut_attempt_nopath E _ _ t _ hno3, hp2w]
      refine ⟨?_, rfl, rfl, rfl, rfl⟩
      refine newEvents_of_append w _ _ ?_
      simp only [World.emit, World.drawn, List.append_assoc, List.singleton_append,
        List.cons_append, List.nil_append]

/-- Witness of C29: the creature of the flat world shares its spot with an ally
that attacks the same player; the random helpers of the flat world return the
lower bound of their range, so the first attempt goes to the right (`dir = -1`),
finds a path, and the mode becomes Fanning. -/
theorem FanOut_tries_both_directions_witness :
    (Scenario.chase true : ChaseMovementGenerator ℚ).m_fanningEnabled = true
    ∧ (ChaseMovementGenerator.FanOut (Scenario.env Scenario.NORMAL [Scenario.ally])
        (Scenario.chase true) (Scenario.world Scenario.creature (some Scenario.player))
        Scenario.player).1.m_currentMode = ChaseModes.CHASE_MODE_FANNING :=
  ⟨rfl,
    (((FanOut_tries_both_directions (Scenario.env Scenario.NORMAL [Scenario.ally])
      (Scenario.chase true) (Scenario.world Scenario.creature (some Scenario.player))
      Scenario.player rfl (fun _ => Or.inl rfl)
      (fun _ => ⟨le_refl _, (by decide! : (Scenario.M_PI_F / 5 : ℚ) < Scenario.M_PI_F / 4)⟩)).2
      Scenario.ally _ _ _ _ _ rfl rfl rfl rfl rfl rfl).2.2.2.1 rfl).2.1⟩

/-! ### Targets that are not players -/

/-- A change of the generator that keeps the mode, with nothing recorded. -/
theorem direct_same (g g1 : ChaseMovementGenerator F) (w : World F)
    (h : g1.m_currentMode = g.m_currentMode) : Direct g w g1 w :=
  ⟨[], by simp, by simp, h⟩

/-- Direct parts compose. -/
theorem direct_then {g g1 g2 : ChaseMovementGenerator F} {w w1 w2 : World F}
    (h1 : Direct g w g1 w1) (h2 : Direct g1 w1 g2 w2) : Direct g w g2 w2 := by
  obtain ⟨es1, ht1, he1, hm1⟩ := h1
  obtain ⟨es2, ht2, he2, hm2⟩ := h2
  refine ⟨es1 ++ es2, by rw [ht2, ht1, List.append_assoc], ?_, hm2.trans hm1⟩
  intro e he
  rcases List.mem_append.mp he with h | h
  · exact he1 e h
  · exact he2 e h

/-- A change of the generator at the end of a direct part that keeps the mode. -/
theorem direct_fields {g g1 g2 : ChaseMovementGenerator F} {w w1 : World F}
    (h : Direct g w g1 w1) (hm : g2.m_currentMode = g1.m_currentMode) : Direct g w g2 w1 := by
  obtain ⟨es, ht, he, hm1⟩ := h
  exact ⟨es, ht, he, hm.trans hm1⟩

/-- A dispatch is direct: it records the path computation and at most the launch. -/
theorem DispatchSplineToPosition_direct (E : Env F) (g : ChaseMovementGenerator F) (w : World F)
    (t : Unit F) (dest : Vector3 F) (walk cutPath target : Bool) :
    Direct g w (ChaseMovementGenerator.DispatchSplineToPosition E g w t dest walk cutPath target).2.1
      (ChaseMovementGenerator.DispatchSplineToPosition E g w t dest walk cutPath target).2.2 := by
  rcases Bool.eq_false_or_eq_true (E.calculate w.owner.position dest (some false)).getPathType.NOPATH
    with hno | hno
  · rw [DispatchSplineToPosition_nopath E g w t dest walk cutPath target hno]
    exact ⟨[Event.calculate dest (some false)], rfl,
      by simp [Event.isCall, Event.modeWritten], rfl⟩
  · rw [DispatchSplineToPosition_path E g w t dest walk cutPath target hno]
    simp only [MoveSplineInit.Launch, World.emit, World.setSpline,
      ChaseMovementGenerator._addUnitStateMove, World.setUnitState]
    exact ⟨_, List.append_assoc _ _ _, by simp [Event.isCall, Event.modeWritten], rfl⟩

/-- The part of the chase tick after the dispatch decisions is direct when the
target is not a player: it halts the owner's spline or does nothing. -/
theorem HandleTargetedMovement_engaged_direct (E : Env F) (g : ChaseMovementGenerator F)
    (w : World F) (t : Unit F) (currentTargetPos dest : Vector3 F)
    (hnp : t.GetTypeId ≠ TypeId.TYPEID_PLAYER) :
    Direct g w (ChaseMovementGenerator.HandleTargetedMovement.engaged E g w t currentTargetPos dest).1
      (ChaseMovementGenerator.HandleTargetedMovement.engaged E g w t currentTargetPos dest).2 := by
  have hstop : Direct g w g (w.StopMoving true) :=
    ⟨[Event.StopMoving true], rfl, by simp [Event.isCall, Event.modeWritten], rfl⟩
  have hint : Direct g w g w.InterruptMoving :=
    ⟨[Event.InterruptMoving], rfl, by simp [Event.isCall, Event.modeWritten], rfl⟩
  unfold ChaseMovementGenerator.HandleTargetedMovement.engaged
  simp only [hnp, ne_eq, not_false_eq_true, if_true]
  split_ifs <;> first | exact direct_same g g w rfl | exact hstop | exact hint

/-- The re-dispatch of the chase tick is direct. -/
theorem HandleTargetedMovement_redispatch_direct (E : Env F) (g : ChaseMovementGenerator F)
    (w : World F) (t : Unit F) (targetMoved : Bool) :
    Direct g w (ChaseMovementGenerator.HandleTargetedMovement.redispatch E g w t targetMoved).1
      (ChaseMovementGenerator.HandleTargetedMovement.redispatch E g w t targetMoved).2 := by
  unfold ChaseMovementGenerator.HandleTargetedMovement.redispatch
  simp only []
  split_ifs <;> exact direct_fields (DispatchSplineToPosition_direct E g w t _ _ true true) rfl

/-- The recheck of the chase tick is direct when the target is not a player. -/
theorem HandleTargetedMovement_recheck_direct (E : Env F) (g : ChaseMovementGenerator F)
    (w : World F) (t : Unit F) (hnp : t.GetTypeId ≠ TypeId.TYPEID_PLAYER) :
    Direct g w (ChaseMovementGenerator.HandleTargetedMovement.recheck E g w t).1
      (ChaseMovementGenerator.HandleTargetedMovement.recheck E g w t).2 := by
  unfold ChaseMovementGenerator.HandleTargetedMovement.recheck
  simp only []
  split_ifs
  · exact HandleTargetedMovement_redispatch_direct E g w t _
  · exact direct_then (direct_same g _ w rfl)
      (HandleTargetedMovement_engaged_direct E _ w t _ _ hnp)
  · exact direct_then (direct_same g _ w rfl)
      (HandleTargetedMovement_engaged_direct E _ w t _ _ hnp)
  · exact direct_fields (DispatchSplineToPosition_direct E g w t _ false false true) rfl
  · exact direct_then (DispatchSplineToPosition_direct E g w t _ false false true)
      (HandleTargetedMovement_engaged_direct E _ _ t _ _ hnp)
  · exact HandleTargetedMovement_engaged_direct E g w t _ _ hnp

/-- The chase tick is direct when the target is not a player. -/
theorem HandleTargetedMovement_direct (E : Env F) (g : ChaseMovementGenerator F) (w : World F)
    (t : Unit F) (time_diff : Nat) (hnp : t.GetTypeId ≠ TypeId.TYPEID_PLAYER) :
    Direct g w (ChaseMovementGenerator.HandleTargetedMovement E g w t time_diff).1
      (ChaseMovementGenerator.HandleTargetedMovement E g w t time_diff).2 := by
  have hk := (HandleTargetedMovement_closeness_kept
    { g with i_recheckDistance := g.i_recheckDistance.Update time_diff } time_diff).1
  unfold ChaseMovementGenerator.HandleTargetedMovement
  simp only []
  split_ifs
  · exact direct_same g _ w hk
  · exact direct_then (direct_same g _ w hk) (HandleTargetedMovement_recheck_direct E _ w t hnp)

/-- C27: for every chase state whose target is not a player, a call of
`HandleTargetedMovement` enters neither `Backpedal` nor `FanOut`, writes neither
Backpedal nor Fanning to the mode, and leaves the mode as it was. -/
theorem HandleTargetedMovement_no_backpedal_for_non_player (E : Env F)
    (g : ChaseMovementGenerator F) (w : World F) (t : Unit F) (time_diff : Nat)
    (hnp : t.GetTypeId ≠ TypeId.TYPEID_PLAYER) :
    Event.enter Callee.Backpedal
      ∉ World.newEvents w (ChaseMovementGenerator.HandleTargetedMovement E g w t time_diff).2
    ∧ Event.enter Callee.FanOut
      ∉ World.newEvents w (ChaseMovementGenerator.HandleTargetedMovement E g w t time_diff).2
    ∧ Event.setMode ChaseModes.CHASE_MODE_BACKPEDAL
      ∉ World.newEvents w (ChaseMovementGenerator.HandleTargetedMovement E g w t time_diff).2
    ∧ Event.setMode ChaseModes.CHASE_MODE_FANNING
      ∉ World.newEvents w (ChaseMovementGenerator.HandleTargetedMovement E g w t time_diff).2
    ∧ (ChaseMovementGenerator.HandleTargetedMovement E g w t time_diff).1.m_currentMode
      = g.m_currentMode := by
  obtain ⟨es, ht, he, hm⟩ := HandleTargetedMovement_direct E g w t time_diff hnp
  rw [newEvents_of_append w _ es ht]
  refine ⟨?_, ?_, ?_, ?_, hm⟩
  · intro h
    have := (he _ h).1
    simp [Event.isCall] at this
  · intro h
    have := (he _ h).1
    simp [Event.isCall] at this
  · intro h
    have := (he _ h).2
    simp [Event.modeWritten] at this
  · intro h
    have := (he _ h).2
    simp [Event.modeWritten] at this

/-- Witness of C27: the creature has reached the world-boss creature it chases,
which stands one yard away, and the closeness timer has expired; the tick leaves
the mode Normal. -/
theorem HandleTargetedMovement_no_backpedal_for_non_player_witness :
    Scenario.closeBoss.GetTypeId ≠ TypeId.TYPEID_PLAYER
    ∧ (ChaseMovementGenerator.HandleTargetedMovement Scenario.chaseEnv
        { Scenario.chase true with i_targetReached := true, m_closenessExpired := true }
        (Scenario.world Scenario.creature (some Scenario.closeBoss)) Scenario.closeBoss
        250).1.m_currentMode
      = ChaseModes.CHASE_MODE_NORMAL :=
  ⟨by decide,
    (HandleTargetedMovement_no_backpedal_for_non_player Scenario.chaseEnv
      { Scenario.chase true with i_targetReached := true, m_closenessExpired := true }
      (Scenario.world Scenario.creature (some Scenario.closeBoss)) Scenario.closeBoss 250
      (by decide)).2.2.2.2⟩

/-! ### Targets that are world bosses -/

/-- A direct part of a chase tick records no entry into `Backpedal` or `FanOut` and
no write of Backpedal or Fanning. -/
theorem direct_without_manoeuvre {g g1 : ChaseMovementGenerator F} {w w1 : World F}
    (h : Direct g w g1 w1) :
    ∃ es, w1.trace = w.trace ++ es ∧ (∀ e ∈ es, Event.isManoeuvre e = false)
      ∧ g1.m_currentMode = g.m_currentMode := by
  obtain ⟨es, ht, he, hm⟩ := h
  refine ⟨es, ht, ?_, hm⟩
  intro e hmem
  obtain ⟨h1, h2⟩ := he e hmem
  cases e with
  | enter c => simp [Event.isCall] at h1
  | setMode m => simp [Event.modeWritten] at h2
  | _ => rfl

/-- The failure handler of the chase generator records no entry into `Backpedal` or
`FanOut` and no write of Backpedal or Fanning, and ends in the mode Normal. -/
theorem HandleMovementFailure_without_manoeuvre (g : ChaseMovementGenerator F) (w : World F) :
    ∃ es, (ChaseMovementGenerator.HandleMovementFailure g w).2.trace = w.trace ++ es
      ∧ (∀ e ∈ es, Event.isManoeuvre e = false)
      ∧ (ChaseMovementGenerator.HandleMovementFailure g w).1.m_currentMode
        = ChaseModes.CHASE_MODE_NORMAL := by
  unfold ChaseMovementGenerator.HandleMovementFailure
  simp only []
  split_ifs <;>
    simp only [World.emit, ChaseMovementGenerator._clearUnitStateMove,
      World.setUnitState, List.append_assoc] <;>
    exact ⟨_, rfl, by simp [Event.isManoeuvre], by trivial⟩

/-- The arrival handler of the chase generator records no entry into `Backpedal` or
`FanOut` and no write of Backpedal or Fanning, and ends in the mode Normal. -/
theorem HandleFinalizedMovement_without_manoeuvre (E : Env F) (g : ChaseMovementGenerator F)
    (w : World F) (t : Unit F) :
    ∃ es, (ChaseMovementGenerator.HandleFinalizedMovement E g w t).2.trace = w.trace ++ es
      ∧ (∀ e ∈ es, Event.isManoeuvre e = false)
      ∧ (ChaseMovementGenerator.HandleFinalizedMovement E g w t).1.m_currentMode
        = ChaseModes.CHASE_MODE_NORMAL := by
  unfold ChaseMovementGenerator.HandleFinalizedMovement
  simp only []
  split_ifs <;> cases g.m_currentMode <;>
    simp only [World.emit, World.SetInFront, ChaseMovementGenerator._clearUnitStateMove,
      World.setUnitState, List.append_assoc] <;>
    exact ⟨_, rfl, by simp [Event.isManoeuvre], by trivial⟩

/-- A chase `Update` for a target that is not a player records no entry into
`Backpedal` or `FanOut` and no write of Backpedal or Fanning; the mode afterwards is
the one before or Normal. -/
theorem Update_without_manoeuvre (E : Env F) (g : ChaseMovementGenerator F) (w : World F)
    (t : Unit F) (time_diff : Nat) (ht : w.target = some t)
    (hnp : t.GetTypeId ≠ TypeId.TYPEID_PLAYER) :
    ∃ es, (ChaseMovementGenerator.Update E g w time_diff).2.2.trace = w.trace ++ es
      ∧ (∀ e ∈ es, Event.isManoeuvre e = false)
      ∧ ((ChaseMovementGenerator.Update E g w time_diff).2.1.m_currentMode = g.m_currentMode
        ∨ (ChaseMovementGenerator.Update E g w time_diff).2.1.m_currentMode
          = ChaseModes.CHASE_MODE_NORMAL) := by
  have hnone : ∃ es : List (Event F), w.trace = w.trace ++ es
      ∧ (∀ e ∈ es, Event.isManoeuvre e = false)
      ∧ (g.m_currentMode = g.m_currentMode
        ∨ g.m_currentMode = ChaseModes.CHASE_MODE_NORMAL) :=
    ⟨[], by simp, by simp, Or.inl rfl⟩
  unfold ChaseMovementGenerator.Update TargetedMovementGeneratorMedium.Update
  rw [ht]
  simp only [ChaseMovementGenerator.derived]
  split_ifs
  · exact hnone
  · exact hnone
  · exact ⟨[Event.StopMoving true], rfl, by simp [Event.isManoeuvre], Or.inl rfl⟩
  · exact ⟨[Event.InterruptMoving], rfl, by simp [Event.isManoeuvre], Or.inl rfl⟩
  · exact hnone
  · obtain ⟨es, htr, he, hm⟩ := HandleMovementFailure_without_manoeuvre g w
    exact ⟨es, htr, he, Or.inr hm⟩
  · obtain ⟨es, htr, he, hm⟩ := HandleMovementFailure_without_manoeuvre g w
    exact ⟨es, htr, he, Or.inr hm⟩
  · obtain ⟨es, htr, he, _⟩ := direct_without_manoeuvre
      (HandleTargetedMovement_direct E g w t time_diff hnp)
    obtain ⟨es2, htr2, he2, hm2⟩ := HandleFinalizedMovement_without_manoeuvre E
      (ChaseMovementGenerator.HandleTargetedMovement E g w t time_diff).1
      (ChaseMovementGenerator.HandleTargetedMovement E g w t time_diff).2 t
    refine ⟨es ++ es2, by rw [htr2, htr, List.append_assoc], ?_, Or.inr hm2⟩
    intro e hmem
    rcases List.mem_append.mp hmem with h | h
    · exact he e h
    · exact he2 e h
  · obtain ⟨es, htr, he, hm⟩ := direct_without_manoeuvre
      (HandleTargetedMovement_direct E g w t time_diff hnp)
    exact ⟨es, htr, he, Or.inl hm⟩

/-- The initial `_setLocation` of the chase generator is direct. -/
theorem _setLocation_direct (E : Env F) (g : ChaseMovementGenerator F) (w : World F) :
    Direct g w (ChaseMovementGenerator._setLocation E g w).1
      (ChaseMovementGenerator._setLocation E g w).2 := by
  unfold ChaseMovementGenerator._setLocation
  split
  · exact direct_same g g w rfl
  · split_ifs
    · exact direct_same g g w rfl
    · exact direct_same g g w rfl
    · split
      · rename_i t _ _ _ _ p _
        exact direct_fields (DispatchSplineToPosition_direct E g w t p _ true true) rfl
      · exact direct_same g g w rfl

/-- The function `Initialize` of the chase generator records no entry into
`Backpedal` or `FanOut` and no write of the mode, and keeps the mode. -/
theorem Initialize_without_manoeuvre (E : Env F) (g : ChaseMovementGenerator F) (w : World F) :
    ∃ es, (ChaseMovementGenerator.Initialize E g w).2.trace = w.trace ++ es
      ∧ (∀ e ∈ es, Event.isManoeuvre e = false)
      ∧ (ChaseMovementGenerator.Initialize E g w).1.m_currentMode = g.m_currentMode := by
  unfold ChaseMovementGenerator.Initialize
  split
  · exact ⟨[], by simp, by simp, rfl⟩
  · split_ifs
    · exact ⟨[], by simp, by simp, rfl⟩
    · exact direct_without_manoeuvre (direct_fields
        (_setLocation_direct E g (w.setUnitState { w.owner.unitState with CHASE := true })) rfl)

/-- The function `DistanceYourself` records no entry into `Backpedal` or `FanOut`
and no write of Backpedal or Fanning; the mode afterwards is the one before or
Distancing. -/
theorem DistanceYourself_without_manoeuvre (E : Env F) (g : ChaseMovementGenerator F)
    (w : World F) (distance : F) (r : ChaseMovementGenerator F × World F)
    (h : ChaseMovementGenerator.DistanceYourself E g w distance = some r) :
    ∃ es, r.2.trace = w.trace ++ es
      ∧ (∀ e ∈ es, Event.isManoeuvre e = false)
      ∧ (r.1.m_currentMode = g.m_currentMode
        ∨ r.1.m_currentMode = ChaseModes.CHASE_MODE_DISTANCING) := by
  unfold ChaseMovementGenerator.DistanceYourself at h
  split at h
  · cases h
  · rename_i t _
    simp only [] at h
    obtain ⟨es, htr, he, hm⟩ := direct_without_manoeuvre
      (DispatchSplineToPosition_direct E g w t
        (E.GetNearPoint t w.owner.position w.owner.GetObjectBoundingRadius distance
          (E.GetAngle t.position w.owner.position))
        false false ChaseMovementGenerator.DispatchSplineToPosition.targetDefault)
    split_ifs at h
    · cases h
      refine ⟨es ++ [Event.setMode ChaseModes.CHASE_MODE_DISTANCING, Event.DistancingStarted],
        by simp only [World.emit, htr, List.append_assoc, List.singleton_append], ?_, Or.inr rfl⟩
      intro e hmem
      rcases List.mem_append.mp hmem with h1 | h1
      · exact he e h1
      · simp only [List.mem_cons, List.mem_singleton, List.not_mem_nil, or_false] at h1
        rcases h1 with h1 | h1 <;> rw [h1] <;> rfl
    · cases h
      exact ⟨es, htr, he, Or.inl hm⟩

/-- C4: for every owner, every target that is a world-boss creature and every
result of the collision search (a field of the environment), no chase tick enters
`FanOut`, so `FanOut` dispatches no path, and none writes Fanning to the mode: after
an `Update` the mode is the one before or Normal, and the tick handler
`HandleTargetedMovement` keeps the mode. `Initialize` and `DistanceYourself`, the
other operations that dispatch, do not enter `FanOut` either. So the mode does not
become Fanning. `FanOut` is called from `Backpedal` alone, and `Backpedal` only
for a target that is a player, which a creature is not. -/
theorem FanOut_not_entered_for_world_boss_target (E : Env F) (g : ChaseMovementGenerator F)
    (w : World F) (t : Unit F) (ht : w.target = some t)
    (hu : t.GetTypeId = TypeId.TYPEID_UNIT) (_hb : t.IsWorldBoss = true) :
    (∀ time_diff : Nat,
      Event.enter Callee.FanOut
        ∉ World.newEvents w (ChaseMovementGenerator.Update E g w time_diff).2.2
      ∧ Event.setMode ChaseModes.CHASE_MODE_FANNING
        ∉ World.newEvents w (ChaseMovementGenerator.Update E g w time_diff).2.2
      ∧ ((ChaseMovementGenerator.Update E g w time_diff).2.1.m_currentMode = g.m_currentMode
        ∨ (ChaseMovementGenerator.Update E g w time_diff).2.1.m_currentMode
          = ChaseModes.CHASE_MODE_NORMAL)
      ∧ (g.m_currentMode ≠ ChaseModes.CHASE_MODE_FANNING →
        (ChaseMovementGenerator.Update E g w time_diff).2.1.m_currentMode
          ≠ ChaseModes.CHASE_MODE_FANNING))
    ∧ (∀ time_diff : Nat,
      Event.enter Callee.FanOut
        ∉ World.newEvents w (ChaseMovementGenerator.HandleTargetedMovement E g w t time_diff).2
      ∧ Event.setMode ChaseModes.CHASE_MODE_FANNING
        ∉ World.newEvents w (ChaseMovementGenerator.HandleTargetedMovement E g w t time_diff).2
      ∧ (ChaseMovementGenerator.HandleTargetedMovement E g w t time_diff).1.m_currentMode
        = g.m_currentMode)
    ∧ (Event.enter Callee.FanOut
        ∉ World.newEvents w (ChaseMovementGenerator.Initialize E g w).2
      ∧ Event.setMode ChaseModes.CHASE_MODE_FANNING
        ∉ World.newEvents w (ChaseMovementGenerator.Initialize E g w).2
      ∧ (ChaseMovementGenerator.Initialize E g w).1.m_currentMode = g.m_currentMode)
    ∧ (∀ (distance : F) (r : ChaseMovementGenerator F × World F),
      ChaseMovementGenerator.DistanceYourself E g w distance = some r →
      Event.enter Callee.FanOut ∉ World.newEvents w r.2
      ∧ Event.setMode ChaseModes.CHASE_MODE_FANNING ∉ World.newEvents w r.2
      ∧ (r.1.m_currentMode = g.m_currentMode
        ∨ r.1.m_currentMode = ChaseModes.CHASE_MODE_DISTANCING)) := by
  have hnp : t.GetTypeId ≠ TypeId.TYPEID_PLAYER := by
    rw [hu]
    exact fun h => by cases h
  have hout : ∀ es : List (Event F), (∀ e ∈ es, Event.isManoeuvre e = false) →
      Event.enter Callee.FanOut ∉ es ∧ Event.setMode ChaseModes.CHASE_MODE_FANNING ∉ es := by
    intro es he
    refine ⟨fun h => ?_, fun h => ?_⟩
    · have := he _ h
      simp [Event.isManoeuvre] at this
    · have := he _ h
      simp [Event.isManoeuvre] at this
  refine ⟨?_, ?_, ?_, ?_⟩
  · intro time_diff
    obtain ⟨es, htr, he, hm⟩ := Update_without_manoeuvre E g w t time_diff ht hnp
    rw [newEvents_of_append w _ es htr]
    refine ⟨(hout es he).1, (hout es he).2, hm, ?_⟩
    intro hne
    rcases hm with hm | hm
    · rw [hm]
      exact hne
    · rw [hm]
      exact fun h => by cases h
  · intro time_diff
    obtain ⟨es, htr, he, hm⟩ := direct_without_manoeuvre
      (HandleTargetedMovement_direct E g w t time_diff hnp)
    rw [newEvents_of_append w _ es htr]
    exact ⟨(hout es he).1, (hout es he).2, hm⟩
  · obtain ⟨es, htr, he, hm⟩ := Initialize_without_manoeuvre E g w
    rw [newEvents_of_append w _ es htr]
    exact ⟨(hout es he).1, (hout es he).2, hm⟩
  · intro distance r hr
    obtain ⟨es, htr, he, hm⟩ := DistanceYourself_without_manoeuvre E g w distance r hr
    rw [newEvents_of_append w _ es htr]
    exact ⟨(hout es he).1, (hout es he).2, hm⟩

/-- Witness of C4: a creature has reached the world-boss creature it chases, one
yard away, with another attacker of the boss standing at its spot and the closeness
timer expired; the tick does not enter `FanOut`. -/
theorem FanOut_not_entered_for_world_boss_target_witness :
    (Scenario.world Scenario.creature (some Scenario.closeBoss)).target
      = some Scenario.closeBoss
    ∧ Scenario.closeBoss.GetTypeId = TypeId.TYPEID_UNIT
    ∧ Scenario.closeBoss.IsWorldBoss = true
    ∧ Event.enter Callee.FanOut
      ∉ World.newEvents (Scenario.world Scenario.creature (some Scenario.closeBoss))
        (ChaseMovementGenerator.Update (Scenario.env Scenario.NORMAL [Scenario.ally])
          { Scenario.chase true with i_targetReached := true, m_closenessExpired := true }
          (Scenario.world Scenario.creature (some Scenario.closeBoss)) 250).2.2 :=
  ⟨rfl, rfl, rfl,
    ((FanOut_not_entered_for_world_boss_target (Scenario.env Scenario.NORMAL [Scenario.ally])
      { Scenario.chase true with i_targetReached := true, m_closenessExpired := true }
      (Scenario.world Scenario.creature (some Scenario.closeBoss)) Scenario.closeBoss
      rfl rfl rfl).1 250).1⟩

/-! ### The tick of the follow generator -/

/-- What `Move` records: the relocation of the owner, the path computation and at
most a launch; no orientation update. -/
theorem Move_records [FloorRing F] (E : Env F) (g : FollowMovementGenerator F) (w : World F)
    (t : Unit F) (dest : Vector3 F) :
    ∃ es, (FollowMovementGenerator.Move E g w t dest).2.2.trace = w.trace ++ es
      ∧ Event.calculate dest none ∈ es ∧ ∀ e ∈ es, Event.isTurn e = false := by
  obtain ⟨_, _, _, es0, htr0, _⟩ := Move_relocate_keeps E w
  have hes0 : ∀ e ∈ es0, Event.isTurn e = false := by
    unfold FollowMovementGenerator.Move.relocate at htr0
    rcases Bool.eq_false_or_eq_true w.owner.movespline.Finalized with hf | hf
    · simp only [hf, Bool.not_true, Bool.false_eq_true, if_false] at htr0
      have : es0 = [] := by simpa using htr0
      rw [this]
      simp
    · simp only [hf, Bool.not_false, if_true, World.emit] at htr0
      have : es0 = [Event.Relocate _] := (List.append_cancel_left htr0).symm
      rw [this]
      simp [Event.isTurn]
  have hc : ∃ es, ((FollowMovementGenerator.Move.relocate E w).emit
      (Event.calculate dest none)).trace = w.trace ++ es
      ∧ Event.calculate dest none ∈ es ∧ ∀ e ∈ es, Event.isTurn e = false := by
    refine ⟨es0 ++ [Event.calculate dest none], by simp [World.emit, htr0], by simp, ?_⟩
    intro e he
    rcases List.mem_append.mp he with h | h
    · exact hes0 e h
    · rw [List.mem_singleton.mp h]
      rfl
  have hf : ∀ pf path stuck, ∃ es, (FollowMovementGenerator.Move.finish E g
      ((FollowMovementGenerator.Move.relocate E w).emit (Event.calculate dest none)) t dest pf path
      stuck).2.2.trace = w.trace ++ es
      ∧ Event.calculate dest none ∈ es ∧ ∀ e ∈ es, Event.isTurn e = false := by
    intro pf path stuck
    obtain ⟨es, ht, hm, hn⟩ := hc
    simp only [FollowMovementGenerator.Move.finish, MoveSplineInit.Launch, World.emit,
      World.setSpline, FollowMovementGenerator._addUnitStateMove, World.setUnitState] at ht ⊢
    rw [ht]
    refine ⟨_, List.append_assoc _ _ _, List.mem_append_left _ hm, ?_⟩
    intro e he
    rcases List.mem_append.mp he with h | h
    · exact hn e h
    · rw [List.mem_singleton.mp h]
      rfl
  unfold FollowMovementGenerator.Move
  simp only []
  split_ifs
  all_goals first
    | exact hc
    | exact hf _ _ _
    | (split
       · exact hf _ _ _
       · split_ifs
         all_goals first
           | exact hc
           | exact hf _ _ _)

/-- What `_setLocation` of the follow generator records: nothing, with the facing
flag as it was, or a location update (a path computation) without an orientation
update. -/
theorem Follow_setLocation_records [FloorRing F] (E : Env F) (g : FollowMovementGenerator F)
    (w : World F) (movingNow : Bool) :
    ∃ es, (FollowMovementGenerator._setLocation E g w movingNow).2.trace = w.trace ++ es
      ∧ (∀ e ∈ es, Event.isTurn e = false)
      ∧ ((∃ dest, Event.calculate dest none ∈ es)
        ∨ (FollowMovementGenerator._setLocation E g w movingNow).1.m_targetFaced
          = g.m_targetFaced) := by
  have hnone : ∃ es : List (Event F), w.trace = w.trace ++ es
      ∧ (∀ e ∈ es, Event.isTurn e = false)
      ∧ ((∃ dest, Event.calculate dest none ∈ es) ∨ g.m_targetFaced = g.m_targetFaced) :=
    ⟨[], by simp, by simp, Or.inr rfl⟩
  unfold FollowMovementGenerator._setLocation
  split
  · exact hnone
  · split_ifs
    · exact hnone
    · exact hnone
    · obtain ⟨es, ht, hm, hn⟩ := Move_records E g w _ _
      exact ⟨es, ht, hn, Or.inl ⟨_, hm⟩⟩

/-- A location update of the follow generator that passes its guards computes a
path. -/
theorem Follow_setLocation_computes [FloorRing F] (E : Env F) (g : FollowMovementGenerator F)
    (w : World F) (t : Unit F) (movingNow : Bool) (ht : w.target = some t)
    (hw : t.IsInWorld = true) (hmove : FollowMovementGenerator._hasUnitStateNotMove w.owner = false) :
    ∃ dest, Event.calculate dest none
      ∈ World.newEvents w (FollowMovementGenerator._setLocation E g w movingNow).2 := by
  unfold FollowMovementGenerator._setLocation
  simp only [ht, hw, hmove, Bool.not_true, Bool.false_eq_true, if_false]
  obtain ⟨es, htr, hm, _⟩ := Move_records E g w t
    ((FollowMovementGenerator._getLocation E g w.owner (some t) movingNow).getD
      ChaseMovementGenerator.uninitialized)
  exact ⟨_, by rw [newEvents_of_append w _ es htr]; exact hm⟩

/-- C31: in the tick of the follow generator, when the target is moving now and
was not moving at the previous tick, the tick is the location update `_setLocation`
(for a moving target, with the recheck timer reset to the poll rate), whatever the
recheck timer holds and whatever time has elapsed, and it computes a path when the
target is valid and in the world and the owner is allowed to move; when the target was moving and
is not moving now, the world is left as it is (no location or orientation update)
and the recheck timer is reset to the poll rate. -/
theorem Follow_tick_on_movement_edges [FloorRing F] (E : Env F) (g : FollowMovementGenerator F)
    (w : World F) (t : Unit F) (time_diff : Nat) :
    (FollowMovementGenerator.HandleTargetedMovement.moving t = true → g.m_targetMoving = false →
      FollowMovementGenerator.HandleTargetedMovement E g w t time_diff
        = FollowMovementGenerator._setLocation E
            { g with
              m_targetMoving := true
              i_speedChanged := false
              i_recheckDistance :=
                g.i_recheckDistance.Reset (FollowMovementGenerator._getPollRate w.owner true) }
            w true
      ∧ (w.target = some t → t.IsInWorld = true →
        FollowMovementGenerator._hasUnitStateNotMove w.owner = false →
        ∃ dest, Event.calculate dest none
          ∈ World.newEvents w
            (FollowMovementGenerator.HandleTargetedMovement E g w t time_diff).2))
    ∧ (FollowMovementGenerator.HandleTargetedMovement.moving t = false → g.m_targetMoving = true →
      FollowMovementGenerator.HandleTargetedMovement E g w t time_diff
        = ({ g with
              m_targetMoving := false
              i_speedChanged := false
              i_recheckDistance :=
                g.i_recheckDistance.Reset (FollowMovementGenerator._getPollRate w.owner false) },
            w)
      ∧ World.newEvents w
          (FollowMovementGenerator.HandleTargetedMovement E g w t time_diff).2 = []) := by
  constructor
  · intro hm hl
    unfold FollowMovementGenerator.HandleTargetedMovement.moving at hm
    have h : FollowMovementGenerator.HandleTargetedMovement E g w t time_diff
        = FollowMovementGenerator._setLocation E
            { g with
              m_targetMoving := true
              i_speedChanged := false
              i_recheckDistance :=
                g.i_recheckDistance.Reset (FollowMovementGenerator._getPollRate w.owner true) }
            w true := by
      unfold FollowMovementGenerator.HandleTargetedMovement
      simp only [hm, hl, Bool.not_false, Bool.and_self, if_true]
    refine ⟨h, ?_⟩
    intro ht hw hmove
    rw [h]
    exact Follow_setLocation_computes E _ w t true ht hw hmove
  · intro hm hl
    unfold FollowMovementGenerator.HandleTargetedMovement.moving at hm
    have h : FollowMovementGenerator.HandleTargetedMovement E g w t time_diff
        = ({ g with
              m_targetMoving := false
              i_speedChanged := false
              i_recheckDistance :=
                g.i_recheckDistance.Reset (FollowMovementGenerator._getPollRate w.owner false) },
            w) := by
      unfold FollowMovementGenerator.HandleTargetedMovement
      simp only [hm, hl, Bool.not_true, Bool.not_false, Bool.and_false, Bool.and_true,
        Bool.false_and, Bool.false_eq_true, if_false, if_true, Bool.and_self]
    refine ⟨h, ?_⟩
    rw [h]
    simp [World.newEvents]

/-- Witness of C31: the player starts to walk; the tick of the pet, with a recheck
timer that has not passed after 1 ms, computes a path (a location update). -/
theorem Follow_tick_on_movement_edges_witness :
    FollowMovementGenerator.HandleTargetedMovement.moving Scenario.walker = true
    ∧ FollowMovementGenerator.HandleTargetedMovement (Scenario.trailingEnv Scenario.NORMAL)
        { Scenario.follow with i_recheckDistance := ⟨1000⟩ }
        (Scenario.world Scenario.pet (some Scenario.walker)) Scenario.walker 1
      = FollowMovementGenerator._setLocation (Scenario.trailingEnv Scenario.NORMAL)
          { ({ Scenario.follow with i_recheckDistance := ⟨1000⟩ } : FollowMovementGenerator ℚ) with
            m_targetMoving := true
            i_speedChanged := false
            i_recheckDistance :=
              ({ Scenario.follow with i_recheckDistance := ⟨1000⟩ }
                : FollowMovementGenerator ℚ).i_recheckDistance.Reset
                (FollowMovementGenerator._getPollRate
                  (Scenario.world Scenario.pet (some Scenario.walker)).owner true) }
          (Scenario.world Scenario.pet (some Scenario.walker)) true :=
  ⟨by decide,
    ((Follow_tick_on_movement_edges (Scenario.trailingEnv Scenario.NORMAL)
      { Scenario.follow with i_recheckDistance := ⟨1000⟩ }
      (Scenario.world Scenario.pet (some Scenario.walker)) Scenario.walker 1).1 (by decide)
      rfl).1⟩

/-- The three things the tick of the follow generator can be: the location update
`_setLocation`, nothing, or, when the recheck timer has passed, the target is
stationary and not falling, no relocation is required, the owner has arrived, the
generator is not in face-target mode and the target has not been faced yet, the
orientation update `_setOrientation`. Before the location or orientation update the
facing flag is as it was. -/
theorem Follow_tick_cases [FloorRing F] (E : Env F) (g : FollowMovementGenerator F)
    (w : World F) (t : Unit F) (time_diff : Nat) :
    (∃ g1 movingNow, FollowMovementGenerator.HandleTargetedMovement E g w t time_diff
        = FollowMovementGenerator._setLocation E g1 w movingNow
      ∧ g1.m_targetFaced = g.m_targetFaced)
    ∨ (∃ g1, FollowMovementGenerator.HandleTargetedMovement E g w t time_diff = (g1, w)
      ∧ g1.m_targetFaced = g.m_targetFaced)
    ∨ ((g.i_recheckDistance.Update time_diff).Passed = true
      ∧ FollowMovementGenerator.HandleTargetedMovement.moving t = false
      ∧ g.m_targetMoving = false
      ∧ t.position = g.i_lastTargetPos
      ∧ FollowMovementGenerator.RequiresNewPosition g w.owner t w.owner.position = false
      ∧ g.i_targetReached = true ∧ g.i_faceTarget = false ∧ g.m_targetFaced = false
      ∧ ∃ g1, FollowMovementGenerator.HandleTargetedMovement E g w t time_diff
          = FollowMovementGenerator._setOrientation E g1 w
        ∧ g1.i_faceTarget = false) := by
  unfold FollowMovementGenerator.HandleTargetedMovement
    FollowMovementGenerator.HandleTargetedMovement.moving
  simp only []
  split_ifs
  all_goals first
    | exact Or.inl ⟨_, _, rfl, rfl⟩
    | exact Or.inr (Or.inl ⟨_, rfl, rfl⟩)
    | (exfalso; simp at *; done)
    | skip
  refine Or.inr (Or.inr ?_)
  simp at *
  rename_i h4 h3 h2 h1 h0
  obtain ⟨⟨⟨⟨⟨hpos, hreq⟩, hstat⟩, hfaced⟩, hface⟩, hreached⟩ := h0
  have hreq1 : g.RequiresNewPosition w.owner t w.owner.position = false := hreq
  refine ⟨h2.1, ?_, h3 hstat, hpos, hreq1, hreached, hface, hfaced, _, rfl, hface⟩
  intro _ _
  rcases hstat with (h | h) | h
  · rw [h2.2.1] at h
    cases h
  · rw [h2.2.2] at h
    cases h
  · exact h

/-- The orientation update for a valid target when the generator is not in
face-target mode: the owner takes over the orientation of the target, and the
target is marked as faced. -/
theorem Follow_setOrientation_mirror [FloorRing F] (E : Env F) (g : FollowMovementGenerator F)
    (w : World F) (t : Unit F) (ht : w.target = some t) (hface : g.i_faceTarget = false) :
    FollowMovementGenerator._setOrientation E g w
      = ({ g with m_targetFaced := true },
          ({ w with owner := { w.owner with GetOrientation := t.GetOrientation } }.emit
            (Event.SetOrientation t.GetOrientation)).emit (Event.SetFacingTo t.GetOrientation)) := by
  unfold FollowMovementGenerator._setOrientation FollowMovementGenerator._getOrientation
  simp only [ht, hface, Bool.false_eq_true, if_false]

/-- C32: in the tick of the follow generator (for the target `t` the reference
points at), an orientation update is recorded only when the recheck timer has
passed, no relocation is required (the target is where it was last seen and within
the allowed distance), the target is stationary now and was at the previous tick,
the owner has arrived, the generator is not in face-target mode and the target has
not been faced since the last location update. The tick then records nothing but
the update: it sets the owner's orientation to the orientation of the target and
marks the target as faced. A tick that starts with the target marked as faced
records no orientation update, and leaves the mark unless it makes a location
update (a path computation). -/
theorem Follow_orientation_update_once [FloorRing F] (E : Env F)
    (g : FollowMovementGenerator F) (w : World F) (t : Unit F) (time_diff : Nat)
    (ht : w.target = some t) :
    (∀ e ∈ World.newEvents w
        (FollowMovementGenerator.HandleTargetedMovement E g w t time_diff).2,
      Event.isTurn e = true →
      (g.i_recheckDistance.Update time_diff).Passed = true
      ∧ FollowMovementGenerator.HandleTargetedMovement.moving t = false
      ∧ g.m_targetMoving = false
      ∧ t.position = g.i_lastTargetPos
      ∧ FollowMovementGenerator.RequiresNewPosition g w.owner t w.owner.position = false
      ∧ g.i_targetReached = true ∧ g.i_faceTarget = false ∧ g.m_targetFaced = false
      ∧ World.newEvents w (FollowMovementGenerator.HandleTargetedMovement E g w t time_diff).2
        = [Event.SetOrientation t.GetOrientation, Event.SetFacingTo t.GetOrientation]
      ∧ (FollowMovementGenerator.HandleTargetedMovement E g w t time_diff).2.owner.GetOrientation
        = t.GetOrientation
      ∧ (FollowMovementGenerator.HandleTargetedMovement E g w t time_diff).1.m_targetFaced = true)
    ∧ (g.m_targetFaced = true →
      (∀ e ∈ World.newEvents w
          (FollowMovementGenerator.HandleTargetedMovement E g w t time_diff).2,
        Event.isTurn e = false)
      ∧ ((FollowMovementGenerator.HandleTargetedMovement E g w t time_diff).1.m_targetFaced = true
        ∨ ∃ dest, Event.calculate dest none
          ∈ World.newEvents w
            (FollowMovementGenerator.HandleTargetedMovement E g w t time_diff).2)) := by
  rcases Follow_tick_cases E g w t time_diff with
    ⟨g1, mv, heq, hf1⟩ | ⟨g1, heq, hf1⟩ |
    ⟨hp, hm, hl, hpos, hreq, hreached, hface, hfaced, g1, heq, hface1⟩
  · obtain ⟨es, htr, hn, hc⟩ := Follow_setLocation_records E g1 w mv
    rw [heq, newEvents_of_append w _ es htr]
    constructor
    · intro e he hturn
      rw [hn e he] at hturn
      cases hturn
    · intro hfaced
      refine ⟨hn, ?_⟩
      rcases hc with hc | hc
      · exact Or.inr hc
      · exact Or.inl (by rw [hc, hf1, hfaced])
  · rw [heq, newEvents_of_append w w [] (by simp)]
    constructor
    · intro e he
      cases he
    · intro hfaced
      exact ⟨fun e he => (by cases he), Or.inl (by rw [hf1, hfaced])⟩
  · rw [heq, Follow_setOrientation_mirror E g1 w t ht hface1]
    have hev : World.newEvents w
        (({ w with owner := { w.owner with GetOrientation := t.GetOrientation } }.emit
          (Event.SetOrientation t.GetOrientation)).emit (Event.SetFacingTo t.GetOrientation))
        = [Event.SetOrientation t.GetOrientation, Event.SetFacingTo t.GetOrientation] :=
      newEvents_of_append w _ _ (by simp only [World.emit, List.append_assoc, List.singleton_append])
    constructor
    · intro e _ _
      exact ⟨hp, hm, hl, hpos, hreq, hreached, hface, hfaced, hev, rfl, rfl⟩
    · intro hfaced1
      rw [hfaced] at hfaced1
      cases hfaced1

/-- Witness of C32: the creature has arrived next to the standing player, who is
where the generator saw the player last; the tick turns the creature to the
orientation of the player and marks the player as faced. -/
theorem Follow_orientation_update_once_witness :
    (Scenario.world Scenario.creature (some Scenario.closePlayer)).target
      = some Scenario.closePlayer
    ∧ (FollowMovementGenerator.HandleTargetedMovement (Scenario.trailingEnv Scenario.NORMAL)
        Scenario.arrived (Scenario.world Scenario.creature (some Scenario.closePlayer))
        Scenario.closePlayer 100).1.m_targetFaced = true :=
  ⟨rfl,
    ((Follow_orientation_update_once (Scenario.trailingEnv Scenario.NORMAL) Scenario.arrived
      (Scenario.world Scenario.creature (some Scenario.closePlayer)) Scenario.closePlayer 100
      rfl).1 (Event.SetOrientation Scenario.M_PI_F) (by decide!) rfl).2.2.2.2.2.2.2.2.2.2⟩

/-! ### The arrival flag and the mode -/

/-- A preserving step keeps the relation between arrival flag and mode. -/
theorem Consistent_of_preserving {g g1 : ChaseMovementGenerator F} (h : Consistent g)
    (hs : Preserving g g1) : Consistent g1 := by
  intro hr
  rcases hs with hm | hf | ⟨hr1, hm1⟩
  · exact hm
  · rw [hf] at hr
    cases hr
  · rw [hm1]
    exact h (hr1 ▸ hr)

/-- Preserving steps compose. -/
theorem Preserving_comp {g g1 g2 : ChaseMovementGenerator F} (h1 : Preserving g g1)
    (h2 : Preserving g1 g2) : Preserving g g2 := by
  rcases h2 with hm | hf | ⟨hr2, hm2⟩
  · exact Or.inl hm
  · exact Or.inr (Or.inl hf)
  · rcases h1 with hm | hf | ⟨hr1, hm1⟩
    · exact Or.inl (hm2.trans hm)
    · exact Or.inr (Or.inl (hr2.trans hf))
    · exact Or.inr (Or.inr ⟨hr2.trans hr1, hm2.trans hm1⟩)

/-- A dispatch leaves the arrival flag and the mode as they were. -/
theorem DispatchSplineToPosition_preserving (E : Env F) (g : ChaseMovementGenerator F)
    (w : World F) (t : Unit F) (dest : Vector3 F) (walk cutPath target : Bool) :
    (ChaseMovementGenerator.DispatchSplineToPosition E g w t dest walk cutPath
        target).2.1.i_targetReached = g.i_targetReached
    ∧ (ChaseMovementGenerator.DispatchSplineToPosition E g w t dest walk cutPath
        target).2.1.m_currentMode = g.m_currentMode := by
  unfold ChaseMovementGenerator.DispatchSplineToPosition
  simp only []
  split_ifs <;> exact ⟨rfl, rfl⟩

/-- An attempt of `FanOut` clears the arrival flag or leaves flag and mode as they
were. -/
theorem FanOut_attempt_preserving (E : Env F) (g : ChaseMovementGenerator F) (w : World F)
    (t : Unit F) (ori : F) :
    Preserving g (ChaseMovementGenerator.FanOut.attempt E g w t ori).2.1 := by
  unfold ChaseMovementGenerator.FanOut.attempt
  simp only []
  split_ifs
  · exact Or.inr (Or.inl rfl)
  · exact Or.inr (Or.inr (DispatchSplineToPosition_preserving E g w t _ _ _ _))

/-- `FanOut` is a preserving step. -/
theorem FanOut_preserving (E : Env F) (g : ChaseMovementGenerator F) (w : World F) (t : Unit F) :
    Preserving g (ChaseMovementGenerator.FanOut E g w t).1 := by
  unfold ChaseMovementGenerator.FanOut
  simp only []
  by_cases hen : g.m_fanningEnabled = true
  · simp only [hen, Bool.not_true, Bool.false_eq_true, if_false]
    split
    · exact Or.inr (Or.inr ⟨rfl, rfl⟩)
    · generalize E.NormalizeOrientation _ = ori1
      have h1 := FanOut_attempt_preserving E g ((w.emit (Event.enter Callee.FanOut)).drawn 2) t ori1
      generalize ChaseMovementGenerator.FanOut.attempt E g
        ((w.emit (Event.enter Callee.FanOut)).drawn 2) t ori1 = r1 at h1 ⊢
      by_cases hr : r1.1 = true
      · simp only [hr, if_true]
        exact h1
      · have hr1 : r1.1 = false := by simpa using hr
        simp only [hr1, Bool.false_eq_true, if_false]
        generalize E.NormalizeOrientation _ = ori2
        exact Preserving_comp h1 (FanOut_attempt_preserving E r1.2.1 (r1.2.2.drawn 1) t ori2)
  · simp only [hen, Bool.not_false, if_true]
    exact Or.inr (Or.inr ⟨rfl, rfl⟩)

/-- `Backpedal` is a preserving step. -/
theorem Backpedal_preserving (E : Env F) (g : ChaseMovementGenerator F) (w : World F)
    (t : Unit F) :
    Preserving g (ChaseMovementGenerator.Backpedal E g w t).1 := by
  have h0 : Preserving g { g with m_closenessExpired := false
                                  m_closenessAndFanningTimer :=
                                    ChaseMovementGenerator.CHASE_CLOSENESS_TIMER } :=
    Or.inr (Or.inr ⟨rfl, rfl⟩)
  unfold ChaseMovementGenerator.Backpedal
  simp only []
  split_ifs
  · exact Or.inr (Or.inl rfl)
  · exact Or.inr (Or.inr (DispatchSplineToPosition_preserving E _ _ t _ _ _ _))
  · exact Preserving_comp h0 (FanOut_preserving E _ _ t)

/-- The part of the chase tick after the dispatch decisions is a preserving step. -/
theorem HandleTargetedMovement_engaged_preserving (E : Env F) (g : ChaseMovementGenerator F)
    (w : World F) (t : Unit F) (currentTargetPos dest : Vector3 F) :
    Preserving g
      (ChaseMovementGenerator.HandleTargetedMovement.engaged E g w t currentTargetPos dest).1 := by
  unfold ChaseMovementGenerator.HandleTargetedMovement.engaged
  simp only []
  split_ifs
  all_goals first
    | exact Or.inr (Or.inr ⟨rfl, rfl⟩)
    | exact Backpedal_preserving E g w t

/-- The re-dispatch of the chase tick is a preserving step. -/
theorem HandleTargetedMovement_redispatch_preserving (E : Env F) (g : ChaseMovementGenerator F)
    (w : World F) (t : Unit F) (targetMoved : Bool) :
    Preserving g
      (ChaseMovementGenerator.HandleTargetedMovement.redispatch E g w t targetMoved).1 := by
  unfold ChaseMovementGenerator.HandleTargetedMovement.redispatch
  simp only []
  split_ifs
  all_goals first
    | exact Or.inr (Or.inl rfl)
    | exact Or.inr (Or.inr (DispatchSplineToPosition_preserving E g w t _ _ _ _))

/-- The recheck of the chase tick is a preserving step. -/
theorem HandleTargetedMovement_recheck_preserving (E : Env F) (g : ChaseMovementGenerator F)
    (w : World F) (t : Unit F) :
    Preserving g (ChaseMovementGenerator.HandleTargetedMovement.recheck E g w t).1 := by
  unfold ChaseMovementGenerator.HandleTargetedMovement.recheck
  simp only []
  split_ifs
  · exact HandleTargetedMovement_redispatch_preserving E g w t _
  · exact Preserving_comp (Or.inr (Or.inr ⟨rfl, rfl⟩))
      (HandleTargetedMovement_engaged_preserving E _ w t _ _)
  · exact Preserving_comp (Or.inr (Or.inr ⟨rfl, rfl⟩))
      (HandleTargetedMovement_engaged_preserving E _ w t _ _)
  · exact Or.inr (Or.inr (DispatchSplineToPosition_preserving E g w t _ _ _ _))
  · exact Preserving_comp (Or.inr (Or.inr (DispatchSplineToPosition_preserving E g w t _ _ _ _)))
      (HandleTargetedMovement_engaged_preserving E _ _ t _ _)
  · exact HandleTargetedMovement_engaged_preserving E g w t _ _

/-- The chase tick is a preserving step. -/
theorem HandleTargetedMovement_preserving (E : Env F) (g : ChaseMovementGenerator F)
    (w : World F) (t : Unit F) (time_diff : Nat) :
    Preserving g (ChaseMovementGenerator.HandleTargetedMovement E g w t time_diff).1 := by
  have hc : Preserving g (ChaseMovementGenerator.HandleTargetedMovement.closeness
      { g with i_recheckDistance := g.i_recheckDistance.Update time_diff } time_diff) := by
    unfold ChaseMovementGenerator.HandleTargetedMovement.closeness
    split_ifs <;> exact Or.inr (Or.inr ⟨rfl, rfl⟩)
  unfold ChaseMovementGenerator.HandleTargetedMovement
  simp only []
  split_ifs
  · exact hc
  · exact Preserving_comp (Preserving_comp hc (Or.inr (Or.inr ⟨rfl, rfl⟩)))
      (HandleTargetedMovement_recheck_preserving E _ w t)

/-- The handlers end in mode Normal. -/
theorem handlers_end_in_normal (E : Env F) (g : ChaseMovementGenerator F) (w : World F)
    (t : Unit F) :
    (ChaseMovementGenerator.HandleFinalizedMovement E g w t).1.m_currentMode
      = ChaseModes.CHASE_MODE_NORMAL
    ∧ (ChaseMovementGenerator.HandleMovementFailure g w).1.m_currentMode
      = ChaseModes.CHASE_MODE_NORMAL :=
  ⟨rfl, rfl⟩

/-- An `Update` of the chase generator is a preserving step. -/
theorem Update_preserving (E : Env F) (g : ChaseMovementGenerator F) (w : World F)
    (time_diff : Nat) :
    Preserving g (ChaseMovementGenerator.Update E g w time_diff).2.1 := by
  have hk : Preserving g g := Or.inr (Or.inr ⟨rfl, rfl⟩)
  unfold ChaseMovementGenerator.Update TargetedMovementGeneratorMedium.Update
  split
  · exact hk
  · rename_i t _
    simp only []
    split_ifs
    all_goals first
      | exact hk
      | exact Or.inl (handlers_end_in_normal E _ _ t).2
      | exact Or.inl (handlers_end_in_normal E _ _ t).1
      | exact HandleTargetedMovement_preserving E g w t time_diff

/-- `Initialize` is a preserving step. -/
theorem Initialize_preserving (E : Env F) (g : ChaseMovementGenerator F) (w : World F) :
    Preserving g (ChaseMovementGenerator.Initialize E g w).1 := by
  have hk : Preserving g g := Or.inr (Or.inr ⟨rfl, rfl⟩)
  have hs : ∀ w1 : World F, Preserving g (ChaseMovementGenerator._setLocation E g w1).1 := by
    intro w1
    unfold ChaseMovementGenerator._setLocation
    split
    · exact hk
    · split_ifs
      · exact hk
      · exact hk
      · split
        · exact Or.inr (Or.inl rfl)
        · exact hk
  unfold ChaseMovementGenerator.Initialize
  split
  · exact hk
  · split_ifs
    · exact hk
    · exact Preserving_comp (hs _) (Or.inr (Or.inr ⟨rfl, rfl⟩))

/-- `DistanceYourself` is a preserving step. -/
theorem DistanceYourself_preserving (E : Env F) (g : ChaseMovementGenerator F) (w : World F)
    (distance : F) (r : ChaseMovementGenerator F × World F)
    (h : ChaseMovementGenerator.DistanceYourself E g w distance = some r) :
    Preserving g r.1 := by
  unfold ChaseMovementGenerator.DistanceYourself at h
  split at h
  · cases h
  · simp only [] at h
    split_ifs at h
    · cases h
      exact Or.inr (Or.inl rfl)
    · cases h
      exact Or.inr (Or.inr (DispatchSplineToPosition_preserving E g w _ _ _ _ _))

/-- Every reachable chase generator is consistent. -/
theorem Reachable_consistent (E : Env F) (g : ChaseMovementGenerator F) (h : Reachable E g) :
    Consistent g := by
  induction h with
  | fresh g hm => exact fun _ => hm
  | Initialize g w _ ih => exact Consistent_of_preserving ih (Initialize_preserving E g w)
  | Reset g w _ ih => exact Consistent_of_preserving ih (Initialize_preserving E g w)
  | Update g w time_diff _ ih =>
    exact Consistent_of_preserving ih (Update_preserving E g w time_diff)
  | DistanceYourself g w distance r _ hd ih =>
    exact Consistent_of_preserving ih (DistanceYourself_preserving E g w distance r hd)
  | SetOffsetAndAngle g offset angle moveFurther _ ih =>
    exact Consistent_of_preserving ih (Or.inr (Or.inr ⟨rfl, rfl⟩))
  | HandleTargetedMovement g w t time_diff _ ih =>
    exact Consistent_of_preserving ih (HandleTargetedMovement_preserving E g w t time_diff)
  | HandleFinalizedMovement g w t _ ih =>
    exact Consistent_of_preserving ih (Or.inl (handlers_end_in_normal E g w t).1)
  | HandleMovementFailure g w _ ih =>
    exact Consistent_of_preserving ih (Or.inl (handlers_end_in_normal E g w w.owner).2)

/-- C34: in every chase state reachable from a fresh generator (mode Normal)
through `Initialize`, `Reset`, `Update`, `DistanceYourself`, `SetOffsetAndAngle` and
the handlers, `i_targetReached = true` implies that the mode is Normal: every
operation ends in mode Normal, or clears `i_targetReached`, or leaves flag and mode
as they were. -/
theorem targetReached_implies_mode_normal (E : Env F) (g : ChaseMovementGenerator F)
    (h : Reachable E g) (hr : g.i_targetReached = true) :
    g.m_currentMode = ChaseModes.CHASE_MODE_NORMAL :=
  Reachable_consistent E g h hr

/-- Witness of C34: the creature that was initialised to chase the player and has
arrived (`chase1`) has reached its target and is in mode Normal. -/
theorem targetReached_implies_mode_normal_witness :
    Scenario.chase1.2.1.i_targetReached = true
    ∧ Scenario.chase1.2.1.m_currentMode = ChaseModes.CHASE_MODE_NORMAL :=
  ⟨by decide!,
    targetReached_implies_mode_normal Scenario.chaseEnv Scenario.chase1.2.1
      (Reachable.Update _ _ _ (Reachable.Initialize _ _ (Reachable.fresh _ rfl)))
      (by decide!)⟩

/-! ### The loot configuration of the auction house bot -/

/-- The checks of `parseLootConfig` on a vector of at least four values: negative
second, third and fourth values become 0, the first value is capped by the second
and the third by the fourth; further values are kept. -/
theorem parseLootConfig_check_cons (a b c d : Int) (rest : List Int) :
    AuctionHouseBot.parseLootConfig.check (a :: b :: c :: d :: rest)
      = min a (max b 0) :: max b 0 :: min (max c 0) (max d 0) :: max d 0 :: rest := by
  have hmax : ∀ x : Int, (if x < 0 then (0 : Int) else x) = max x 0 := by
    intro x
    split_ifs with h
    · exact (max_eq_right (le_of_lt h)).symm
    · exact (max_eq_left (not_lt.mp h)).symm
  have hmin : ∀ x y : Int, (if x > y then y else x) = min x y := by
    intro x y
    split_ifs with h
    · exact (min_eq_right (le_of_lt h)).symm
    · exact (min_eq_left (not_lt.mp h)).symm
  have h1 : ∀ x y z u : Int, AuctionHouseBot.parseLootConfig.nonNegative (x :: y :: z :: u :: rest) 1
      = x :: max y 0 :: z :: u :: rest := by
    intro x y z u
    rw [← hmax]
    unfold AuctionHouseBot.parseLootConfig.nonNegative
    show (if y < 0 then x :: 0 :: z :: u :: rest else x :: y :: z :: u :: rest) = _
    split_ifs <;> rfl
  have h2 : ∀ x y z u : Int, AuctionHouseBot.parseLootConfig.nonNegative (x :: y :: z :: u :: rest) 2
      = x :: y :: max z 0 :: u :: rest := by
    intro x y z u
    rw [← hmax]
    unfold AuctionHouseBot.parseLootConfig.nonNegative
    show (if z < 0 then x :: y :: 0 :: u :: rest else x :: y :: z :: u :: rest) = _
    split_ifs <;> rfl
  have h3 : ∀ x y z u : Int, AuctionHouseBot.parseLootConfig.nonNegative (x :: y :: z :: u :: rest) 3
      = x :: y :: z :: max u 0 :: rest := by
    intro x y z u
    rw [← hmax]
    unfold AuctionHouseBot.parseLootConfig.nonNegative
    show (if u < 0 then x :: y :: z :: 0 :: rest else x :: y :: z :: u :: rest) = _
    split_ifs <;> rfl
  have h0 : (if (a :: b :: c :: d :: rest).length > 4 then a :: b :: c :: d :: rest
      else if (a :: b :: c :: d :: rest).length < 4 then
        (a :: b :: c :: d :: rest) ++ List.replicate (4 - (a :: b :: c :: d :: rest).length) 0
      else a :: b :: c :: d :: rest) = a :: b :: c :: d :: rest := by
    have hlen : ¬ (a :: b :: c :: d :: rest).length < 4 := by
      simp only [List.length_cons]
      omega
    split_ifs
    · rfl
    · rfl
  unfold AuctionHouseBot.parseLootConfig.check
  simp only [h0, h1, h2, h3]
  have hlast : ∀ x : Int,
      (if (x :: max b 0 :: max c 0 :: max d 0 :: rest).getD 2 0
          > (x :: max b 0 :: max c 0 :: max d 0 :: rest).getD 3 0 then
        (x :: max b 0 :: max c 0 :: max d 0 :: rest).set 2
          ((x :: max b 0 :: max c 0 :: max d 0 :: rest).getD 3 0)
      else x :: max b 0 :: max c 0 :: max d 0 :: rest)
      = x :: max b 0 :: min (max c 0) (max d 0) :: max d 0 :: rest := by
    intro x
    rw [← hmin (max c 0)]
    show (if max c 0 > max d 0 then x :: max b 0 :: max d 0 :: max d 0 :: rest
      else x :: max b 0 :: max c 0 :: max d 0 :: rest) = _
    split_ifs <;> rfl
  have hfirst : (if (a :: max b 0 :: max c 0 :: max d 0 :: rest).getD 0 0
        > (a :: max b 0 :: max c 0 :: max d 0 :: rest).getD 1 0 then
      (a :: max b 0 :: max c 0 :: max d 0 :: rest).set 0
        ((a :: max b 0 :: max c 0 :: max d 0 :: rest).getD 1 0)
      else a :: max b 0 :: max c 0 :: max d 0 :: rest)
      = min a (max b 0) :: max b 0 :: max c 0 :: max d 0 :: rest := by
    rw [← hmin a]
    show (if a > max b 0 then max b 0 :: max b 0 :: max c 0 :: max d 0 :: rest
      else a :: max b 0 :: max c 0 :: max d 0 :: rest) = _
    split_ifs <;> rfl
  rw [hfirst, hlast]

/-- On fewer than four values the checks of `parseLootConfig` are those on the
values followed by zeros up to four. -/
theorem parseLootConfig_check_short (values : List Int) (h : values.length < 4) :
    AuctionHouseBot.parseLootConfig.check values
      = AuctionHouseBot.parseLootConfig.check (values ++ List.replicate (4 - values.length) 0) := by
  have hlen : (values ++ List.replicate (4 - values.length) 0).length = 4 := by
    rw [List.length_append, List.length_replicate]
    omega
  have h4 : ¬ values.length > 4 := by omega
  unfold AuctionHouseBot.parseLootConfig.check
  simp only [h, h4, if_true, if_false, hlen, lt_irrefl, gt_iff_lt]

/-- The checks of `parseLootConfig` on any vector of values: the result has at
least four entries, entries 1, 2 and 3 are not negative, entry 0 is at most entry 1
and entry 2 at most entry 3, the entries beyond the fourth are those of the input,
and an entry the input does not have is 0. -/
theorem parseLootConfig_check_spec (values : List Int) :
    ∃ c0 c1 c2 c3,
      AuctionHouseBot.parseLootConfig.check values = c0 :: c1 :: c2 :: c3 :: values.drop 4
      ∧ 0 ≤ c1 ∧ 0 ≤ c2 ∧ 0 ≤ c3 ∧ c0 ≤ c1 ∧ c2 ≤ c3
      ∧ ∀ index, values.length ≤ index → index < 4 →
        (AuctionHouseBot.parseLootConfig.check values)[index]? = some 0 := by
  have hspec : ∀ (a b c d : Int) (rest : List Int),
      0 ≤ max b 0 ∧ 0 ≤ min (max c 0) (max d 0) ∧ 0 ≤ max d 0 ∧ min a (max b 0) ≤ max b 0
      ∧ min (max c 0) (max d 0) ≤ max d 0 :=
    fun a b c d rest => ⟨le_max_right _ _, le_min (le_max_right _ _) (le_max_right _ _),
      le_max_right _ _, min_le_right _ _, min_le_right _ _⟩
  rcases values with _ | ⟨a, _ | ⟨b, _ | ⟨c, _ | ⟨d, rest⟩⟩⟩⟩
  · have e : AuctionHouseBot.parseLootConfig.check ([] : List Int)
        = AuctionHouseBot.parseLootConfig.check [0, 0, 0, 0] :=
      parseLootConfig_check_short [] (by simp)
    rw [e, parseLootConfig_check_cons]
    obtain ⟨h1, h2, h3, h4, h5⟩ := hspec 0 0 0 0 []
    refine ⟨_, _, _, _, rfl, h1, h2, h3, h4, h5, ?_⟩
    intro index _ hlt
    interval_cases index <;> simp
  · have e : AuctionHouseBot.parseLootConfig.check [a]
        = AuctionHouseBot.parseLootConfig.check [a, 0, 0, 0] :=
      parseLootConfig_check_short [a] (by simp)
    rw [e, parseLootConfig_check_cons]
    obtain ⟨h1, h2, h3, h4, h5⟩ := hspec a 0 0 0 []
    refine ⟨_, _, _, _, rfl, h1, h2, h3, h4, h5, ?_⟩
    intro index hle hlt
    simp only [List.length_singleton] at hle
    interval_cases index <;> simp
  · have e : AuctionHouseBot.parseLootConfig.check [a, b]
        = AuctionHouseBot.parseLootConfig.check [a, b, 0, 0] :=
      parseLootConfig_check_short [a, b] (by simp)
    rw [e, parseLootConfig_check_cons]
    obtain ⟨h1, h2, h3, h4, h5⟩ := hspec a b 0 0 []
    refine ⟨_, _, _, _, rfl, h1, h2, h3, h4, h5, ?_⟩
    intro index hle hlt
    simp only [List.length_cons, List.length_nil] at hle
    interval_cases index <;> simp
  · have e : AuctionHouseBot.parseLootConfig.check [a, b, c]
        = AuctionHouseBot.parseLootConfig.check [a, b, c, 0] :=
      parseLootConfig_check_short [a, b, c] (by simp)
    rw [e, parseLootConfig_check_cons]
    obtain ⟨h1, h2, h3, h4, h5⟩ := hspec a b c 0 []
    refine ⟨_, _, _, _, rfl, h1, h2, h3, h4, h5, ?_⟩
    intro index hle hlt
    simp only [List.length_cons, List.length_nil] at hle
    interval_cases index
    simp
  · rw [parseLootConfig_check_cons]
    obtain ⟨h1, h2, h3, h4, h5⟩ := hspec a b c d rest
    refine ⟨_, _, _, _, rfl, h1, h2, h3, h4, h5, ?_⟩
    intro index hle hlt
    simp only [List.length_cons] at hle
    omega

/-- C35: for every configuration string (and every result of `atoi` on its
parts), after `parseLootConfig` the loot configuration has at least four entries,
entries 1, 2 and 3 are not negative, entry 0 is at most entry 1 and entry 2 at most
entry 3; an entry the string does not give is 0; and the entries beyond the fourth
are kept as read and play no part: the checks on four values followed by further
ones are the checks on the four, followed by the further ones, and
`addLootToItemMap` does on such a configuration what it does on the four. -/
theorem parseLootConfig_invariants (A : AuctionEnv) (fieldname : String) :
    (∃ c0 c1 c2 c3,
      AuctionHouseBot.parseLootConfig A fieldname
        = c0 :: c1 :: c2 :: c3
          :: ((AuctionHouseBot.getlines (A.m_ahBotCfg.GetStringDefault fieldname).toList []).map
            A.atoi).drop 4
      ∧ 0 ≤ c1 ∧ 0 ≤ c2 ∧ 0 ≤ c3 ∧ c0 ≤ c1 ∧ c2 ≤ c3)
    ∧ 4 ≤ (AuctionHouseBot.parseLootConfig A fieldname).length
    ∧ (∀ index,
        (AuctionHouseBot.getlines (A.m_ahBotCfg.GetStringDefault fieldname).toList []).length
          ≤ index →
        index < 4 → (AuctionHouseBot.parseLootConfig A fieldname)[index]? = some 0)
    ∧ (∀ a b c d : Int, ∀ extra : List Int,
        AuctionHouseBot.parseLootConfig.check ([a, b, c, d] ++ extra)
          = AuctionHouseBot.parseLootConfig.check [a, b, c, d] ++ extra)
    ∧ (∀ (store : LootStore) (a b c d : Int) (extra : List Int) (lootTemplates : List Nat)
        (itemMap : Nat → Nat) (n : Nat),
        AuctionHouseBot.addLootToItemMap A store ([a, b, c, d] ++ extra) lootTemplates itemMap n
          = AuctionHouseBot.addLootToItemMap A store [a, b, c, d] lootTemplates itemMap n) := by
  obtain ⟨c0, c1, c2, c3, heq, h1, h2, h3, h4, h5, hzero⟩ := parseLootConfig_check_spec
    ((AuctionHouseBot.getlines (A.m_ahBotCfg.GetStringDefault fieldname).toList []).map A.atoi)
  refine ⟨⟨c0, c1, c2, c3, heq, h1, h2, h3, h4, h5⟩, ?_, ?_, ?_, ?_⟩
  · unfold AuctionHouseBot.parseLootConfig
    rw [heq]
    simp only [List.length_cons]
    omega
  · intro index hle hlt
    exact hzero index (by rw [List.length_map]; exact hle) hlt
  · intro a b c d extra
    show AuctionHouseBot.parseLootConfig.check (a :: b :: c :: d :: extra)
      = AuctionHouseBot.parseLootConfig.check (a :: b :: c :: d :: []) ++ extra
    rw [parseLootConfig_check_cons, parseLootConfig_check_cons]
    rfl
  · intro store a b c d extra lootTemplates itemMap n
    have e1 : ∀ rest : List Int, (a :: b :: c :: d :: rest)[1]? = some b := fun _ => by simp
    have e3 : ∀ rest : List Int, (a :: b :: c :: d :: rest)[3]? = some d := fun _ => by simp
    have e0 : ∀ rest : List Int, (a :: b :: c :: d :: rest).getD 0 0 = a := fun _ => rfl
    have e2 : ∀ rest : List Int, (a :: b :: c :: d :: rest).getD 2 0 = c := fun _ => rfl
    show AuctionHouseBot.addLootToItemMap A store (a :: b :: c :: d :: extra) lootTemplates
        itemMap n
      = AuctionHouseBot.addLootToItemMap A store (a :: b :: c :: d :: []) lootTemplates itemMap n
    unfold AuctionHouseBot.addLootToItemMap
    simp only [e1, e3, e0, e2]

/-- An instance of C35: the string `5,2,-3` gives the loot configuration
`[2, 2, 0, 0]`, and six values keep their fifth and sixth. -/
theorem parseLootConfig_examples :
    AuctionHouseBot.parseLootConfig (Scenario.auctionEnv "5,2,-3") "AuctionHouseBot.Loot.Fishing"
      = [2, 2, 0, 0]
    ∧ AuctionHouseBot.parseLootConfig (Scenario.auctionEnv "1,2,3,4,-5,6")
        "AuctionHouseBot.Loot.Fishing" = [1, 2, 3, 4, -5, 6]
    ∧ AuctionHouseBot.parseLootConfig (Scenario.auctionEnv "") "AuctionHouseBot.Loot.Fishing"
      = [0, 0, 0, 0] := by
  refine ⟨?_, ?_, ?_⟩ <;> decide

/-! ### The numeric limits of the auction house bot -/

/-- The function `setMinMaxConfig` stores the value that arrives in the `uint32`
field when it lies between `minValue` and `maxValue`, and `defaultValue` otherwise. -/
theorem setMinMaxConfig_eq (A : AuctionEnv) (config : String)
    (minValue maxValue defaultValue : Nat) :
    AuctionHouseBot.setMinMaxConfig A config minValue maxValue defaultValue
      = if minValue ≤ AuctionHouseBot.toUInt32 (A.m_ahBotCfg.GetIntDefault config defaultValue)
          ∧ AuctionHouseBot.toUInt32 (A.m_ahBotCfg.GetIntDefault config defaultValue) ≤ maxValue
        then AuctionHouseBot.toUInt32 (A.m_ahBotCfg.GetIntDefault config defaultValue)
        else defaultValue := by
  unfold AuctionHouseBot.setMinMaxConfig
  simp only []
  split_ifs <;> first | rfl | omega

/-- For a default between the bounds, what `setMinMaxConfig` stores lies between
the bounds. -/
theorem setMinMaxConfig_bounds (A : AuctionEnv) (config : String)
    (minValue maxValue defaultValue : Nat) (h1 : minValue ≤ defaultValue)
    (h2 : defaultValue ≤ maxValue) :
    minValue ≤ AuctionHouseBot.setMinMaxConfig A config minValue maxValue defaultValue
    ∧ AuctionHouseBot.setMinMaxConfig A config minValue maxValue defaultValue ≤ maxValue := by
  rw [setMinMaxConfig_eq]
  split_ifs with h
  · exact h
  · exact ⟨h1, h2⟩

/-- The limits `Initialize` reads: afterwards every limit lies in its range, the
minimal bid is at most the maximal bid and the minimal auction time at most the
maximal one. -/
theorem Initialize_limits_ranges (A : AuctionEnv) (bot : AuctionHouseBot) :
    (AuctionHouseBot.Initialize.limits A bot).m_auctionBidMin
      ≤ (AuctionHouseBot.Initialize.limits A bot).m_auctionBidMax
    ∧ (AuctionHouseBot.Initialize.limits A bot).m_auctionBidMax ≤ 100
    ∧ 1 ≤ (AuctionHouseBot.Initialize.limits A bot).m_auctionTimeMin
    ∧ (AuctionHouseBot.Initialize.limits A bot).m_auctionTimeMin
      ≤ (AuctionHouseBot.Initialize.limits A bot).m_auctionTimeMax
    ∧ (AuctionHouseBot.Initialize.limits A bot).m_auctionTimeMax ≤ 72
    ∧ (AuctionHouseBot.Initialize.limits A bot).m_itemPriceVariance ≤ 100
    ∧ (AuctionHouseBot.Initialize.limits A bot).m_vendorMultiplier ≤ 8
    ∧ (AuctionHouseBot.Initialize.limits A bot).m_buyCheckChance ≤ 100 := by
  have hv := setMinMaxConfig_bounds A "AuctionHouseBot.Price.Variance" 0 100 10 (by omega) (by omega)
  have hb1 := setMinMaxConfig_bounds A "AuctionHouseBot.Bid.Min" 0 100 60 (by omega) (by omega)
  have hb2 := setMinMaxConfig_bounds A "AuctionHouseBot.Bid.Max" 0 100 90 (by omega) (by omega)
  have ht1 := setMinMaxConfig_bounds A "AuctionHouseBot.Time.Min" 1 72 2 (by omega) (by omega)
  have ht2 := setMinMaxConfig_bounds A "AuctionHouseBot.Time.Max" 1 72 24 (by omega) (by omega)
  have hm := setMinMaxConfig_bounds A "AuctionHouseBot.Vendor.Multiplier" 0 8 4 (by omega) (by omega)
  have hc := setMinMaxConfig_bounds A "AuctionHouseBot.Buy.Check" 0 100 20 (by omega) (by omega)
  unfold AuctionHouseBot.Initialize.limits
  simp only []
  generalize AuctionHouseBot.setMinMaxConfig A "AuctionHouseBot.Price.Variance" 0 100 10 = v
    at hv ⊢
  generalize AuctionHouseBot.setMinMaxConfig A "AuctionHouseBot.Bid.Min" 0 100 60 = b1 at hb1 ⊢
  generalize AuctionHouseBot.setMinMaxConfig A "AuctionHouseBot.Bid.Max" 0 100 90 = b2 at hb2 ⊢
  generalize AuctionHouseBot.setMinMaxConfig A "AuctionHouseBot.Time.Min" 1 72 2 = t1 at ht1 ⊢
  generalize AuctionHouseBot.setMinMaxConfig A "AuctionHouseBot.Time.Max" 1 72 24 = t2 at ht2 ⊢
  generalize AuctionHouseBot.setMinMaxConfig A "AuctionHouseBot.Vendor.Multiplier" 0 8 4 = m
    at hm ⊢
  generalize AuctionHouseBot.setMinMaxConfig A "AuctionHouseBot.Buy.Check" 0 100 20 = c at hc ⊢
  by_cases hb : b1 > b2 <;> by_cases ht : t1 > t2 <;> simp only [hb, ht, if_true, if_false] <;>
    refine ⟨?_, ?_, ?_, ?_, ?_, ?_, ?_, ?_⟩ <;> omega

/-- Without wrap-around: for auction times with `m_auctionTimeMin` at most
`m_auctionTimeMax` and both at most 72, the `uint32` difference in `Rebuild` is the
difference of the numbers, and `updateCounter` is the number the formula stands
for. -/
theorem Rebuild_updateCounter_exact (bot : AuctionHouseBot)
    (h1 : bot.m_auctionTimeMin ≤ bot.m_auctionTimeMax) (h2 : bot.m_auctionTimeMax ≤ 72) :
    (bot.m_auctionTimeMax + 2 ^ 32 - bot.m_auctionTimeMin) % 2 ^ 32
      = bot.m_auctionTimeMax - bot.m_auctionTimeMin
    ∧ AuctionHouseBot.Rebuild.updateCounter bot
      = ((bot.m_auctionTimeMax - bot.m_auctionTimeMin) / 4 + bot.m_auctionTimeMin) * 90 := by
  unfold AuctionHouseBot.Rebuild.updateCounter
  generalize bot.m_auctionTimeMax = hi at h1 h2 ⊢
  generalize bot.m_auctionTimeMin = lo at h1 ⊢
  have hp : (2 : Nat) ^ 32 = 4294967296 := by norm_num
  rw [hp]
  have hd : (hi + 4294967296 - lo) % 4294967296 = hi - lo := by omega
  rw [hd]
  have hq : (hi - lo) / 4 + lo ≤ 90 := by omega
  rw [Nat.mod_eq_of_lt (by omega : (hi - lo) / 4 + lo < 4294967296),
    Nat.mod_eq_of_lt (by omega : ((hi - lo) / 4 + lo) * 90 < 4294967296)]
  exact ⟨rfl, rfl⟩

/-- C36: `setMinMaxConfig` stores the configured value `v` (as it arrives in the
`uint32` field) when `minValue ≤ v ≤ maxValue` and `defaultValue` otherwise, so for
`minValue ≤ defaultValue ≤ maxValue` the stored field lies in `[minValue,
maxValue]`; a configured integer from 0 on arrives unchanged, and a negative one is
replaced by the default whenever `maxValue` is below `2^31`. After an `Initialize`
that opens the configuration file with selling enabled, `Bid.Min ≤ Bid.Max ≤ 100`
and `1 ≤ Time.Min ≤ Time.Max ≤ 72`, so that the subtraction `m_auctionTimeMax -
m_auctionTimeMin` in `Rebuild` does not wrap around and `updateCounter` is
`((Time.Max - Time.Min) / 4 + Time.Min) * 90`; any other `Initialize` leaves the bot
as it was. -/
theorem setMinMaxConfig_keeps_limits_in_range (A : AuctionEnv) (bot : AuctionHouseBot) :
    (∀ (config : String) (minValue maxValue defaultValue : Nat),
      AuctionHouseBot.setMinMaxConfig A config minValue maxValue defaultValue
        = (if minValue ≤ AuctionHouseBot.toUInt32 (A.m_ahBotCfg.GetIntDefault config defaultValue)
            ∧ AuctionHouseBot.toUInt32 (A.m_ahBotCfg.GetIntDefault config defaultValue)
              ≤ maxValue
          then AuctionHouseBot.toUInt32 (A.m_ahBotCfg.GetIntDefault config defaultValue)
          else defaultValue)
      ∧ (minValue ≤ defaultValue → defaultValue ≤ maxValue →
        minValue ≤ AuctionHouseBot.setMinMaxConfig A config minValue maxValue defaultValue
        ∧ AuctionHouseBot.setMinMaxConfig A config minValue maxValue defaultValue ≤ maxValue)
      ∧ (0 ≤ A.m_ahBotCfg.GetIntDefault config defaultValue →
        A.m_ahBotCfg.GetIntDefault config defaultValue < 2 ^ 32 →
        (AuctionHouseBot.toUInt32 (A.m_ahBotCfg.GetIntDefault config defaultValue) : Int)
          = A.m_ahBotCfg.GetIntDefault config defaultValue)
      ∧ (A.m_ahBotCfg.GetIntDefault config defaultValue < 0 →
        -(2 ^ 31) ≤ A.m_ahBotCfg.GetIntDefault config defaultValue → maxValue < 2 ^ 31 →
        AuctionHouseBot.setMinMaxConfig A config minValue maxValue defaultValue = defaultValue))
    ∧ (A.m_ahBotCfg.SetSource bot.m_configFileName = true →
      A.m_ahBotCfg.GetBoolDefault "AuctionHouseBot.Sell.Enabled" false = true →
      (AuctionHouseBot.Initialize A bot).m_auctionBidMin
        ≤ (AuctionHouseBot.Initialize A bot).m_auctionBidMax
      ∧ (AuctionHouseBot.Initialize A bot).m_auctionBidMax ≤ 100
      ∧ 1 ≤ (AuctionHouseBot.Initialize A bot).m_auctionTimeMin
      ∧ (AuctionHouseBot.Initialize A bot).m_auctionTimeMin
        ≤ (AuctionHouseBot.Initialize A bot).m_auctionTimeMax
      ∧ (AuctionHouseBot.Initialize A bot).m_auctionTimeMax ≤ 72
      ∧ ((AuctionHouseBot.Initialize A bot).m_auctionTimeMax + 2 ^ 32
          - (AuctionHouseBot.Initialize A bot).m_auctionTimeMin) % 2 ^ 32
        = (AuctionHouseBot.Initialize A bot).m_auctionTimeMax
          - (AuctionHouseBot.Initialize A bot).m_auctionTimeMin
      ∧ AuctionHouseBot.Rebuild.updateCounter (AuctionHouseBot.Initialize A bot)
        = (((AuctionHouseBot.Initialize A bot).m_auctionTimeMax
            - (AuctionHouseBot.Initialize A bot).m_auctionTimeMin) / 4
          + (AuctionHouseBot.Initialize A bot).m_auctionTimeMin) * 90)
    ∧ ((A.m_ahBotCfg.SetSource bot.m_configFileName = false
        ∨ A.m_ahBotCfg.GetBoolDefault "AuctionHouseBot.Sell.Enabled" false = false) →
      AuctionHouseBot.Initialize A bot = bot) := by
  refine ⟨?_, ?_, ?_⟩
  · intro config minValue maxValue defaultValue
    refine ⟨setMinMaxConfig_eq A config minValue maxValue defaultValue,
      setMinMaxConfig_bounds A config minValue maxValue defaultValue, ?_, ?_⟩
    · intro h0 h1
      unfold AuctionHouseBot.toUInt32
      rw [Int.emod_eq_of_lt h0 h1, Int.toNat_of_nonneg h0]
    · intro hneg hmin hmax
      rw [setMinMaxConfig_eq]
      have hv : maxValue < AuctionHouseBot.toUInt32
          (A.m_ahBotCfg.GetIntDefault config defaultValue) := by
        unfold AuctionHouseBot.toUInt32
        generalize A.m_ahBotCfg.GetIntDefault config defaultValue = raw at hneg hmin
        have hp : (2 : Int) ^ 32 = 4294967296 := by norm_num
        have hq : (2 : Int) ^ 31 = 2147483648 := by norm_num
        have hn : (2 : Nat) ^ 31 = 2147483648 := by norm_num
        rw [hp]
        rw [hq] at hmin
        rw [hn] at hmax
        omega
      rw [if_neg (by omega)]
  · intro hs he
    have hinit : AuctionHouseBot.Initialize A bot
        = { AuctionHouseBot.Initialize.limits A
              { AuctionHouseBot.Initialize.loot A bot with
                m_itemPrice := AuctionHouseBot.Initialize.prices A
                  (AuctionHouseBot.Initialize.loot A bot).m_itemPrice } with
            m_vendorItems := fun item =>
              (AuctionHouseBot.Initialize.limits A
                { AuctionHouseBot.Initialize.loot A bot with
                  m_itemPrice := AuctionHouseBot.Initialize.prices A
                    (AuctionHouseBot.Initialize.loot A bot).m_itemPrice }).m_vendorItems item
              || decide (item ∈ AuctionHouseBot.fillUintVectorFromQuery A
                "SELECT DISTINCT item FROM npc_vendor") } := by
      unfold AuctionHouseBot.Initialize
      simp only [hs, he, Bool.not_true, Bool.false_eq_true, if_false, if_true]
    obtain ⟨h1, h2, h3, h4, h5, _⟩ := Initialize_limits_ranges A
      { AuctionHouseBot.Initialize.loot A bot with
        m_itemPrice := AuctionHouseBot.Initialize.prices A
          (AuctionHouseBot.Initialize.loot A bot).m_itemPrice }
    rw [hinit]
    exact ⟨h1, h2, h3, h4, h5, Rebuild_updateCounter_exact _ h4 h5⟩
  · intro h
    unfold AuctionHouseBot.Initialize
    rcases h with h | h
    · simp only [h, Bool.not_false, if_true]
    · simp only [h, Bool.false_eq_true, if_false, ite_self]

/-- Witness of C36: the bot as constructed reads a configuration file that leaves
the numbers at their defaults: the auction times are 2 and 24 hours and `Rebuild`
makes 630 updates. -/
theorem setMinMaxConfig_keeps_limits_in_range_witness :
    (AuctionHouseBot.Initialize (Scenario.auctionEnv "1,1,1,1") Scenario.ahbot).m_auctionTimeMin
      ≤ (AuctionHouseBot.Initialize (Scenario.auctionEnv "1,1,1,1") Scenario.ahbot).m_auctionTimeMax
    ∧ AuctionHouseBot.Rebuild.updateCounter
        (AuctionHouseBot.Initialize (Scenario.auctionEnv "1,1,1,1") Scenario.ahbot) = 630 :=
  ⟨((setMinMaxConfig_keeps_limits_in_range (Scenario.auctionEnv "1,1,1,1") Scenario.ahbot).2.1
      rfl rfl).2.2.2.1,
    by decide⟩

/-! ### The refill of the auction houses -/

/-- The conversion to `int32` leaves the values of the type as they are. -/
theorem toInt32_of_int32 (x : Int) (h1 : -2147483648 ≤ x) (h2 : x ≤ 2147483647) :
    AuctionHouseBot.toInt32 x = x := by
  have hp : (2 : Int) ^ 31 = 2147483648 := by norm_num
  have hq : (2 : Int) ^ 32 = 4294967296 := by norm_num
  unfold AuctionHouseBot.toInt32
  rw [hp, hq]
  omega

/-- The conversion to `uint32` leaves the values of the type as they are. -/
theorem toUInt32_of_uint32 (x : Int) (h1 : 0 ≤ x) (h2 : x ≤ 4294967295) :
    AuctionHouseBot.toUInt32 x = x.toNat := by
  have hq : (2 : Int) ^ 32 = 4294967296 := by norm_num
  unfold AuctionHouseBot.toUInt32
  rw [hq, Int.emod_eq_of_lt h1 (by omega)]

/-- An `Update` that starts with `m_houseAction` below `MAX_AUCTION_HOUSE_TYPE - 1`
adds one to it and takes the selling branch. -/
theorem Update_below_last_house (bot : AuctionHouseBot)
    (h1 : -2147483648 ≤ bot.m_houseAction)
    (h2 : bot.m_houseAction < AuctionHouseBot.MAX_AUCTION_HOUSE_TYPE - 1) :
    (AuctionHouseBot.Update bot).1.m_houseAction = bot.m_houseAction + 1
    ∧ (AuctionHouseBot.Update bot).2.m_houseAction = bot.m_houseAction + 1
    ∧ (AuctionHouseBot.Update bot).2.selling = true := by
  unfold AuctionHouseBot.MAX_AUCTION_HOUSE_TYPE at h2
  unfold AuctionHouseBot.Update AuctionHouseBot.MAX_AUCTION_HOUSE_TYPE
  simp only []
  rw [toInt32_of_int32 _ (by omega) (by omega), if_neg (by omega)]
  exact ⟨rfl, rfl, decide_eq_true (by omega)⟩

/-- The refill loop of `Rebuild` makes `fuel` calls of `Update`, and each of them
takes the selling branch with `m_houseAction` below `MAX_AUCTION_HOUSE_TYPE`. -/
theorem Rebuild_loop_sells (fuel : Nat) :
    ∀ bot : AuctionHouseBot, -2147483648 ≤ bot.m_houseAction →
      (AuctionHouseBot.Rebuild.loop fuel bot).2.length = fuel
      ∧ ∀ a ∈ (AuctionHouseBot.Rebuild.loop fuel bot).2,
        a.selling = true ∧ a.m_houseAction < AuctionHouseBot.MAX_AUCTION_HOUSE_TYPE := by
  induction fuel with
  | zero =>
    intro bot _
    exact ⟨rfl, fun a ha => by cases ha⟩
  | succ k ih =>
    intro bot h
    have hb : ∀ b : AuctionHouseBot, -2147483648 ≤ b.m_houseAction →
        b.m_houseAction < AuctionHouseBot.MAX_AUCTION_HOUSE_TYPE - 1 →
        (AuctionHouseBot.Rebuild.loop k (AuctionHouseBot.Update b).1).2.length + 1 = k + 1
        ∧ ∀ a ∈ (AuctionHouseBot.Update b).2
            :: (AuctionHouseBot.Rebuild.loop k (AuctionHouseBot.Update b).1).2,
          a.selling = true ∧ a.m_houseAction < AuctionHouseBot.MAX_AUCTION_HOUSE_TYPE := by
      intro b hb1 hb2
      obtain ⟨u1, u2, u3⟩ := Update_below_last_house b hb1 hb2
      obtain ⟨hl, hall⟩ := ih (AuctionHouseBot.Update b).1 (by rw [u1]; omega)
      refine ⟨by rw [hl], ?_⟩
      intro a ha
      rcases List.mem_cons.mp ha with rfl | ha
      · exact ⟨u3, by rw [u2]; omega⟩
      · exact hall a ha
    rw [AuctionHouseBot.Rebuild.loop]
    simp only [List.length_cons]
    split_ifs with hc
    · exact hb _ (by show (-2147483648 : Int) ≤ -1; omega)
        (by show (-1 : Int) < AuctionHouseBot.MAX_AUCTION_HOUSE_TYPE - 1
            unfold AuctionHouseBot.MAX_AUCTION_HOUSE_TYPE; omega)
    · exact hb bot h (not_le.mp hc)

/-- C33: during `Rebuild` every call of `Update` takes the selling branch: after
the increment in `Update`, `m_houseAction` is below `MAX_AUCTION_HOUSE_TYPE`, for
every starting value of `m_houseAction` (an `int32`); `Rebuild` makes
`updateCounter` such calls. -/
theorem Rebuild_only_sells (bot : AuctionHouseBot) (all : Bool)
    (h : -2147483648 ≤ bot.m_houseAction) :
    (AuctionHouseBot.Rebuild bot all).2.length = AuctionHouseBot.Rebuild.updateCounter bot
    ∧ ∀ a ∈ (AuctionHouseBot.Rebuild bot all).2,
      a.selling = true ∧ a.m_houseAction < AuctionHouseBot.MAX_AUCTION_HOUSE_TYPE :=
  Rebuild_loop_sells (AuctionHouseBot.Rebuild.updateCounter bot) bot h

/-- Witness of C33: the bot as constructed, after reading a configuration file that
leaves the numbers at their defaults, makes 630 calls of `Update` in `Rebuild`, all
of them selling. -/
theorem Rebuild_only_sells_witness :
    -2147483648 ≤ (AuctionHouseBot.Initialize (Scenario.auctionEnv "1,1,1,1")
        Scenario.ahbot).m_houseAction
    ∧ AuctionHouseBot.Rebuild.updateCounter
        (AuctionHouseBot.Initialize (Scenario.auctionEnv "1,1,1,1") Scenario.ahbot) = 630
    ∧ (AuctionHouseBot.Rebuild
        (AuctionHouseBot.Initialize (Scenario.auctionEnv "1,1,1,1") Scenario.ahbot) true).2.length
      = AuctionHouseBot.Rebuild.updateCounter
        (AuctionHouseBot.Initialize (Scenario.auctionEnv "1,1,1,1") Scenario.ahbot)
    ∧ ∀ a ∈ (AuctionHouseBot.Rebuild
        (AuctionHouseBot.Initialize (Scenario.auctionEnv "1,1,1,1") Scenario.ahbot) true).2,
      a.selling = true ∧ a.m_houseAction < AuctionHouseBot.MAX_AUCTION_HOUSE_TYPE :=
  ⟨by decide, by decide,
    Rebuild_only_sells
      (AuctionHouseBot.Initialize (Scenario.auctionEnv "1,1,1,1") Scenario.ahbot) true
      (by decide)⟩

/-- The first calls of `Update` in a `Rebuild` of the bot as constructed: the houses
0, 1, 2 and again 0, all selling; left to itself, `Update` goes on to the buying
branch with its fourth call. -/
theorem Rebuild_first_actions :
    (AuctionHouseBot.Rebuild.loop 4 Scenario.ahbot).2
      = [⟨0, 0, true⟩, ⟨1, 1, true⟩, ⟨2, 2, true⟩, ⟨0, 0, true⟩]
    ∧ (AuctionHouseBot.Update (AuctionHouseBot.Update (AuctionHouseBot.Update
        (AuctionHouseBot.Update Scenario.ahbot).1).1).1).2 = ⟨3, 0, false⟩ := by
  refine ⟨?_, ?_⟩ <;> decide

/-! ### The reads of the loot templates -/

/-- A round of the loop over `templateCounter` whose random index is not below the
size of `lootTemplates` reads outside the vector. -/
theorem addLootToItemMap_templates_fault (A : AuctionEnv) (store : LootStore) (c2 c3 : Int)
    (lootTemplates : List Nat) (fuel n : Nat) (itemMap : Nat → Nat)
    (hidx : lootTemplates.length ≤ A.urand n 0 (lootTemplates.length % 2 ^ 32)) :
    AuctionHouseBot.addLootToItemMap.templates A store c2 c3 lootTemplates (fuel + 1) n itemMap
      = Except.error (Fault.lootTemplates (A.urand n 0 (lootTemplates.length % 2 ^ 32))
          lootTemplates.length) := by
  rw [AuctionHouseBot.addLootToItemMap.templates]
  simp only []
  rw [List.getElem?_eq_none hidx]

/-- With a random generator that keeps to the requested range, a loot configuration
with a positive first entry gives a positive `maxTemplates`. -/
theorem addLootToItemMap_maxTemplates_pos (A : AuctionEnv) (c0 c1 : Int) (n : Nat)
    (hrand : ∀ k lo hi, lo ≤ hi → lo ≤ A.urand k lo hi ∧ A.urand k lo hi ≤ hi)
    (h0 : 0 < c0) (h01 : c0 ≤ c1) (h1 : c1 < 2147483647) :
    0 < AuctionHouseBot.addLootToItemMap.maxTemplates A c0 c1 n := by
  unfold AuctionHouseBot.addLootToItemMap.maxTemplates
  rw [if_neg (by omega), toInt32_of_int32 (c1 + 1) (by omega) (by omega),
    toUInt32_of_uint32 c0 (by omega) (by omega),
    toUInt32_of_uint32 (c1 + 1) (by omega) (by omega)]
  obtain ⟨hlo, hhi⟩ := hrand n c0.toNat (c1 + 1).toNat (by omega)
  rw [toInt32_of_int32 _ (by omega) (by omega)]
  omega

/-- The function `addLootToItemMap` on a loot configuration with positive entries 1
and 3 and a positive `maxTemplates`: if the first random index is not below the
size of `lootTemplates`, the read of `lootTemplates` is outside the vector. -/
theorem addLootToItemMap_fault (A : AuctionEnv) (store : LootStore) (c0 c1 c2 c3 : Int)
    (rest : List Int) (lootTemplates : List Nat) (itemMap : Nat → Nat) (n : Nat)
    (h1 : 0 < c1) (h3 : 0 < c3)
    (hmax : 0 < AuctionHouseBot.addLootToItemMap.maxTemplates A c0 c1 n)
    (hidx : lootTemplates.length ≤ A.urand (n + 1) 0 (lootTemplates.length % 2 ^ 32)) :
    AuctionHouseBot.addLootToItemMap A store (c0 :: c1 :: c2 :: c3 :: rest) lootTemplates
        itemMap n
      = Except.error (Fault.lootTemplates (A.urand (n + 1) 0 (lootTemplates.length % 2 ^ 32))
          lootTemplates.length) := by
  obtain ⟨k, hk⟩ := Nat.exists_eq_succ_of_ne_zero
    (by omega : (AuctionHouseBot.addLootToItemMap.maxTemplates A c0 c1 n).toNat ≠ 0)
  have e1 : (c0 :: c1 :: c2 :: c3 :: rest)[1]? = some c1 := by simp
  have e3 : (c0 :: c1 :: c2 :: c3 :: rest)[3]? = some c3 := by simp
  have e0 : (c0 :: c1 :: c2 :: c3 :: rest).getD 0 0 = c0 := rfl
  have e2 : (c0 :: c1 :: c2 :: c3 :: rest).getD 2 0 = c2 := rfl
  unfold AuctionHouseBot.addLootToItemMap
  simp only [e1, e3, e0, e2]
  rw [if_neg (by omega), if_neg (by omega), if_neg (by omega), hk]
  exact addLootToItemMap_templates_fault A store c2 c3 lootTemplates k (n + 1) itemMap hidx

/-- C37 fails: for a loot configuration produced by `parseLootConfig` with a
positive first and fourth entry and a random generator that keeps to the requested
range, `addLootToItemMap` reads `lootTemplates` outside its bounds when the vector
is empty, and also when the generator returns the upper end `lootTemplates.size()`
of the range requested for the index: the index read is not below
`lootTemplates.size()`. -/
theorem addLootToItemMap_reads_out_of_bounds (A : AuctionEnv) (store : LootStore)
    (fieldname : String) (lootTemplates : List Nat) (itemMap : Nat → Nat) (n : Nat)
    (hrand : ∀ k lo hi, lo ≤ hi → lo ≤ A.urand k lo hi ∧ A.urand k lo hi ≤ hi)
    (h0 : 0 < (AuctionHouseBot.parseLootConfig A fieldname).getD 0 0)
    (h1 : (AuctionHouseBot.parseLootConfig A fieldname).getD 1 0 < 2147483647)
    (h3 : 0 < (AuctionHouseBot.parseLootConfig A fieldname).getD 3 0)
    (hidx : lootTemplates = []
      ∨ A.urand (n + 1) 0 (lootTemplates.length % 2 ^ 32) = lootTemplates.length) :
    AuctionHouseBot.addLootToItemMap A store (AuctionHouseBot.parseLootConfig A fieldname)
        lootTemplates itemMap n
      = Except.error (Fault.lootTemplates (A.urand (n + 1) 0 (lootTemplates.length % 2 ^ 32))
          lootTemplates.length)
    ∧ ¬ A.urand (n + 1) 0 (lootTemplates.length % 2 ^ 32) < lootTemplates.length := by
  have hlen : lootTemplates.length ≤ A.urand (n + 1) 0 (lootTemplates.length % 2 ^ 32) := by
    rcases hidx with h | h
    · rw [h]
      exact Nat.zero_le _
    · exact le_of_eq h.symm
  obtain ⟨c0, c1, c2, c3, heq, _, _, _, h01, _, _⟩ := parseLootConfig_check_spec
    ((AuctionHouseBot.getlines (A.m_ahBotCfg.GetStringDefault fieldname).toList []).map A.atoi)
  have hcfg : AuctionHouseBot.parseLootConfig A fieldname
      = c0 :: c1 :: c2 :: c3
        :: ((AuctionHouseBot.getlines (A.m_ahBotCfg.GetStringDefault fieldname).toList []).map
          A.atoi).drop 4 := heq
  rw [hcfg] at h0 h1 h3 ⊢
  have h0 : 0 < c0 := h0
  have h1 : c1 < 2147483647 := h1
  have h3 : 0 < c3 := h3
  exact ⟨addLootToItemMap_fault A store c0 c1 c2 c3 _ lootTemplates itemMap n (by omega) h3
    (addLootToItemMap_maxTemplates_pos A c0 c1 n hrand h0 h01 h1) hlen, not_lt.mpr hlen⟩

/-- Witness of C37: the loot configuration `1,1,1,1` and no loot templates; the
first index read is 0, the size of the vector. -/
theorem addLootToItemMap_reads_out_of_bounds_witness :
    AuctionHouseBot.parseLootConfig (Scenario.auctionEnv "1,1,1,1")
        "AuctionHouseBot.Loot.Fishing" = [1, 1, 1, 1]
    ∧ AuctionHouseBot.addLootToItemMap (Scenario.auctionEnv "1,1,1,1") Scenario.emptyStore
        (AuctionHouseBot.parseLootConfig (Scenario.auctionEnv "1,1,1,1")
          "AuctionHouseBot.Loot.Fishing") [] (fun _ => 0) 0
      = Except.error (Fault.lootTemplates 0 0) :=
  ⟨by decide,
    (addLootToItemMap_reads_out_of_bounds (Scenario.auctionEnv "1,1,1,1") Scenario.emptyStore
      "AuctionHouseBot.Loot.Fishing" [] (fun _ => 0) 0 (fun _ _ _ h => ⟨le_refl _, h⟩)
      (by decide) (by decide) (by decide) (Or.inl rfl)).1⟩

/-- The reads of `addLootToItemMap` that stay inside the vector: with one loot
template and the random index 0 the call returns; with the random index 1, the
upper end of the requested range, the read is outside the vector. -/
theorem addLootToItemMap_examples :
    (AuctionHouseBot.addLootToItemMap (Scenario.auctionEnv "1,1,1,1") Scenario.emptyStore
        [1, 1, 1, 1] [7] (fun _ => 0) 0).toOption.map Prod.snd = some 2
    ∧ (AuctionHouseBot.addLootToItemMap
        { Scenario.auctionEnv "1,1,1,1" with urand := fun _ _ hi => hi } Scenario.emptyStore
        [1, 1, 1, 1] [7] (fun _ => 0) 0).toOption.map Prod.snd = none
    ∧ (AuctionHouseBot.addLootToItemMap (Scenario.auctionEnv "1,1,1,1") Scenario.emptyStore
        [0, 0, 0, 0] [] (fun _ => 0) 0).toOption.map Prod.snd = some 0 := by
  refine ⟨?_, ?_, ?_⟩ <;> decide

end Theorems

end Mangos
